import Mathlib

/-!
# Vertex shader variant keys and vertex shader generation (GPU/High/GLES/VertShaderGenGLES.cpp)

A shallow embedding of `CanUseHardwareTransform`, `ComputeVertexShaderID` and
`GenerateVertexShader`, followed by the properties established about them.

Conventions of the embedding:

* C `u32`/`int` values are natural numbers; `&`, `|`, `<<`, `>>` are the bitwise operations
  on naturals, and a conversion of an integer to `bool` is the test `!= 0`.
* The output buffer of `GenerateVertexShader` is the sequence of the strings written by the
  successive `WRITE` calls; the source text is their concatenation (`shaderSource`).
* Everything the file takes from headers that are not part of the sources is either a
  parameter (`Decls`, `GenEnv`, `Config`) or a definition marked as modelled from the spec.
-/

namespace HighGpu

/-! ## Declarations taken from other headers -/

/-- The part of g_Config (Core/Config.h) read by this file. -/
structure Config where
  bHardwareTransform : Bool
  bPrescaleUV : Bool
deriving DecidableEq

/-- Constants and helper functions that the encoder takes from GPU/ge_constants.h,
GPU/Common/VertexDecoderCommon.h and GPU/High/Command.h. These headers are not part of the
sources, so their values are parameters of the embedding. -/
structure Decls where
  GE_PRIM_RECTANGLES : Nat
  GE_VTYPE_THROUGH_MASK : Nat
  GE_VTYPE_COL_MASK : Nat
  GE_VTYPE_NRM_MASK : Nat
  GE_VTYPE_TC_MASK : Nat
  GE_VTYPE_TC_SHIFT : Nat
  GE_SHADE_FLAT : Nat
  ENABLE_TEXTURE : Nat
  ENABLE_FOG : Nat
  ENABLE_BONES : Nat
  ENABLE_LIGHTS : Nat
  ENABLE_LIGHT0 : Nat
  vertTypeIsSkinningEnabled : Nat → Bool
  vertTypeGetNumBoneWeights : Nat → Nat
  TranslateNumBones : Nat → Nat
  vertTypeGetWeightMask : Nat → Nat

/-- Modelled from the spec: the enum GETexMapMode of GPU/ge_constants.h, which is not part of
the sources. Spec §3 lists the UV generation mode as the "4-way enum: texture coords /
texture matrix / environment map / unknown", stored in a 2-bit field. -/
def GE_TEXMAP_TEXTURE_COORDS : Nat := 0

/-- Modelled from the spec: second value of the 4-way UV generation mode enum (see
GE_TEXMAP_TEXTURE_COORDS). -/
def GE_TEXMAP_TEXTURE_MATRIX : Nat := 1

/-- Modelled from the spec: third value of the 4-way UV generation mode enum (see
GE_TEXMAP_TEXTURE_COORDS). -/
def GE_TEXMAP_ENVIRONMENT_MAP : Nat := 2

/-- Modelled from the spec: fourth value of the 4-way UV generation mode enum (see
GE_TEXMAP_TEXTURE_COORDS). -/
def GE_TEXMAP_UNKNOWN : Nat := 3

/-- Modelled from the spec: the enum GETexProjMapMode of GPU/ge_constants.h, which is not part
of the sources. Spec §4.3 (e) lists the projection sources as "raw model-space position,
rescaled raw texcoord, normalized transformed normal, or raw transformed normal", stored in a
2-bit field. -/
def GE_PROJMAP_POSITION : Nat := 0

/-- Modelled from the spec: second projection source (see GE_PROJMAP_POSITION). -/
def GE_PROJMAP_UV : Nat := 1

/-- Modelled from the spec: third projection source (see GE_PROJMAP_POSITION). -/
def GE_PROJMAP_NORMALIZED_NORMAL : Nat := 2

/-- Modelled from the spec: fourth projection source (see GE_PROJMAP_POSITION). -/
def GE_PROJMAP_NORMAL : Nat := 3

/-- Modelled from the spec: the enum GELightType of GPU/ge_constants.h, which is not part of
the sources. Spec §4.3 (c) names the light types directional, point and "spot/unknown", stored
in a 2-bit field. -/
def GE_LIGHTTYPE_DIRECTIONAL : Nat := 0

/-- Modelled from the spec: second light type (see GE_LIGHTTYPE_DIRECTIONAL). -/
def GE_LIGHTTYPE_POINT : Nat := 1

/-- Modelled from the spec: third light type (see GE_LIGHTTYPE_DIRECTIONAL). -/
def GE_LIGHTTYPE_SPOT : Nat := 2

/-- Modelled from the spec: fourth light type (see GE_LIGHTTYPE_DIRECTIONAL). -/
def GE_LIGHTTYPE_UNKNOWN : Nat := 3

/-- Modelled from the spec: the enum GELightComputation of GPU/ge_constants.h, which is not
part of the sources: "diffuse only", both, and "both with powered diffuse", stored in a 2-bit
field. -/
def GE_LIGHTCOMP_ONLYDIFFUSE : Nat := 0

/-- Modelled from the spec: second light computation mode (see GE_LIGHTCOMP_ONLYDIFFUSE). -/
def GE_LIGHTCOMP_BOTH : Nat := 1

/-- Modelled from the spec: third light computation mode (see GE_LIGHTCOMP_ONLYDIFFUSE). -/
def GE_LIGHTCOMP_BOTHWITHPOWDIFFUSE : Nat := 2

/-! ## Render state inputs (read-only) -/

/-- The fields of HighGpu::RasterState read by the encoder. -/
structure RasterState where
  clearMode : Bool
  shadeMode : Nat

/-- The accessors of HighGpu::TexScaleState used by the encoder, as their results. -/
structure TexScaleState where
  getUVGenMode : Nat
  getUVProjMode : Nat
  getUVLS0 : Nat
  getUVLS1 : Nat

/-- The members of HighGpu::LightGlobalState used by the encoder. -/
structure LightGlobalState where
  lmode : Bool
  materialUpdate : Nat
  areNormalsReversed : Bool

/-- The accessors of HighGpu::LightState used by the encoder, as their results. -/
structure LightState where
  getLightComputation : Nat
  getLightType : Nat

/-! ## The variant key -/

/-- Modelled from the spec: the class ShaderID is declared in a header that is not part of the
sources. Spec §3 and §6: the key is "an opaque fixed-width bit vector ... partitioned into
named fields, each a bit offset and width", "two unsigned 64-bit words", whose "fields are
write-once at construction". The key is held as the natural number whose binary digits are
the key bits, the word d[0] holding the low bits. -/
structure ShaderID where
  bits : Nat
deriving DecidableEq

namespace ShaderID

/-- Modelled from the spec: a freshly constructed key has every field zero. -/
def empty : ShaderID := ⟨0⟩

/-- Modelled from the spec: SetBit(bit, value) sets the one-bit field at the offset when the
value is true and leaves the key alone otherwise. -/
def SetBit (id : ShaderID) (bit : Nat) (value : Bool) : ShaderID :=
  if value then ⟨id.bits ||| (1 <<< bit)⟩ else id

/-- Modelled from the spec: SetBits(bit, count, value) writes the low count bits of the value
into the field at the offset. -/
def SetBits (id : ShaderID) (bit count value : Nat) : ShaderID :=
  ⟨id.bits ||| ((value &&& ((1 <<< count) - 1)) <<< bit)⟩

/-- Modelled from the spec: Bit(bit) reads the one-bit field at the offset. -/
@[irreducible]
def Bit (id : ShaderID) (bit : Nat) : Bool :=
  (id.bits >>> bit) &&& 1 != 0

/-- Modelled from the spec: Bits(bit, count) reads the count-bit field at the offset. -/
@[irreducible]
def Bits (id : ShaderID) (bit count : Nat) : Nat :=
  (id.bits >>> bit) &&& ((1 <<< count) - 1)

/-- Modelled from the spec: the first word d[0] of the key, which holds the low bits. -/
def d0 (id : ShaderID) : Nat :=
  id.bits % 2 ^ 32

end ShaderID

/-! ## Capability gate -/

/-- Source lines 47-51. -/
def CanUseHardwareTransform (g_Config : Config) (k : Decls) (prim : Nat) (isModeThrough : Bool) :
    Bool :=
  if !g_Config.bHardwareTransform then
    false
  else
    isModeThrough && prim != k.GE_PRIM_RECTANGLES

/-! ## Bit positions (source lines 56-91) -/

abbrev BIT_LMODE : Nat := 0
abbrev BIT_IS_THROUGH : Nat := 1
abbrev BIT_ENABLE_FOG : Nat := 2
abbrev BIT_HAS_COLOR : Nat := 3
abbrev BIT_DO_TEXTURE : Nat := 4
abbrev BIT_FLIP_TEXTURE : Nat := 5
abbrev BIT_DO_TEXTURE_PROJ : Nat := 6
abbrev BIT_USE_HW_TRANSFORM : Nat := 8
abbrev BIT_HAS_NORMAL : Nat := 9
abbrev BIT_UVGEN_MODE : Nat := 16
abbrev BIT_UVPROJ_MODE : Nat := 18
abbrev BIT_LS0 : Nat := 18
abbrev BIT_LS1 : Nat := 20
abbrev BIT_BONES : Nat := 22
abbrev BIT_ENABLE_BONES : Nat := 30
abbrev BIT_LIGHT0_COMP : Nat := 32
abbrev BIT_LIGHT0_TYPE : Nat := 34
abbrev BIT_LIGHT1_COMP : Nat := 36
abbrev BIT_LIGHT1_TYPE : Nat := 38
abbrev BIT_LIGHT2_COMP : Nat := 40
abbrev BIT_LIGHT2_TYPE : Nat := 42
abbrev BIT_LIGHT3_COMP : Nat := 44
abbrev BIT_LIGHT3_TYPE : Nat := 46
abbrev BIT_MATERIAL_UPDATE : Nat := 48
abbrev BIT_LIGHT0_ENABLE : Nat := 52
abbrev BIT_LIGHT1_ENABLE : Nat := 53
abbrev BIT_LIGHT2_ENABLE : Nat := 54
abbrev BIT_LIGHT3_ENABLE : Nat := 55
abbrev BIT_LIGHTING_ENABLE : Nat := 56
abbrev BIT_WEIGHT_FMTSCALE : Nat := 57
abbrev BIT_TEXCOORD_FMTSCALE : Nat := 60
abbrev BIT_HAS_TEXCOORD : Nat := 60
abbrev BIT_FLATSHADE : Nat := 62
abbrev BIT_NORM_REVERSE : Nat := 32 + 27

/-! ## The variant key encoder (source lines 93-179) -/

/-- The C expression `x - 1` on 32-bit integers, as a bit pattern. -/
def minusOne32 (x : Nat) : Nat :=
  (x + 4294967295) % 4294967296

/-- Source lines 150-155: the first loop over the four lights. -/
def setLightBits (k : Decls) (enabled : Nat) (ls : Nat → LightState) (id : ShaderID) : ShaderID :=
  [0, 1, 2, 3].foldl
    (fun id i =>
      if enabled &&& ((k.ENABLE_LIGHT0 <<< i) % 4294967296) != 0 then
        (id.SetBits (BIT_LIGHT0_COMP + 4 * i) 2 (ls i).getLightComputation).SetBits
          (BIT_LIGHT0_TYPE + 4 * i) 2 (ls i).getLightType
      else id)
    id

/-- Source lines 158-160: the second loop over the four lights. -/
def setLightEnableBits (k : Decls) (enabled : Nat) (id : ShaderID) : ShaderID :=
  [0, 1, 2, 3].foldl
    (fun id i =>
      id.SetBit (BIT_LIGHT0_ENABLE + i) (enabled &&& ((k.ENABLE_LIGHT0 <<< i) % 4294967296) != 0))
    id

/-- Source lines 93-179. -/
def ComputeVertexShaderID (k : Decls) (vertType enabled : Nat) (raster : RasterState)
    (ts : TexScaleState) (lgs : LightGlobalState) (ls : Nat → LightState)
    (flipTexture useHWTransform : Bool) : ShaderID :=
  let isModeThrough := vertType &&& k.GE_VTYPE_THROUGH_MASK != 0
  let isModeClear := raster.clearMode
  let doTexture := (enabled &&& k.ENABLE_TEXTURE != 0) && !isModeClear
  let doTextureProjection := ts.getUVGenMode == GE_TEXMAP_TEXTURE_MATRIX
  let doShadeMapping := ts.getUVGenMode == GE_TEXMAP_ENVIRONMENT_MAP
  let doFlatShading := raster.shadeMode == k.GE_SHADE_FLAT && !isModeClear
  let hasColor := vertType &&& k.GE_VTYPE_COL_MASK != 0
  let hasNormal := vertType &&& k.GE_VTYPE_NRM_MASK != 0
  let hasTexcoord := vertType &&& k.GE_VTYPE_TC_MASK != 0 || !useHWTransform
  let enableFog := (enabled &&& k.ENABLE_FOG != 0) && !isModeThrough && !isModeClear
  let enableBones := enabled &&& k.ENABLE_BONES != 0
  let lmode := lgs.lmode && (enabled &&& k.ENABLE_LIGHTS != 0)
  let id := ShaderID.empty
  let id := id.SetBit BIT_LMODE lmode
  let id := id.SetBit BIT_IS_THROUGH isModeThrough
  let id := id.SetBit BIT_ENABLE_FOG enableFog
  let id := id.SetBit BIT_HAS_COLOR hasColor
  let id :=
    if doTexture then
      ((id.SetBit BIT_DO_TEXTURE true).SetBit BIT_FLIP_TEXTURE flipTexture).SetBit
        BIT_DO_TEXTURE_PROJ doTextureProjection
    else id
  let id :=
    if useHWTransform then
      let id := id.SetBit BIT_ENABLE_BONES enableBones
      let id := id.SetBit BIT_USE_HW_TRANSFORM true
      let id := id.SetBit BIT_HAS_NORMAL hasNormal
      let id := id.SetBits BIT_UVGEN_MODE 2 ts.getUVGenMode
      let id :=
        if doTextureProjection then
          id.SetBits BIT_UVPROJ_MODE 2 ts.getUVProjMode
        else if doShadeMapping then
          (id.SetBits BIT_LS0 2 ts.getUVLS0).SetBits BIT_LS1 2 ts.getUVLS1
        else id
      let id :=
        if k.vertTypeIsSkinningEnabled vertType then
          id.SetBits BIT_BONES 3
            (minusOne32 (k.TranslateNumBones (k.vertTypeGetNumBoneWeights vertType)))
        else id
      let id :=
        if (enabled != 0 && k.ENABLE_LIGHTS != 0) || doShadeMapping then
          let id := setLightBits k enabled ls id
          let id := id.SetBits BIT_MATERIAL_UPDATE 3 (lgs.materialUpdate &&& 7)
          let id := setLightEnableBits k enabled id
          id.SetBit BIT_LIGHTING_ENABLE true
        else id
      let id := id.SetBits BIT_WEIGHT_FMTSCALE 2 (k.vertTypeGetWeightMask vertType)
      let id := id.SetBit BIT_NORM_REVERSE lgs.areNormalsReversed
      if doTextureProjection && ts.getUVProjMode == GE_PROJMAP_UV then
        id.SetBit BIT_TEXCOORD_FMTSCALE
          ((vertType &&& k.GE_VTYPE_TC_MASK) >>> k.GE_VTYPE_TC_SHIFT != 0)
      else
        id.SetBit BIT_HAS_TEXCOORD hasTexcoord
    else id
  id.SetBit BIT_FLATSHADE doFlatShading

/-! ## The source generator (source lines 181-760) -/

/-- Source lines 181-191. -/
def boneWeightAttrDecl : List String :=
  [ "#ERROR#",
    "attribute mediump float w1;\n",
    "attribute mediump vec2 w1;\n",
    "attribute mediump vec3 w1;\n",
    "attribute mediump vec4 w1;\n",
    "attribute mediump vec4 w1;\nattribute mediump float w2;\n",
    "attribute mediump vec4 w1;\nattribute mediump vec2 w2;\n",
    "attribute mediump vec4 w1;\nattribute mediump vec3 w2;\n",
    "attribute mediump vec4 w1, w2;\n" ]

/-- Source lines 193-203. -/
def boneWeightInDecl : List String :=
  [ "#ERROR#",
    "in mediump float w1;\n",
    "in mediump vec2 w1;\n",
    "in mediump vec3 w1;\n",
    "in mediump vec4 w1;\n",
    "in mediump vec4 w1;\nin mediump float w2;\n",
    "in mediump vec4 w1;\nin mediump vec2 w2;\n",
    "in mediump vec4 w1;\nin mediump vec3 w2;\n",
    "in mediump vec4 w1, w2;\n" ]

/-- Source lines 205-209. -/
inductive DoLightComputation where
  | LIGHT_OFF
  | LIGHT_SHADE
  | LIGHT_FULL
deriving DecidableEq, Fintype

/-- The preprocessor configuration the file is compiled under: USING_GLES2 defined; neither
USING_GLES2 nor FORCE_OPENGL_2_0 defined; FORCE_OPENGL_2_0 defined without USING_GLES2.
USE_FOR_LOOP and USE_BONE_ARRAY are not defined. -/
inductive Build where
  | USING_GLES2
  | desktop
  | FORCE_OPENGL_2_0
deriving DecidableEq

/-- The members of gl_extensions (gfx_es2/gpu_features.h) read by the generator. -/
structure GLExtensions where
  GLES3 : Bool
  bugs : Nat
  verMajor : Nat
  verMinor : Nat
  verSub : Nat
deriving DecidableEq

/-- Modelled from the spec: the method VersionGEThan of gl_extensions is declared in a header
that is not part of the sources. Spec §4.3 step 1 reads it as a comparison of the API version
("desktop profile ≥3.3", "desktop profile <3.3"): the version triple is compared
lexicographically with the given one. -/
def GLExtensions.VersionGEThan (e : GLExtensions) (major minor sub : Nat) : Bool :=
  if e.verMajor > major then true
  else if e.verMajor < major then false
  else if e.verMinor > minor then true
  else if e.verMinor < minor then false
  else decide (e.verSub ≥ sub)

/-- The process-wide inputs of the generator: build configuration, GPU capability flags, the
constant BUG_PVR_SHADER_PRECISION_BAD of gfx_es2/gpu_features.h (not part of the sources, hence
a parameter) and the configuration. -/
structure GenEnv where
  build : Build
  gl_extensions : GLExtensions
  BUG_PVR_SHADER_PRECISION_BAD : Nat
  g_Config : Config
deriving DecidableEq

/-- Formatting of an integer by the conversion "%i". -/
def fmtInt (i : Nat) : String :=
  toString i

/-- Source lines 224-265: the dialect header. -/
def versionHeader (env : GenEnv) : List String :=
  match env.build with
  | Build.USING_GLES2 =>
    [ if env.gl_extensions.GLES3 then "#version 300 es\n" else "#version 100\n",
      "precision highp float;\n" ]
  | Build.desktop =>
    if env.gl_extensions.VersionGEThan 3 3 0 then
      ["#version 330\n", "#define lowp\n", "#define mediump\n", "#define highp\n"]
    else if env.gl_extensions.VersionGEThan 3 0 0 then
      ["#version 130\n", "#define lowp\n", "#define mediump\n", "#define highp\n"]
    else
      ["#version 110\n", "#define lowp\n", "#define mediump\n", "#define highp\n"]
  | Build.FORCE_OPENGL_2_0 =>
    ["#define lowp\n", "#define mediump\n", "#define highp\n"]

/-- Source lines 217, 229, 242: the value of glslES30 after the dialect header. -/
def glslES30Of (env : GenEnv) : Bool :=
  match env.build with
  | Build.USING_GLES2 => env.gl_extensions.GLES3
  | Build.desktop => env.gl_extensions.VersionGEThan 3 3 0
  | Build.FORCE_OPENGL_2_0 => false

/-- Source lines 221, 237: the value of highpFog after the dialect header. -/
def highpFogOf (env : GenEnv) : Bool :=
  match env.build with
  | Build.USING_GLES2 => env.gl_extensions.bugs &&& env.BUG_PVR_SHADER_PRECISION_BAD != 0
  | _ => false

/-- Source lines 303-313: the entry doLight[i] after the loop. -/
def doLightOf (id : ShaderID) (useHWTransform doShadeMapping : Bool) (ls0 ls1 : Nat) (i : Nat) :
    DoLightComputation :=
  if useHWTransform then
    let shadeLight0 : Int := if doShadeMapping then (ls0 : Int) else -1
    let shadeLight1 : Int := if doShadeMapping then (ls1 : Int) else -1
    let d :=
      if (i : Int) = shadeLight0 ∨ (i : Int) = shadeLight1 then DoLightComputation.LIGHT_SHADE
      else DoLightComputation.LIGHT_OFF
    if id.Bit BIT_LIGHTING_ENABLE && id.Bit (BIT_LIGHT0_ENABLE + i) then
      DoLightComputation.LIGHT_FULL
    else d
  else DoLightComputation.LIGHT_OFF

/-- The local variables of GenerateVertexShader after source line 321 (attribute and varying
are keywords here, hence the suffix). -/
structure Locals where
  glslES30 : Bool
  varyingKw : String
  attributeKw : String
  boneWeightDecl : List String
  highpFog : Bool
  highpTexcoord : Bool
  lmode : Bool
  doTexture : Bool
  doTextureProjection : Bool
  uvGenMode : Nat
  uvProjMode : Nat
  doShadeMapping : Bool
  doFlatShading : Bool
  isModeThrough : Bool
  useHWTransform : Bool
  hasColor : Bool
  hasNormal : Bool
  hasTexcoord : Bool
  enableFog : Bool
  throughmode : Bool
  flipV : Bool
  flipNormal : Bool
  enableBones : Bool
  enableLighting : Bool
  ls0 : Nat
  ls1 : Nat
  matUpdate : Nat
  shading : String
  doLight : Nat → DoLightComputation
  numBoneWeights : Nat
  boneWeightScale : Nat
  texFmtScale : Nat

/-- Source lines 217-222, 267-321: decoding of the key into the local variables. -/
def decodeLocals (env : GenEnv) (id : ShaderID) : Locals :=
  let glslES30 := glslES30Of env
  let uvGenMode := id.Bits BIT_UVGEN_MODE 2
  let doShadeMapping := uvGenMode == GE_TEXMAP_ENVIRONMENT_MAP
  let doFlatShading := id.Bit BIT_FLATSHADE
  let useHWTransform := id.Bit BIT_USE_HW_TRANSFORM
  let ls0 := id.Bits BIT_LS0 2
  let ls1 := id.Bits BIT_LS1 2
  { glslES30 := glslES30
    varyingKw := if glslES30 then "out" else "varying"
    attributeKw := if glslES30 then "in" else "attribute"
    boneWeightDecl := if glslES30 then boneWeightInDecl else boneWeightAttrDecl
    highpFog := highpFogOf env
    highpTexcoord := highpFogOf env
    lmode := id.Bit BIT_LMODE
    doTexture := id.Bit BIT_DO_TEXTURE
    doTextureProjection := id.Bit BIT_DO_TEXTURE_PROJ
    uvGenMode := uvGenMode
    uvProjMode := id.Bits BIT_UVPROJ_MODE 2
    doShadeMapping := doShadeMapping
    doFlatShading := doFlatShading
    isModeThrough := id.Bit BIT_IS_THROUGH
    useHWTransform := useHWTransform
    hasColor := (id.d0 >>> BIT_HAS_COLOR) &&& 1 != 0
    hasNormal := id.Bit BIT_HAS_NORMAL
    hasTexcoord := id.Bit BIT_HAS_TEXCOORD
    enableFog := id.Bit BIT_ENABLE_FOG
    throughmode := id.Bit BIT_IS_THROUGH
    flipV := id.Bit BIT_FLIP_TEXTURE
    flipNormal := id.Bit BIT_NORM_REVERSE
    enableBones := id.Bit BIT_ENABLE_BONES
    enableLighting := id.Bit BIT_LIGHTING_ENABLE
    ls0 := ls0
    ls1 := ls1
    matUpdate := id.Bits BIT_MATERIAL_UPDATE 3
    shading := if glslES30 then (if doFlatShading then "flat" else "") else ""
    doLight := doLightOf id useHWTransform doShadeMapping ls0 ls1
    numBoneWeights := if id.Bit BIT_ENABLE_BONES then 1 + id.Bits BIT_BONES 3 else 0
    boneWeightScale := id.Bits BIT_WEIGHT_FMTSCALE 2
    texFmtScale := id.Bits BIT_TEXCOORD_FMTSCALE 2 }

/-- Source line 350. -/
def prescaleOf (env : GenEnv) (v : Locals) : Bool :=
  env.g_Config.bPrescaleUV && !v.throughmode &&
    (v.uvGenMode == GE_TEXMAP_TEXTURE_COORDS || v.uvGenMode == GE_TEXMAP_UNKNOWN)

/-- The light type field of light i, as read at source lines 376, 567 and 597. -/
def lightTypeOf (id : ShaderID) (i : Nat) : Nat :=
  id.Bits (BIT_LIGHT0_TYPE + 4 * i) 2

/-- The light computation field of light i, as read at source lines 377, 568 and 598. -/
def lightCompOf (id : ShaderID) (i : Nat) : Nat :=
  id.Bits (BIT_LIGHT0_COMP + 4 * i) 2

/-- Source lines 317-341: the attribute declarations. -/
def attributeWrites (id : ShaderID) (v : Locals) : List String :=
  (if id.Bit BIT_ENABLE_BONES then [v.boneWeightDecl.getD v.numBoneWeights ""] else []) ++
  [if v.useHWTransform then v.attributeKw ++ " vec3 position;\n"
   else v.attributeKw ++ " vec4 position;\n"] ++
  (if v.useHWTransform && v.hasNormal then [v.attributeKw ++ " mediump vec3 normal;\n"] else []) ++
  (if v.doTexture && v.hasTexcoord then
    [if !v.useHWTransform && v.doTextureProjection && !v.throughmode then
       v.attributeKw ++ " vec3 texcoord;\n"
     else v.attributeKw ++ " vec2 texcoord;\n"]
   else []) ++
  (if v.hasColor then
    [v.attributeKw ++ " lowp vec4 color0;\n"] ++
    (if v.lmode && !v.useHWTransform then [v.attributeKw ++ " lowp vec3 color1;\n"] else [])
   else [])

/-- Source lines 370-394: the uniforms of light i. -/
def lightUniformWrites (id : ShaderID) (v : Locals) (i : Nat) : List String :=
  (if v.doLight i != DoLightComputation.LIGHT_OFF then
    ["uniform vec3 u_lightpos" ++ fmtInt i ++ ";\n"]
   else []) ++
  (if v.doLight i == DoLightComputation.LIGHT_FULL then
    let type := lightTypeOf id i
    let comp := lightCompOf id i
    (if type != GE_LIGHTTYPE_DIRECTIONAL then
      ["uniform mediump vec3 u_lightatt" ++ fmtInt i ++ ";\n"]
     else []) ++
    (if type == GE_LIGHTTYPE_SPOT || type == GE_LIGHTTYPE_UNKNOWN then
      [ "uniform mediump vec3 u_lightdir" ++ fmtInt i ++ ";\n",
        "uniform mediump float u_lightangle" ++ fmtInt i ++ ";\n",
        "uniform mediump float u_lightspotCoef" ++ fmtInt i ++ ";\n" ]
     else []) ++
    [ "uniform lowp vec3 u_lightambient" ++ fmtInt i ++ ";\n",
      "uniform lowp vec3 u_lightdiffuse" ++ fmtInt i ++ ";\n" ] ++
    (if comp != GE_LIGHTCOMP_ONLYDIFFUSE then
      ["uniform lowp vec3 u_lightspecular" ++ fmtInt i ++ ";\n"]
     else [])
   else [])

/-- Source lines 352-369: the first uniforms of the hardware transform path. -/
def transformUniformWrites (env : GenEnv) (v : Locals) : List String :=
  let prescale := prescaleOf env v
  ["uniform mat4 u_world;\n", "uniform mat4 u_view;\n"] ++
  (if v.doTextureProjection then ["uniform mediump mat4 u_texmtx;\n"] else []) ++
  (if v.enableBones then
    (List.range v.numBoneWeights).map (fun i => "uniform mat4 u_bone" ++ fmtInt i ++ ";\n")
   else []) ++
  (if v.doTexture && (v.flipV || !prescale || v.uvGenMode == GE_TEXMAP_ENVIRONMENT_MAP ||
      v.uvGenMode == GE_TEXMAP_TEXTURE_MATRIX) then
    ["uniform vec4 u_uvscaleoffset;\n"]
   else [])

/-- Source lines 395-402: the material uniforms of the hardware transform path. -/
def materialUniformWrites (v : Locals) : List String :=
  if v.enableLighting then
    ["uniform lowp vec4 u_ambient;\n"] ++
    (if v.matUpdate &&& 2 == 0 || !v.hasColor then ["uniform lowp vec3 u_matdiffuse;\n"]
     else []) ++
    ["uniform lowp vec4 u_matspecular;\n", "uniform lowp vec3 u_matemissive;\n"]
  else []

/-- Source lines 405-410: the uniforms declared on both paths. -/
def commonUniformWrites (v : Locals) : List String :=
  (if v.useHWTransform || !v.hasColor then ["uniform lowp vec4 u_matambientalpha;\n"] else []) ++
  (if v.enableFog then ["uniform highp vec2 u_fogcoef;\n"] else [])

/-- Source lines 343-410: the uniform declarations. -/
def uniformWrites (env : GenEnv) (id : ShaderID) (v : Locals) : List String :=
  [if v.isModeThrough then "uniform mat4 u_proj_through;\n" else "uniform mat4 u_proj;\n"] ++
  (if v.useHWTransform then
    transformUniformWrites env v ++
    [0, 1, 2, 3].flatMap (lightUniformWrites id v) ++
    materialUniformWrites v
   else []) ++
  commonUniformWrites v

/-- Source lines 412-432: the varying declarations. -/
def varyingWrites (v : Locals) : List String :=
  [v.shading ++ " " ++ v.varyingKw ++ " lowp vec4 v_color0;\n"] ++
  (if v.lmode then [v.shading ++ " " ++ v.varyingKw ++ " lowp vec3 v_color1;\n"] else []) ++
  (if v.doTexture then
    [if v.doTextureProjection then
       v.varyingKw ++ " " ++ (if v.highpTexcoord then "highp" else "mediump") ++
         " vec3 v_texcoord;\n"
     else
       v.varyingKw ++ " " ++ (if v.highpTexcoord then "highp" else "mediump") ++
         " vec2 v_texcoord;\n"]
   else []) ++
  (if v.enableFog then
    [if v.highpFog then v.varyingKw ++ " highp float v_fogdepth;\n"
     else v.varyingKw ++ " mediump float v_fogdepth;\n"]
   else [])

/-- Source lines 436-461: the body of main() without hardware transform. -/
def softwareTransformWrites (v : Locals) : List String :=
  (if v.doTexture then
    [if v.throughmode && v.doTextureProjection then "  v_texcoord = vec3(texcoord, 1.0);\n"
     else "  v_texcoord = texcoord;\n"]
   else []) ++
  (if v.hasColor then
    ["  v_color0 = color0;\n"] ++ (if v.lmode then ["  v_color1 = color1;\n"] else [])
   else
    ["  v_color0 = u_matambientalpha;\n"] ++
      (if v.lmode then ["  v_color1 = vec3(0.0);\n"] else [])) ++
  (if v.enableFog then ["  v_fogdepth = position.w;\n"] else []) ++
  [if v.isModeThrough then "  gl_Position = u_proj_through * vec4(position.xyz, 1.0);\n"
   else "  gl_Position = u_proj * vec4(position.xyz, 1.0);\n"]

/-- Source line 472. -/
def rescale : List String :=
  ["", " * 1.9921875", " * 1.999969482421875", ""]

/-- Source lines 475-478. -/
def boneWeightAttr : List String :=
  ["w1.x", "w1.y", "w1.z", "w1.w", "w2.x", "w2.y", "w2.z", "w2.w"]

/-- Source lines 523-529: what the loop writes for the index i. -/
def skinMatrixTerm (numBoneWeights i : Nat) : String :=
  let weightAttr := boneWeightAttr.getD i ""
  let weightAttr := if numBoneWeights == 1 && i == 0 then "w1" else weightAttr
  let weightAttr := if numBoneWeights == 5 && i == 4 then "w2" else weightAttr
  " + " ++ weightAttr ++ " * u_bone" ++ fmtInt i

/-- Source lines 463-546: step 1 of the hardware transform path, world transform and
skinning. -/
def worldTransformWrites (v : Locals) : List String :=
  if v.enableBones then
    ["  vec3 worldpos = (u_world * vec4(position.xyz, 1.0)).xyz;\n"] ++
    [if v.hasNormal then
       "  mediump vec3 worldnormal = normalize((u_world * vec4(" ++
         (if v.flipNormal then "-" else "") ++ "normal, 0.0)).xyz);\n"
     else "  mediump vec3 worldnormal = vec3(0.0, 0.0, 1.0);\n"]
  else
    let factor := rescale.getD v.texFmtScale ""
    [if v.numBoneWeights == 1 then "  mat4 skinMatrix = w1 * u_bone0"
     else "  mat4 skinMatrix = w1.x * u_bone0"] ++
    ((List.range v.numBoneWeights).filter (fun i => decide (1 ≤ i))).map
      (skinMatrixTerm v.numBoneWeights) ++
    [";\n"] ++
    ["  vec3 skinnedpos = (skinMatrix * vec4(position, 1.0)).xyz " ++ factor ++ ";\n",
     "  vec3 worldpos = (u_world * vec4(skinnedpos, 1.0)).xyz;\n"] ++
    [if v.hasNormal then
       "  mediump vec3 skinnednormal = (skinMatrix * vec4(" ++
         (if v.flipNormal then "-" else "") ++ "normal, 0.0)).xyz " ++ factor ++ ";\n"
     else
       "  mediump vec3 skinnednormal = (skinMatrix * vec4(0.0, 0.0, " ++
         (if v.flipNormal then "-" else "") ++ "1.0, 0.0)).xyz " ++ factor ++ ";\n"] ++
    ["  mediump vec3 worldnormal = normalize((u_world * vec4(skinnednormal, 0.0)).xyz);\n"]

/-- Source line 555. -/
def ambientStr (v : Locals) : String :=
  if v.matUpdate &&& 1 != 0 && v.hasColor then "color0" else "u_matambientalpha"

/-- Source line 556. -/
def diffuseStr (v : Locals) : String :=
  if v.matUpdate &&& 2 != 0 && v.hasColor then "color0.rgb" else "u_matdiffuse"

/-- Source line 557. -/
def specularStr (v : Locals) : String :=
  if v.matUpdate &&& 4 != 0 && v.hasColor then "color0.rgb" else "u_matspecular.rgb"

/-- The three flags of source lines 559-561. -/
structure LightFlags where
  diffuseIsZero : Bool
  specularIsZero : Bool
  distanceNeeded : Bool
deriving DecidableEq

/-- Source lines 559-576: the flags after the loop over the lights when lighting is enabled,
and their initial values otherwise. -/
def lightFlags (id : ShaderID) (v : Locals) : LightFlags :=
  if v.enableLighting then
    [0, 1, 2, 3].foldl
      (fun f i =>
        let type := lightTypeOf id i
        let comp := lightCompOf id i
        if v.doLight i != DoLightComputation.LIGHT_FULL then f
        else
          { diffuseIsZero := false
            specularIsZero := if comp != GE_LIGHTCOMP_ONLYDIFFUSE then false else f.specularIsZero
            distanceNeeded := if type != GE_LIGHTTYPE_DIRECTIONAL then true else f.distanceNeeded })
      ⟨true, true, false⟩
  else ⟨true, true, false⟩

/-- Source lines 563-589: the declarations emitted before the per-light blocks. -/
def lightingSetupWrites (id : ShaderID) (v : Locals) : List String :=
  if v.enableLighting then
    ["  lowp vec4 lightSum0 = u_ambient * " ++ ambientStr v ++ " + vec4(u_matemissive, 0.0);\n"] ++
    (if !(lightFlags id v).specularIsZero then ["  lowp vec3 lightSum1 = vec3(0.0);\n"] else []) ++
    (if !(lightFlags id v).diffuseIsZero then ["  vec3 toLight;\n", "  lowp vec3 diffuse;\n"]
     else []) ++
    (if (lightFlags id v).distanceNeeded then ["  float distance;\n", "  lowp float lightScale;\n"]
     else [])
  else []

/-- Source lines 593-654: the block of light i. -/
def lightBlockWrites (id : ShaderID) (v : Locals) (i : Nat) : List String :=
  if v.doLight i != DoLightComputation.LIGHT_FULL then []
  else
    let type := lightTypeOf id i
    let comp := lightCompOf id i
    let doSpecular := comp != GE_LIGHTCOMP_ONLYDIFFUSE
    let poweredDiffuse := comp == GE_LIGHTCOMP_BOTHWITHPOWDIFFUSE
    let timesLightScale := if type == GE_LIGHTTYPE_DIRECTIONAL then "" else " * lightScale"
    (if type == GE_LIGHTTYPE_DIRECTIONAL then
      ["  toLight = u_lightpos" ++ fmtInt i ++ ";\n"]
     else
      [ "  toLight = u_lightpos" ++ fmtInt i ++ " - worldpos;\n",
        "  distance = length(toLight);\n",
        "  toLight /= distance;\n" ]) ++
    ["  mediump float dot" ++ fmtInt i ++ " = max(dot(toLight, worldnormal), 0.0);\n"] ++
    (if poweredDiffuse then
      [ "  if (dot" ++ fmtInt i ++ " == 0.0 && u_matspecular.a == 0.0) \x7b\n",
        "    dot" ++ fmtInt i ++ " = 1.0;\n",
        "  \x7d else \x7b\n",
        "    dot" ++ fmtInt i ++ " = pow(dot" ++ fmtInt i ++ ", u_matspecular.a);\n",
        "  \x7d\n" ]
     else []) ++
    (if type == GE_LIGHTTYPE_DIRECTIONAL then []
     else if type == GE_LIGHTTYPE_POINT then
      ["  lightScale = clamp(1.0 / dot(u_lightatt" ++ fmtInt i ++
        ", vec3(1.0, distance, distance*distance)), 0.0, 1.0);\n"]
     else if type == GE_LIGHTTYPE_SPOT || type == GE_LIGHTTYPE_UNKNOWN then
      [ "  lowp float angle" ++ fmtInt i ++ " = dot(normalize(u_lightdir" ++ fmtInt i ++
          "), toLight);\n",
        "  if (angle" ++ fmtInt i ++ " >= u_lightangle" ++ fmtInt i ++ ") \x7b\n",
        "    lightScale = clamp(1.0 / dot(u_lightatt" ++ fmtInt i ++
          ", vec3(1.0, distance, distance*distance)), 0.0, 1.0) * pow(angle" ++ fmtInt i ++
          ", u_lightspotCoef" ++ fmtInt i ++ ");\n",
        "  \x7d else \x7b\n",
        "    lightScale = 0.0;\n",
        "  \x7d\n" ]
     else []) ++
    ["  diffuse = (u_lightdiffuse" ++ fmtInt i ++ " * " ++ diffuseStr v ++ ") * dot" ++
      fmtInt i ++ ";\n"] ++
    (if doSpecular then
      [ "  dot" ++ fmtInt i ++ " = dot(normalize(toLight + vec3(0.0, 0.0, 1.0)), worldnormal);\n",
        "  if (dot" ++ fmtInt i ++ " > 0.0)\n",
        "    lightSum1 += u_lightspecular" ++ fmtInt i ++ " * " ++ specularStr v ++ " * (pow(dot" ++
          fmtInt i ++ ", u_matspecular.a) " ++ timesLightScale ++ ");\n" ]
     else []) ++
    ["  lightSum0.rgb += (u_lightambient" ++ fmtInt i ++ " * " ++ ambientStr v ++
      ".rgb + diffuse)" ++ timesLightScale ++ ";\n"]

/-- Source lines 656-682: the vertex colour outputs. -/
def colorWrites (id : ShaderID) (v : Locals) : List String :=
  if id.Bit BIT_LIGHTING_ENABLE then
    if v.lmode then
      ["  v_color0 = clamp(lightSum0, 0.0, 1.0);\n"] ++
      [if (lightFlags id v).specularIsZero then "  v_color1 = vec3(0.0);\n"
       else "  v_color1 = clamp(lightSum1, 0.0, 1.0);\n"]
    else
      [if (lightFlags id v).specularIsZero then "  v_color0 = clamp(lightSum0, 0.0, 1.0);\n"
       else
        "  v_color0 = clamp(clamp(lightSum0, 0.0, 1.0) + vec4(lightSum1, 0.0), 0.0, 1.0);\n"]
  else
    [if v.hasColor then "  v_color0 = color0;\n" else "  v_color0 = u_matambientalpha;\n"] ++
    (if v.lmode then ["  v_color1 = vec3(0.0);\n"] else [])

/-- Source line 715. -/
def rescaleuv : List String :=
  ["", " * 1.9921875", " * 1.999969482421875", ""]

/-- Source lines 706-735: the string temp_tc after the switch over uvProjMode. -/
def temp_tc (v : Locals) : String :=
  if v.uvProjMode == GE_PROJMAP_POSITION then "vec4(position.xyz, 1.0)"
  else if v.uvProjMode == GE_PROJMAP_UV then
    if v.hasTexcoord then
      "vec4(texcoord.xy " ++ rescaleuv.getD v.texFmtScale "" ++ ", 0.0, 1.0)"
    else "vec4(0.0, 0.0, 0.0, 1.0)"
  else if v.uvProjMode == GE_PROJMAP_NORMALIZED_NORMAL then
    if v.hasNormal then
      (if v.flipNormal then "vec4(normalize(-normal), 1.0)" else "vec4(normalize(normal), 1.0)")
    else "vec4(0.0, 0.0, 1.0, 1.0)"
  else if v.uvProjMode == GE_PROJMAP_NORMAL then
    if v.hasNormal then (if v.flipNormal then "vec4(-normal, 1.0)" else "vec4(normal, 1.0)")
    else "vec4(0.0, 0.0, 1.0, 1.0)"
  else ""

/-- Source lines 684-753: step 3 of the hardware transform path, UV generation. -/
def uvWrites (env : GenEnv) (v : Locals) : List String :=
  let prescale := prescaleOf env v
  if v.doTexture then
    (if v.uvGenMode == GE_TEXMAP_TEXTURE_COORDS || v.uvGenMode == GE_TEXMAP_UNKNOWN then
      [if prescale && !v.flipV then
         (if v.hasTexcoord then "  v_texcoord = texcoord;\n" else "  v_texcoord = vec2(0.0);\n")
       else
         (if v.hasTexcoord then
           "  v_texcoord = texcoord * u_uvscaleoffset.xy + u_uvscaleoffset.zw;\n"
          else "  v_texcoord = u_uvscaleoffset.zw;\n")]
     else if v.uvGenMode == GE_TEXMAP_TEXTURE_MATRIX then
      ["  v_texcoord = (u_texmtx * " ++ temp_tc v ++ ").xyz * vec3(u_uvscaleoffset.xy, 1.0);\n"]
     else if v.uvGenMode == GE_TEXMAP_ENVIRONMENT_MAP then
      ["  v_texcoord = u_uvscaleoffset.xy * vec2(1.0 + dot(normalize(u_lightpos" ++ fmtInt v.ls0 ++
        "), worldnormal), 1.0 + dot(normalize(u_lightpos" ++ fmtInt v.ls1 ++
        "), worldnormal)) * 0.5;\n"]
     else []) ++
    (if v.flipV && v.uvGenMode != GE_TEXMAP_TEXTURE_MATRIX then
      ["  v_texcoord.y = 1.0 - v_texcoord.y;\n"]
     else [])
  else []

/-- Source lines 548-758: the body of main() with hardware transform after the world
transform: view and projection, lighting, vertex colours, UV generation and fog. -/
def viewLightingWrites (env : GenEnv) (id : ShaderID) (v : Locals) : List String :=
  ["  vec4 viewPos = u_view * vec4(worldpos, 1.0);\n", "  gl_Position = u_proj * viewPos;\n"] ++
  lightingSetupWrites id v ++
  [0, 1, 2, 3].flatMap (lightBlockWrites id v) ++
  colorWrites id v ++
  uvWrites env v ++
  (if v.enableFog then ["  v_fogdepth = (viewPos.z + u_fogcoef.x) * u_fogcoef.y;\n"] else [])

/-- Source lines 462-758: the body of main() with hardware transform. -/
def hardwareTransformWrites (env : GenEnv) (id : ShaderID) (v : Locals) : List String :=
  worldTransformWrites v ++ viewLightingWrites env id v

/-- Source lines 434-759: the entry point. -/
def mainWrites (env : GenEnv) (id : ShaderID) (v : Locals) : List String :=
  ["void main() \x7b\n"] ++
  (if !v.useHWTransform then softwareTransformWrites v else hardwareTransformWrites env id v) ++
  ["\x7d\n"]

/-- Source lines 211-760: the strings written to the buffer by the successive WRITE calls. -/
def GenerateVertexShader (env : GenEnv) (id : ShaderID) : List String :=
  let v := decodeLocals env id
  versionHeader env ++ attributeWrites id v ++ uniformWrites env id v ++ varyingWrites v ++
    mainWrites env id v

/-- The contents of the buffer after GenerateVertexShader: the written strings in order. -/
def shaderSource (env : GenEnv) (id : ShaderID) : String :=
  String.join (GenerateVertexShader env id)

/-! ## Reading the written strings -/

/-- Test that a written string starts with the given text. -/
def startsWith (p s : String) : Bool :=
  p.data.isPrefixOf s.data

/-- The first statement of the block of light j in main(), up to and including the light
index (source lines 602 and 604). -/
def lightBlockStart (j : Nat) : String :=
  "  toLight = u_lightpos" ++ fmtInt j

/-- The declaration of the ambient colour uniform of light j (source line 387). -/
def lightAmbientDecl (j : Nat) : String :=
  "uniform lowp vec3 u_lightambient" ++ fmtInt j ++ ";\n"

/-- The declaration of the diffuse colour uniform of light j (source line 388). -/
def lightDiffuseDecl (j : Nat) : String :=
  "uniform lowp vec3 u_lightdiffuse" ++ fmtInt j ++ ";\n"

/-- The declaration of the position uniform of light j (source line 373). -/
def lightPosDecl (j : Nat) : String :=
  "uniform vec3 u_lightpos" ++ fmtInt j ++ ";\n"

/-- The texts looked for in main() when counting light blocks. -/
def lightBlockPatterns : List String :=
  "  toLight = u_lightpos" :: [0, 1, 2, 3].map lightBlockStart

/-- The texts looked for in the uniform declarations when counting per-light uniforms. -/
def lightUniformPatterns : List String :=
  ["uniform lowp vec3 u_lightambient", "uniform lowp vec3 u_lightdiffuse"] ++
  [0, 1, 2, 3].flatMap (fun j => [lightAmbientDecl j, lightDiffuseDecl j, lightPosDecl j])

/-- Source line 319: the bone weight declaration written for the key. -/
def emittedBoneWeightDecl (env : GenEnv) (id : ShaderID) : String :=
  (decodeLocals env id).boneWeightDecl.getD (decodeLocals env id).numBoneWeights ""

/-- Splitting of a character sequence at every occurrence of a separator. -/
def splitAtChar (sep : Char) : List Char → List (List Char)
  | [] => [[]]
  | c :: cs =>
    if c = sep then [] :: splitAtChar sep cs
    else
      match splitAtChar sep cs with
      | [] => [[c]]
      | w :: ws => (c :: w) :: ws

/-- Number of scalar components of a GLSL type name. -/
def glslComponents (ty : List Char) : Nat :=
  if ty = "float".data then 1
  else if ty = "vec2".data then 2
  else if ty = "vec3".data then 3
  else if ty = "vec4".data then 4
  else 0

/-- The variables declared by one GLSL declaration statement of the form
"qualifier precision type name, name", each with the component count of the type. -/
def declaredByStatement (stmt : List Char) : List (String × Nat) :=
  match (splitAtChar ' ' stmt).filter (fun w => w ≠ []) with
  | _ :: _ :: ty :: names =>
    names.map (fun n => (String.mk (n.filter (fun c => c ≠ ',')), glslComponents ty))
  | _ => []

/-- The variables declared by a declaration text whose statements end with a semicolon. -/
def declaredVariables (text : String) : List (String × Nat) :=
  (splitAtChar ';' (text.data.filter (fun c => c ≠ '\n'))).flatMap declaredByStatement

/-! ## Reading a generated source -/

/-- The complete lines of a written string: its pieces in front of a line feed. -/
def completeLines (s : String) : List (List Char) :=
  (splitAtChar '\n' s.data).dropLast

/-- The line that opens main() (source line 434). -/
def mainHeader : List Char :=
  "void main() \x7b".data

/-- The declaration lines of a source text: its lines in front of the line that opens
main(). -/
def declarationLines (src : String) : List (List Char) :=
  (splitAtChar '\n' src.data).takeWhile (fun l => l != mainHeader)

/-- The lines of main() in a source text: its lines from the line that opens main(). -/
def bodyLines (src : String) : List (List Char) :=
  (splitAtChar '\n' src.data).dropWhile (fun l => l != mainHeader)

/-- Test that some declaration line of a source text ends with the given text. -/
def declares (src : String) (ending : String) : Bool :=
  (declarationLines src).any (fun l => ending.data.isSuffixOf l)

/-- Test that the given line is a line of main() in a source text. -/
def bodyHasLine (src : String) (line : String) : Bool :=
  (bodyLines src).any (fun l => l == line.data)

/-- Test that a written string consists of complete lines. -/
def isLineText (c : String) : Bool :=
  c.data == (completeLines c).flatMap (fun l => l ++ ['\n']) &&
    (completeLines c).all (fun l => l.all (fun ch => ch != '\n'))

/-- Test that a written string consists of complete lines, none of which opens main(). -/
def isDeclarationText (c : String) : Bool :=
  isLineText c && (completeLines c).all (fun l => l != mainHeader)

/-- Source lines 211-432: the strings written in front of main(). -/
def declarationWrites (env : GenEnv) (id : ShaderID) : List String :=
  let v := decodeLocals env id
  versionHeader env ++ attributeWrites id v ++ uniformWrites env id v ++ varyingWrites v

/-- The strings written between the first and the last line of main(), with the strings of the
world transform concatenated into one text (the skinning matrix statement is written in
pieces). -/
def bodyTexts (env : GenEnv) (id : ShaderID) : List String :=
  let v := decodeLocals env id
  if !v.useHWTransform then softwareTransformWrites v
  else String.mk ((worldTransformWrites v).map String.data).flatten :: viewLightingWrites env id v

/-- The endings of the declaration lines from which key bits are read: one line per flag,
then for each light the spot direction uniform and the specular colour uniform. -/
def declarationEndings : List String :=
  [ " lowp vec3 v_color1;",
    "uniform mat4 u_proj_through;",
    "uniform highp vec2 u_fogcoef;",
    " lowp vec4 color0;",
    " v_texcoord;",
    " vec3 v_texcoord;",
    " vec3 position;",
    " mediump vec3 normal;",
    "uniform mat4 u_bone0;",
    "uniform lowp vec3 u_lightambient0;",
    "uniform lowp vec3 u_lightambient1;",
    "uniform lowp vec3 u_lightambient2;",
    "uniform lowp vec3 u_lightambient3;",
    "uniform lowp vec4 u_ambient;",
    "uniform mediump vec3 u_lightdir0;",
    "uniform mediump vec3 u_lightdir1;",
    "uniform mediump vec3 u_lightdir2;",
    "uniform mediump vec3 u_lightdir3;",
    "uniform lowp vec3 u_lightspecular0;",
    "uniform lowp vec3 u_lightspecular1;",
    "uniform lowp vec3 u_lightspecular2;",
    "uniform lowp vec3 u_lightspecular3;" ]

/-- The statement of the powered-diffuse branch in the block of light i (source line 614). -/
def poweredDiffuseLine (i : Nat) : String :=
  "    dot" ++ fmtInt i ++ " = pow(dot" ++ fmtInt i ++ ", u_matspecular.a);"

/-- Test that some complete line of the written strings ends with the given text. -/
def writesLineEnding (cs : List String) (ending : String) : Bool :=
  cs.any (fun c => (completeLines c).any (fun l => ending.data.isSuffixOf l))

/-- Test that the given line is a complete line of the written strings. -/
def writesLine (cs : List String) (line : String) : Bool :=
  cs.any (fun c => (completeLines c).any (fun l => l == line.data))

/-- Summary of a sequence of strings written in front of main(): whether all of them are
declaration texts, and for each entry of declarationEndings whether a line with that ending is
among them. -/
def declarationSummary (cs : List String) : Bool × List Bool :=
  (cs.all isDeclarationText, declarationEndings.map (fun e => writesLineEnding cs e))

/-- Summary of a sequence of strings written inside main(): whether all of them consist of
complete lines, and for each light whether its powered-diffuse statement is among them. -/
def bodySummary (cs : List String) : Bool × List Bool :=
  (cs.all isLineText, [0, 1, 2, 3].map (fun i => writesLine cs (poweredDiffuseLine i)))

/-- The bits of the key that are read off the generated source, each with its reader: a flag is
set exactly when its declaration line is present; bit 1 of the type of a light exactly when its
spot direction uniform is declared; bit 0 of the computation mode of a light exactly when its
specular colour uniform is declared and its powered-diffuse statement is absent. -/
def sourceReaders : List (Nat × (String → Bool)) :=
  [ (BIT_LMODE, fun src => declares src " lowp vec3 v_color1;"),
    (BIT_IS_THROUGH, fun src => declares src "uniform mat4 u_proj_through;"),
    (BIT_ENABLE_FOG, fun src => declares src "uniform highp vec2 u_fogcoef;"),
    (BIT_HAS_COLOR, fun src => declares src " lowp vec4 color0;"),
    (BIT_DO_TEXTURE, fun src => declares src " v_texcoord;"),
    (BIT_DO_TEXTURE_PROJ, fun src => declares src " vec3 v_texcoord;"),
    (BIT_USE_HW_TRANSFORM, fun src => declares src " vec3 position;"),
    (BIT_HAS_NORMAL, fun src => declares src " mediump vec3 normal;"),
    (BIT_ENABLE_BONES, fun src => declares src "uniform mat4 u_bone0;"),
    (BIT_LIGHT0_ENABLE, fun src => declares src "uniform lowp vec3 u_lightambient0;"),
    (BIT_LIGHT1_ENABLE, fun src => declares src "uniform lowp vec3 u_lightambient1;"),
    (BIT_LIGHT2_ENABLE, fun src => declares src "uniform lowp vec3 u_lightambient2;"),
    (BIT_LIGHT3_ENABLE, fun src => declares src "uniform lowp vec3 u_lightambient3;"),
    (BIT_LIGHTING_ENABLE, fun src => declares src "uniform lowp vec4 u_ambient;"),
    (BIT_LIGHT0_TYPE + 1, fun src => declares src "uniform mediump vec3 u_lightdir0;"),
    (BIT_LIGHT1_TYPE + 1, fun src => declares src "uniform mediump vec3 u_lightdir1;"),
    (BIT_LIGHT2_TYPE + 1, fun src => declares src "uniform mediump vec3 u_lightdir2;"),
    (BIT_LIGHT3_TYPE + 1, fun src => declares src "uniform mediump vec3 u_lightdir3;"),
    (BIT_LIGHT0_COMP, fun src =>
      declares src "uniform lowp vec3 u_lightspecular0;" &&
        !bodyHasLine src (poweredDiffuseLine 0)),
    (BIT_LIGHT1_COMP, fun src =>
      declares src "uniform lowp vec3 u_lightspecular1;" &&
        !bodyHasLine src (poweredDiffuseLine 1)),
    (BIT_LIGHT2_COMP, fun src =>
      declares src "uniform lowp vec3 u_lightspecular2;" &&
        !bodyHasLine src (poweredDiffuseLine 2)),
    (BIT_LIGHT3_COMP, fun src =>
      declares src "uniform lowp vec3 u_lightspecular3;" &&
        !bodyHasLine src (poweredDiffuseLine 3)) ]

/-- The bits of the key in which two render states with the same generated source can differ:
the flip flag, the UV generation mode, the UV projection sub-mode and shade-mapping light
indices, the bone count, bit 1 of the computation mode and bit 0 of the type of each light, the
material update mask, the bone-weight scale, the normal-reverse flag, the has-texcoord flag and
the flat-shading flag. -/
def sourceFreeBits : List Nat :=
  [ BIT_FLIP_TEXTURE, BIT_UVGEN_MODE, BIT_UVGEN_MODE + 1, BIT_UVPROJ_MODE, BIT_UVPROJ_MODE + 1,
    BIT_LS1, BIT_LS1 + 1, BIT_BONES, BIT_BONES + 1, BIT_BONES + 2,
    BIT_LIGHT0_COMP + 1, BIT_LIGHT0_TYPE, BIT_LIGHT1_COMP + 1, BIT_LIGHT1_TYPE,
    BIT_LIGHT2_COMP + 1, BIT_LIGHT2_TYPE, BIT_LIGHT3_COMP + 1, BIT_LIGHT3_TYPE,
    BIT_MATERIAL_UPDATE, BIT_MATERIAL_UPDATE + 1, BIT_MATERIAL_UPDATE + 2,
    BIT_WEIGHT_FMTSCALE, BIT_WEIGHT_FMTSCALE + 1, BIT_NORM_REVERSE, BIT_HAS_TEXCOORD,
    BIT_FLATSHADE ]

/-- The bits of the 64-bit key that ComputeVertexShaderID never sets: the bits outside every
field, and the upper bit of the texcoord scale field (written with SetBit at source line
170). -/
def unusedKeyBits : List Nat :=
  [7, 10, 11, 12, 13, 14, 15, 25, 26, 27, 28, 29, 31, 51, 61, 63]

/-! ## Decoding a key into its fields and re-encoding them -/

/-- The fields of a key as GenerateVertexShader decodes them (source lines 273-321, and the
per-light reads of lines 310, 376-377 and 567-568). -/
structure KeyFields where
  lmode : Bool
  doTexture : Bool
  doTextureProjection : Bool
  uvGenMode : Nat
  uvProjMode : Nat
  doFlatShading : Bool
  isModeThrough : Bool
  useHWTransform : Bool
  hasColor : Bool
  hasNormal : Bool
  hasTexcoord : Bool
  enableFog : Bool
  flipV : Bool
  flipNormal : Bool
  enableBones : Bool
  enableLighting : Bool
  ls0 : Nat
  ls1 : Nat
  matUpdate : Nat
  lightEnable : Nat → Bool
  lightType : Nat → Nat
  lightComp : Nat → Nat
  numBoneWeights : Nat
  boneWeightScale : Nat
  texFmtScale : Nat

/-- The decoding step of GenerateVertexShader: every field is read by the expression the
generator uses for it. -/
def decodeFields (env : GenEnv) (id : ShaderID) : KeyFields :=
  let v := decodeLocals env id
  { lmode := v.lmode
    doTexture := v.doTexture
    doTextureProjection := v.doTextureProjection
    uvGenMode := v.uvGenMode
    uvProjMode := v.uvProjMode
    doFlatShading := v.doFlatShading
    isModeThrough := v.isModeThrough
    useHWTransform := v.useHWTransform
    hasColor := v.hasColor
    hasNormal := v.hasNormal
    hasTexcoord := v.hasTexcoord
    enableFog := v.enableFog
    flipV := v.flipV
    flipNormal := v.flipNormal
    enableBones := v.enableBones
    enableLighting := v.enableLighting
    ls0 := v.ls0
    ls1 := v.ls1
    matUpdate := v.matUpdate
    lightEnable := fun i => id.Bit (BIT_LIGHT0_ENABLE + i)
    lightType := lightTypeOf id
    lightComp := lightCompOf id
    numBoneWeights := v.numBoneWeights
    boneWeightScale := v.boneWeightScale
    texFmtScale := v.texFmtScale }

/-- Re-encoding, step 2 of spec §4.2: the base fields, set always. -/
def encodeBaseFields (f : KeyFields) (id : ShaderID) : ShaderID :=
  (((id.SetBit BIT_LMODE f.lmode).SetBit BIT_IS_THROUGH f.isModeThrough).SetBit
    BIT_ENABLE_FOG f.enableFog).SetBit BIT_HAS_COLOR f.hasColor

/-- Re-encoding, step 3 of spec §4.2: the texture fields, set when texturing is on. -/
def encodeTextureFields (f : KeyFields) (id : ShaderID) : ShaderID :=
  if f.doTexture then
    ((id.SetBit BIT_DO_TEXTURE true).SetBit BIT_FLIP_TEXTURE f.flipV).SetBit
      BIT_DO_TEXTURE_PROJ f.doTextureProjection
  else id

/-- Re-encoding, step 4 of spec §4.2, first part: bones-enable, hardware-transform flag,
has-normal and the UV generation mode. -/
def encodeTransformFields (f : KeyFields) (id : ShaderID) : ShaderID :=
  (((id.SetBit BIT_ENABLE_BONES f.enableBones).SetBit BIT_USE_HW_TRANSFORM true).SetBit
    BIT_HAS_NORMAL f.hasNormal).SetBits BIT_UVGEN_MODE 2 f.uvGenMode

/-- Re-encoding of the aliased bits 18-21: the UV projection sub-mode when the decoded UV
generation mode is texture-matrix, the two light indices when it is environment-map. -/
def encodeUVSubFields (f : KeyFields) (id : ShaderID) : ShaderID :=
  if f.uvGenMode == GE_TEXMAP_TEXTURE_MATRIX then
    id.SetBits BIT_UVPROJ_MODE 2 f.uvProjMode
  else if f.uvGenMode == GE_TEXMAP_ENVIRONMENT_MAP then
    (id.SetBits BIT_LS0 2 f.ls0).SetBits BIT_LS1 2 f.ls1
  else id

/-- Re-encoding of the bone-count field: the decoded number of bone weights minus one, when
bones are enabled. -/
def encodeBoneFields (f : KeyFields) (id : ShaderID) : ShaderID :=
  if f.enableBones then id.SetBits BIT_BONES 3 (f.numBoneWeights - 1) else id

/-- Re-encoding of the computation-mode and light-type slot of light i, when the light is
enabled. -/
def encodeLightSlot (f : KeyFields) (i : Nat) (id : ShaderID) : ShaderID :=
  if f.lightEnable i then
    (id.SetBits (BIT_LIGHT0_COMP + 4 * i) 2 (f.lightComp i)).SetBits
      (BIT_LIGHT0_TYPE + 4 * i) 2 (f.lightType i)
  else id

/-- Re-encoding of the lighting fields, when lighting is enabled: the four light slots, the
material-update mask, the four light enable flags and the lighting-enabled flag. -/
def encodeLightingFields (f : KeyFields) (id : ShaderID) : ShaderID :=
  if f.enableLighting then
    let id := encodeLightSlot f 3 (encodeLightSlot f 2 (encodeLightSlot f 1 (encodeLightSlot f 0 id)))
    let id := id.SetBits BIT_MATERIAL_UPDATE 3 f.matUpdate
    let id :=
      (((id.SetBit (BIT_LIGHT0_ENABLE + 0) (f.lightEnable 0)).SetBit (BIT_LIGHT0_ENABLE + 1)
        (f.lightEnable 1)).SetBit (BIT_LIGHT0_ENABLE + 2) (f.lightEnable 2)).SetBit
        (BIT_LIGHT0_ENABLE + 3) (f.lightEnable 3)
    id.SetBit BIT_LIGHTING_ENABLE true
  else id

/-- Re-encoding of the aliased bits 60-61: the texcoord scale when the decoded UV generation
mode is texture-matrix with sub-mode UV, the has-texcoord flag otherwise. -/
def encodeTexcoordFields (f : KeyFields) (id : ShaderID) : ShaderID :=
  if f.uvGenMode == GE_TEXMAP_TEXTURE_MATRIX && f.uvProjMode == GE_PROJMAP_UV then
    id.SetBits BIT_TEXCOORD_FMTSCALE 2 f.texFmtScale
  else
    id.SetBit BIT_HAS_TEXCOORD f.hasTexcoord

/-- Re-encoding, step 4 of spec §4.2: all fields set when hardware transform is active. -/
def encodeHardwareFields (f : KeyFields) (id : ShaderID) : ShaderID :=
  if f.useHWTransform then
    encodeTexcoordFields f
      (((encodeLightingFields f
        (encodeBoneFields f (encodeUVSubFields f (encodeTransformFields f id)))).SetBits
          BIT_WEIGHT_FMTSCALE 2 f.boneWeightScale).SetBit BIT_NORM_REVERSE f.flipNormal)
  else id

/-- Re-encoding of decoded fields with the field layout of ComputeVertexShaderID (spec §4.2
steps 2-5): each decoded field is written back at the offset and width the encoder uses for
it, starting from an empty key. -/
def encodeFields (f : KeyFields) : ShaderID :=
  (encodeHardwareFields f (encodeTextureFields f (encodeBaseFields f ShaderID.empty))).SetBit
    BIT_FLATSHADE f.doFlatShading

/-- The field values ComputeVertexShaderID derives from a render state before it writes them
(source lines 98-112, and the values passed to SetBit and SetBits at lines 132-172). The
count of bone weights is one more than the value written at line 144 when the vertex format
has skinning; the texcoord scale is the value line 170 writes with SetBit. -/
def stateFields (k : Decls) (vertType enabled : Nat) (raster : RasterState)
    (ts : TexScaleState) (lgs : LightGlobalState) (ls : Nat → LightState)
    (flipTexture useHWTransform : Bool) : KeyFields :=
  let isModeThrough := vertType &&& k.GE_VTYPE_THROUGH_MASK != 0
  let isModeClear := raster.clearMode
  { lmode := lgs.lmode && (enabled &&& k.ENABLE_LIGHTS != 0)
    doTexture := (enabled &&& k.ENABLE_TEXTURE != 0) && !isModeClear
    doTextureProjection := ts.getUVGenMode == GE_TEXMAP_TEXTURE_MATRIX
    uvGenMode := ts.getUVGenMode
    uvProjMode := ts.getUVProjMode
    doFlatShading := raster.shadeMode == k.GE_SHADE_FLAT && !isModeClear
    isModeThrough := isModeThrough
    useHWTransform := useHWTransform
    hasColor := vertType &&& k.GE_VTYPE_COL_MASK != 0
    hasNormal := vertType &&& k.GE_VTYPE_NRM_MASK != 0
    hasTexcoord := vertType &&& k.GE_VTYPE_TC_MASK != 0 || !useHWTransform
    enableFog := (enabled &&& k.ENABLE_FOG != 0) && !isModeThrough && !isModeClear
    flipV := flipTexture
    flipNormal := lgs.areNormalsReversed
    enableBones := enabled &&& k.ENABLE_BONES != 0
    enableLighting :=
      (enabled != 0 && k.ENABLE_LIGHTS != 0) || ts.getUVGenMode == GE_TEXMAP_ENVIRONMENT_MAP
    ls0 := ts.getUVLS0
    ls1 := ts.getUVLS1
    matUpdate := lgs.materialUpdate &&& 7
    lightEnable := fun i => enabled &&& ((k.ENABLE_LIGHT0 <<< i) % 4294967296) != 0
    lightType := fun i => (ls i).getLightType
    lightComp := fun i => (ls i).getLightComputation
    numBoneWeights :=
      if k.vertTypeIsSkinningEnabled vertType then
        minusOne32 (k.TranslateNumBones (k.vertTypeGetNumBoneWeights vertType)) + 1
      else 1
    boneWeightScale := k.vertTypeGetWeightMask vertType
    texFmtScale :=
      if (vertType &&& k.GE_VTYPE_TC_MASK) >>> k.GE_VTYPE_TC_SHIFT != 0 then 1 else 0 }

/-! ## Concrete inputs used for evaluation -/

/-- A concrete choice of the header declarations, used to evaluate the encoder on explicit
inputs: the vertex type masks follow the layout of the PSP vertex type register (texcoord
format in bits 0-1, colour format in bits 2-4, normal format in bits 5-6, weight format in
bits 9-10, weight count in bits 14-16, through mode in bit 23), the feature flags are distinct
single bits. The theorems about all inputs do not depend on this choice. -/
def sampleDecls : Decls :=
  { GE_PRIM_RECTANGLES := 6
    GE_VTYPE_THROUGH_MASK := 1 <<< 23
    GE_VTYPE_COL_MASK := 7 <<< 2
    GE_VTYPE_NRM_MASK := 3 <<< 5
    GE_VTYPE_TC_MASK := 3
    GE_VTYPE_TC_SHIFT := 0
    GE_SHADE_FLAT := 0
    ENABLE_TEXTURE := 1
    ENABLE_FOG := 2
    ENABLE_BONES := 4
    ENABLE_LIGHTS := 8
    ENABLE_LIGHT0 := 16
    vertTypeIsSkinningEnabled := fun vertType => vertType &&& (3 <<< 9) != 0
    vertTypeGetNumBoneWeights := fun vertType => 1 + ((vertType &&& (7 <<< 14)) >>> 14)
    TranslateNumBones := fun n => n
    vertTypeGetWeightMask := fun vertType => (vertType &&& (3 <<< 9)) >>> 9 }

/-- A desktop OpenGL 2.1 environment with hardware transform on and UV prescaling off. -/
def sampleEnv : GenEnv :=
  { build := Build.desktop
    gl_extensions := { GLES3 := false, bugs := 0, verMajor := 2, verMinor := 1, verSub := 0 }
    BUG_PVR_SHADER_PRECISION_BAD := 1
    g_Config := { bHardwareTransform := true, bPrescaleUV := false } }

/-- A desktop OpenGL 3.3 environment (modern profile). -/
def sampleEnv33 : GenEnv :=
  { build := Build.desktop
    gl_extensions := { GLES3 := false, bugs := 0, verMajor := 3, verMinor := 3, verSub := 0 }
    BUG_PVR_SHADER_PRECISION_BAD := 1
    g_Config := { bHardwareTransform := true, bPrescaleUV := false } }

/-- Four lights that all request computation mode 2 and light type 1. -/
def sampleLights : Nat → LightState :=
  fun _ => { getLightComputation := 2, getLightType := 1 }

/-- A key with hardware transform and lighting on, lights 0 and 2 enabled (light 2 a spot
light with powered diffuse), environment mapping with light indices 1 and 3, texturing on. -/
def sampleLitKey : ShaderID :=
  ⟨2 ^ 8 + 2 ^ 56 + 2 ^ 52 + 2 ^ 54 + 2 ^ 41 + 2 ^ 43 + 2 ^ 4 + 2 ^ 17 + 2 ^ 18 + 3 * 2 ^ 20⟩

/-- A key with hardware transform and the bones-enable bit set and bone-count field 4, that
is five bone weights. -/
def sampleBonesKey : ShaderID :=
  ⟨2 ^ 8 + 2 ^ 30 + 4 * 2 ^ 22⟩

/-- The arguments of one call of ComputeVertexShaderID. -/
structure EncoderInput where
  vertType : Nat
  enabled : Nat
  raster : RasterState
  ts : TexScaleState
  lgs : LightGlobalState
  ls : Nat → LightState
  flipTexture : Bool
  useHWTransform : Bool

/-- The key ComputeVertexShaderID computes for the given arguments. -/
def EncoderInput.key (k : Decls) (s : EncoderInput) : ShaderID :=
  ComputeVertexShaderID k s.vertType s.enabled s.raster s.ts s.lgs s.ls s.flipTexture
    s.useHWTransform

/-- A call with no vertex format bits, no feature flags, smooth shading, UV generation mode
texture-coords, no material update, the lights of sampleLights and hardware transform. -/
def plainInput : EncoderInput :=
  { vertType := 0, enabled := 0, raster := ⟨false, 1⟩, ts := ⟨0, 0, 0, 0⟩,
    lgs := ⟨false, 0, false⟩, ls := sampleLights, flipTexture := false, useHWTransform := true }

/-- Pairs of calls (with the declarations of sampleDecls) that differ in one argument each:
the UV generation mode (0, 3) with texturing on; the UV projection sub-mode (0, 3) in
texture-matrix mode without texturing; the second shade-mapping light index (0, 3) in
environment-map mode with all four lights enabled; the number of bone weights (1, 8) of a
skinning vertex format without the bones feature; the flip flag with texturing and software
transform; the computation mode of all lights (1, 3); the type of all lights (2, 3); the
material update mask (0, 7) without vertex colour; the weight format (1, 2); the
normal-reverse flag without vertex normal, bones feature on; the texcoord format (0, 1)
without texturing, bones feature on; the shade mode (smooth, flat). -/
def freeBitExamples : List (EncoderInput × EncoderInput) :=
  [ ({ plainInput with vertType := 1, enabled := 1 },
      { plainInput with vertType := 1, enabled := 1, ts := ⟨3, 0, 0, 0⟩ }),
    ({ plainInput with ts := ⟨1, 0, 0, 0⟩ }, { plainInput with ts := ⟨1, 3, 0, 0⟩ }),
    ({ plainInput with enabled := 248, ts := ⟨2, 0, 0, 0⟩ },
      { plainInput with enabled := 248, ts := ⟨2, 0, 0, 3⟩ }),
    ({ plainInput with vertType := 1 <<< 9 },
      { plainInput with vertType := (1 <<< 9) + (7 <<< 14) }),
    ({ plainInput with enabled := 1, useHWTransform := false },
      { plainInput with enabled := 1, useHWTransform := false, flipTexture := true }),
    ({ plainInput with enabled := 248, ls := fun _ => ⟨1, 1⟩ },
      { plainInput with enabled := 248, ls := fun _ => ⟨3, 1⟩ }),
    ({ plainInput with enabled := 248, ls := fun _ => ⟨1, 2⟩ },
      { plainInput with enabled := 248, ls := fun _ => ⟨1, 3⟩ }),
    ({ plainInput with enabled := 8 }, { plainInput with enabled := 8, lgs := ⟨false, 7, false⟩ }),
    ({ plainInput with vertType := 1 <<< 9 }, { plainInput with vertType := 2 <<< 9 }),
    ({ plainInput with enabled := 4 }, { plainInput with enabled := 4, lgs := ⟨false, 0, true⟩ }),
    ({ plainInput with enabled := 4 }, { plainInput with enabled := 4, vertType := 1 }),
    (plainInput, { plainInput with raster := ⟨false, 0⟩ }) ]

/-! ## Statements and mentions in a generated source -/

/-- Test that a character sequence occurs in a line. -/
def containsText (p : List Char) : List Char → Bool
  | [] => p.isPrefixOf []
  | c :: cs => p.isPrefixOf (c :: cs) || containsText p cs

/-- The statements of main() in a source text: the lines between the line that opens main()
and the line of the closing brace. -/
def mainStatements (src : String) : List (List Char) :=
  ((bodyLines src).drop 1).takeWhile (fun l => l != "\x7d".data)

/-- Test that some line of main() in a source text mentions the given text. -/
def bodyMentions (src : String) (text : String) : Bool :=
  (bodyLines src).any (containsText text.data)

/-- Test that some complete line of the written strings mentions the given text. -/
def writesMention (cs : List String) (text : String) : Bool :=
  cs.any (fun c => (completeLines c).any (containsText text.data))

/-! ## The software transform path as specified -/

/-- The texcoord passthrough of the software transform path as the specification states it:
present when texturing, with the 3-component expansion in through mode with projective
texturing. -/
def specTexcoordPassthrough (id : ShaderID) : List String :=
  if id.Bit BIT_DO_TEXTURE then
    [if id.Bit BIT_IS_THROUGH && id.Bit BIT_DO_TEXTURE_PROJ then
       "  v_texcoord = vec3(texcoord, 1.0);"
     else "  v_texcoord = texcoord;"]
  else []

/-- The colour passthrough of the software transform path as the specification states it:
from color0, or from u_matambientalpha when there is no colour attribute. -/
def specColourPassthrough (id : ShaderID) : List String :=
  [if id.Bit BIT_HAS_COLOR then "  v_color0 = color0;" else "  v_color0 = u_matambientalpha;"]

/-- The fog passthrough of the software transform path as the specification states it. -/
def specFogPassthrough (id : ShaderID) : List String :=
  if id.Bit BIT_ENABLE_FOG then ["  v_fogdepth = position.w;"] else []

/-- The projection statement of the software transform path as the specification states it:
u_proj_through in through mode, u_proj otherwise, applied to vec4(position.xyz, 1.0). -/
def specProjection (id : ShaderID) : List String :=
  [if id.Bit BIT_IS_THROUGH then "  gl_Position = u_proj_through * vec4(position.xyz, 1.0);"
   else "  gl_Position = u_proj * vec4(position.xyz, 1.0);"]

/-- The statements of main() on the software transform path as the specification lists
them. -/
def specSoftwareStatements (id : ShaderID) : List String :=
  specTexcoordPassthrough id ++ specColourPassthrough id ++ specFogPassthrough id ++
    specProjection id

/-- The secondary colour statement of the software transform path, present when the
light-mode bit is set: from color1, or the constant zero when there is no colour
attribute. -/
def secondaryColourStatement (id : ShaderID) : List String :=
  if id.Bit BIT_LMODE then
    [if id.Bit BIT_HAS_COLOR then "  v_color1 = color1;" else "  v_color1 = vec3(0.0);"]
  else []

/-- The texts of the hardware transform path looked for in main() of the software path:
world and view transform, lighting, UV generation. -/
def hardwarePathTexts : List String :=
  ["u_world", "u_view", "worldpos", "worldnormal", "viewPos", "lightSum", "toLight", "u_light",
    "u_texmtx", "u_uvscaleoffset", "u_bone", "skin"]

/-! ## The powered-diffuse guard -/

/-- The statements of the powered-diffuse guard in the block of light i (source lines
616-620). -/
def poweredDiffuseGuard (i : Nat) : List String :=
  [ "  if (dot" ++ fmtInt i ++ " == 0.0 && u_matspecular.a == 0.0) \x7b\n",
    "    dot" ++ fmtInt i ++ " = 1.0;\n",
    "  \x7d else \x7b\n",
    "    dot" ++ fmtInt i ++ " = pow(dot" ++ fmtInt i ++ ", u_matspecular.a);\n",
    "  \x7d\n" ]

/-- The statement that defines the clamped dot product of light i (source line 612). -/
def clampedDotStatement (i : Nat) : String :=
  "  mediump float dot" ++ fmtInt i ++ " = max(dot(toLight, worldnormal), 0.0);\n"

/-- Test that a run of strings occurs consecutively in a sequence of written strings. -/
def hasRun (run : List String) : List String → Bool
  | [] => run.isPrefixOf []
  | c :: cs => run.isPrefixOf (c :: cs) || hasRun run cs

/-- The strings of the block of light i that assign dot<i> in front of the diffuse statement
(source line 647): the values the diffuse term is computed from. -/
def dotAssignments (i : Nat) (block : List String) : List String :=
  (block.takeWhile (fun c => !startsWith "  diffuse = " c)).filter
    (fun c => containsText ("dot" ++ fmtInt i ++ " = ").data c.data)

/-! ## Tests on the lines of written strings -/

/-- A test on one line of a generated source: the line is the given text, ends with it, starts
with it, or mentions it. -/
inductive LineTest where
  | exactly (text : String)
  | ending (text : String)
  | start (text : String)
  | mention (text : String)

/-- The outcome of a test on a line. -/
def LineTest.holds : LineTest → List Char → Bool
  | LineTest.exactly t, l => l == t.data
  | LineTest.ending t, l => t.data.isSuffixOf l
  | LineTest.start t, l => t.data.isPrefixOf l
  | LineTest.mention t, l => containsText t.data l

/-- Test that some complete line of the written strings passes a test. -/
def writesTest (cs : List String) (t : LineTest) : Bool :=
  cs.any (fun c => (completeLines c).any t.holds)

/-- For each test of a list, whether some complete line of the written strings passes it. -/
def lineSummary (ts : List LineTest) (cs : List String) : List Bool :=
  ts.map (writesTest cs)

/-- The statement of the vertical flip at the end of UV generation (source line 752). -/
def flipStatement : String :=
  "  v_texcoord.y = 1.0 - v_texcoord.y;"

/-- The tests made on the lines of main() for UV generation: a mention of the UV scale and
offset uniform, the flip statement, an assignment to v_texcoord. -/
def uvTests : List LineTest :=
  [ LineTest.mention "u_uvscaleoffset", LineTest.exactly flipStatement,
    LineTest.start "  v_texcoord = " ]

/-! ## Endings of uniform declarations -/

/-- The names of the per-light uniforms, without the light index (source lines 373-391). -/
def lightUniformNames : List String :=
  ["u_lightpos", "u_lightatt", "u_lightdir", "u_lightangle", "u_lightspotCoef",
    "u_lightambient", "u_lightdiffuse", "u_lightspecular"]

/-- The ending of a declaration line that declares the uniform of the given name for light
i. -/
def lightUniformEnding (n : String) (i : Nat) : String :=
  " " ++ n ++ fmtInt i ++ ";"

/-- The ending of the declaration line of the UV scale and offset uniform (source line
368). -/
def uvScaleOffsetEnding : String :=
  " u_uvscaleoffset;"

/-- The endings of the declaration lines of the UV scale and offset uniform and of the
per-light uniforms. -/
def uniformEndings : List String :=
  uvScaleOffsetEnding ::
    [0, 1, 2, 3].flatMap (fun i => lightUniformNames.map (fun n => lightUniformEnding n i))

/-- For each name of lightUniformNames, the condition under which source lines 370-394
declare the uniform for a light with the given computation, type and computation mode. -/
def lightUniformConditions (d : DoLightComputation) (t c : Nat) : List Bool :=
  [ d != DoLightComputation.LIGHT_OFF,
    d == DoLightComputation.LIGHT_FULL && t != GE_LIGHTTYPE_DIRECTIONAL,
    d == DoLightComputation.LIGHT_FULL && (t == GE_LIGHTTYPE_SPOT || t == GE_LIGHTTYPE_UNKNOWN),
    d == DoLightComputation.LIGHT_FULL && (t == GE_LIGHTTYPE_SPOT || t == GE_LIGHTTYPE_UNKNOWN),
    d == DoLightComputation.LIGHT_FULL && (t == GE_LIGHTTYPE_SPOT || t == GE_LIGHTTYPE_UNKNOWN),
    d == DoLightComputation.LIGHT_FULL,
    d == DoLightComputation.LIGHT_FULL,
    d == DoLightComputation.LIGHT_FULL && c != GE_LIGHTCOMP_ONLYDIFFUSE ]

/-! ## UV generation statements -/

/-- The statement of environment-map UV generation for the light indices a and b (source line
742). -/
def envMapStatement (a b : Nat) : String :=
  "  v_texcoord = u_uvscaleoffset.xy * vec2(1.0 + dot(normalize(u_lightpos" ++ fmtInt a ++
    "), worldnormal), 1.0 + dot(normalize(u_lightpos" ++ fmtInt b ++ "), worldnormal)) * 0.5;"

/-- The assignments to v_texcoord in main() of a source text. -/
def texcoordStatements (src : String) : List (List Char) :=
  (bodyLines src).filter (LineTest.start "  v_texcoord = ").holds

/-! ## Distance, attenuation and specular lighting -/

/-- The statement of the block of light i that takes the light position as the direction to
the light (source line 602). -/
def directToLight (i : Nat) : String :=
  "  toLight = u_lightpos" ++ fmtInt i ++ ";"

/-- The statement of the block of light i that computes the direction to the light from the
world position (source line 604). -/
def relativeToLight (i : Nat) : String :=
  "  toLight = u_lightpos" ++ fmtInt i ++ " - worldpos;"

/-- The texts of distance, attenuation and specular lighting looked for in main(). -/
def attenuationTexts : List String :=
  ["distance", "lightScale", "lightSum1", "u_lightatt", "u_lightspecular"]

/-- The tests for distance, attenuation and specular lighting made on the lines of main(): a
mention of one of attenuationTexts, or the statement that computes the direction to a light
from the world position. -/
def attenuationTests : List LineTest :=
  attenuationTexts.map LineTest.mention ++
    [0, 1, 2, 3].map (fun i => LineTest.exactly (relativeToLight i))

/-! ## The parts of a light block -/

/-- Source lines 600-645: the statements of the block of a light of the given type and
computation mode that compute the direction to the light, the clamped dot product with its
powered-diffuse guard, and the attenuation. -/
def lightDirectionWrites (i type comp : Nat) : List String :=
  (if type == GE_LIGHTTYPE_DIRECTIONAL then
    ["  toLight = u_lightpos" ++ fmtInt i ++ ";\n"]
   else
    [ "  toLight = u_lightpos" ++ fmtInt i ++ " - worldpos;\n",
      "  distance = length(toLight);\n",
      "  toLight /= distance;\n" ]) ++
  ["  mediump float dot" ++ fmtInt i ++ " = max(dot(toLight, worldnormal), 0.0);\n"] ++
  (if comp == GE_LIGHTCOMP_BOTHWITHPOWDIFFUSE then
    [ "  if (dot" ++ fmtInt i ++ " == 0.0 && u_matspecular.a == 0.0) \x7b\n",
      "    dot" ++ fmtInt i ++ " = 1.0;\n",
      "  \x7d else \x7b\n",
      "    dot" ++ fmtInt i ++ " = pow(dot" ++ fmtInt i ++ ", u_matspecular.a);\n",
      "  \x7d\n" ]
   else []) ++
  (if type == GE_LIGHTTYPE_DIRECTIONAL then []
   else if type == GE_LIGHTTYPE_POINT then
    ["  lightScale = clamp(1.0 / dot(u_lightatt" ++ fmtInt i ++
      ", vec3(1.0, distance, distance*distance)), 0.0, 1.0);\n"]
   else if type == GE_LIGHTTYPE_SPOT || type == GE_LIGHTTYPE_UNKNOWN then
    [ "  lowp float angle" ++ fmtInt i ++ " = dot(normalize(u_lightdir" ++ fmtInt i ++
        "), toLight);\n",
      "  if (angle" ++ fmtInt i ++ " >= u_lightangle" ++ fmtInt i ++ ") \x7b\n",
      "    lightScale = clamp(1.0 / dot(u_lightatt" ++ fmtInt i ++
        ", vec3(1.0, distance, distance*distance)), 0.0, 1.0) * pow(angle" ++ fmtInt i ++
        ", u_lightspotCoef" ++ fmtInt i ++ ");\n",
      "  \x7d else \x7b\n",
      "    lightScale = 0.0;\n",
      "  \x7d\n" ]
   else [])

/-- Source line 647: the diffuse statement of the block of light i with the given diffuse
material term. -/
def lightDiffuseWrites (i : Nat) (diffuse : String) : List String :=
  ["  diffuse = (u_lightdiffuse" ++ fmtInt i ++ " * " ++ diffuse ++ ") * dot" ++
    fmtInt i ++ ";\n"]

/-- Source lines 648-652: the specular statements of the block of light i with the given
specular material term. -/
def lightSpecularWrites (i type comp : Nat) (specular : String) : List String :=
  if comp != GE_LIGHTCOMP_ONLYDIFFUSE then
    [ "  dot" ++ fmtInt i ++ " = dot(normalize(toLight + vec3(0.0, 0.0, 1.0)), worldnormal);\n",
      "  if (dot" ++ fmtInt i ++ " > 0.0)\n",
      "    lightSum1 += u_lightspecular" ++ fmtInt i ++ " * " ++ specular ++ " * (pow(dot" ++
        fmtInt i ++ ", u_matspecular.a) " ++
        (if type == GE_LIGHTTYPE_DIRECTIONAL then "" else " * lightScale") ++ ");\n" ]
  else []

/-- Source line 653: the statement of the block of light i that adds the ambient and diffuse
contribution to the light sum, with the given ambient material term. -/
def lightSumWrites (i type : Nat) (ambient : String) : List String :=
  ["  lightSum0.rgb += (u_lightambient" ++ fmtInt i ++ " * " ++ ambient ++
    ".rgb + diffuse)" ++ (if type == GE_LIGHTTYPE_DIRECTIONAL then "" else " * lightScale") ++
    ";\n"]

/-- The strings temp_tc can hold after the switch over the UV projection mode (source lines
708-735). -/
def temp_tc_values : List String :=
  [ "vec4(position.xyz, 1.0)", "vec4(texcoord.xy , 0.0, 1.0)",
    "vec4(texcoord.xy  * 1.9921875, 0.0, 1.0)",
    "vec4(texcoord.xy  * 1.999969482421875, 0.0, 1.0)", "vec4(0.0, 0.0, 0.0, 1.0)",
    "vec4(normalize(-normal), 1.0)", "vec4(normalize(normal), 1.0)",
    "vec4(0.0, 0.0, 1.0, 1.0)", "vec4(-normal, 1.0)", "vec4(normal, 1.0)" ]

/-! ## Assignments to the outputs in main() -/

/-- The outputs of the vertex shader that main() can assign: the four varyings and the
position. -/
def outputNames : List String :=
  ["v_color0", "v_color1", "v_texcoord", "v_fogdepth", "gl_Position"]

/-- The start of a statement of main() that assigns the given output. -/
def assignmentStart (n : String) : String :=
  "  " ++ n ++ " = "

/-- Test that some line of main() in a source text assigns the given output. -/
def bodyAssigns (src : String) (n : String) : Bool :=
  (bodyLines src).any (LineTest.start (assignmentStart n)).holds

/-- The start of a statement of main() that multiplies the given uniform into gl_Position
(source lines 458, 460 and 551). -/
def projectionStart (u : String) : String :=
  "  gl_Position = " ++ u ++ " * "

/-- Test that some line of main() in a source text multiplies the given uniform into
gl_Position. -/
def bodyProjects (src : String) (u : String) : Bool :=
  (bodyLines src).any (LineTest.start (projectionStart u)).holds

/-- The tests made on the lines of main() for the outputs: an assignment to each output of
outputNames, and the multiplication of u_proj and of u_proj_through into gl_Position. -/
def outputTests : List LineTest :=
  outputNames.map (fun n => LineTest.start (assignmentStart n)) ++
    [LineTest.start (projectionStart "u_proj"), LineTest.start (projectionStart "u_proj_through")]

/-! ## Material uniforms and material terms -/

/-- The material uniforms (source lines 396-406). -/
def materialUniformNames : List String :=
  ["u_ambient", "u_matemissive", "u_matspecular", "u_matdiffuse", "u_matambientalpha"]

/-- The texts by which the lighting code of main() uses a material term (source lines 564,
647, 651 and 653): for the ambient term in the initial light sum and in the sum of a light,
for the diffuse term and for the specular term, each first with the vertex colour and then
with the material uniform. -/
def materialTermUses : List String :=
  [ "u_ambient * color0 ", "u_ambient * u_matambientalpha ",
    " * color0.rgb + diffuse)", " * u_matambientalpha.rgb + diffuse)",
    " * color0.rgb) * dot", " * u_matdiffuse) * dot",
    " * color0.rgb * (pow(", " * u_matspecular.rgb * (pow(" ]

/-- The tests made on the lines of main() for the material: a mention of each material
uniform, and each use of a material term. -/
def materialTests : List LineTest :=
  (materialUniformNames ++ materialTermUses).map LineTest.mention

/-- Test that the key makes the generator emit the full computation of light i: the decoded
doLight[i] is LIGHT_FULL (source lines 288-297). -/
def lightComputed (id : ShaderID) (i : Nat) : Bool :=
  id.Bit BIT_USE_HW_TRANSFORM && (id.Bit BIT_LIGHTING_ENABLE && id.Bit (BIT_LIGHT0_ENABLE + i))

/-- Test that the key makes the generator emit the full computation of some light. -/
def anyLightComputed (id : ShaderID) : Bool :=
  [0, 1, 2, 3].any (lightComputed id)

/-- Test that the key makes the generator emit the full computation of some light whose
computation mode is not diffuse-only, so that its block has a specular statement. -/
def anySpecularComputed (id : ShaderID) : Bool :=
  [0, 1, 2, 3].any (fun i => lightComputed id i && lightCompOf id i != GE_LIGHTCOMP_ONLYDIFFUSE)

/-- The ambient term as the specification states it: the vertex colour when the ambient
material-update bit and the has-color bit are set, the material uniform otherwise. -/
def specAmbientTerm (id : ShaderID) : String :=
  if id.Bit BIT_MATERIAL_UPDATE && id.Bit BIT_HAS_COLOR then "color0" else "u_matambientalpha"

/-- The diffuse term as the specification states it. -/
def specDiffuseTerm (id : ShaderID) : String :=
  if id.Bit (BIT_MATERIAL_UPDATE + 1) && id.Bit BIT_HAS_COLOR then "color0.rgb"
  else "u_matdiffuse"

/-- The specular term as the specification states it. -/
def specSpecularTerm (id : ShaderID) : String :=
  if id.Bit (BIT_MATERIAL_UPDATE + 2) && id.Bit BIT_HAS_COLOR then "color0.rgb"
  else "u_matspecular.rgb"

/-! ## The interface declarations -/

/-- The varyings of the vertex shader (source lines 412-432). -/
def varyingNames : List String :=
  ["v_color0", "v_color1", "v_texcoord", "v_fogdepth"]

/-- The ending of a declaration line that declares the given name. -/
def declarationEnding (n : String) : String :=
  " " ++ n ++ ";"

/-- Test that some declaration line of a source text passes a test. -/
def declarationHas (src : String) (t : LineTest) : Bool :=
  (declarationLines src).any t.holds

/-- The declaration of v_color0 with the flat qualifier on the modern profile (source line
412). -/
def flatColor0Declaration : String :=
  "flat out lowp vec4 v_color0;"

/-- The declaration of v_color1 with the flat qualifier on the modern profile (source line
414). -/
def flatColor1Declaration : String :=
  "flat out lowp vec3 v_color1;"

/-- The tests made on the declaration lines for the interface of the shader: the declaration
of each varying, of the two projection uniforms and of each material uniform; a line that
starts with the attribute keyword of the legacy profile or of the modern profile; a mention of
the varying keyword of the legacy profile or of the modern profile; a mention of the flat
qualifier; the two declarations with the flat qualifier. -/
def interfaceTests : List LineTest :=
  (varyingNames ++ ["u_proj", "u_proj_through"] ++ materialUniformNames).map
      (fun n => LineTest.ending (declarationEnding n)) ++
    [ LineTest.start "attribute ", LineTest.start "in ", LineTest.mention "varying ",
      LineTest.mention "out ", LineTest.mention "flat",
      LineTest.exactly flatColor0Declaration, LineTest.exactly flatColor1Declaration ]

/-! ## The desktop dialect header -/

/-- The version of the dialect header on a desktop build as the specification states it: 330
for a GL version of at least 3.3, 130 for a GL version of at least 3.0, 110 otherwise. -/
def specDesktopVersion (env : GenEnv) : String :=
  if env.gl_extensions.VersionGEThan 3 3 0 then "330"
  else if env.gl_extensions.VersionGEThan 3 0 0 then "130"
  else "110"

/-- The first four lines of a source text of a desktop build with the given version: the
version line and the three lines that define the precision qualifiers to nothing. -/
def desktopHeaderLines (version : String) : List (List Char) :=
  [("#version " ++ version).data, "#define lowp".data, "#define mediump".data,
    "#define highp".data]

/-- The tests made on the declaration lines for the dialect: a line that starts with the input
keyword of the legacy profile (attribute) or of the modern profile (in), a mention of the
varying keyword of the legacy profile or of the modern profile, a mention of the flat
qualifier, and the declarations of v_color0 and v_color1 with the flat qualifier. -/
def dialectTests : List LineTest :=
  [ LineTest.start "attribute ", LineTest.start "in ", LineTest.mention "varying ",
    LineTest.mention "out ", LineTest.mention "flat",
    LineTest.exactly flatColor0Declaration, LineTest.exactly flatColor1Declaration ]

/-! ## More concrete inputs -/

/-- The key of a software transform draw with the lights feature and light mode on, without
vertex colour. -/
def sampleSoftwareKey : ShaderID :=
  ComputeVertexShaderID sampleDecls 0 8 ⟨false, 1⟩ ⟨0, 0, 0, 0⟩ ⟨true, 0, false⟩ sampleLights
    false false

/-- A desktop OpenGL 2.1 environment with the prescale option on. -/
def samplePrescaleEnv : GenEnv :=
  { build := Build.desktop
    gl_extensions := { GLES3 := false, bugs := 0, verMajor := 2, verMinor := 1, verSub := 0 }
    BUG_PVR_SHADER_PRECISION_BAD := 1
    g_Config := { bHardwareTransform := true, bPrescaleUV := true } }

/-- A key with hardware transform and lighting on and lights 0 and 3 enabled, both
directional with computation mode diffuse-only. -/
def sampleDirectionalKey : ShaderID :=
  ⟨2 ^ 8 + 2 ^ 56 + 2 ^ 52 + 2 ^ 55⟩

/-- The key of a through-mode draw with hardware transform: the vertex type has the through
bit only, no feature is enabled. -/
def sampleHardwareThroughKey : ShaderID :=
  ComputeVertexShaderID sampleDecls (1 <<< 23) 0 ⟨false, 1⟩ ⟨0, 0, 0, 0⟩ ⟨false, 0, false⟩
    sampleLights false true

/-- A key with hardware transform and lighting on, light 0 enabled with computation mode
diffuse-only, a colour attribute, and the ambient and specular material-update bits set. -/
def sampleMaterialKey : ShaderID :=
  ⟨2 ^ 8 + 2 ^ 56 + 2 ^ 52 + 2 ^ 48 + 2 ^ 50 + 2 ^ 3⟩

/-- A software transform key with the light-mode bit and the flat-shading bit set. -/
def sampleFlatKey : ShaderID :=
  ⟨2 ^ 0 + 2 ^ 62⟩
/-! ## Properties -/

set_option maxRecDepth 100000

/-- C1: CanUseHardwareTransform returns true exactly when the global hardware-transform option
is on, the vertex stream is in through mode and the primitive is not the rectangles primitive;
in particular it returns false whenever the option is off. -/
theorem CanUseHardwareTransform_iff (g_Config : Config) (k : Decls) (prim : Nat)
    (isModeThrough : Bool) :
    CanUseHardwareTransform g_Config k prim isModeThrough = true ↔
      g_Config.bHardwareTransform = true ∧ isModeThrough = true ∧ prim ≠ k.GE_PRIM_RECTANGLES := by
  unfold CanUseHardwareTransform
  cases g_Config.bHardwareTransform <;> cases isModeThrough <;> simp

/-- C4: at a software-transform render state with texturing on, the key does not carry the
forced texcoord presence: the generator decodes has-texcoord as false and the written source
reads texcoord in main() without declaring a texcoord attribute. -/
theorem software_transform_texcoord_undeclared :
    (decodeLocals sampleEnv
        (ComputeVertexShaderID sampleDecls 0 1 ⟨false, 1⟩ ⟨0, 0, 0, 0⟩ ⟨false, 0, false⟩
          sampleLights false false)).hasTexcoord = false ∧
    GenerateVertexShader sampleEnv
        (ComputeVertexShaderID sampleDecls 0 1 ⟨false, 1⟩ ⟨0, 0, 0, 0⟩ ⟨false, 0, false⟩
          sampleLights false false) =
      [ "#version 110\n", "#define lowp\n", "#define mediump\n", "#define highp\n",
        "attribute vec4 position;\n",
        "uniform mat4 u_proj;\n",
        "uniform lowp vec4 u_matambientalpha;\n",
        " varying lowp vec4 v_color0;\n",
        "varying mediump vec2 v_texcoord;\n",
        "void main() \x7b\n",
        "  v_texcoord = texcoord;\n",
        "  v_color0 = u_matambientalpha;\n",
        "  gl_Position = u_proj * vec4(position.xyz, 1.0);\n",
        "\x7d\n" ] := by
  decide!

/-- C5: with hardware transform, a feature mask that has only the texture bit (no lights bit)
and UV mode texture-coords still sets the lighting-enabled bit 56; and a feature mask that has
only the light-0 bit (no lights bit) gets the light-0 enable bit 52 and the computation and
type fields of light 0 written. -/
theorem lighting_bit_set_without_lights_bit :
    (1 &&& sampleDecls.ENABLE_LIGHTS = 0 ∧
      (ComputeVertexShaderID sampleDecls 0 1 ⟨false, 1⟩ ⟨0, 0, 0, 0⟩ ⟨false, 0, false⟩
        sampleLights false true).Bit BIT_LIGHTING_ENABLE = true) ∧
    (16 &&& sampleDecls.ENABLE_LIGHTS = 0 ∧
      (ComputeVertexShaderID sampleDecls 0 16 ⟨false, 1⟩ ⟨0, 0, 0, 0⟩ ⟨false, 0, false⟩
        sampleLights false true).Bit BIT_LIGHT0_ENABLE = true ∧
      (ComputeVertexShaderID sampleDecls 0 16 ⟨false, 1⟩ ⟨0, 0, 0, 0⟩ ⟨false, 0, false⟩
        sampleLights false true).Bits BIT_LIGHT0_COMP 2 = 2 ∧
      (ComputeVertexShaderID sampleDecls 0 16 ⟨false, 1⟩ ⟨0, 0, 0, 0⟩ ⟨false, 0, false⟩
        sampleLights false true).Bits BIT_LIGHT0_TYPE 2 = 1) := by
  decide!

/-- C6: with hardware transform, UV mode texture-matrix and projection sub-mode UV, the
texcoord format codes 2 and 3 of the vertex format are both read back from the key as 1 by the
generator (codes 0 and 1 are read back unchanged). -/
theorem texcoord_scale_field_loses_high_bit :
    (decodeLocals sampleEnv
        (ComputeVertexShaderID sampleDecls 0 0 ⟨false, 1⟩ ⟨1, 1, 0, 0⟩ ⟨false, 0, false⟩
          sampleLights false true)).texFmtScale = 0 ∧
    (decodeLocals sampleEnv
        (ComputeVertexShaderID sampleDecls 1 0 ⟨false, 1⟩ ⟨1, 1, 0, 0⟩ ⟨false, 0, false⟩
          sampleLights false true)).texFmtScale = 1 ∧
    ((2 &&& sampleDecls.GE_VTYPE_TC_MASK) >>> sampleDecls.GE_VTYPE_TC_SHIFT = 2 ∧
      (decodeLocals sampleEnv
        (ComputeVertexShaderID sampleDecls 2 0 ⟨false, 1⟩ ⟨1, 1, 0, 0⟩ ⟨false, 0, false⟩
          sampleLights false true)).texFmtScale = 1) ∧
    ((3 &&& sampleDecls.GE_VTYPE_TC_MASK) >>> sampleDecls.GE_VTYPE_TC_SHIFT = 3 ∧
      (decodeLocals sampleEnv
        (ComputeVertexShaderID sampleDecls 3 0 ⟨false, 1⟩ ⟨1, 1, 0, 0⟩ ⟨false, 0, false⟩
          sampleLights false true)).texFmtScale = 1) := by
  decide!

/-- C7: for the key with only the hardware-transform bit set (bones-enable clear) main() starts
with the skinning code, and for the key with the hardware-transform and bones-enable bits set
(one bone weight) main() starts with the direct world transform and has no skinMatrix. -/
theorem skinning_branch_inverted :
    worldTransformWrites (decodeLocals sampleEnv ⟨2 ^ 8⟩) =
      [ "  mat4 skinMatrix = w1.x * u_bone0",
        ";\n",
        "  vec3 skinnedpos = (skinMatrix * vec4(position, 1.0)).xyz ;\n",
        "  vec3 worldpos = (u_world * vec4(skinnedpos, 1.0)).xyz;\n",
        "  mediump vec3 skinnednormal = (skinMatrix * vec4(0.0, 0.0, 1.0, 0.0)).xyz ;\n",
        "  mediump vec3 worldnormal = normalize((u_world * vec4(skinnednormal, 0.0)).xyz);\n" ] ∧
    worldTransformWrites (decodeLocals sampleEnv ⟨2 ^ 8 + 2 ^ 30⟩) =
      [ "  vec3 worldpos = (u_world * vec4(position.xyz, 1.0)).xyz;\n",
        "  mediump vec3 worldnormal = vec3(0.0, 0.0, 1.0);\n" ] := by
  decide!

/-- C8: the rescale factor of the skinned position statement follows the texcoord field (bits
60-61) and not the bone-weight scale field (bits 57-58): with weight scale code 1 and bits
60-61 zero no factor is written, and with weight scale code 0 and bit 60 set the factor
1.9921875 is written. -/
theorem skin_rescale_factor_reads_texcoord_field :
    (decodeLocals sampleEnv ⟨2 ^ 8 + 2 ^ 57⟩).boneWeightScale = 1 ∧
    "  vec3 skinnedpos = (skinMatrix * vec4(position, 1.0)).xyz ;\n" ∈
      worldTransformWrites (decodeLocals sampleEnv ⟨2 ^ 8 + 2 ^ 57⟩) ∧
    (decodeLocals sampleEnv ⟨2 ^ 8 + 2 ^ 60⟩).boneWeightScale = 0 ∧
    "  vec3 skinnedpos = (skinMatrix * vec4(position, 1.0)).xyz  * 1.9921875;\n" ∈
      worldTransformWrites (decodeLocals sampleEnv ⟨2 ^ 8 + 2 ^ 60⟩) := by
  decide!

/-! ### Bounds on the decoded fields -/

theorem Bits_two_lt (id : ShaderID) (b : Nat) : id.Bits b 2 < 4 := by
  unfold ShaderID.Bits
  exact Nat.lt_succ_of_le Nat.and_le_right

theorem lightTypeOf_lt (id : ShaderID) (i : Nat) : lightTypeOf id i < 4 := Bits_two_lt _ _
theorem lightCompOf_lt (id : ShaderID) (i : Nat) : lightCompOf id i < 4 := Bits_two_lt _ _

theorem ambientStr_mem (v : Locals) : ambientStr v ∈ ["color0", "u_matambientalpha"] := by
  unfold ambientStr; split <;> simp
theorem diffuseStr_mem (v : Locals) : diffuseStr v ∈ ["color0.rgb", "u_matdiffuse"] := by
  unfold diffuseStr; split <;> simp
theorem specularStr_mem (v : Locals) : specularStr v ∈ ["color0.rgb", "u_matspecular.rgb"] := by
  unfold specularStr; split <;> simp

set_option maxHeartbeats 1000000 in
theorem lightBlock_count (id : ShaderID) (v : Locals) (i : Nat) (hi : i < 4) (p : String)
    (hp : p ∈ lightBlockPatterns) :
    (lightBlockWrites id v i).countP (startsWith p) =
      if v.doLight i = DoLightComputation.LIGHT_FULL ∧
          (p = "  toLight = u_lightpos" ∨ p = lightBlockStart i) then 1 else 0 := by
  unfold lightBlockWrites
  revert p
  have ht := lightTypeOf_lt id i
  have hc := lightCompOf_lt id i
  have ha := ambientStr_mem v
  have hd := diffuseStr_mem v
  have hs := specularStr_mem v
  generalize lightTypeOf id i = t at ht ⊢
  generalize lightCompOf id i = c at hc ⊢
  generalize ambientStr v = a at ha ⊢
  generalize diffuseStr v = df at hd ⊢
  generalize specularStr v = s at hs ⊢
  generalize v.doLight i = d
  clear v id
  revert i t c a df s
  cases d <;> decide!

set_option maxHeartbeats 1000000 in
theorem lightUniform_count (id : ShaderID) (v : Locals) (i : Nat) (hi : i < 4) (p : String)
    (hp : p ∈ lightUniformPatterns) :
    (lightUniformWrites id v i).countP (startsWith p) =
      if v.doLight i = DoLightComputation.LIGHT_FULL ∧
          (p = "uniform lowp vec3 u_lightambient" ∨ p = "uniform lowp vec3 u_lightdiffuse" ∨
            p = lightAmbientDecl i ∨ p = lightDiffuseDecl i) then 1
      else if v.doLight i ≠ DoLightComputation.LIGHT_OFF ∧ p = lightPosDecl i then 1
      else 0 := by
  unfold lightUniformWrites
  revert p
  have ht := lightTypeOf_lt id i
  have hc := lightCompOf_lt id i
  generalize lightTypeOf id i = t at ht ⊢
  generalize lightCompOf id i = c at hc ⊢
  generalize v.doLight i = d
  clear v id
  revert i t c
  cases d <;> decide!

theorem world_count (v : Locals) (ht : v.texFmtScale < 4)
    (hb : v.enableBones = false → v.numBoneWeights = 0) (p : String) (hp : p ∈ lightBlockPatterns) :
    (worldTransformWrites v).countP (startsWith p) = 0 := by
  unfold worldTransformWrites
  revert p
  generalize v.texFmtScale = t at ht ⊢
  generalize v.numBoneWeights = nb at hb ⊢
  generalize v.enableBones = b at hb ⊢
  generalize v.hasNormal = n
  generalize v.flipNormal = r
  cases b
  · obtain rfl := hb rfl
    revert t n r
    decide!
  · rw [if_pos rfl]
    revert n r
    decide!

theorem setup_count (id : ShaderID) (v : Locals) (p : String) (hp : p ∈ lightBlockPatterns) :
    (lightingSetupWrites id v).countP (startsWith p) = 0 := by
  unfold lightingSetupWrites
  revert p
  have ha := ambientStr_mem v
  generalize ambientStr v = a at ha ⊢
  generalize (lightFlags id v).specularIsZero = f1
  generalize (lightFlags id v).diffuseIsZero = f2
  generalize (lightFlags id v).distanceNeeded = f3
  generalize v.enableLighting = e
  revert a f1 f2 f3 e
  decide!

theorem color_count (id : ShaderID) (v : Locals) (p : String) (hp : p ∈ lightBlockPatterns) :
    (colorWrites id v).countP (startsWith p) = 0 := by
  unfold colorWrites
  revert p
  generalize (lightFlags id v).specularIsZero = z
  generalize id.Bit BIT_LIGHTING_ENABLE = e
  generalize v.lmode = l
  generalize v.hasColor = c
  revert z e l c
  decide!

theorem uv_count (env : GenEnv) (v : Locals) (h1 : v.uvGenMode < 4) (h2 : v.uvProjMode < 4)
    (h3 : v.ls0 < 4) (h4 : v.ls1 < 4) (h5 : v.texFmtScale < 4)
    (p : String) (hp : p ∈ lightBlockPatterns) :
    (uvWrites env v).countP (startsWith p) = 0 := by
  unfold uvWrites temp_tc
  revert p
  generalize prescaleOf env v = ps
  generalize v.uvGenMode = m at h1 ⊢
  generalize v.uvProjMode = pm at h2 ⊢
  generalize v.ls0 = a at h3 ⊢
  generalize v.ls1 = b at h4 ⊢
  generalize v.texFmtScale = t at h5 ⊢
  generalize v.doTexture = dt
  generalize v.flipV = fl
  generalize v.hasNormal = n
  generalize v.flipNormal = r
  generalize v.hasTexcoord = tc
  cases dt
  · rw [if_neg (by decide)]
    decide!
  · rw [if_pos rfl]
    interval_cases m <;>
      simp only [GE_TEXMAP_TEXTURE_COORDS, GE_TEXMAP_UNKNOWN, GE_TEXMAP_TEXTURE_MATRIX,
        GE_TEXMAP_ENVIRONMENT_MAP, Nat.reduceBEq, Nat.reduceBNe, Bool.or_false, Bool.or_true,
        Bool.false_or, Bool.true_or, Bool.and_true, Bool.and_false, if_true, if_false,
        Bool.false_eq_true]
    · revert ps fl tc
      decide!
    · revert fl tc n r pm t
      decide!
    · revert fl a b
      decide!
    · revert ps fl tc
      decide!

theorem transformUniform_count (env : GenEnv) (v : Locals) (hn : v.numBoneWeights ≤ 8)
    (p : String) (hp : p ∈ lightUniformPatterns) :
    (transformUniformWrites env v).countP (startsWith p) = 0 := by
  have e1 : (if v.enableBones = true then
      List.map (fun i => "uniform mat4 u_bone" ++ fmtInt i ++ ";\n") (List.range v.numBoneWeights)
      else []).countP (startsWith p) = 0 := by
    revert p
    generalize v.enableBones = b
    generalize v.numBoneWeights = nb at hn ⊢
    have hn' : nb < 9 := by omega
    clear hn
    revert b
    revert nb
    decide!
  unfold transformUniformWrites
  dsimp only
  simp only [List.countP_append, e1, Nat.add_zero]
  clear e1
  revert p
  generalize prescaleOf env v = c
  generalize (v.uvGenMode == GE_TEXMAP_ENVIRONMENT_MAP) = m1
  generalize (v.uvGenMode == GE_TEXMAP_TEXTURE_MATRIX) = m2
  generalize v.doTexture = dt
  generalize v.flipV = fl
  generalize v.doTextureProjection = tp
  revert c m1 m2 dt fl tp
  decide!

theorem materialUniform_count (v : Locals) (p : String) (hp : p ∈ lightUniformPatterns) :
    (materialUniformWrites v).countP (startsWith p) = 0 := by
  unfold materialUniformWrites
  revert p
  generalize (v.matUpdate &&& 2 == 0 || !v.hasColor) = c
  generalize v.enableLighting = e
  revert c e
  decide!

theorem commonUniform_count (v : Locals) (p : String) (hp : p ∈ lightUniformPatterns) :
    (commonUniformWrites v).countP (startsWith p) = 0 := by
  unfold commonUniformWrites
  revert p
  generalize (v.useHWTransform || !v.hasColor) = c
  generalize v.enableFog = e
  revert c e
  decide!

theorem main_count (env : GenEnv) (id : ShaderID) (v : Locals) (hHW : v.useHWTransform = true)
    (h1 : v.uvGenMode < 4) (h2 : v.uvProjMode < 4)
    (h3 : v.ls0 < 4) (h4 : v.ls1 < 4) (h5 : v.texFmtScale < 4)
    (hb : v.enableBones = false → v.numBoneWeights = 0)
    (p : String) (hp : p ∈ lightBlockPatterns) :
    (mainWrites env id v).countP (startsWith p) =
      (lightBlockWrites id v 0).countP (startsWith p) +
      (lightBlockWrites id v 1).countP (startsWith p) +
      (lightBlockWrites id v 2).countP (startsWith p) +
      (lightBlockWrites id v 3).countP (startsWith p) := by
  have e1 : (["void main() \x7b\n"] : List String).countP (startsWith p) = 0 := by
    revert p; decide!
  have e2 : (["\x7d\n"] : List String).countP (startsWith p) = 0 := by
    revert p; decide!
  have e3 : (["  vec4 viewPos = u_view * vec4(worldpos, 1.0);\n",
      "  gl_Position = u_proj * viewPos;\n"] : List String).countP (startsWith p) = 0 := by
    revert p; decide!
  have e4 : (if v.enableFog then ["  v_fogdepth = (viewPos.z + u_fogcoef.x) * u_fogcoef.y;\n"]
      else ([] : List String)).countP (startsWith p) = 0 := by
    revert p; generalize v.enableFog = f; revert f; decide!
  unfold mainWrites hardwareTransformWrites viewLightingWrites
  rw [hHW]
  simp only [Bool.not_true, Bool.false_eq_true, if_false, List.countP_append, List.flatMap_cons,
    List.flatMap_nil, List.append_nil, e1, e2, e3, e4, world_count v h5 hb p hp,
    setup_count id v p hp, color_count id v p hp, uv_count env v h1 h2 h3 h4 h5 p hp]
  omega

theorem uniform_count (env : GenEnv) (id : ShaderID) (v : Locals) (hHW : v.useHWTransform = true)
    (hn : v.numBoneWeights ≤ 8)
    (p : String) (hp : p ∈ lightUniformPatterns) :
    (uniformWrites env id v).countP (startsWith p) =
      (lightUniformWrites id v 0).countP (startsWith p) +
      (lightUniformWrites id v 1).countP (startsWith p) +
      (lightUniformWrites id v 2).countP (startsWith p) +
      (lightUniformWrites id v 3).countP (startsWith p) := by
  have e1 : ([if v.isModeThrough then "uniform mat4 u_proj_through;\n"
      else "uniform mat4 u_proj;\n"] : List String).countP (startsWith p) = 0 := by
    revert p; generalize v.isModeThrough = f; revert f; decide!
  unfold uniformWrites
  rw [hHW]
  simp only [if_true, List.countP_append, List.flatMap_cons,
    List.flatMap_nil, List.append_nil, e1, transformUniform_count env v hn p hp,
    materialUniform_count v p hp, commonUniform_count v p hp]
  omega

theorem Bits_three_le (id : ShaderID) (b : Nat) : id.Bits b 3 ≤ 7 := by
  unfold ShaderID.Bits
  exact Nat.and_le_right

theorem numBoneWeights_le (env : GenEnv) (id : ShaderID) :
    (decodeLocals env id).numBoneWeights ≤ 8 := by
  have := Bits_three_le id BIT_BONES
  show (if id.Bit BIT_ENABLE_BONES then 1 + id.Bits BIT_BONES 3 else 0) ≤ 8
  split <;> omega

theorem numBoneWeights_eq_zero (env : GenEnv) (id : ShaderID)
    (h : (decodeLocals env id).enableBones = false) :
    (decodeLocals env id).numBoneWeights = 0 := by
  have h' : id.Bit BIT_ENABLE_BONES = false := h
  show (if id.Bit BIT_ENABLE_BONES then 1 + id.Bits BIT_BONES 3 else 0) = 0
  simp [h']

theorem doLight_full_iff (env : GenEnv) (id : ShaderID)
    (hHW : id.Bit BIT_USE_HW_TRANSFORM = true) (hL : id.Bit BIT_LIGHTING_ENABLE = true) (i : Nat) :
    (decodeLocals env id).doLight i = DoLightComputation.LIGHT_FULL ↔
      id.Bit (BIT_LIGHT0_ENABLE + i) = true := by
  show doLightOf id (id.Bit BIT_USE_HW_TRANSFORM) _ _ _ i = _ ↔ _
  unfold doLightOf
  rw [hHW, hL]
  cases id.Bit (BIT_LIGHT0_ENABLE + i)
  · simp only [Bool.and_false, Bool.false_eq_true, if_false]
    split_ifs <;> simp
  · simp

theorem doLight_shade_iff (env : GenEnv) (id : ShaderID)
    (hHW : id.Bit BIT_USE_HW_TRANSFORM = true) (hL : id.Bit BIT_LIGHTING_ENABLE = true) (i : Nat) :
    (decodeLocals env id).doLight i = DoLightComputation.LIGHT_SHADE ↔
      id.Bit (BIT_LIGHT0_ENABLE + i) = false ∧
        (decodeLocals env id).uvGenMode = GE_TEXMAP_ENVIRONMENT_MAP ∧
        (i = (decodeLocals env id).ls0 ∨ i = (decodeLocals env id).ls1) := by
  show doLightOf id (id.Bit BIT_USE_HW_TRANSFORM)
    (id.Bits BIT_UVGEN_MODE 2 == GE_TEXMAP_ENVIRONMENT_MAP) (id.Bits BIT_LS0 2)
    (id.Bits BIT_LS1 2) i = _ ↔ _ ∧ id.Bits BIT_UVGEN_MODE 2 = _ ∧
      (i = id.Bits BIT_LS0 2 ∨ i = id.Bits BIT_LS1 2)
  unfold doLightOf
  rw [hHW, hL]
  cases id.Bit (BIT_LIGHT0_ENABLE + i) <;>
    by_cases hm : id.Bits BIT_UVGEN_MODE 2 = GE_TEXMAP_ENVIRONMENT_MAP
  all_goals simp [hm]
  all_goals omega

/-- C9: for every key with the hardware-transform and lighting-enabled bits set, light i is
FULL exactly when its enable bit is set (also when it is a shade-mapping index) and SHADE-ONLY
exactly when its enable bit is clear and it is one of the two environment-map light indices;
the number of light blocks in main() and the numbers of ambient and of diffuse light uniforms
declared all equal the number of lights whose enable bit is set; and for each light the block
and the ambient and diffuse uniforms are written once if the light is FULL and not at all
otherwise, while the position uniform is written once unless the light is OFF. -/
theorem light_loop_bound (env : GenEnv) (id : ShaderID)
    (hHW : id.Bit BIT_USE_HW_TRANSFORM = true) (hL : id.Bit BIT_LIGHTING_ENABLE = true) :
    (∀ i, (decodeLocals env id).doLight i = DoLightComputation.LIGHT_FULL ↔
        id.Bit (BIT_LIGHT0_ENABLE + i) = true) ∧
    (∀ i, (decodeLocals env id).doLight i = DoLightComputation.LIGHT_SHADE ↔
        id.Bit (BIT_LIGHT0_ENABLE + i) = false ∧
          (decodeLocals env id).uvGenMode = GE_TEXMAP_ENVIRONMENT_MAP ∧
          (i = (decodeLocals env id).ls0 ∨ i = (decodeLocals env id).ls1)) ∧
    (mainWrites env id (decodeLocals env id)).countP (startsWith "  toLight = u_lightpos") =
      [0, 1, 2, 3].countP (fun i => id.Bit (BIT_LIGHT0_ENABLE + i)) ∧
    (uniformWrites env id (decodeLocals env id)).countP
        (startsWith "uniform lowp vec3 u_lightambient") =
      [0, 1, 2, 3].countP (fun i => id.Bit (BIT_LIGHT0_ENABLE + i)) ∧
    (uniformWrites env id (decodeLocals env id)).countP
        (startsWith "uniform lowp vec3 u_lightdiffuse") =
      [0, 1, 2, 3].countP (fun i => id.Bit (BIT_LIGHT0_ENABLE + i)) ∧
    (∀ i, i < 4 →
      (mainWrites env id (decodeLocals env id)).countP (startsWith (lightBlockStart i)) =
        (if (decodeLocals env id).doLight i = DoLightComputation.LIGHT_FULL then 1 else 0) ∧
      (uniformWrites env id (decodeLocals env id)).countP (startsWith (lightAmbientDecl i)) =
        (if (decodeLocals env id).doLight i = DoLightComputation.LIGHT_FULL then 1 else 0) ∧
      (uniformWrites env id (decodeLocals env id)).countP (startsWith (lightDiffuseDecl i)) =
        (if (decodeLocals env id).doLight i = DoLightComputation.LIGHT_FULL then 1 else 0) ∧
      (uniformWrites env id (decodeLocals env id)).countP (startsWith (lightPosDecl i)) =
        (if (decodeLocals env id).doLight i = DoLightComputation.LIGHT_OFF then 0 else 1)) := by
  have hfull := doLight_full_iff env id hHW hL
  have hmain := main_count env id (decodeLocals env id) hHW (Bits_two_lt _ _) (Bits_two_lt _ _)
    (Bits_two_lt _ _) (Bits_two_lt _ _) (Bits_two_lt _ _) (numBoneWeights_eq_zero env id)
  have huni := uniform_count env id (decodeLocals env id) hHW (numBoneWeights_le env id)
  have hblk := lightBlock_count id (decodeLocals env id)
  have hunl := lightUniform_count id (decodeLocals env id)
  have b0 : id.Bit (BIT_LIGHT0_ENABLE + 0) =
      decide ((decodeLocals env id).doLight 0 = DoLightComputation.LIGHT_FULL) := by
    rw [Bool.eq_iff_iff]; simp [hfull]
  have b1 : id.Bit (BIT_LIGHT0_ENABLE + 1) =
      decide ((decodeLocals env id).doLight 1 = DoLightComputation.LIGHT_FULL) := by
    rw [Bool.eq_iff_iff]; simp [hfull]
  have b2 : id.Bit (BIT_LIGHT0_ENABLE + 2) =
      decide ((decodeLocals env id).doLight 2 = DoLightComputation.LIGHT_FULL) := by
    rw [Bool.eq_iff_iff]; simp [hfull]
  have b3 : id.Bit (BIT_LIGHT0_ENABLE + 3) =
      decide ((decodeLocals env id).doLight 3 = DoLightComputation.LIGHT_FULL) := by
    rw [Bool.eq_iff_iff]; simp [hfull]
  refine ⟨hfull, doLight_shade_iff env id hHW hL, ?_, ?_, ?_, ?_⟩
  · rw [hmain _ (by decide!), hblk 0 (by decide) _ (by decide!), hblk 1 (by decide) _ (by decide!),
      hblk 2 (by decide) _ (by decide!), hblk 3 (by decide) _ (by decide!)]
    simp only [List.countP_cons, List.countP_nil, b0, b1, b2, b3]
    generalize (decodeLocals env id).doLight 0 = d0
    generalize (decodeLocals env id).doLight 1 = d1
    generalize (decodeLocals env id).doLight 2 = d2
    generalize (decodeLocals env id).doLight 3 = d3
    cases d0 <;> cases d1 <;> cases d2 <;> cases d3 <;> decide!
  · rw [huni _ (by decide!), hunl 0 (by decide) _ (by decide!), hunl 1 (by decide) _ (by decide!),
      hunl 2 (by decide) _ (by decide!), hunl 3 (by decide) _ (by decide!)]
    simp only [List.countP_cons, List.countP_nil, b0, b1, b2, b3]
    generalize (decodeLocals env id).doLight 0 = d0
    generalize (decodeLocals env id).doLight 1 = d1
    generalize (decodeLocals env id).doLight 2 = d2
    generalize (decodeLocals env id).doLight 3 = d3
    cases d0 <;> cases d1 <;> cases d2 <;> cases d3 <;> decide!
  · rw [huni _ (by decide!), hunl 0 (by decide) _ (by decide!), hunl 1 (by decide) _ (by decide!),
      hunl 2 (by decide) _ (by decide!), hunl 3 (by decide) _ (by decide!)]
    simp only [List.countP_cons, List.countP_nil, b0, b1, b2, b3]
    generalize (decodeLocals env id).doLight 0 = d0
    generalize (decodeLocals env id).doLight 1 = d1
    generalize (decodeLocals env id).doLight 2 = d2
    generalize (decodeLocals env id).doLight 3 = d3
    cases d0 <;> cases d1 <;> cases d2 <;> cases d3 <;> decide!
  · clear b0 b1 b2 b3 hfull
    have hm : ∀ i, i < 4 → lightBlockStart i ∈ lightBlockPatterns := by decide!
    have ha : ∀ i, i < 4 → lightAmbientDecl i ∈ lightUniformPatterns := by decide!
    have hd : ∀ i, i < 4 → lightDiffuseDecl i ∈ lightUniformPatterns := by decide!
    have hq : ∀ i, i < 4 → lightPosDecl i ∈ lightUniformPatterns := by decide!
    intro i hi
    rw [hmain _ (hm i hi), huni _ (ha i hi), huni _ (hd i hi), huni _ (hq i hi),
      hblk 0 (by decide) _ (hm i hi), hblk 1 (by decide) _ (hm i hi),
      hblk 2 (by decide) _ (hm i hi), hblk 3 (by decide) _ (hm i hi),
      hunl 0 (by decide) _ (ha i hi), hunl 1 (by decide) _ (ha i hi),
      hunl 2 (by decide) _ (ha i hi), hunl 3 (by decide) _ (ha i hi),
      hunl 0 (by decide) _ (hd i hi), hunl 1 (by decide) _ (hd i hi),
      hunl 2 (by decide) _ (hd i hi), hunl 3 (by decide) _ (hd i hi),
      hunl 0 (by decide) _ (hq i hi), hunl 1 (by decide) _ (hq i hi),
      hunl 2 (by decide) _ (hq i hi), hunl 3 (by decide) _ (hq i hi)]
    clear hmain huni hblk hunl hm ha hd hq
    generalize (decodeLocals env id).doLight = dl
    have hdi : dl i = [dl 0, dl 1, dl 2, dl 3].getD i (dl 0) := by
      interval_cases i <;> rfl
    rw [hdi]
    clear hdi
    generalize dl 0 = d0
    generalize dl 1 = d1
    generalize dl 2 = d2
    generalize dl 3 = d3
    revert i
    revert d0 d1 d2 d3
    decide!

/-- Witness for C9 at a key with lights 0 and 2 enabled and shade-mapping indices 1 and 3. -/
theorem light_loop_bound_witness :
    sampleLitKey.Bit BIT_USE_HW_TRANSFORM = true ∧ sampleLitKey.Bit BIT_LIGHTING_ENABLE = true ∧
    (mainWrites sampleEnv sampleLitKey (decodeLocals sampleEnv sampleLitKey)).countP
        (startsWith "  toLight = u_lightpos") =
      [0, 1, 2, 3].countP (fun i => sampleLitKey.Bit (BIT_LIGHT0_ENABLE + i)) :=
  ⟨by decide!, by decide!, (light_loop_bound sampleEnv sampleLitKey (by decide!) (by decide!)).2.2.1⟩

/-- C10: for every key with the bones-enable bit set, with N = 1 + the bone-count field, the
first attribute declaration written is entry N of the bone weight table of the dialect (the
in table on the modern profile, the attribute table otherwise); N is at most 8, the entry is
not the error entry, and it declares w1, and w2 when N exceeds 4, that is ceil(N/4)
attributes, whose component counts add up to N. -/
theorem bone_weight_declaration (env : GenEnv) (id : ShaderID)
    (h : id.Bit BIT_ENABLE_BONES = true) :
    (∃ rest, attributeWrites id (decodeLocals env id) = emittedBoneWeightDecl env id :: rest) ∧
    emittedBoneWeightDecl env id =
      (if glslES30Of env then boneWeightInDecl else boneWeightAttrDecl).getD
        (1 + id.Bits BIT_BONES 3) "" ∧
    1 + id.Bits BIT_BONES 3 ≤ 8 ∧
    emittedBoneWeightDecl env id ≠ "#ERROR#" ∧
    (declaredVariables (emittedBoneWeightDecl env id)).map Prod.fst =
      (if 1 + id.Bits BIT_BONES 3 > 4 then ["w1", "w2"] else ["w1"]) ∧
    (declaredVariables (emittedBoneWeightDecl env id)).length =
      (1 + id.Bits BIT_BONES 3 + 3) / 4 ∧
    ((declaredVariables (emittedBoneWeightDecl env id)).map Prod.snd).sum =
      1 + id.Bits BIT_BONES 3 := by
  have hle := Bits_three_le id BIT_BONES
  have e : emittedBoneWeightDecl env id =
      (if glslES30Of env then boneWeightInDecl else boneWeightAttrDecl).getD
        (1 + id.Bits BIT_BONES 3) "" := by
    simp [emittedBoneWeightDecl, decodeLocals, h]
  refine ⟨?_, e, by omega, ?_⟩
  · simp [attributeWrites, emittedBoneWeightDecl, h]
  · rw [e]
    generalize id.Bits BIT_BONES 3 = n at hle
    generalize glslES30Of env = g
    have hn : n < 8 := by omega
    clear hle
    revert n
    revert g
    decide!

/-- Witness for C10 at a key with five bone weights on the modern profile. -/
theorem bone_weight_declaration_witness :
    sampleBonesKey.Bit BIT_ENABLE_BONES = true ∧
    emittedBoneWeightDecl sampleEnv33 sampleBonesKey =
      (if glslES30Of sampleEnv33 then boneWeightInDecl else boneWeightAttrDecl).getD
        (1 + sampleBonesKey.Bits BIT_BONES 3) "" :=
  ⟨by decide!, (bone_weight_declaration sampleEnv33 sampleBonesKey (by decide!)).2.1⟩

/-! ### Decoding and re-encoding a key -/

theorem ShaderID.ext_testBit {a b : ShaderID} (h : ∀ j, a.bits.testBit j = b.bits.testBit j) : a = b := by
  cases a; cases b
  simp only [ShaderID.mk.injEq]
  exact Nat.eq_of_testBit_eq h

theorem ShaderID.Bit_eq_testBit (id : ShaderID) (j : Nat) : id.Bit j = id.bits.testBit j := by
  unfold ShaderID.Bit Nat.testBit
  rw [Nat.and_comm]

theorem ShaderID.bits_empty : ShaderID.empty.bits = 0 := rfl

theorem ShaderID.bits_SetBit (id : ShaderID) (b : Nat) (v : Bool) :
    (id.SetBit b v).bits = id.bits ||| (if v then 1 <<< b else 0) := by
  unfold ShaderID.SetBit
  cases v <;> simp

theorem ShaderID.bits_SetBits (id : ShaderID) (b c x : Nat) :
    (id.SetBits b c x).bits = id.bits ||| ((x &&& ((1 <<< c) - 1)) <<< b) := rfl

theorem ShaderID.testBit_Bits (id : ShaderID) (b c : Nat) (j : Nat) :
    (id.Bits b c).testBit j = (decide (j < c) && id.bits.testBit (b + j)) := by
  unfold ShaderID.Bits
  simp only [Nat.testBit_and, Nat.testBit_shiftRight, Nat.one_shiftLeft,
    Nat.testBit_two_pow_sub_one, Bool.and_comm]

theorem ShaderID.d0_testBit (id : ShaderID) (j : Nat) :
    ((id.d0 >>> j) &&& 1 != 0) = (decide (j < 32) && id.bits.testBit j) := by
  have h : ((id.d0 >>> j) &&& 1 != 0) = id.d0.testBit j := by
    unfold Nat.testBit
    rw [Nat.and_comm]
  rw [h]
  unfold ShaderID.d0
  rw [Nat.testBit_mod_two_pow]

theorem encodeBaseFields_bits (f : KeyFields) (id : ShaderID) :
    (encodeBaseFields f id).bits = id.bits ||| (encodeBaseFields f ShaderID.empty).bits := by
  simp only [encodeBaseFields, ShaderID.bits_SetBit, ShaderID.bits_empty, Nat.zero_or,
    Nat.or_assoc]

theorem encodeTextureFields_bits (f : KeyFields) (id : ShaderID) :
    (encodeTextureFields f id).bits = id.bits ||| (encodeTextureFields f ShaderID.empty).bits := by
  unfold encodeTextureFields
  split
  · simp only [ShaderID.bits_SetBit, ShaderID.bits_empty, Nat.zero_or, Nat.or_assoc]
  · simp only [ShaderID.bits_empty, Nat.or_zero]

theorem encodeTransformFields_bits (f : KeyFields) (id : ShaderID) :
    (encodeTransformFields f id).bits =
      id.bits ||| (encodeTransformFields f ShaderID.empty).bits := by
  simp only [encodeTransformFields, ShaderID.bits_SetBit, ShaderID.bits_SetBits,
    ShaderID.bits_empty, Nat.zero_or, Nat.or_assoc]

theorem encodeUVSubFields_bits (f : KeyFields) (id : ShaderID) :
    (encodeUVSubFields f id).bits = id.bits ||| (encodeUVSubFields f ShaderID.empty).bits := by
  unfold encodeUVSubFields
  split
  · simp only [ShaderID.bits_SetBits, ShaderID.bits_empty, Nat.zero_or, Nat.or_assoc]
  · split
    · simp only [ShaderID.bits_SetBits, ShaderID.bits_empty, Nat.zero_or, Nat.or_assoc]
    · simp only [ShaderID.bits_empty, Nat.or_zero]

theorem encodeBoneFields_bits (f : KeyFields) (id : ShaderID) :
    (encodeBoneFields f id).bits = id.bits ||| (encodeBoneFields f ShaderID.empty).bits := by
  unfold encodeBoneFields
  split
  · simp only [ShaderID.bits_SetBits, ShaderID.bits_empty, Nat.zero_or, Nat.or_assoc]
  · simp only [ShaderID.bits_empty, Nat.or_zero]

theorem encodeLightSlot_bits (f : KeyFields) (i : Nat) (id : ShaderID) :
    (encodeLightSlot f i id).bits = id.bits ||| (encodeLightSlot f i ShaderID.empty).bits := by
  unfold encodeLightSlot
  split
  · simp only [ShaderID.bits_SetBits, ShaderID.bits_empty, Nat.zero_or, Nat.or_assoc]
  · simp only [ShaderID.bits_empty, Nat.or_zero]

theorem encodeLightingFields_bits (f : KeyFields) (id : ShaderID) :
    (encodeLightingFields f id).bits =
      id.bits ||| (encodeLightingFields f ShaderID.empty).bits := by
  unfold encodeLightingFields
  split
  · simp only [ShaderID.bits_SetBit, ShaderID.bits_SetBits, encodeLightSlot_bits f _ (encodeLightSlot f _ _),
      encodeLightSlot_bits f 0 id, Nat.or_assoc]
  · simp only [ShaderID.bits_empty, Nat.or_zero]

theorem encodeTexcoordFields_bits (f : KeyFields) (id : ShaderID) :
    (encodeTexcoordFields f id).bits =
      id.bits ||| (encodeTexcoordFields f ShaderID.empty).bits := by
  unfold encodeTexcoordFields
  split
  · simp only [ShaderID.bits_SetBits, ShaderID.bits_empty, Nat.zero_or, Nat.or_assoc]
  · simp only [ShaderID.bits_SetBit, ShaderID.bits_empty, Nat.zero_or, Nat.or_assoc]

theorem encodeHardwareFields_bits (f : KeyFields) (id : ShaderID) :
    (encodeHardwareFields f id).bits =
      id.bits ||| (if f.useHWTransform then
        (encodeTransformFields f ShaderID.empty).bits |||
        (encodeUVSubFields f ShaderID.empty).bits |||
        (encodeBoneFields f ShaderID.empty).bits |||
        (encodeLightingFields f ShaderID.empty).bits |||
        ((f.boneWeightScale &&& ((1 <<< 2) - 1)) <<< BIT_WEIGHT_FMTSCALE) |||
        (if f.flipNormal then 1 <<< BIT_NORM_REVERSE else 0) |||
        (encodeTexcoordFields f ShaderID.empty).bits
      else 0) := by
  unfold encodeHardwareFields
  split
  · rw [encodeTexcoordFields_bits, ShaderID.bits_SetBit, ShaderID.bits_SetBits,
      encodeLightingFields_bits, encodeBoneFields_bits, encodeUVSubFields_bits,
      encodeTransformFields_bits]
    simp only [Nat.or_assoc]
  · simp only [Nat.or_zero]

theorem encodeFields_bits (f : KeyFields) :
    (encodeFields f).bits =
      (encodeBaseFields f ShaderID.empty).bits |||
      (encodeTextureFields f ShaderID.empty).bits |||
      (if f.useHWTransform then
        (encodeTransformFields f ShaderID.empty).bits |||
        (encodeUVSubFields f ShaderID.empty).bits |||
        (encodeBoneFields f ShaderID.empty).bits |||
        (encodeLightingFields f ShaderID.empty).bits |||
        ((f.boneWeightScale &&& ((1 <<< 2) - 1)) <<< BIT_WEIGHT_FMTSCALE) |||
        (if f.flipNormal then 1 <<< BIT_NORM_REVERSE else 0) |||
        (encodeTexcoordFields f ShaderID.empty).bits
      else 0) |||
      (if f.doFlatShading then 1 <<< BIT_FLATSHADE else 0) := by
  unfold encodeFields
  rw [ShaderID.bits_SetBit, encodeHardwareFields_bits, encodeTextureFields_bits]

theorem testBit_bitMask (v : Bool) (b j : Nat) :
    (if v then 1 <<< b else 0).testBit j = (v && decide (j = b)) := by
  cases v
  · simp
  · simp [Nat.one_shiftLeft, Nat.testBit_two_pow, eq_comm]

theorem testBit_one_shiftLeft (b j : Nat) : (1 <<< b).testBit j = decide (j = b) := by
  simp [Nat.one_shiftLeft, Nat.testBit_two_pow, eq_comm]

theorem testBit_fieldMask (x b c j : Nat) :
    ((x &&& ((1 <<< c) - 1)) <<< b).testBit j =
      (decide (b ≤ j) && decide (j < b + c) && x.testBit (j - b)) := by
  simp only [Nat.testBit_shiftLeft, Nat.testBit_and, Nat.one_shiftLeft,
    Nat.testBit_two_pow_sub_one]
  by_cases h1 : b ≤ j
  · by_cases h2 : j < b + c
    · have h3 : j - b < c := by omega
      simp [h1, h2, h3]
    · have h3 : ¬ j - b < c := by omega
      simp [h1, h2, h3]
  · simp [h1]

theorem testBit_ite_zero (c : Prop) [Decidable c] (m j : Nat) :
    (if c then m else 0).testBit j = (decide c && m.testBit j) := by
  split <;> simp [*]

theorem testBit_ite_nat (c : Prop) [Decidable c] (m n j : Nat) :
    (if c then m else n).testBit j = if c then m.testBit j else n.testBit j := by
  split <;> rfl

/-- The bits of a field written by SetBits at offset b with width c. -/
theorem testBit_field (x b c j : Nat) :
    ((ShaderID.empty.SetBits b c x).bits).testBit j =
      (decide (b ≤ j) && decide (j < b + c) && x.testBit (j - b)) := by
  rw [ShaderID.bits_SetBits, ShaderID.bits_empty, Nat.zero_or, testBit_fieldMask]

theorem testBit_or_field (n x b c j : Nat) :
    (n ||| ((x &&& ((1 <<< c) - 1)) <<< b)).testBit j =
      (n.testBit j || (decide (b ≤ j) && decide (j < b + c) && x.testBit (j - b))) := by
  rw [Nat.testBit_or, testBit_fieldMask]

theorem encodeLightSlot_testBit (f : KeyFields) (i j : Nat) :
    (encodeLightSlot f i ShaderID.empty).bits.testBit j =
      (f.lightEnable i &&
        ((decide (BIT_LIGHT0_COMP + 4 * i ≤ j) && decide (j < BIT_LIGHT0_COMP + 4 * i + 2) &&
            (f.lightComp i).testBit (j - (BIT_LIGHT0_COMP + 4 * i))) ||
          (decide (BIT_LIGHT0_TYPE + 4 * i ≤ j) && decide (j < BIT_LIGHT0_TYPE + 4 * i + 2) &&
            (f.lightType i).testBit (j - (BIT_LIGHT0_TYPE + 4 * i))))) := by
  unfold encodeLightSlot
  cases f.lightEnable i
  · simp [ShaderID.bits_empty]
  · simp only [if_true, ShaderID.bits_SetBits, ShaderID.bits_empty, Nat.zero_or, Nat.testBit_or,
      testBit_fieldMask, Bool.true_and]

theorem encodeFields_testBit (f : KeyFields) (j : Nat) :
    (encodeFields f).bits.testBit j =
      ((f.lmode && decide (j = BIT_LMODE)) ||
        (f.isModeThrough && decide (j = BIT_IS_THROUGH)) ||
        (f.enableFog && decide (j = BIT_ENABLE_FOG)) ||
        (f.hasColor && decide (j = BIT_HAS_COLOR)) ||
        (f.doTexture &&
          (decide (j = BIT_DO_TEXTURE) || (f.flipV && decide (j = BIT_FLIP_TEXTURE)) ||
            (f.doTextureProjection && decide (j = BIT_DO_TEXTURE_PROJ)))) ||
        (f.useHWTransform &&
          ((f.enableBones && decide (j = BIT_ENABLE_BONES)) ||
            decide (j = BIT_USE_HW_TRANSFORM) ||
            (f.hasNormal && decide (j = BIT_HAS_NORMAL)) ||
            (decide (BIT_UVGEN_MODE ≤ j) && decide (j < BIT_UVGEN_MODE + 2) &&
              f.uvGenMode.testBit (j - BIT_UVGEN_MODE)) ||
            (decide (f.uvGenMode = GE_TEXMAP_TEXTURE_MATRIX) &&
              (decide (BIT_UVPROJ_MODE ≤ j) && decide (j < BIT_UVPROJ_MODE + 2) &&
                f.uvProjMode.testBit (j - BIT_UVPROJ_MODE))) ||
            (decide (f.uvGenMode = GE_TEXMAP_ENVIRONMENT_MAP) &&
              ((decide (BIT_LS0 ≤ j) && decide (j < BIT_LS0 + 2) &&
                  f.ls0.testBit (j - BIT_LS0)) ||
                (decide (BIT_LS1 ≤ j) && decide (j < BIT_LS1 + 2) &&
                  f.ls1.testBit (j - BIT_LS1)))) ||
            (f.enableBones &&
              (decide (BIT_BONES ≤ j) && decide (j < BIT_BONES + 3) &&
                (f.numBoneWeights - 1).testBit (j - BIT_BONES))) ||
            (f.enableLighting &&
              ((encodeLightSlot f 0 ShaderID.empty).bits.testBit j ||
                (encodeLightSlot f 1 ShaderID.empty).bits.testBit j ||
                (encodeLightSlot f 2 ShaderID.empty).bits.testBit j ||
                (encodeLightSlot f 3 ShaderID.empty).bits.testBit j ||
                (decide (BIT_MATERIAL_UPDATE ≤ j) && decide (j < BIT_MATERIAL_UPDATE + 3) &&
                  f.matUpdate.testBit (j - BIT_MATERIAL_UPDATE)) ||
                (f.lightEnable 0 && decide (j = BIT_LIGHT0_ENABLE + 0)) ||
                (f.lightEnable 1 && decide (j = BIT_LIGHT0_ENABLE + 1)) ||
                (f.lightEnable 2 && decide (j = BIT_LIGHT0_ENABLE + 2)) ||
                (f.lightEnable 3 && decide (j = BIT_LIGHT0_ENABLE + 3)) ||
                decide (j = BIT_LIGHTING_ENABLE))) ||
            (decide (BIT_WEIGHT_FMTSCALE ≤ j) && decide (j < BIT_WEIGHT_FMTSCALE + 2) &&
              f.boneWeightScale.testBit (j - BIT_WEIGHT_FMTSCALE)) ||
            (f.flipNormal && decide (j = BIT_NORM_REVERSE)) ||
            (if f.uvGenMode = GE_TEXMAP_TEXTURE_MATRIX ∧ f.uvProjMode = GE_PROJMAP_UV then
              decide (BIT_TEXCOORD_FMTSCALE ≤ j) && decide (j < BIT_TEXCOORD_FMTSCALE + 2) &&
                f.texFmtScale.testBit (j - BIT_TEXCOORD_FMTSCALE)
             else f.hasTexcoord && decide (j = BIT_HAS_TEXCOORD)))) ||
        (f.doFlatShading && decide (j = BIT_FLATSHADE))) := by
  rw [encodeFields_bits]
  have hbase : (encodeBaseFields f ShaderID.empty).bits.testBit j =
      ((f.lmode && decide (j = BIT_LMODE)) ||
        (f.isModeThrough && decide (j = BIT_IS_THROUGH)) ||
        (f.enableFog && decide (j = BIT_ENABLE_FOG)) ||
        (f.hasColor && decide (j = BIT_HAS_COLOR))) := by
    simp only [encodeBaseFields, ShaderID.bits_SetBit, ShaderID.bits_empty, Nat.zero_or,
      Nat.testBit_or, testBit_bitMask]
  have htex : (encodeTextureFields f ShaderID.empty).bits.testBit j =
      (f.doTexture &&
          (decide (j = BIT_DO_TEXTURE) || (f.flipV && decide (j = BIT_FLIP_TEXTURE)) ||
            (f.doTextureProjection && decide (j = BIT_DO_TEXTURE_PROJ)))) := by
    unfold encodeTextureFields
    cases f.doTexture
    · simp [ShaderID.bits_empty]
    · simp only [if_true, ShaderID.bits_SetBit, ShaderID.bits_empty, Nat.zero_or,
        Nat.testBit_or, testBit_bitMask, testBit_one_shiftLeft, Bool.true_and]
  have htr : (encodeTransformFields f ShaderID.empty).bits.testBit j =
      ((f.enableBones && decide (j = BIT_ENABLE_BONES)) ||
            decide (j = BIT_USE_HW_TRANSFORM) ||
            (f.hasNormal && decide (j = BIT_HAS_NORMAL)) ||
            (decide (BIT_UVGEN_MODE ≤ j) && decide (j < BIT_UVGEN_MODE + 2) &&
              f.uvGenMode.testBit (j - BIT_UVGEN_MODE))) := by
    simp only [encodeTransformFields, ShaderID.bits_SetBit, ShaderID.bits_SetBits,
      ShaderID.bits_empty, Nat.zero_or, Nat.testBit_or, testBit_bitMask, testBit_fieldMask,
      testBit_one_shiftLeft, if_true, Bool.true_and]
  have huv : (encodeUVSubFields f ShaderID.empty).bits.testBit j =
      ((decide (f.uvGenMode = GE_TEXMAP_TEXTURE_MATRIX) &&
              (decide (BIT_UVPROJ_MODE ≤ j) && decide (j < BIT_UVPROJ_MODE + 2) &&
                f.uvProjMode.testBit (j - BIT_UVPROJ_MODE))) ||
            (decide (f.uvGenMode = GE_TEXMAP_ENVIRONMENT_MAP) &&
              ((decide (BIT_LS0 ≤ j) && decide (j < BIT_LS0 + 2) &&
                  f.ls0.testBit (j - BIT_LS0)) ||
                (decide (BIT_LS1 ≤ j) && decide (j < BIT_LS1 + 2) &&
                  f.ls1.testBit (j - BIT_LS1))))) := by
    unfold encodeUVSubFields
    by_cases h1 : f.uvGenMode = GE_TEXMAP_TEXTURE_MATRIX
    · have h2 : ¬ f.uvGenMode = GE_TEXMAP_ENVIRONMENT_MAP := by
        rw [h1]; decide
      rw [if_pos (beq_iff_eq.mpr h1), decide_eq_true h1, decide_eq_false h2, testBit_field]
      simp only [Bool.true_and, Bool.false_and, Bool.or_false]
    · by_cases h2 : f.uvGenMode = GE_TEXMAP_ENVIRONMENT_MAP
      · rw [if_neg (fun h => h1 (beq_iff_eq.mp h)), if_pos (beq_iff_eq.mpr h2),
          decide_eq_false h1, decide_eq_true h2, ShaderID.bits_SetBits, testBit_or_field,
          testBit_field]
        simp only [Bool.true_and, Bool.false_and, Bool.false_or]
      · rw [if_neg (fun h => h1 (beq_iff_eq.mp h)), if_neg (fun h => h2 (beq_iff_eq.mp h)),
          decide_eq_false h1, decide_eq_false h2]
        simp [ShaderID.bits_empty]
  have hbone : (encodeBoneFields f ShaderID.empty).bits.testBit j =
      (f.enableBones &&
              (decide (BIT_BONES ≤ j) && decide (j < BIT_BONES + 3) &&
                (f.numBoneWeights - 1).testBit (j - BIT_BONES))) := by
    unfold encodeBoneFields
    cases f.enableBones
    · simp [ShaderID.bits_empty]
    · simp only [if_true, ShaderID.bits_SetBits, ShaderID.bits_empty, Nat.zero_or,
        testBit_fieldMask, Bool.true_and]
  have hlight : (encodeLightingFields f ShaderID.empty).bits.testBit j =
      (f.enableLighting &&
              ((encodeLightSlot f 0 ShaderID.empty).bits.testBit j ||
                (encodeLightSlot f 1 ShaderID.empty).bits.testBit j ||
                (encodeLightSlot f 2 ShaderID.empty).bits.testBit j ||
                (encodeLightSlot f 3 ShaderID.empty).bits.testBit j ||
                (decide (BIT_MATERIAL_UPDATE ≤ j) && decide (j < BIT_MATERIAL_UPDATE + 3) &&
                  f.matUpdate.testBit (j - BIT_MATERIAL_UPDATE)) ||
                (f.lightEnable 0 && decide (j = BIT_LIGHT0_ENABLE + 0)) ||
                (f.lightEnable 1 && decide (j = BIT_LIGHT0_ENABLE + 1)) ||
                (f.lightEnable 2 && decide (j = BIT_LIGHT0_ENABLE + 2)) ||
                (f.lightEnable 3 && decide (j = BIT_LIGHT0_ENABLE + 3)) ||
                decide (j = BIT_LIGHTING_ENABLE))) := by
    unfold encodeLightingFields
    cases f.enableLighting
    · simp [ShaderID.bits_empty]
    · simp only [if_true, ShaderID.bits_SetBit, ShaderID.bits_SetBits,
        encodeLightSlot_bits f 3 (encodeLightSlot f _ _),
        encodeLightSlot_bits f 2 (encodeLightSlot f _ _),
        encodeLightSlot_bits f 1 (encodeLightSlot f _ _), Nat.testBit_or, testBit_bitMask,
        testBit_fieldMask, testBit_one_shiftLeft, Bool.true_and]
  have htc : (encodeTexcoordFields f ShaderID.empty).bits.testBit j =
      (if f.uvGenMode = GE_TEXMAP_TEXTURE_MATRIX ∧ f.uvProjMode = GE_PROJMAP_UV then
              decide (BIT_TEXCOORD_FMTSCALE ≤ j) && decide (j < BIT_TEXCOORD_FMTSCALE + 2) &&
                f.texFmtScale.testBit (j - BIT_TEXCOORD_FMTSCALE)
             else f.hasTexcoord && decide (j = BIT_HAS_TEXCOORD)) := by
    unfold encodeTexcoordFields
    have hc : ((f.uvGenMode == GE_TEXMAP_TEXTURE_MATRIX && f.uvProjMode == GE_PROJMAP_UV) = true) ↔
        (f.uvGenMode = GE_TEXMAP_TEXTURE_MATRIX ∧ f.uvProjMode = GE_PROJMAP_UV) := by
      simp only [Bool.and_eq_true, beq_iff_eq]
    by_cases h : f.uvGenMode = GE_TEXMAP_TEXTURE_MATRIX ∧ f.uvProjMode = GE_PROJMAP_UV
    · rw [if_pos (hc.mpr h), if_pos h, testBit_field]
    · rw [if_neg (fun h' => h (hc.mp h')), if_neg h, ShaderID.bits_SetBit, ShaderID.bits_empty,
        Nat.zero_or, testBit_bitMask]
  simp only [Nat.testBit_or, testBit_ite_zero, testBit_bitMask, testBit_fieldMask,
    testBit_one_shiftLeft, hbase, htex, htr, huv, hbone, hlight, htc, Bool.or_assoc,
    Bool.decide_eq_true]

attribute [simp] BIT_LMODE BIT_IS_THROUGH BIT_ENABLE_FOG BIT_HAS_COLOR BIT_DO_TEXTURE
  BIT_FLIP_TEXTURE BIT_DO_TEXTURE_PROJ BIT_USE_HW_TRANSFORM BIT_HAS_NORMAL BIT_UVGEN_MODE
  BIT_UVPROJ_MODE BIT_LS0 BIT_LS1 BIT_BONES BIT_ENABLE_BONES BIT_LIGHT0_COMP BIT_LIGHT0_TYPE
  BIT_MATERIAL_UPDATE BIT_LIGHT0_ENABLE BIT_LIGHTING_ENABLE BIT_WEIGHT_FMTSCALE
  BIT_TEXCOORD_FMTSCALE BIT_HAS_TEXCOORD BIT_FLATSHADE BIT_NORM_REVERSE
  GE_TEXMAP_TEXTURE_MATRIX GE_TEXMAP_ENVIRONMENT_MAP GE_PROJMAP_UV

theorem ShaderID.Bits_eq_of_testBit (id : ShaderID) (b c v : Nat)
    (h : ∀ i, i < c → id.bits.testBit (b + i) = v.testBit i)
    (hv : ∀ i, c ≤ i → v.testBit i = false) : id.Bits b c = v := by
  apply Nat.eq_of_testBit_eq
  intro i
  rw [ShaderID.testBit_Bits]
  by_cases hi : i < c
  · simp only [hi, decide_True, Bool.true_and, h i hi]
  · simp only [hi, decide_False, Bool.false_and, hv i (Nat.le_of_not_lt hi)]

theorem testBit_mask (x c i : Nat) :
    (x &&& ((1 <<< c) - 1)).testBit i = (decide (i < c) && x.testBit i) := by
  rw [Nat.testBit_and, Nat.one_shiftLeft, Nat.testBit_two_pow_sub_one, Bool.and_comm]

/-- A field of width c read back as a masked value under a condition. -/
theorem ShaderID.Bits_eq_mask (id : ShaderID) (b c x : Nat) (p : Bool)
    (h : ∀ i, i < c → id.bits.testBit (b + i) = (p && x.testBit i)) :
    id.Bits b c = if p then x &&& ((1 <<< c) - 1) else 0 := by
  apply ShaderID.Bits_eq_of_testBit
  · intro i hi
    rw [h i hi]
    cases p
    · simp
    · simp only [Bool.true_and, if_true, testBit_mask, hi, decide_True]
  · intro i hi
    cases p
    · simp
    · simp only [if_true, testBit_mask, Nat.not_lt.mpr hi, decide_False, Bool.false_and]

theorem ShaderID.Bits_eq_mask2 (id : ShaderID) (b x : Nat) (p : Bool)
    (h : ∀ i, i < 2 → id.bits.testBit (b + i) = (p && x.testBit i)) :
    id.Bits b 2 = if p then x &&& 3 else 0 :=
  ShaderID.Bits_eq_mask id b 2 x p h

theorem ShaderID.Bits_eq_mask3 (id : ShaderID) (b x : Nat) (p : Bool)
    (h : ∀ i, i < 3 → id.bits.testBit (b + i) = (p && x.testBit i)) :
    id.Bits b 3 = if p then x &&& 7 else 0 :=
  ShaderID.Bits_eq_mask id b 3 x p h

theorem ShaderID.SetBits_mask2 (id : ShaderID) (b x : Nat) :
    id.SetBits b 2 (x &&& 3) = id.SetBits b 2 x := by
  unfold ShaderID.SetBits
  rw [Nat.and_assoc]
  rfl

theorem ShaderID.SetBits_mask3 (id : ShaderID) (b x : Nat) :
    id.SetBits b 3 (x &&& 7) = id.SetBits b 3 x := by
  unfold ShaderID.SetBits
  rw [Nat.and_assoc]
  rfl

theorem ShaderID.SetBits_zero (id : ShaderID) (b c : Nat) : id.SetBits b c 0 = id := by
  unfold ShaderID.SetBits
  simp

theorem ShaderID.SetBits_bool (id : ShaderID) (b : Nat) (v : Bool) :
    id.SetBits b 2 (if v then 1 else 0) = id.SetBit b v := by
  unfold ShaderID.SetBits ShaderID.SetBit
  cases v <;> simp

theorem decode_encode_lmode (env : GenEnv) (f : KeyFields) :
    (decodeFields env (encodeFields f)).lmode = f.lmode := by
  simp only [decodeFields, decodeLocals]
  rw [ShaderID.Bit_eq_testBit]
  simp [-Nat.testBit_zero, Bool.and_assoc, testBit_ite_nat, encodeFields_testBit, encodeLightSlot_testBit]

theorem decode_encode_doTexture (env : GenEnv) (f : KeyFields) :
    (decodeFields env (encodeFields f)).doTexture = f.doTexture := by
  simp only [decodeFields, decodeLocals]
  rw [ShaderID.Bit_eq_testBit]
  simp [-Nat.testBit_zero, Bool.and_assoc, testBit_ite_nat, encodeFields_testBit, encodeLightSlot_testBit]

theorem decode_encode_doTextureProjection (env : GenEnv) (f : KeyFields) :
    (decodeFields env (encodeFields f)).doTextureProjection = (f.doTexture && f.doTextureProjection) := by
  simp only [decodeFields, decodeLocals]
  rw [ShaderID.Bit_eq_testBit]
  simp [-Nat.testBit_zero, Bool.and_assoc, testBit_ite_nat, encodeFields_testBit, encodeLightSlot_testBit]

theorem decode_encode_doFlatShading (env : GenEnv) (f : KeyFields) :
    (decodeFields env (encodeFields f)).doFlatShading = f.doFlatShading := by
  simp only [decodeFields, decodeLocals]
  rw [ShaderID.Bit_eq_testBit]
  simp [-Nat.testBit_zero, Bool.and_assoc, testBit_ite_nat, encodeFields_testBit, encodeLightSlot_testBit]

theorem decode_encode_isModeThrough (env : GenEnv) (f : KeyFields) :
    (decodeFields env (encodeFields f)).isModeThrough = f.isModeThrough := by
  simp only [decodeFields, decodeLocals]
  rw [ShaderID.Bit_eq_testBit]
  simp [-Nat.testBit_zero, Bool.and_assoc, testBit_ite_nat, encodeFields_testBit, encodeLightSlot_testBit]

theorem decode_encode_useHWTransform (env : GenEnv) (f : KeyFields) :
    (decodeFields env (encodeFields f)).useHWTransform = f.useHWTransform := by
  simp only [decodeFields, decodeLocals]
  rw [ShaderID.Bit_eq_testBit]
  simp [-Nat.testBit_zero, Bool.and_assoc, testBit_ite_nat, encodeFields_testBit, encodeLightSlot_testBit]

theorem decode_encode_hasNormal (env : GenEnv) (f : KeyFields) :
    (decodeFields env (encodeFields f)).hasNormal = (f.useHWTransform && f.hasNormal) := by
  simp only [decodeFields, decodeLocals]
  rw [ShaderID.Bit_eq_testBit]
  simp [-Nat.testBit_zero, Bool.and_assoc, testBit_ite_nat, encodeFields_testBit, encodeLightSlot_testBit]

theorem decode_encode_enableFog (env : GenEnv) (f : KeyFields) :
    (decodeFields env (encodeFields f)).enableFog = f.enableFog := by
  simp only [decodeFields, decodeLocals]
  rw [ShaderID.Bit_eq_testBit]
  simp [-Nat.testBit_zero, Bool.and_assoc, testBit_ite_nat, encodeFields_testBit, encodeLightSlot_testBit]

theorem decode_encode_flipV (env : GenEnv) (f : KeyFields) :
    (decodeFields env (encodeFields f)).flipV = (f.doTexture && f.flipV) := by
  simp only [decodeFields, decodeLocals]
  rw [ShaderID.Bit_eq_testBit]
  simp [-Nat.testBit_zero, Bool.and_assoc, testBit_ite_nat, encodeFields_testBit, encodeLightSlot_testBit]

theorem decode_encode_flipNormal (env : GenEnv) (f : KeyFields) :
    (decodeFields env (encodeFields f)).flipNormal = (f.useHWTransform && f.flipNormal) := by
  simp only [decodeFields, decodeLocals]
  rw [ShaderID.Bit_eq_testBit]
  simp [-Nat.testBit_zero, Bool.and_assoc, testBit_ite_nat, encodeFields_testBit, encodeLightSlot_testBit]

theorem decode_encode_enableBones (env : GenEnv) (f : KeyFields) :
    (decodeFields env (encodeFields f)).enableBones = (f.useHWTransform && f.enableBones) := by
  simp only [decodeFields, decodeLocals]
  rw [ShaderID.Bit_eq_testBit]
  simp [-Nat.testBit_zero, Bool.and_assoc, testBit_ite_nat, encodeFields_testBit, encodeLightSlot_testBit]

theorem decode_encode_enableLighting (env : GenEnv) (f : KeyFields) :
    (decodeFields env (encodeFields f)).enableLighting = (f.useHWTransform && f.enableLighting) := by
  simp only [decodeFields, decodeLocals]
  rw [ShaderID.Bit_eq_testBit]
  simp [-Nat.testBit_zero, Bool.and_assoc, testBit_ite_nat, encodeFields_testBit, encodeLightSlot_testBit]

theorem decode_encode_hasColor (env : GenEnv) (f : KeyFields) :
    (decodeFields env (encodeFields f)).hasColor = f.hasColor := by
  simp only [decodeFields, decodeLocals]
  rw [ShaderID.d0_testBit]
  simp [-Nat.testBit_zero, Bool.and_assoc, testBit_ite_nat, encodeFields_testBit, encodeLightSlot_testBit]

theorem decode_encode_hasTexcoord (env : GenEnv) (f : KeyFields) :
    (decodeFields env (encodeFields f)).hasTexcoord =
      (f.useHWTransform &&
        (if f.uvGenMode = 1 ∧ f.uvProjMode = 1 then f.texFmtScale.testBit 0
         else f.hasTexcoord)) := by
  simp only [decodeFields, decodeLocals]
  rw [ShaderID.Bit_eq_testBit]
  simp [-Nat.testBit_zero, Bool.and_assoc, testBit_ite_nat, encodeFields_testBit, encodeLightSlot_testBit]

theorem decode_encode_lightEnable (env : GenEnv) (f : KeyFields) (i : Nat) (hi : i < 4) :
    (decodeFields env (encodeFields f)).lightEnable i =
      (f.useHWTransform && (f.enableLighting && f.lightEnable i)) := by
  simp only [decodeFields]
  rw [ShaderID.Bit_eq_testBit]
  interval_cases i <;>
  simp [-Nat.testBit_zero, Bool.and_assoc, testBit_ite_nat, encodeFields_testBit, encodeLightSlot_testBit]

theorem decode_encode_uvGenMode (env : GenEnv) (f : KeyFields) :
    (decodeFields env (encodeFields f)).uvGenMode =
      if f.useHWTransform then
        f.uvGenMode &&& 3
      else 0 := by
  simp only [decodeFields, decodeLocals]
  apply ShaderID.Bits_eq_mask2
  intro i hi
  interval_cases i <;>
  simp [-Nat.testBit_zero, Bool.and_assoc, testBit_ite_nat, encodeFields_testBit, encodeLightSlot_testBit]

theorem decode_encode_uvProjMode (env : GenEnv) (f : KeyFields) :
    (decodeFields env (encodeFields f)).uvProjMode =
      if f.useHWTransform then
        (if f.uvGenMode = 1 then f.uvProjMode else if f.uvGenMode = 2 then f.ls0 else 0) &&& 3
      else 0 := by
  simp only [decodeFields, decodeLocals]
  apply ShaderID.Bits_eq_mask2
  intro i hi
  interval_cases i <;>
  simp [-Nat.testBit_zero, Bool.and_assoc, testBit_ite_nat, encodeFields_testBit, encodeLightSlot_testBit]
  all_goals (split_ifs <;> simp_all)

theorem decode_encode_ls0 (env : GenEnv) (f : KeyFields) :
    (decodeFields env (encodeFields f)).ls0 =
      if f.useHWTransform then
        (if f.uvGenMode = 1 then f.uvProjMode else if f.uvGenMode = 2 then f.ls0 else 0) &&& 3
      else 0 := by
  simp only [decodeFields, decodeLocals]
  apply ShaderID.Bits_eq_mask2
  intro i hi
  interval_cases i <;>
  simp [-Nat.testBit_zero, Bool.and_assoc, testBit_ite_nat, encodeFields_testBit, encodeLightSlot_testBit]
  all_goals (split_ifs <;> simp_all)

theorem decode_encode_ls1 (env : GenEnv) (f : KeyFields) :
    (decodeFields env (encodeFields f)).ls1 =
      if (f.useHWTransform && decide (f.uvGenMode = 2)) then
        f.ls1 &&& 3
      else 0 := by
  simp only [decodeFields, decodeLocals]
  apply ShaderID.Bits_eq_mask2
  intro i hi
  interval_cases i <;>
  simp [-Nat.testBit_zero, Bool.and_assoc, testBit_ite_nat, encodeFields_testBit, encodeLightSlot_testBit]

theorem decode_encode_matUpdate (env : GenEnv) (f : KeyFields) :
    (decodeFields env (encodeFields f)).matUpdate =
      if (f.useHWTransform && f.enableLighting) then
        f.matUpdate &&& 7
      else 0 := by
  simp only [decodeFields, decodeLocals]
  apply ShaderID.Bits_eq_mask3
  intro i hi
  interval_cases i <;>
  simp [-Nat.testBit_zero, Bool.and_assoc, testBit_ite_nat, encodeFields_testBit, encodeLightSlot_testBit]

theorem decode_encode_boneWeightScale (env : GenEnv) (f : KeyFields) :
    (decodeFields env (encodeFields f)).boneWeightScale =
      if f.useHWTransform then
        f.boneWeightScale &&& 3
      else 0 := by
  simp only [decodeFields, decodeLocals]
  apply ShaderID.Bits_eq_mask2
  intro i hi
  interval_cases i <;>
  simp [-Nat.testBit_zero, Bool.and_assoc, testBit_ite_nat, encodeFields_testBit, encodeLightSlot_testBit]

theorem decode_encode_texFmtScale (env : GenEnv) (f : KeyFields) :
    (decodeFields env (encodeFields f)).texFmtScale =
      if f.useHWTransform then
        (if f.uvGenMode = 1 ∧ f.uvProjMode = 1 then f.texFmtScale else if f.hasTexcoord then 1 else 0) &&& 3
      else 0 := by
  have h10 : Nat.testBit 1 0 = true := by decide
  have h11 : Nat.testBit 1 1 = false := by decide
  simp only [decodeFields, decodeLocals]
  apply ShaderID.Bits_eq_mask2
  intro i hi
  interval_cases i <;>
  simp [-Nat.testBit_zero, Bool.and_assoc, testBit_ite_nat, encodeFields_testBit, encodeLightSlot_testBit]
  all_goals (split_ifs <;> simp_all)

theorem decode_encode_lightType (env : GenEnv) (f : KeyFields) (j : Nat) (hj : j < 4) :
    (decodeFields env (encodeFields f)).lightType j =
      if (f.useHWTransform && (f.enableLighting && f.lightEnable j)) then f.lightType j &&& 3
      else 0 := by
  simp only [decodeFields, lightTypeOf]
  apply ShaderID.Bits_eq_mask2
  intro i hi
  interval_cases j <;> interval_cases i <;>
  simp [-Nat.testBit_zero, Bool.and_assoc, testBit_ite_nat, encodeFields_testBit, encodeLightSlot_testBit]

theorem decode_encode_lightComp (env : GenEnv) (f : KeyFields) (j : Nat) (hj : j < 4) :
    (decodeFields env (encodeFields f)).lightComp j =
      if (f.useHWTransform && (f.enableLighting && f.lightEnable j)) then f.lightComp j &&& 3
      else 0 := by
  simp only [decodeFields, lightCompOf]
  apply ShaderID.Bits_eq_mask2
  intro i hi
  interval_cases j <;> interval_cases i <;>
  simp [-Nat.testBit_zero, Bool.and_assoc, testBit_ite_nat, encodeFields_testBit, encodeLightSlot_testBit]

theorem decode_encode_numBoneWeights (env : GenEnv) (f : KeyFields) :
    (decodeFields env (encodeFields f)).numBoneWeights =
      if (f.useHWTransform && f.enableBones) then 1 + ((f.numBoneWeights - 1) &&& 7) else 0 := by
  have h : (encodeFields f).Bits BIT_BONES 3 =
      if (f.useHWTransform && f.enableBones) then (f.numBoneWeights - 1) &&& 7 else 0 := by
    apply ShaderID.Bits_eq_mask3
    intro i hi
    interval_cases i <;>
    simp [-Nat.testBit_zero, Bool.and_assoc, testBit_ite_nat, encodeFields_testBit, encodeLightSlot_testBit]
  have hb := decode_encode_enableBones env f
  simp only [decodeFields, decodeLocals] at hb ⊢
  rw [hb, h]
  cases f.useHWTransform && f.enableBones <;> simp

theorem reencode_base (env : GenEnv) (f : KeyFields) (id : ShaderID) :
    encodeBaseFields (decodeFields env (encodeFields f)) id = encodeBaseFields f id := by
  unfold encodeBaseFields
  rw [decode_encode_lmode, decode_encode_isModeThrough, decode_encode_enableFog,
    decode_encode_hasColor]

theorem reencode_texture (env : GenEnv) (f : KeyFields) (id : ShaderID) :
    encodeTextureFields (decodeFields env (encodeFields f)) id = encodeTextureFields f id := by
  unfold encodeTextureFields
  rw [decode_encode_doTexture, decode_encode_flipV, decode_encode_doTextureProjection]
  cases f.doTexture <;> simp

theorem reencode_transform (env : GenEnv) (f : KeyFields) (id : ShaderID)
    (h : f.useHWTransform = true) :
    encodeTransformFields (decodeFields env (encodeFields f)) id =
      encodeTransformFields f id := by
  unfold encodeTransformFields
  rw [decode_encode_enableBones, decode_encode_hasNormal, decode_encode_uvGenMode, h, if_pos rfl,
    ShaderID.SetBits_mask2, Bool.true_and, Bool.true_and]

theorem reencode_uvsub (env : GenEnv) (f : KeyFields) (id : ShaderID)
    (h : f.useHWTransform = true) :
    encodeUVSubFields (decodeFields env (encodeFields f)) id = encodeUVSubFields f id := by
  unfold encodeUVSubFields
  rw [decode_encode_uvGenMode, decode_encode_uvProjMode, decode_encode_ls0, decode_encode_ls1, h]
  simp only [if_true, Bool.true_and, GE_TEXMAP_TEXTURE_MATRIX, GE_TEXMAP_ENVIRONMENT_MAP]
  have e2 : 2 &&& 3 = 2 := by decide
  by_cases h1 : f.uvGenMode = 1
  · simp [h1, ShaderID.SetBits_mask2]
  · by_cases h2 : f.uvGenMode = 2
    · simp [h2, e2, ShaderID.SetBits_mask2]
    · simp only [h1, h2, if_false, decide_False, Nat.zero_and, ShaderID.SetBits_zero,
        beq_iff_eq, Bool.false_eq_true, ite_self]

theorem reencode_bone (env : GenEnv) (f : KeyFields) (id : ShaderID)
    (h : f.useHWTransform = true) :
    encodeBoneFields (decodeFields env (encodeFields f)) id = encodeBoneFields f id := by
  unfold encodeBoneFields
  rw [decode_encode_enableBones, decode_encode_numBoneWeights, h]
  cases f.enableBones
  · simp
  · simp only [Bool.and_self, if_true, Nat.add_sub_cancel_left, ShaderID.SetBits_mask3]

theorem reencode_lightSlot (env : GenEnv) (f : KeyFields) (i : Nat) (hi : i < 4) (id : ShaderID)
    (h : f.useHWTransform = true) (hl : f.enableLighting = true) :
    encodeLightSlot (decodeFields env (encodeFields f)) i id = encodeLightSlot f i id := by
  unfold encodeLightSlot
  rw [decode_encode_lightEnable env f i hi, decode_encode_lightType env f i hi,
    decode_encode_lightComp env f i hi, h, hl]
  cases f.lightEnable i
  · simp
  · simp only [Bool.and_self, if_true, ShaderID.SetBits_mask2]

theorem reencode_lighting (env : GenEnv) (f : KeyFields) (id : ShaderID)
    (h : f.useHWTransform = true) :
    encodeLightingFields (decodeFields env (encodeFields f)) id =
      encodeLightingFields f id := by
  unfold encodeLightingFields
  rw [decode_encode_enableLighting, h, Bool.true_and]
  cases hl : f.enableLighting
  · simp
  · simp only [if_true]
    rw [reencode_lightSlot env f 0 (by decide) _ h hl, reencode_lightSlot env f 1 (by decide) _ h hl,
      reencode_lightSlot env f 2 (by decide) _ h hl, reencode_lightSlot env f 3 (by decide) _ h hl,
      decode_encode_matUpdate, decode_encode_lightEnable env f 0 (by decide),
      decode_encode_lightEnable env f 1 (by decide), decode_encode_lightEnable env f 2 (by decide),
      decode_encode_lightEnable env f 3 (by decide), h, hl]
    simp only [Bool.and_self, if_true, Bool.true_and, ShaderID.SetBits_mask3]

theorem reencode_texcoord (env : GenEnv) (f : KeyFields) (id : ShaderID)
    (h : f.useHWTransform = true) :
    encodeTexcoordFields (decodeFields env (encodeFields f)) id =
      encodeTexcoordFields f id := by
  unfold encodeTexcoordFields
  rw [decode_encode_uvGenMode, decode_encode_uvProjMode, decode_encode_texFmtScale,
    decode_encode_hasTexcoord, h]
  simp only [if_true, Bool.true_and, GE_TEXMAP_TEXTURE_MATRIX, GE_PROJMAP_UV]
  have e2 : 2 &&& 3 = 2 := by decide
  by_cases h1 : f.uvGenMode = 1
  · by_cases h2 : f.uvProjMode = 1
    · simp [h1, h2, ShaderID.SetBits_mask2]
    · simp [h1, h2, ShaderID.SetBits_mask2, ShaderID.SetBits_bool]
  · by_cases h3 : f.uvGenMode = 2
    · simp [h3, e2]
    · simp [h1, h3]

theorem reencode_hardware (env : GenEnv) (f : KeyFields) (id : ShaderID) :
    encodeHardwareFields (decodeFields env (encodeFields f)) id =
      encodeHardwareFields f id := by
  unfold encodeHardwareFields
  rw [decode_encode_useHWTransform]
  cases h : f.useHWTransform
  · simp
  · simp only [if_true]
    rw [reencode_texcoord env f _ h, reencode_lighting env f _ h, reencode_bone env f _ h,
      reencode_uvsub env f _ h, reencode_transform env f _ h, decode_encode_boneWeightScale,
      decode_encode_flipNormal, h, if_pos rfl, ShaderID.SetBits_mask2, Bool.true_and]

/-- Decoding a key built by the re-encoder and re-encoding the decoded fields gives the key
back. -/
theorem encodeFields_decodeFields (env : GenEnv) (f : KeyFields) :
    encodeFields (decodeFields env (encodeFields f)) = encodeFields f := by
  have e : ∀ g : KeyFields, encodeFields g =
      (encodeHardwareFields g (encodeTextureFields g (encodeBaseFields g ShaderID.empty))).SetBit
        BIT_FLATSHADE g.doFlatShading := fun _ => rfl
  rw [e (decodeFields env (encodeFields f)), reencode_hardware, reencode_texture, reencode_base,
    decode_encode_doFlatShading, ← e f]

theorem ComputeVertexShaderID_staged (k : Decls) (vertType enabled : Nat) (raster : RasterState)
    (ts : TexScaleState) (lgs : LightGlobalState) (ls : Nat → LightState)
    (flipTexture useHWTransform : Bool) :
    ComputeVertexShaderID k vertType enabled raster ts lgs ls flipTexture useHWTransform =
      ((fun f : KeyFields =>
        (if useHWTransform then
          (fun id : ShaderID =>
            if f.uvGenMode == GE_TEXMAP_TEXTURE_MATRIX && f.uvProjMode == GE_PROJMAP_UV then
              id.SetBit BIT_TEXCOORD_FMTSCALE
                ((vertType &&& k.GE_VTYPE_TC_MASK) >>> k.GE_VTYPE_TC_SHIFT != 0)
            else id.SetBit BIT_HAS_TEXCOORD f.hasTexcoord)
          (((encodeLightingFields f
            ((fun id : ShaderID =>
              if k.vertTypeIsSkinningEnabled vertType then
                id.SetBits BIT_BONES 3
                  (minusOne32 (k.TranslateNumBones (k.vertTypeGetNumBoneWeights vertType)))
              else id)
            (encodeUVSubFields f (encodeTransformFields f
              (encodeTextureFields f (encodeBaseFields f ShaderID.empty)))))).SetBits
            BIT_WEIGHT_FMTSCALE 2 f.boneWeightScale).SetBit BIT_NORM_REVERSE f.flipNormal)
        else encodeTextureFields f (encodeBaseFields f ShaderID.empty)).SetBit
          BIT_FLATSHADE f.doFlatShading)
      (stateFields k vertType enabled raster ts lgs ls flipTexture useHWTransform)) := by
  rfl

theorem ShaderID.bits_ite (c : Prop) [Decidable c] (a b : ShaderID) :
    (if c then a else b).bits = if c then a.bits else b.bits := by
  split <;> rfl

theorem ShaderID.bits_ite_SetBits (s : Bool) (id : ShaderID) (b c x : Nat) :
    (if s then id.SetBits b c x else id).bits =
      id.bits ||| (if s then (x &&& ((1 <<< c) - 1)) <<< b else 0) := by
  cases s
  · simp
  · rfl

/-- The bone-count field as the encoder writes it: under the skinning test of the vertex
format. -/
theorem stateFields_bone_absorb (k : Decls) (vertType enabled : Nat) (raster : RasterState)
    (ts : TexScaleState) (lgs : LightGlobalState) (ls : Nat → LightState)
    (flipTexture useHWTransform : Bool) :
    (encodeBoneFields (stateFields k vertType enabled raster ts lgs ls flipTexture useHWTransform)
        ShaderID.empty).bits |||
      (if k.vertTypeIsSkinningEnabled vertType then
        (minusOne32 (k.TranslateNumBones (k.vertTypeGetNumBoneWeights vertType)) &&&
          ((1 <<< 3) - 1)) <<< BIT_BONES
       else 0) =
      (if k.vertTypeIsSkinningEnabled vertType then
        (minusOne32 (k.TranslateNumBones (k.vertTypeGetNumBoneWeights vertType)) &&&
          ((1 <<< 3) - 1)) <<< BIT_BONES
       else 0) := by
  unfold encodeBoneFields stateFields
  simp only [ShaderID.bits_ite, ShaderID.bits_SetBits, ShaderID.bits_empty, Nat.zero_or]
  cases k.vertTypeIsSkinningEnabled vertType <;> cases (enabled &&& k.ENABLE_BONES != 0) <;> simp

theorem ComputeVertexShaderID_bits (k : Decls) (vertType enabled : Nat) (raster : RasterState)
    (ts : TexScaleState) (lgs : LightGlobalState) (ls : Nat → LightState)
    (flipTexture useHWTransform : Bool) :
    (ComputeVertexShaderID k vertType enabled raster ts lgs ls flipTexture useHWTransform).bits =
      (encodeFields
        (stateFields k vertType enabled raster ts lgs ls flipTexture useHWTransform)).bits |||
      (if useHWTransform then
        (if k.vertTypeIsSkinningEnabled vertType then
          (minusOne32 (k.TranslateNumBones (k.vertTypeGetNumBoneWeights vertType)) &&&
            ((1 <<< 3) - 1)) <<< BIT_BONES
         else 0)
       else 0) := by
  rw [ComputeVertexShaderID_staged, encodeFields_bits]
  have hsf : (stateFields k vertType enabled raster ts lgs ls flipTexture
      useHWTransform).useHWTransform = useHWTransform := rfl
  have htc : ∀ id : ShaderID,
      (if ((stateFields k vertType enabled raster ts lgs ls flipTexture useHWTransform).uvGenMode ==
            GE_TEXMAP_TEXTURE_MATRIX &&
          (stateFields k vertType enabled raster ts lgs ls flipTexture useHWTransform).uvProjMode ==
            GE_PROJMAP_UV) = true then
        id.SetBit BIT_TEXCOORD_FMTSCALE
          ((vertType &&& k.GE_VTYPE_TC_MASK) >>> k.GE_VTYPE_TC_SHIFT != 0)
      else id.SetBit BIT_HAS_TEXCOORD
        (stateFields k vertType enabled raster ts lgs ls flipTexture useHWTransform).hasTexcoord) =
      encodeTexcoordFields
        (stateFields k vertType enabled raster ts lgs ls flipTexture useHWTransform) id := by
    intro id
    unfold encodeTexcoordFields
    split
    · exact (ShaderID.SetBits_bool id _ _).symm
    · rfl
  have hab := stateFields_bone_absorb k vertType enabled raster ts lgs ls flipTexture useHWTransform
  simp only [hsf, htc]
  generalize stateFields k vertType enabled raster ts lgs ls flipTexture useHWTransform = f at hab ⊢
  cases useHWTransform
  · simp only [Bool.false_eq_true, if_false, ShaderID.bits_SetBit, encodeTextureFields_bits f (encodeBaseFields f _),
      Nat.or_zero]
  · simp only [if_true, ShaderID.bits_SetBit, ShaderID.bits_SetBits, ShaderID.bits_ite_SetBits,
      encodeTexcoordFields_bits f (ShaderID.SetBit _ _ _),
      encodeLightingFields_bits f (ite _ _ _),
      encodeUVSubFields_bits f (encodeTransformFields _ _),
      encodeTransformFields_bits f (encodeTextureFields _ _),
      encodeTextureFields_bits f (encodeBaseFields _ _)]
    generalize (if k.vertTypeIsSkinningEnabled vertType = true then
        (minusOne32 (k.TranslateNumBones (k.vertTypeGetNumBoneWeights vertType)) &&&
          ((1 <<< 3) - 1)) <<< BIT_BONES
       else 0) = r at hab ⊢
    generalize (encodeBoneFields f ShaderID.empty).bits = bn at hab ⊢
    generalize (encodeBaseFields f ShaderID.empty).bits = a1
    generalize (encodeTextureFields f ShaderID.empty).bits = a2
    generalize (encodeTransformFields f ShaderID.empty).bits = a3
    generalize (encodeUVSubFields f ShaderID.empty).bits = a4
    generalize (encodeLightingFields f ShaderID.empty).bits = a5
    generalize (encodeTexcoordFields f ShaderID.empty).bits = a6
    generalize (f.boneWeightScale &&& ((1 <<< 2) - 1)) <<< BIT_WEIGHT_FMTSCALE = a7
    generalize (if f.flipNormal = true then 1 <<< BIT_NORM_REVERSE else 0) = a8
    generalize (if f.doFlatShading = true then 1 <<< BIT_FLATSHADE else 0) = a9
    rw [← hab]
    ac_rfl

theorem encodeFields_Bit_bones (f : KeyFields) :
    (encodeFields f).Bit BIT_ENABLE_BONES = (f.useHWTransform && f.enableBones) := by
  rw [ShaderID.Bit_eq_testBit]
  simp [-Nat.testBit_zero, Bool.and_assoc, encodeFields_testBit, encodeLightSlot_testBit]

theorem encodeFields_Bits_bones (f : KeyFields) :
    (encodeFields f).Bits BIT_BONES 3 =
      if (f.useHWTransform && f.enableBones) then (f.numBoneWeights - 1) &&& 7 else 0 := by
  apply ShaderID.Bits_eq_mask3
  intro i hi
  interval_cases i <;>
  simp [-Nat.testBit_zero, Bool.and_assoc, encodeFields_testBit, encodeLightSlot_testBit]

/-- A key that survives decoding and re-encoding has an empty bone-count field whenever its
bones-enable bit is clear. -/
theorem bones_of_round_trip (env : GenEnv) (id : ShaderID)
    (h : encodeFields (decodeFields env id) = id) :
    id.Bit BIT_ENABLE_BONES = true ∨ id.Bits BIT_BONES 3 = 0 := by
  cases hb : id.Bit BIT_ENABLE_BONES
  · right
    have he : (decodeFields env id).enableBones = false := hb
    rw [← h, encodeFields_Bits_bones, he, Bool.and_false]
    rfl
  · left
    rfl

/-- The bone-count field and the bones-enable bit of a key with extra bits in the bone-count
field. -/
theorem ShaderID.Bits_bones_or (a x : Nat) :
    (ShaderID.mk (a ||| ((x &&& ((1 <<< 3) - 1)) <<< BIT_BONES))).Bits BIT_BONES 3 =
      (ShaderID.mk a).Bits BIT_BONES 3 ||| (x &&& ((1 <<< 3) - 1)) := by
  apply Nat.eq_of_testBit_eq
  intro i
  simp only [ShaderID.testBit_Bits, Nat.testBit_or, testBit_fieldMask, testBit_mask, BIT_BONES]
  by_cases hi : i < 3
  · have h1 : 22 ≤ 22 + i := Nat.le_add_right _ _
    have h2 : 22 + i < 22 + 3 := Nat.add_lt_add_left hi _
    simp [hi, h1, h2]
  · simp [hi]

theorem ShaderID.Bit_bones_or (a x : Nat) :
    (ShaderID.mk (a ||| ((x &&& ((1 <<< 3) - 1)) <<< BIT_BONES))).Bit BIT_ENABLE_BONES =
      (ShaderID.mk a).Bit BIT_ENABLE_BONES := by
  simp only [ShaderID.Bit_eq_testBit, Nat.testBit_or, testBit_fieldMask, BIT_BONES,
    BIT_ENABLE_BONES]
  simp

theorem or_eq_zero_right (a b : Nat) (h : a ||| b = 0) : b = 0 := by
  apply Nat.eq_of_testBit_eq
  intro i
  have h1 := congrArg (fun n => n.testBit i) h
  simp only [Nat.testBit_or, Nat.zero_testBit, Bool.or_eq_false_iff] at h1
  rw [h1.2, Nat.zero_testBit]

/-- The bone-count field written by the re-encoder is part of the re-encoded key. -/
theorem encodeFields_bone_absorb (f : KeyFields) (h : f.useHWTransform = true)
    (hb : f.enableBones = true) :
    (encodeFields f).bits |||
      ((f.numBoneWeights - 1) &&& ((1 <<< 3) - 1)) <<< BIT_BONES = (encodeFields f).bits := by
  have hbn : (encodeBoneFields f ShaderID.empty).bits =
      ((f.numBoneWeights - 1) &&& ((1 <<< 3) - 1)) <<< BIT_BONES := by
    unfold encodeBoneFields
    rw [if_pos hb, ShaderID.bits_SetBits, ShaderID.bits_empty, Nat.zero_or]
  rw [← hbn, encodeFields_bits, if_pos h]
  generalize (encodeBoneFields f ShaderID.empty).bits = bn
  generalize (encodeBaseFields f ShaderID.empty).bits = a1
  generalize (encodeTextureFields f ShaderID.empty).bits = a2
  generalize (encodeTransformFields f ShaderID.empty).bits = a3
  generalize (encodeUVSubFields f ShaderID.empty).bits = a4
  generalize (encodeLightingFields f ShaderID.empty).bits = a5
  generalize (encodeTexcoordFields f ShaderID.empty).bits = a6
  generalize (f.boneWeightScale &&& ((1 <<< 2) - 1)) <<< BIT_WEIGHT_FMTSCALE = a7
  generalize (if f.flipNormal = true then 1 <<< BIT_NORM_REVERSE else 0) = a8
  generalize (if f.doFlatShading = true then 1 <<< BIT_FLATSHADE else 0) = a9
  apply Nat.eq_of_testBit_eq
  intro i
  simp only [Nat.testBit_or]
  cases bn.testBit i <;> simp

/-- A key that is a re-encoded key with extra bits in the bone-count field is the re-encoded
key as soon as its bone-count field is empty whenever its bones-enable bit is clear. -/
theorem key_eq_encodeFields (id : ShaderID) (f : KeyFields) (x : Nat) (p : Bool)
    (hbits : id.bits =
      (encodeFields f).bits ||| (if p then (x &&& ((1 <<< 3) - 1)) <<< BIT_BONES else 0))
    (hp : p = true → f.useHWTransform = true ∧ (f.enableBones = true → f.numBoneWeights - 1 = x))
    (h : id.Bit BIT_ENABLE_BONES = true ∨ id.Bits BIT_BONES 3 = 0) : id = encodeFields f := by
  have hid : id = ShaderID.mk id.bits := rfl
  have hf : ShaderID.mk (encodeFields f).bits = encodeFields f := rfl
  cases p
  · rw [hid, hbits]
    simp only [Bool.false_eq_true, if_false, Nat.or_zero]
  · obtain ⟨hhw, hnb⟩ := hp rfl
    rw [if_pos rfl] at hbits
    cases hb : f.enableBones
    · rw [hid, hbits, ShaderID.Bit_bones_or, ShaderID.Bits_bones_or, hf, encodeFields_Bit_bones,
        encodeFields_Bits_bones, hhw, hb] at h
      simp only [Bool.and_false, Bool.false_eq_true, if_false, false_or] at h
      have hx := or_eq_zero_right _ _ h
      rw [hid, hbits, hx, Nat.zero_shiftLeft, Nat.or_zero]
    · rw [hid, hbits, ← hnb hb, encodeFields_bone_absorb f hhw hb]

theorem ComputeVertexShaderID_eq_encodeFields (k : Decls) (vertType enabled : Nat)
    (raster : RasterState) (ts : TexScaleState) (lgs : LightGlobalState)
    (ls : Nat → LightState) (flipTexture useHWTransform : Bool)
    (h : (ComputeVertexShaderID k vertType enabled raster ts lgs ls flipTexture
        useHWTransform).Bit BIT_ENABLE_BONES = true ∨
      (ComputeVertexShaderID k vertType enabled raster ts lgs ls flipTexture
        useHWTransform).Bits BIT_BONES 3 = 0) :
    ComputeVertexShaderID k vertType enabled raster ts lgs ls flipTexture useHWTransform =
      encodeFields (stateFields k vertType enabled raster ts lgs ls flipTexture useHWTransform) := by
  have hbits := ComputeVertexShaderID_bits k vertType enabled raster ts lgs ls flipTexture
    useHWTransform
  apply key_eq_encodeFields _ _
    (minusOne32 (k.TranslateNumBones (k.vertTypeGetNumBoneWeights vertType)))
    (useHWTransform && k.vertTypeIsSkinningEnabled vertType) _ _ h
  · rw [hbits]
    congr 1
    cases useHWTransform <;> cases k.vertTypeIsSkinningEnabled vertType <;> simp
  · intro hp
    simp only [Bool.and_eq_true] at hp
    refine ⟨hp.1, fun _ => ?_⟩
    show (if k.vertTypeIsSkinningEnabled vertType = true then
        minusOne32 (k.TranslateNumBones (k.vertTypeGetNumBoneWeights vertType)) + 1 else 1) - 1 = _
    rw [if_pos hp.2, Nat.add_sub_cancel]

/-- C3 (amended): for every key produced by ComputeVertexShaderID, decoding its fields the way
GenerateVertexShader does (the aliased bits 18-19 read by the decoded UV generation mode, the
aliased bits 60-61 by texture-matrix mode with the UV sub-mode) and re-encoding the decoded
fields with the field layout of the encoder yields the same key if and only if the bones-enable
bit (bit 30) of the key is set or its bone-count field (bits 22-24) is zero. The encoder writes
the bone count whenever the vertex format has skinning, the decoder reads it only under the
bones-enable bit. -/
theorem decode_reencode_round_trip_iff (env : GenEnv) (k : Decls) (vertType enabled : Nat)
    (raster : RasterState) (ts : TexScaleState) (lgs : LightGlobalState)
    (ls : Nat → LightState) (flipTexture useHWTransform : Bool) :
    encodeFields (decodeFields env
        (ComputeVertexShaderID k vertType enabled raster ts lgs ls flipTexture useHWTransform)) =
      ComputeVertexShaderID k vertType enabled raster ts lgs ls flipTexture useHWTransform ↔
    ((ComputeVertexShaderID k vertType enabled raster ts lgs ls flipTexture
        useHWTransform).Bit BIT_ENABLE_BONES = true ∨
      (ComputeVertexShaderID k vertType enabled raster ts lgs ls flipTexture
        useHWTransform).Bits BIT_BONES 3 = 0) := by
  constructor
  · exact bones_of_round_trip env _
  · intro h
    rw [ComputeVertexShaderID_eq_encodeFields k vertType enabled raster ts lgs ls flipTexture
      useHWTransform h]
    exact encodeFields_decodeFields env _

/-- C3 (counterexample): hardware transform, a vertex format with skinning (weight format 1,
three bone weights) and no feature flag set. The encoder writes bit 8, the bone count 2 in bits
22-24 and the weight scale 1 in bits 57-58; the bones-enable bit 30 stays clear, so the decoder
does not read the bone count and the re-encoded key has bits 22-24 clear. -/
theorem decode_reencode_round_trip_fails :
    ComputeVertexShaderID sampleDecls ((1 <<< 9) + (2 <<< 14)) 0 ⟨false, 1⟩ ⟨0, 0, 0, 0⟩
        ⟨false, 0, false⟩ sampleLights false true = ⟨2 ^ 8 + 2 * 2 ^ 22 + 2 ^ 57⟩ ∧
      encodeFields (decodeFields sampleEnv
        (ComputeVertexShaderID sampleDecls ((1 <<< 9) + (2 <<< 14)) 0 ⟨false, 1⟩ ⟨0, 0, 0, 0⟩
          ⟨false, 0, false⟩ sampleLights false true)) = ⟨2 ^ 8 + 2 ^ 57⟩ ∧
      encodeFields (decodeFields sampleEnv
        (ComputeVertexShaderID sampleDecls ((1 <<< 9) + (2 <<< 14)) 0 ⟨false, 1⟩ ⟨0, 0, 0, 0⟩
          ⟨false, 0, false⟩ sampleLights false true)) ≠
        ComputeVertexShaderID sampleDecls ((1 <<< 9) + (2 <<< 14)) 0 ⟨false, 1⟩ ⟨0, 0, 0, 0⟩
          ⟨false, 0, false⟩ sampleLights false true := by
  decide!

/-! ### Reading key bits off the generated source -/

theorem splitAtChar_line (l rest : List Char) (h : '\n' ∉ l) :
    splitAtChar '\n' (l ++ '\n' :: rest) = l :: splitAtChar '\n' rest := by
  induction l with
  | nil => simp [splitAtChar]
  | cons x xs ih =>
    have hx : x ≠ '\n' := fun e => h (by simp [e])
    have hxs : '\n' ∉ xs := fun e => h (by simp [e])
    rw [List.cons_append, splitAtChar, if_neg hx, ih hxs]

theorem splitAtChar_lines (ls : List (List Char)) (rest : List Char)
    (h : ∀ l ∈ ls, '\n' ∉ l) :
    splitAtChar '\n' (ls.flatMap (fun l => l ++ ['\n']) ++ rest) = ls ++ splitAtChar '\n' rest := by
  induction ls with
  | nil => simp
  | cons l ls ih =>
    have h1 : '\n' ∉ l := h l (by simp)
    have h2 : ∀ l ∈ ls, '\n' ∉ l := fun l hl => h l (by simp [hl])
    simp only [List.flatMap_cons, List.append_assoc, List.singleton_append, List.cons_append,
      List.nil_append]
    rw [splitAtChar_line _ _ h1, ih h2]

theorem splitAtChar_text (c : String) (rest : List Char) (h : isLineText c = true) :
    splitAtChar '\n' (c.data ++ rest) = completeLines c ++ splitAtChar '\n' rest := by
  unfold isLineText at h
  simp only [Bool.and_eq_true, beq_iff_eq, List.all_eq_true, bne_iff_ne] at h
  obtain ⟨h1, h2⟩ := h
  conv_lhs => rw [h1]
  exact splitAtChar_lines _ _ (fun l hl hmem => h2 l hl _ hmem rfl)

theorem splitAtChar_texts (cs : List String) (rest : List Char)
    (h : ∀ c ∈ cs, isLineText c = true) :
    splitAtChar '\n' ((cs.map String.data).flatten ++ rest) =
      cs.flatMap completeLines ++ splitAtChar '\n' rest := by
  induction cs with
  | nil => simp
  | cons c cs ih =>
    have h1 := h c (by simp)
    have h2 : ∀ c ∈ cs, isLineText c = true := fun c hc => h c (by simp [hc])
    simp only [List.map_cons, List.flatten_cons, List.append_assoc, List.flatMap_cons]
    rw [splitAtChar_text _ _ h1, ih h2]

theorem isLineText_of_isDeclarationText (c : String) (h : isDeclarationText c = true) :
    isLineText c = true := by
  unfold isDeclarationText at h
  simp only [Bool.and_eq_true] at h
  exact h.1

theorem completeLines_ne_mainHeader (cs : List String)
    (h : ∀ c ∈ cs, isDeclarationText c = true) :
    ∀ l ∈ cs.flatMap completeLines, (l != mainHeader) = true := by
  intro l hl
  obtain ⟨c, hc, hlc⟩ := List.mem_flatMap.mp hl
  have h1 := h c hc
  unfold isDeclarationText at h1
  simp only [Bool.and_eq_true, List.all_eq_true] at h1
  exact h1.2 l hlc

/-- The lines of a text made of declaration strings, the line that opens main(), body strings
and the closing line. -/
theorem lines_of_source (src : String) (decl body : List String)
    (hsrc : src.data = (decl.map String.data).flatten ++
      (mainHeader ++ '\n' :: ((body ++ ["\x7d\n"]).map String.data).flatten))
    (hd : ∀ c ∈ decl, isDeclarationText c = true) (hb : ∀ c ∈ body, isLineText c = true) :
    splitAtChar '\n' src.data =
      decl.flatMap completeLines ++
        mainHeader :: (body.flatMap completeLines ++ ["\x7d".data, []]) := by
  have hb2 : ∀ c ∈ body ++ ["\x7d\n"], isLineText c = true := by
    intro c hc
    rcases List.mem_append.mp hc with h | h
    · exact hb c h
    · rw [List.mem_singleton.mp h]
      decide
  have hnil : splitAtChar '\n' ((body ++ ["\x7d\n"]).map String.data).flatten =
      (body ++ ["\x7d\n"]).flatMap completeLines ++ splitAtChar '\n' [] := by
    have := splitAtChar_texts (body ++ ["\x7d\n"]) [] hb2
    rwa [List.append_nil] at this
  rw [hsrc, splitAtChar_texts _ _ (fun c hc => isLineText_of_isDeclarationText c (hd c hc)),
    splitAtChar_line _ _ (by decide), hnil, List.flatMap_append]
  have e1 : ["\x7d\n"].flatMap completeLines = ["\x7d".data] := by decide
  have e2 : splitAtChar '\n' [] = [[]] := rfl
  rw [e1, e2, List.append_assoc]
  rfl

theorem declares_of_source (src : String) (decl body : List String)
    (hsrc : src.data = (decl.map String.data).flatten ++
      (mainHeader ++ '\n' :: ((body ++ ["\x7d\n"]).map String.data).flatten))
    (hd : ∀ c ∈ decl, isDeclarationText c = true) (hb : ∀ c ∈ body, isLineText c = true)
    (ending : String) :
    declares src ending = writesLineEnding decl ending := by
  unfold declares declarationLines writesLineEnding
  rw [lines_of_source src decl body hsrc hd hb,
    List.takeWhile_append_of_pos (completeLines_ne_mainHeader decl hd)]
  simp [List.takeWhile, List.any_flatMap]

theorem bodyHasLine_of_source (src : String) (decl body : List String)
    (hsrc : src.data = (decl.map String.data).flatten ++
      (mainHeader ++ '\n' :: ((body ++ ["\x7d\n"]).map String.data).flatten))
    (hd : ∀ c ∈ decl, isDeclarationText c = true) (hb : ∀ c ∈ body, isLineText c = true)
    (line : String) (h1 : (mainHeader == line.data) = false)
    (h2 : ("\x7d".data == line.data) = false) (h3 : (([] : List Char) == line.data) = false) :
    bodyHasLine src line = writesLine body line := by
  unfold bodyHasLine bodyLines writesLine
  rw [lines_of_source src decl body hsrc hd hb,
    List.dropWhile_append_of_pos (completeLines_ne_mainHeader decl hd),
    List.dropWhile_cons_of_neg (by simp)]
  simp only [List.any_cons, List.any_nil, List.any_append, List.any_flatMap, h1, h2, h3,
    Bool.false_or, Bool.or_false]

theorem declarationSummary_append (a b : List String) :
    declarationSummary (a ++ b) =
      ((declarationSummary a).1 && (declarationSummary b).1,
        List.zipWith (fun x y => x || y) (declarationSummary a).2 (declarationSummary b).2) := by
  simp [declarationSummary, writesLineEnding, declarationEndings, List.any_append,
    List.all_append]

theorem header_summary (env : GenEnv) :
    declarationSummary (versionHeader env) =
      (true, [false, false, false, false, false, false, false, false, false, false, false, false,
        false, false, false, false, false, false, false, false, false, false]) := by
  unfold versionHeader
  generalize env.gl_extensions.GLES3 = g
  generalize env.gl_extensions.VersionGEThan 3 3 0 = x
  generalize env.gl_extensions.VersionGEThan 3 0 0 = y
  cases env.build
  all_goals (dsimp only; revert g x y; decide!)

theorem attribute_summary (id : ShaderID) (v : Locals)
    (hk : v.attributeKw = if v.glslES30 then "in" else "attribute")
    (hd : v.boneWeightDecl = if v.glslES30 then boneWeightInDecl else boneWeightAttrDecl)
    (hn : id.Bit BIT_ENABLE_BONES = true → 1 ≤ v.numBoneWeights ∧ v.numBoneWeights ≤ 8) :
    declarationSummary (attributeWrites id v) =
      (true, [false, false, false, v.hasColor, false, false, v.useHWTransform,
        v.useHWTransform && v.hasNormal, false, false, false, false, false, false,
        false, false, false, false, false, false, false, false]) := by
  unfold attributeWrites
  rw [hk, hd]
  repeat rw [declarationSummary_append]
  have e1 : declarationSummary (if id.Bit BIT_ENABLE_BONES = true then
      [(if v.glslES30 = true then boneWeightInDecl else boneWeightAttrDecl).getD
        v.numBoneWeights ""] else []) =
      (true, [false, false, false, false, false, false, false, false, false, false, false, false,
        false, false, false, false, false, false, false, false, false, false]) := by
    generalize v.glslES30 = g
    cases hb : id.Bit BIT_ENABLE_BONES
    · simp only [Bool.false_eq_true, if_false]
      decide!
    · obtain ⟨h1, h2⟩ := hn hb
      generalize v.numBoneWeights = nb at h1 h2 ⊢
      have h3 : nb < 9 := by omega
      clear h2
      revert g
      revert h1
      revert nb
      decide!
  have e2 : declarationSummary
      [if v.useHWTransform = true then
        (if v.glslES30 = true then "in" else "attribute") ++ " vec3 position;\n"
       else (if v.glslES30 = true then "in" else "attribute") ++ " vec4 position;\n"] =
      (true, [false, false, false, false, false, false, v.useHWTransform, false, false, false,
        false, false, false, false, false, false, false, false, false, false, false,
        false]) := by
    generalize v.glslES30 = g
    generalize v.useHWTransform = hw
    revert g hw
    decide!
  have e3 : declarationSummary
      (if (v.useHWTransform && v.hasNormal) = true then
        [(if v.glslES30 = true then "in" else "attribute") ++ " mediump vec3 normal;\n"]
       else []) =
      (true, [false, false, false, false, false, false, false, v.useHWTransform && v.hasNormal,
        false, false, false, false, false, false, false, false, false, false, false,
        false, false, false]) := by
    generalize v.glslES30 = g
    generalize (v.useHWTransform && v.hasNormal) = b
    revert g b
    decide!
  have e4 : declarationSummary
      (if (v.doTexture && v.hasTexcoord) = true then
        [if (!v.useHWTransform && v.doTextureProjection && !v.throughmode) = true then
           (if v.glslES30 = true then "in" else "attribute") ++ " vec3 texcoord;\n"
         else (if v.glslES30 = true then "in" else "attribute") ++ " vec2 texcoord;\n"]
       else []) =
      (true, [false, false, false, false, false, false, false, false, false, false, false, false,
        false, false, false, false, false, false, false, false, false, false]) := by
    generalize v.glslES30 = g
    generalize (v.doTexture && v.hasTexcoord) = b
    generalize (!v.useHWTransform && v.doTextureProjection && !v.throughmode) = c
    revert g b c
    decide!
  have e5 : declarationSummary
      (if v.hasColor = true then
        [(if v.glslES30 = true then "in" else "attribute") ++ " lowp vec4 color0;\n"] ++
        (if (v.lmode && !v.useHWTransform) = true then
          [(if v.glslES30 = true then "in" else "attribute") ++ " lowp vec3 color1;\n"]
         else [])
       else []) =
      (true, [false, false, false, v.hasColor, false, false, false, false, false, false, false,
        false, false, false, false, false, false, false, false, false, false, false]) := by
    generalize v.glslES30 = g
    generalize (v.lmode && !v.useHWTransform) = b
    generalize v.hasColor = c
    revert g b c
    decide!
  rw [e1, e2, e3, e4, e5]
  simp

theorem transformUniform_summary (env : GenEnv) (v : Locals) (hn : v.numBoneWeights ≤ 8) :
    declarationSummary (transformUniformWrites env v) =
      (true, [false, false, false, false, false, false, false, false,
        v.enableBones && decide (1 ≤ v.numBoneWeights), false, false, false, false,
        false, false, false, false, false, false, false, false, false]) := by
  unfold transformUniformWrites
  dsimp only
  repeat rw [declarationSummary_append]
  have e1 : declarationSummary (if v.enableBones = true then
      List.map (fun i => "uniform mat4 u_bone" ++ fmtInt i ++ ";\n") (List.range v.numBoneWeights)
      else []) =
      (true, [false, false, false, false, false, false, false, false,
        v.enableBones && decide (1 ≤ v.numBoneWeights), false, false, false, false,
        false, false, false, false, false, false, false, false, false]) := by
    generalize v.enableBones = b
    generalize v.numBoneWeights = nb at hn ⊢
    have h3 : nb < 9 := by omega
    clear hn
    revert b
    revert nb
    decide!
  rw [e1]
  generalize prescaleOf env v = c
  generalize (v.uvGenMode == GE_TEXMAP_ENVIRONMENT_MAP) = m1
  generalize (v.uvGenMode == GE_TEXMAP_TEXTURE_MATRIX) = m2
  generalize v.doTexture = dt
  generalize v.flipV = fl
  generalize v.doTextureProjection = tp
  generalize (v.enableBones && decide (1 ≤ v.numBoneWeights)) = bb
  revert c m1 m2 dt fl tp bb
  decide!

theorem lightUniform_summary (id : ShaderID) (v : Locals) (i : Nat) (hi : i < 4) :
    declarationSummary (lightUniformWrites id v i) =
      (true, [false, false, false, false, false, false, false, false, false,
        decide (i = 0) && (v.doLight i == DoLightComputation.LIGHT_FULL),
        decide (i = 1) && (v.doLight i == DoLightComputation.LIGHT_FULL),
        decide (i = 2) && (v.doLight i == DoLightComputation.LIGHT_FULL),
        decide (i = 3) && (v.doLight i == DoLightComputation.LIGHT_FULL), false,
        decide (i = 0) && ((v.doLight i == DoLightComputation.LIGHT_FULL) &&
          (lightTypeOf id i == GE_LIGHTTYPE_SPOT || lightTypeOf id i == GE_LIGHTTYPE_UNKNOWN)),
        decide (i = 1) && ((v.doLight i == DoLightComputation.LIGHT_FULL) &&
          (lightTypeOf id i == GE_LIGHTTYPE_SPOT || lightTypeOf id i == GE_LIGHTTYPE_UNKNOWN)),
        decide (i = 2) && ((v.doLight i == DoLightComputation.LIGHT_FULL) &&
          (lightTypeOf id i == GE_LIGHTTYPE_SPOT || lightTypeOf id i == GE_LIGHTTYPE_UNKNOWN)),
        decide (i = 3) && ((v.doLight i == DoLightComputation.LIGHT_FULL) &&
          (lightTypeOf id i == GE_LIGHTTYPE_SPOT || lightTypeOf id i == GE_LIGHTTYPE_UNKNOWN)),
        decide (i = 0) && ((v.doLight i == DoLightComputation.LIGHT_FULL) &&
          (lightCompOf id i != GE_LIGHTCOMP_ONLYDIFFUSE)),
        decide (i = 1) && ((v.doLight i == DoLightComputation.LIGHT_FULL) &&
          (lightCompOf id i != GE_LIGHTCOMP_ONLYDIFFUSE)),
        decide (i = 2) && ((v.doLight i == DoLightComputation.LIGHT_FULL) &&
          (lightCompOf id i != GE_LIGHTCOMP_ONLYDIFFUSE)),
        decide (i = 3) && ((v.doLight i == DoLightComputation.LIGHT_FULL) &&
          (lightCompOf id i != GE_LIGHTCOMP_ONLYDIFFUSE))]) := by
  unfold lightUniformWrites
  have ht := lightTypeOf_lt id i
  have hc := lightCompOf_lt id i
  generalize lightTypeOf id i = t at ht ⊢
  generalize lightCompOf id i = c at hc ⊢
  generalize v.doLight i = d
  dsimp only
  revert d
  revert hc
  revert c
  revert ht
  revert t
  revert hi
  revert i
  decide!

theorem materialUniform_summary (v : Locals) :
    declarationSummary (materialUniformWrites v) =
      (true, [false, false, false, false, false, false, false, false, false, false, false, false,
        false, v.enableLighting, false, false, false, false, false, false, false, false]) := by
  unfold materialUniformWrites
  generalize (v.matUpdate &&& 2 == 0) = m
  generalize v.hasColor = hc
  generalize v.enableLighting = l
  revert m hc l
  decide!

theorem commonUniform_summary (v : Locals) :
    declarationSummary (commonUniformWrites v) =
      (true, [false, false, v.enableFog, false, false, false, false, false, false, false, false,
        false, false, false, false, false, false, false, false, false, false, false]) := by
  unfold commonUniformWrites
  generalize v.useHWTransform = hw
  generalize v.hasColor = hc
  generalize v.enableFog = fg
  revert hw hc fg
  decide!

theorem varying_summary (v : Locals)
    (hk : v.varyingKw = if v.glslES30 then "out" else "varying")
    (hs : v.shading = if v.glslES30 then (if v.doFlatShading then "flat" else "") else "") :
    declarationSummary (varyingWrites v) =
      (true, [v.lmode, false, false, false, v.doTexture, v.doTexture && v.doTextureProjection,
        false, false, false, false, false, false, false, false, false, false, false,
        false, false, false, false, false]) := by
  unfold varyingWrites
  rw [hk, hs]
  repeat rw [declarationSummary_append]
  have e1 : declarationSummary
      [(if v.glslES30 = true then if v.doFlatShading = true then "flat" else "" else "") ++ " " ++
        (if v.glslES30 = true then "out" else "varying") ++ " lowp vec4 v_color0;\n"] =
      (true, [false, false, false, false, false, false, false, false, false, false, false, false,
        false, false, false, false, false, false, false, false, false, false]) := by
    generalize v.glslES30 = g
    generalize v.doFlatShading = fs
    revert g fs
    decide!
  have e2 : declarationSummary
      (if v.lmode = true then
        [(if v.glslES30 = true then if v.doFlatShading = true then "flat" else "" else "") ++
          " " ++ (if v.glslES30 = true then "out" else "varying") ++ " lowp vec3 v_color1;\n"]
       else []) =
      (true, [v.lmode, false, false, false, false, false, false, false, false, false, false, false,
        false, false, false, false, false, false, false, false, false, false]) := by
    generalize v.glslES30 = g
    generalize v.doFlatShading = fs
    generalize v.lmode = lm
    revert g fs lm
    decide!
  have e3 : declarationSummary
      (if v.doTexture = true then
        [if v.doTextureProjection = true then
           (if v.glslES30 = true then "out" else "varying") ++ " " ++
             (if v.highpTexcoord = true then "highp" else "mediump") ++ " vec3 v_texcoord;\n"
         else
           (if v.glslES30 = true then "out" else "varying") ++ " " ++
             (if v.highpTexcoord = true then "highp" else "mediump") ++ " vec2 v_texcoord;\n"]
       else []) =
      (true, [false, false, false, false, v.doTexture, v.doTexture && v.doTextureProjection, false,
        false, false, false, false, false, false, false, false, false, false, false,
        false, false, false, false]) := by
    generalize v.glslES30 = g
    generalize v.doTexture = dt
    generalize v.doTextureProjection = tp
    generalize v.highpTexcoord = ht
    revert g dt tp ht
    decide!
  have e4 : declarationSummary
      (if v.enableFog = true then
        [if v.highpFog = true then
           (if v.glslES30 = true then "out" else "varying") ++ " highp float v_fogdepth;\n"
         else (if v.glslES30 = true then "out" else "varying") ++ " mediump float v_fogdepth;\n"]
       else []) =
      (true, [false, false, false, false, false, false, false, false, false, false, false, false,
        false, false, false, false, false, false, false, false, false, false]) := by
    generalize v.glslES30 = g
    generalize v.enableFog = fg
    generalize v.highpFog = hf
    revert g fg hf
    decide!
  rw [e1, e2, e3, e4]
  simp

theorem uniform_summary (env : GenEnv) (id : ShaderID) (v : Locals) (hn : v.numBoneWeights ≤ 8) :
    declarationSummary (uniformWrites env id v) =
      (true, [false, v.isModeThrough, v.enableFog, false, false, false, false, false,
        v.useHWTransform && (v.enableBones && decide (1 ≤ v.numBoneWeights)),
        v.useHWTransform && (v.doLight 0 == DoLightComputation.LIGHT_FULL),
        v.useHWTransform && (v.doLight 1 == DoLightComputation.LIGHT_FULL),
        v.useHWTransform && (v.doLight 2 == DoLightComputation.LIGHT_FULL),
        v.useHWTransform && (v.doLight 3 == DoLightComputation.LIGHT_FULL),
        v.useHWTransform && v.enableLighting,
        v.useHWTransform && ((v.doLight 0 == DoLightComputation.LIGHT_FULL) &&
          (lightTypeOf id 0 == GE_LIGHTTYPE_SPOT || lightTypeOf id 0 == GE_LIGHTTYPE_UNKNOWN)),
        v.useHWTransform && ((v.doLight 1 == DoLightComputation.LIGHT_FULL) &&
          (lightTypeOf id 1 == GE_LIGHTTYPE_SPOT || lightTypeOf id 1 == GE_LIGHTTYPE_UNKNOWN)),
        v.useHWTransform && ((v.doLight 2 == DoLightComputation.LIGHT_FULL) &&
          (lightTypeOf id 2 == GE_LIGHTTYPE_SPOT || lightTypeOf id 2 == GE_LIGHTTYPE_UNKNOWN)),
        v.useHWTransform && ((v.doLight 3 == DoLightComputation.LIGHT_FULL) &&
          (lightTypeOf id 3 == GE_LIGHTTYPE_SPOT || lightTypeOf id 3 == GE_LIGHTTYPE_UNKNOWN)),
        v.useHWTransform && ((v.doLight 0 == DoLightComputation.LIGHT_FULL) &&
          (lightCompOf id 0 != GE_LIGHTCOMP_ONLYDIFFUSE)),
        v.useHWTransform && ((v.doLight 1 == DoLightComputation.LIGHT_FULL) &&
          (lightCompOf id 1 != GE_LIGHTCOMP_ONLYDIFFUSE)),
        v.useHWTransform && ((v.doLight 2 == DoLightComputation.LIGHT_FULL) &&
          (lightCompOf id 2 != GE_LIGHTCOMP_ONLYDIFFUSE)),
        v.useHWTransform && ((v.doLight 3 == DoLightComputation.LIGHT_FULL) &&
          (lightCompOf id 3 != GE_LIGHTCOMP_ONLYDIFFUSE))]) := by
  have e1 : declarationSummary [if v.isModeThrough then "uniform mat4 u_proj_through;\n"
      else "uniform mat4 u_proj;\n"] =
      (true, [false, v.isModeThrough, false, false, false, false, false, false, false, false, false,
        false, false, false, false, false, false, false, false, false, false, false]) := by
    generalize v.isModeThrough = f; revert f; decide!
  unfold uniformWrites
  cases v.useHWTransform
  · simp only [Bool.false_eq_true, if_false, List.append_nil]
    rw [declarationSummary_append, e1, commonUniform_summary]
    simp
  · simp only [if_true, List.flatMap_cons, List.flatMap_nil, List.append_nil]
    repeat rw [declarationSummary_append]
    rw [e1, commonUniform_summary, materialUniform_summary,
      transformUniform_summary env v hn, lightUniform_summary id v 0 (by decide),
      lightUniform_summary id v 1 (by decide), lightUniform_summary id v 2 (by decide),
      lightUniform_summary id v 3 (by decide)]
    simp

theorem bodySummary_append (a b : List String) :
    bodySummary (a ++ b) =
      ((bodySummary a).1 && (bodySummary b).1,
        List.zipWith (fun x y => x || y) (bodySummary a).2 (bodySummary b).2) := by
  simp [bodySummary, writesLine, List.any_append, List.all_append]

theorem software_summary (v : Locals) :
    bodySummary (softwareTransformWrites v) = (true, [false, false, false, false]) := by
  unfold softwareTransformWrites
  generalize v.doTexture = dt
  generalize v.throughmode = th
  generalize v.doTextureProjection = tp
  generalize v.hasColor = hc
  generalize v.lmode = lm
  generalize v.enableFog = fg
  generalize v.isModeThrough = mt
  revert dt th tp hc lm fg mt
  decide!

theorem world_summary (v : Locals) (ht : v.texFmtScale < 4)
    (hb : v.enableBones = false → v.numBoneWeights = 0) :
    bodySummary [String.mk ((worldTransformWrites v).map String.data).flatten] =
      (true, [false, false, false, false]) := by
  unfold worldTransformWrites
  generalize v.texFmtScale = t at ht ⊢
  generalize v.numBoneWeights = nb at hb ⊢
  generalize v.enableBones = b at hb ⊢
  generalize v.hasNormal = n
  generalize v.flipNormal = r
  cases b
  · obtain rfl := hb rfl
    revert n r
    revert ht
    revert t
    decide!
  · rw [if_pos rfl]
    revert n r
    decide!

theorem setup_summary (id : ShaderID) (v : Locals) :
    bodySummary (lightingSetupWrites id v) = (true, [false, false, false, false]) := by
  unfold lightingSetupWrites
  have ha := ambientStr_mem v
  generalize ambientStr v = a at ha ⊢
  generalize (lightFlags id v).specularIsZero = f1
  generalize (lightFlags id v).diffuseIsZero = f2
  generalize (lightFlags id v).distanceNeeded = f3
  generalize v.enableLighting = e
  revert f1 f2 f3 e
  revert ha
  revert a
  decide!

set_option maxHeartbeats 1000000 in
theorem lightBlock_summary (id : ShaderID) (v : Locals) (i : Nat) (hi : i < 4) :
    bodySummary (lightBlockWrites id v i) =
      (true,
        [decide (i = 0) && ((v.doLight i == DoLightComputation.LIGHT_FULL) &&
            (lightCompOf id i == GE_LIGHTCOMP_BOTHWITHPOWDIFFUSE)),
          decide (i = 1) && ((v.doLight i == DoLightComputation.LIGHT_FULL) &&
            (lightCompOf id i == GE_LIGHTCOMP_BOTHWITHPOWDIFFUSE)),
          decide (i = 2) && ((v.doLight i == DoLightComputation.LIGHT_FULL) &&
            (lightCompOf id i == GE_LIGHTCOMP_BOTHWITHPOWDIFFUSE)),
          decide (i = 3) && ((v.doLight i == DoLightComputation.LIGHT_FULL) &&
            (lightCompOf id i == GE_LIGHTCOMP_BOTHWITHPOWDIFFUSE))]) := by
  unfold lightBlockWrites
  have ht := lightTypeOf_lt id i
  have hc := lightCompOf_lt id i
  have ha := ambientStr_mem v
  have hd := diffuseStr_mem v
  have hs := specularStr_mem v
  generalize lightTypeOf id i = t at ht ⊢
  generalize lightCompOf id i = c at hc ⊢
  generalize ambientStr v = a at ha ⊢
  generalize diffuseStr v = df at hd ⊢
  generalize specularStr v = s at hs ⊢
  generalize v.doLight i = d
  clear v id
  revert i t c a df s
  cases d <;> decide!

theorem color_summary (id : ShaderID) (v : Locals) :
    bodySummary (colorWrites id v) = (true, [false, false, false, false]) := by
  unfold colorWrites
  generalize (lightFlags id v).specularIsZero = z
  generalize id.Bit BIT_LIGHTING_ENABLE = e
  generalize v.lmode = l
  generalize v.hasColor = c
  revert z e l c
  decide!

theorem uv_summary (env : GenEnv) (v : Locals) (h1 : v.uvGenMode < 4) (h2 : v.uvProjMode < 4)
    (h3 : v.ls0 < 4) (h4 : v.ls1 < 4) (h5 : v.texFmtScale < 4) :
    bodySummary (uvWrites env v) = (true, [false, false, false, false]) := by
  unfold uvWrites temp_tc
  generalize prescaleOf env v = ps
  generalize v.uvGenMode = m at h1 ⊢
  generalize v.uvProjMode = pm at h2 ⊢
  generalize v.ls0 = a at h3 ⊢
  generalize v.ls1 = b at h4 ⊢
  generalize v.texFmtScale = t at h5 ⊢
  generalize v.doTexture = dt
  generalize v.flipV = fl
  generalize v.hasNormal = n
  generalize v.flipNormal = r
  generalize v.hasTexcoord = tc
  cases dt
  · rw [if_neg (by decide)]
    decide!
  · rw [if_pos rfl]
    interval_cases m <;>
      simp only [GE_TEXMAP_TEXTURE_COORDS, GE_TEXMAP_UNKNOWN, GE_TEXMAP_TEXTURE_MATRIX,
        GE_TEXMAP_ENVIRONMENT_MAP, Nat.reduceBEq, Nat.reduceBNe, Bool.or_false, Bool.or_true,
        Bool.false_or, Bool.true_or, Bool.and_true, Bool.and_false, if_true, if_false,
        Bool.false_eq_true]
    · revert ps fl tc
      decide!
    · revert fl tc n r
      revert h5
      revert t
      revert h2
      revert pm
      decide!
    · revert fl
      revert h4
      revert b
      revert h3
      revert a
      decide!
    · revert ps fl tc
      decide!

theorem viewLighting_summary (env : GenEnv) (id : ShaderID) (v : Locals)
    (h1 : v.uvGenMode < 4) (h2 : v.uvProjMode < 4)
    (h3 : v.ls0 < 4) (h4 : v.ls1 < 4) (h5 : v.texFmtScale < 4) :
    bodySummary (viewLightingWrites env id v) =
      (true,
        [(v.doLight 0 == DoLightComputation.LIGHT_FULL) &&
            (lightCompOf id 0 == GE_LIGHTCOMP_BOTHWITHPOWDIFFUSE),
          (v.doLight 1 == DoLightComputation.LIGHT_FULL) &&
            (lightCompOf id 1 == GE_LIGHTCOMP_BOTHWITHPOWDIFFUSE),
          (v.doLight 2 == DoLightComputation.LIGHT_FULL) &&
            (lightCompOf id 2 == GE_LIGHTCOMP_BOTHWITHPOWDIFFUSE),
          (v.doLight 3 == DoLightComputation.LIGHT_FULL) &&
            (lightCompOf id 3 == GE_LIGHTCOMP_BOTHWITHPOWDIFFUSE)]) := by
  have e1 : bodySummary ["  vec4 viewPos = u_view * vec4(worldpos, 1.0);\n",
      "  gl_Position = u_proj * viewPos;\n"] = (true, [false, false, false, false]) := by
    decide!
  have e2 : bodySummary (if v.enableFog = true then
      ["  v_fogdepth = (viewPos.z + u_fogcoef.x) * u_fogcoef.y;\n"] else []) =
      (true, [false, false, false, false]) := by
    generalize v.enableFog = f; revert f; decide!
  unfold viewLightingWrites
  simp only [List.flatMap_cons, List.flatMap_nil, List.append_nil]
  repeat rw [bodySummary_append]
  rw [e1, e2, setup_summary, color_summary, uv_summary env v h1 h2 h3 h4 h5,
    lightBlock_summary id v 0 (by decide), lightBlock_summary id v 1 (by decide),
    lightBlock_summary id v 2 (by decide), lightBlock_summary id v 3 (by decide)]
  simp

theorem doLight_full_eq (env : GenEnv) (id : ShaderID) (i : Nat) :
    ((decodeLocals env id).doLight i == DoLightComputation.LIGHT_FULL) =
      (id.Bit BIT_USE_HW_TRANSFORM &&
        (id.Bit BIT_LIGHTING_ENABLE && id.Bit (BIT_LIGHT0_ENABLE + i))) := by
  show (doLightOf id (id.Bit BIT_USE_HW_TRANSFORM) _ _ _ i == _) = _
  unfold doLightOf
  cases id.Bit BIT_USE_HW_TRANSFORM <;> cases id.Bit BIT_LIGHTING_ENABLE <;>
    cases id.Bit (BIT_LIGHT0_ENABLE + i)
  all_goals simp
  all_goals split_ifs <;> decide

theorem bonesDeclared_eq (env : GenEnv) (id : ShaderID) :
    ((decodeLocals env id).enableBones && decide (1 ≤ (decodeLocals env id).numBoneWeights)) =
      id.Bit BIT_ENABLE_BONES := by
  show (id.Bit BIT_ENABLE_BONES &&
    decide (1 ≤ if id.Bit BIT_ENABLE_BONES then 1 + id.Bits BIT_BONES 3 else 0)) = _
  cases id.Bit BIT_ENABLE_BONES <;> simp

theorem decodeLocals_hasColor (env : GenEnv) (id : ShaderID) :
    (decodeLocals env id).hasColor = id.Bit BIT_HAS_COLOR := by
  show ((id.d0 >>> BIT_HAS_COLOR) &&& 1 != 0) = _
  rw [ShaderID.d0_testBit, ShaderID.Bit_eq_testBit]
  simp

theorem lightType_spot_eq (id : ShaderID) (i : Nat) :
    (lightTypeOf id i == GE_LIGHTTYPE_SPOT || lightTypeOf id i == GE_LIGHTTYPE_UNKNOWN) =
      id.Bit (BIT_LIGHT0_TYPE + 4 * i + 1) := by
  have h1 := ShaderID.testBit_Bits id (BIT_LIGHT0_TYPE + 4 * i) 2 1
  have hlt := lightTypeOf_lt id i
  rw [ShaderID.Bit_eq_testBit]
  unfold lightTypeOf at hlt ⊢
  simp only [Nat.one_lt_two, decide_True, Bool.true_and] at h1
  rw [← h1]
  generalize id.Bits (BIT_LIGHT0_TYPE + 4 * i) 2 = x at hlt
  interval_cases x <;> decide

/-- The declarations written for a key: all strings written in front of main() are complete
declaration lines, and each line of declarationEndings is written exactly under the stated
condition on the key. -/
theorem declarationWrites_summary (env : GenEnv) (id : ShaderID) :
    declarationSummary (declarationWrites env id) =
      (true, [id.Bit BIT_LMODE, id.Bit BIT_IS_THROUGH, id.Bit BIT_ENABLE_FOG, id.Bit BIT_HAS_COLOR,
        id.Bit BIT_DO_TEXTURE, id.Bit BIT_DO_TEXTURE && id.Bit BIT_DO_TEXTURE_PROJ,
        id.Bit BIT_USE_HW_TRANSFORM,
        id.Bit BIT_USE_HW_TRANSFORM && id.Bit BIT_HAS_NORMAL,
        id.Bit BIT_USE_HW_TRANSFORM && id.Bit BIT_ENABLE_BONES,
        (id.Bit BIT_USE_HW_TRANSFORM && (id.Bit BIT_LIGHTING_ENABLE && id.Bit (BIT_LIGHT0_ENABLE + 0))),
        (id.Bit BIT_USE_HW_TRANSFORM && (id.Bit BIT_LIGHTING_ENABLE && id.Bit (BIT_LIGHT0_ENABLE + 1))),
        (id.Bit BIT_USE_HW_TRANSFORM && (id.Bit BIT_LIGHTING_ENABLE && id.Bit (BIT_LIGHT0_ENABLE + 2))),
        (id.Bit BIT_USE_HW_TRANSFORM && (id.Bit BIT_LIGHTING_ENABLE && id.Bit (BIT_LIGHT0_ENABLE + 3))),
        id.Bit BIT_USE_HW_TRANSFORM && id.Bit BIT_LIGHTING_ENABLE,
        (id.Bit BIT_USE_HW_TRANSFORM && (id.Bit BIT_LIGHTING_ENABLE && id.Bit (BIT_LIGHT0_ENABLE + 0))) &&
          id.Bit (BIT_LIGHT0_TYPE + 4 * 0 + 1),
        (id.Bit BIT_USE_HW_TRANSFORM && (id.Bit BIT_LIGHTING_ENABLE && id.Bit (BIT_LIGHT0_ENABLE + 1))) &&
          id.Bit (BIT_LIGHT0_TYPE + 4 * 1 + 1),
        (id.Bit BIT_USE_HW_TRANSFORM && (id.Bit BIT_LIGHTING_ENABLE && id.Bit (BIT_LIGHT0_ENABLE + 2))) &&
          id.Bit (BIT_LIGHT0_TYPE + 4 * 2 + 1),
        (id.Bit BIT_USE_HW_TRANSFORM && (id.Bit BIT_LIGHTING_ENABLE && id.Bit (BIT_LIGHT0_ENABLE + 3))) &&
          id.Bit (BIT_LIGHT0_TYPE + 4 * 3 + 1),
        (id.Bit BIT_USE_HW_TRANSFORM && (id.Bit BIT_LIGHTING_ENABLE && id.Bit (BIT_LIGHT0_ENABLE + 0))) &&
          (lightCompOf id 0 != GE_LIGHTCOMP_ONLYDIFFUSE),
        (id.Bit BIT_USE_HW_TRANSFORM && (id.Bit BIT_LIGHTING_ENABLE && id.Bit (BIT_LIGHT0_ENABLE + 1))) &&
          (lightCompOf id 1 != GE_LIGHTCOMP_ONLYDIFFUSE),
        (id.Bit BIT_USE_HW_TRANSFORM && (id.Bit BIT_LIGHTING_ENABLE && id.Bit (BIT_LIGHT0_ENABLE + 2))) &&
          (lightCompOf id 2 != GE_LIGHTCOMP_ONLYDIFFUSE),
        (id.Bit BIT_USE_HW_TRANSFORM && (id.Bit BIT_LIGHTING_ENABLE && id.Bit (BIT_LIGHT0_ENABLE + 3))) &&
          (lightCompOf id 3 != GE_LIGHTCOMP_ONLYDIFFUSE)]) := by
  have hn : id.Bit BIT_ENABLE_BONES = true →
      1 ≤ (decodeLocals env id).numBoneWeights ∧ (decodeLocals env id).numBoneWeights ≤ 8 := by
    intro hb
    have h3 := Bits_three_le id BIT_BONES
    show 1 ≤ (if id.Bit BIT_ENABLE_BONES then 1 + id.Bits BIT_BONES 3 else 0) ∧
      (if id.Bit BIT_ENABLE_BONES then 1 + id.Bits BIT_BONES 3 else 0) ≤ 8
    rw [hb]
    simp only [if_true]
    omega
  unfold declarationWrites
  dsimp only
  repeat rw [declarationSummary_append]
  rw [header_summary, attribute_summary id _ rfl rfl hn,
    uniform_summary env id _ (numBoneWeights_le env id), varying_summary _ rfl rfl,
    bonesDeclared_eq, doLight_full_eq, doLight_full_eq, doLight_full_eq, doLight_full_eq,
    decodeLocals_hasColor, lightType_spot_eq, lightType_spot_eq, lightType_spot_eq,
    lightType_spot_eq]
  have h1 : (decodeLocals env id).lmode = id.Bit BIT_LMODE := rfl
  have h2 : (decodeLocals env id).isModeThrough = id.Bit BIT_IS_THROUGH := rfl
  have h3 : (decodeLocals env id).enableFog = id.Bit BIT_ENABLE_FOG := rfl
  have h4 : (decodeLocals env id).doTexture = id.Bit BIT_DO_TEXTURE := rfl
  have h5 : (decodeLocals env id).doTextureProjection = id.Bit BIT_DO_TEXTURE_PROJ := rfl
  have h6 : (decodeLocals env id).useHWTransform = id.Bit BIT_USE_HW_TRANSFORM := rfl
  have h7 : (decodeLocals env id).hasNormal = id.Bit BIT_HAS_NORMAL := rfl
  have h8 : (decodeLocals env id).enableLighting = id.Bit BIT_LIGHTING_ENABLE := rfl
  rw [h1, h2, h3, h4, h5, h6, h7, h8]
  simp
  tauto

/-- The strings written inside main() for a key consist of complete lines, and the
powered-diffuse statement of light i is among them exactly when the light is computed in full
with computation mode 2. -/
theorem bodyTexts_summary (env : GenEnv) (id : ShaderID) :
    bodySummary (bodyTexts env id) =
      (true,
        [(id.Bit BIT_USE_HW_TRANSFORM && (id.Bit BIT_LIGHTING_ENABLE && id.Bit (BIT_LIGHT0_ENABLE + 0))) &&
          (lightCompOf id 0 == GE_LIGHTCOMP_BOTHWITHPOWDIFFUSE),
        (id.Bit BIT_USE_HW_TRANSFORM && (id.Bit BIT_LIGHTING_ENABLE && id.Bit (BIT_LIGHT0_ENABLE + 1))) &&
          (lightCompOf id 1 == GE_LIGHTCOMP_BOTHWITHPOWDIFFUSE),
        (id.Bit BIT_USE_HW_TRANSFORM && (id.Bit BIT_LIGHTING_ENABLE && id.Bit (BIT_LIGHT0_ENABLE + 2))) &&
          (lightCompOf id 2 == GE_LIGHTCOMP_BOTHWITHPOWDIFFUSE),
        (id.Bit BIT_USE_HW_TRANSFORM && (id.Bit BIT_LIGHTING_ENABLE && id.Bit (BIT_LIGHT0_ENABLE + 3))) &&
          (lightCompOf id 3 == GE_LIGHTCOMP_BOTHWITHPOWDIFFUSE)]) := by
  have e1 : (decodeLocals env id).uvGenMode < 4 := Bits_two_lt id _
  have e2 : (decodeLocals env id).uvProjMode < 4 := Bits_two_lt id _
  have e3 : (decodeLocals env id).ls0 < 4 := Bits_two_lt id _
  have e4 : (decodeLocals env id).ls1 < 4 := Bits_two_lt id _
  have e5 : (decodeLocals env id).texFmtScale < 4 := Bits_two_lt id _
  have h6 : (decodeLocals env id).useHWTransform = id.Bit BIT_USE_HW_TRANSFORM := rfl
  unfold bodyTexts
  dsimp only
  rw [h6]
  cases hhw : id.Bit BIT_USE_HW_TRANSFORM
  · simp only [Bool.not_false, if_true, software_summary, Bool.false_and]
  · simp only [Bool.not_true, Bool.false_eq_true, if_false]
    have ha := bodySummary_append
      [String.mk ((worldTransformWrites (decodeLocals env id)).map String.data).flatten]
      (viewLightingWrites env id (decodeLocals env id))
    rw [List.singleton_append] at ha
    rw [ha, world_summary _ e5 (numBoneWeights_eq_zero env id),
      viewLighting_summary env id _ e1 e2 e3 e4 e5, doLight_full_eq, doLight_full_eq,
      doLight_full_eq, doLight_full_eq, hhw]
    simp

/-- The text of the source generated for a key: the declaration strings, the line that opens
main(), the body strings and the closing line. -/
theorem shaderSource_data (env : GenEnv) (id : ShaderID) :
    (shaderSource env id).data =
      ((declarationWrites env id).map String.data).flatten ++
        (mainHeader ++ '\n' :: ((bodyTexts env id ++ ["\x7d\n"]).map String.data).flatten) := by
  have hb : (((if !(decodeLocals env id).useHWTransform then
        softwareTransformWrites (decodeLocals env id)
      else hardwareTransformWrites env id (decodeLocals env id)).map String.data).flatten) =
      ((bodyTexts env id).map String.data).flatten := by
    unfold bodyTexts hardwareTransformWrites
    dsimp only
    cases (decodeLocals env id).useHWTransform
    · rfl
    · simp only [Bool.not_true, Bool.false_eq_true, if_false, List.map_append, List.flatten_append,
        List.map_cons, List.flatten_cons]
  have hm : "void main() \x7b\n".data = mainHeader ++ ['\n'] := by decide
  unfold shaderSource GenerateVertexShader mainWrites declarationWrites
  dsimp only
  rw [String.data_join]
  simp only [List.map_append, List.flatten_append, List.map_cons, List.map_nil, List.flatten_cons,
    List.flatten_nil, List.append_nil, List.append_assoc, hb, hm, List.singleton_append,
    List.cons_append, List.nil_append]
  rfl

theorem ShaderID.Bit_lo (id : ShaderID) (b : Nat) : id.Bit b = (id.Bits b 2).testBit 0 := by
  rw [ShaderID.testBit_Bits, ShaderID.Bit_eq_testBit]
  simp

theorem ShaderID.Bit_hi (id : ShaderID) (b : Nat) : id.Bit (b + 1) = (id.Bits b 2).testBit 1 := by
  rw [ShaderID.testBit_Bits, ShaderID.Bit_eq_testBit]
  simp

theorem lightComp_plain_eq (id : ShaderID) (i : Nat) :
    ((lightCompOf id i != GE_LIGHTCOMP_ONLYDIFFUSE) &&
      !(lightCompOf id i == GE_LIGHTCOMP_BOTHWITHPOWDIFFUSE)) =
      id.Bit (BIT_LIGHT0_COMP + 4 * i) := by
  have hlt := lightCompOf_lt id i
  rw [ShaderID.Bit_lo]
  unfold lightCompOf at hlt ⊢
  generalize id.Bits (BIT_LIGHT0_COMP + 4 * i) 2 = x at hlt
  interval_cases x <;> decide

/-- The declaration lines read off the source generated for a key. -/
theorem declares_shaderSource (env : GenEnv) (id : ShaderID) (ending : String) :
    declares (shaderSource env id) ending =
      writesLineEnding (declarationWrites env id) ending := by
  have hd := congrArg Prod.fst (declarationWrites_summary env id)
  have hb := congrArg Prod.fst (bodyTexts_summary env id)
  simp only [declarationSummary, bodySummary, List.all_eq_true] at hd hb
  exact declares_of_source _ _ _ (shaderSource_data env id) hd hb ending

/-- The powered-diffuse statements read off the source generated for a key. -/
theorem bodyHasLine_shaderSource (env : GenEnv) (id : ShaderID) (i : Nat) (hi : i < 4) :
    bodyHasLine (shaderSource env id) (poweredDiffuseLine i) =
      writesLine (bodyTexts env id) (poweredDiffuseLine i) := by
  have hd := congrArg Prod.fst (declarationWrites_summary env id)
  have hb := congrArg Prod.fst (bodyTexts_summary env id)
  simp only [declarationSummary, bodySummary, List.all_eq_true] at hd hb
  apply bodyHasLine_of_source _ _ _ (shaderSource_data env id) hd hb
  · revert hi; revert i; decide
  · revert hi; revert i; decide
  · revert hi; revert i; decide

/-- Outside the bone-count field a key computed from a render state has the bits of the
re-encoded state fields. -/
theorem ComputeVertexShaderID_Bit (k : Decls) (vertType enabled : Nat) (raster : RasterState)
    (ts : TexScaleState) (lgs : LightGlobalState) (ls : Nat → LightState)
    (flipTexture useHWTransform : Bool) (j : Nat) (hj : j < 22 ∨ 25 ≤ j) :
    (ComputeVertexShaderID k vertType enabled raster ts lgs ls flipTexture useHWTransform).Bit j =
      (encodeFields
        (stateFields k vertType enabled raster ts lgs ls flipTexture useHWTransform)).Bit j := by
  rw [ShaderID.Bit_eq_testBit, ShaderID.Bit_eq_testBit, ComputeVertexShaderID_bits,
    Nat.testBit_or]
  have h : (decide (BIT_BONES ≤ j) && decide (j < BIT_BONES + 3)) = false := by
    simp only [BIT_BONES, Bool.and_eq_false_imp, decide_eq_true_eq, decide_eq_false_iff_not]
    omega
  simp only [testBit_ite_zero, testBit_fieldMask, h, Bool.false_and, Bool.and_false,
    Bool.or_false]

/-- In a re-encoded key a bit written inside a guarded block is set only together with the bit
of the guard. -/
theorem encodeFields_guards (f : KeyFields) :
    ((encodeFields f).Bit BIT_DO_TEXTURE_PROJ = true → (encodeFields f).Bit BIT_DO_TEXTURE = true) ∧
    ((encodeFields f).Bit BIT_HAS_NORMAL = true →
      (encodeFields f).Bit BIT_USE_HW_TRANSFORM = true) ∧
    ((encodeFields f).Bit BIT_ENABLE_BONES = true →
      (encodeFields f).Bit BIT_USE_HW_TRANSFORM = true) ∧
    ((encodeFields f).Bit BIT_LIGHTING_ENABLE = true →
      (encodeFields f).Bit BIT_USE_HW_TRANSFORM = true) ∧
    ∀ i, i < 4 →
      ((encodeFields f).Bit (BIT_LIGHT0_ENABLE + i) = true →
        (encodeFields f).Bit BIT_LIGHTING_ENABLE = true) ∧
      ((encodeFields f).Bit (BIT_LIGHT0_TYPE + 4 * i + 1) = true →
        (encodeFields f).Bit (BIT_LIGHT0_ENABLE + i) = true) ∧
      ((encodeFields f).Bit (BIT_LIGHT0_COMP + 4 * i) = true →
        (encodeFields f).Bit (BIT_LIGHT0_ENABLE + i) = true) := by
  have h4 : (encodeFields f).Bit BIT_DO_TEXTURE = _ := decode_encode_doTexture sampleEnv f
  have h6 : (encodeFields f).Bit BIT_DO_TEXTURE_PROJ = _ :=
    decode_encode_doTextureProjection sampleEnv f
  have h8 : (encodeFields f).Bit BIT_USE_HW_TRANSFORM = _ :=
    decode_encode_useHWTransform sampleEnv f
  have h9 : (encodeFields f).Bit BIT_HAS_NORMAL = _ := decode_encode_hasNormal sampleEnv f
  have h30 : (encodeFields f).Bit BIT_ENABLE_BONES = _ := decode_encode_enableBones sampleEnv f
  have h56 : (encodeFields f).Bit BIT_LIGHTING_ENABLE = _ :=
    decode_encode_enableLighting sampleEnv f
  have h52 : ∀ i, i < 4 → (encodeFields f).Bit (BIT_LIGHT0_ENABLE + i) = _ :=
    fun i hi => decode_encode_lightEnable sampleEnv f i hi
  have ht : ∀ i, i < 4 → lightTypeOf (encodeFields f) i = _ :=
    fun i hi => decode_encode_lightType sampleEnv f i hi
  have hc : ∀ i, i < 4 → lightCompOf (encodeFields f) i = _ :=
    fun i hi => decode_encode_lightComp sampleEnv f i hi
  rw [h4, h6, h8, h9, h30, h56]
  refine ⟨?_, ?_, ?_, ?_, ?_⟩
  · cases f.doTexture <;> simp
  · cases f.useHWTransform <;> simp
  · cases f.useHWTransform <;> simp
  · cases f.useHWTransform <;> simp
  · intro i hi
    have ht' := ht i hi
    have hc' := hc i hi
    unfold lightTypeOf at ht'
    unfold lightCompOf at hc'
    rw [h52 i hi, ShaderID.Bit_hi, ShaderID.Bit_lo, ht', hc']
    cases f.useHWTransform <;> cases f.enableLighting <;> cases f.lightEnable i <;> simp

/-- The bits of unusedKeyBits are clear in a re-encoded key whose texcoord scale is 0 or 1. -/
theorem encodeFields_unused (f : KeyFields) (h61 : f.texFmtScale.testBit 1 = false) (b : Nat)
    (hb : b ∈ unusedKeyBits) : (encodeFields f).Bit b = false := by
  rw [ShaderID.Bit_eq_testBit]
  simp only [unusedKeyBits, List.mem_cons, List.mem_singleton, List.not_mem_nil, or_false] at hb
  rcases hb with rfl | rfl | rfl | rfl | rfl | rfl | rfl | rfl | rfl | rfl | rfl | rfl | rfl |
    rfl | rfl | rfl
  all_goals simp [-Nat.testBit_zero, encodeFields_testBit, encodeLightSlot_testBit, h61]

theorem guarded_reader (a b : Bool) (h : b = true → a = true) : (a && b) = b := by
  cases a <;> cases b <;> simp_all

theorem light_reader (hw l e x : Bool) (h1 : x = true → e = true) (h2 : e = true → l = true)
    (h3 : l = true → hw = true) : ((hw && (l && e)) && x) = x := by
  cases hw <;> cases l <;> cases e <;> cases x <;> simp_all

theorem enable_reader (hw l e : Bool) (h1 : e = true → l = true) (h2 : l = true → hw = true) :
    (hw && (l && e)) = e := by
  cases hw <;> cases l <;> cases e <;> simp_all

theorem comp_reader (full a b : Bool) : ((full && a) && !(full && b)) = (full && (a && !b)) := by
  cases full <;> simp

/-- A key in which every bit written inside a guarded block is set only together with the bit
of the guard has each bit of sourceReaders equal to the value its reader finds in the generated
source. -/
theorem sourceReaders_of_guards (env : GenEnv) (id : ShaderID)
    (g1 : id.Bit BIT_DO_TEXTURE_PROJ = true → id.Bit BIT_DO_TEXTURE = true)
    (g2 : id.Bit BIT_HAS_NORMAL = true → id.Bit BIT_USE_HW_TRANSFORM = true)
    (g3 : id.Bit BIT_ENABLE_BONES = true → id.Bit BIT_USE_HW_TRANSFORM = true)
    (g4 : id.Bit BIT_LIGHTING_ENABLE = true → id.Bit BIT_USE_HW_TRANSFORM = true)
    (g5 : ∀ i, i < 4 →
      (id.Bit (BIT_LIGHT0_ENABLE + i) = true → id.Bit BIT_LIGHTING_ENABLE = true) ∧
      (id.Bit (BIT_LIGHT0_TYPE + 4 * i + 1) = true → id.Bit (BIT_LIGHT0_ENABLE + i) = true) ∧
      (id.Bit (BIT_LIGHT0_COMP + 4 * i) = true → id.Bit (BIT_LIGHT0_ENABLE + i) = true)) :
    sourceReaders.map (fun p => p.2 (shaderSource env id)) =
      sourceReaders.map (fun p => id.Bit p.1) := by
  have hd := congrArg Prod.snd (declarationWrites_summary env id)
  have hb := congrArg Prod.snd (bodyTexts_summary env id)
  simp only [declarationSummary, bodySummary, declarationEndings, List.map, List.cons.injEq,
    and_true] at hd hb
  obtain ⟨d0, d1, d2, d3, d4, d5, d6, d7, d8, d9, d10, d11, d12, d13, d14, d15, d16, d17, d18,
    d19, d20, d21⟩ := hd
  obtain ⟨b0, b1, b2, b3⟩ := hb
  obtain ⟨g50, g60, g70⟩ := g5 0 (by decide)
  obtain ⟨g51, g61, g71⟩ := g5 1 (by decide)
  obtain ⟨g52, g62, g72⟩ := g5 2 (by decide)
  obtain ⟨g53, g63, g73⟩ := g5 3 (by decide)
  simp only [sourceReaders, List.map, declares_shaderSource,
    bodyHasLine_shaderSource env id 0 (by decide), bodyHasLine_shaderSource env id 1 (by decide),
    bodyHasLine_shaderSource env id 2 (by decide), bodyHasLine_shaderSource env id 3 (by decide),
    d0, d1, d2, d3, d4, d5, d6, d7, d8, d9, d10, d11, d12, d13, d14, d15, d16, d17, d18, d19,
    d20, d21, b0, b1, b2, b3, comp_reader, lightComp_plain_eq,
    guarded_reader _ _ g1, guarded_reader _ _ g2, guarded_reader _ _ g3, guarded_reader _ _ g4,
    light_reader _ _ _ _ g60 g50 g4, light_reader _ _ _ _ g61 g51 g4,
    light_reader _ _ _ _ g62 g52 g4, light_reader _ _ _ _ g63 g53 g4,
    light_reader _ _ _ _ g70 g50 g4, light_reader _ _ _ _ g71 g51 g4,
    light_reader _ _ _ _ g72 g52 g4, light_reader _ _ _ _ g73 g53 g4,
    enable_reader _ _ _ g50 g4, enable_reader _ _ _ g51 g4, enable_reader _ _ _ g52 g4,
    enable_reader _ _ _ g53 g4, guarded_reader _ _ g60, guarded_reader _ _ g61,
    guarded_reader _ _ g62, guarded_reader _ _ g63, guarded_reader _ _ g70,
    guarded_reader _ _ g71, guarded_reader _ _ g72, guarded_reader _ _ g73]

/-- Every bit of sourceReaders of a key computed from a render state equals the value its
reader finds in the source generated for the key. -/
theorem sourceReaders_read (env : GenEnv) (k : Decls) (vertType enabled : Nat)
    (raster : RasterState) (ts : TexScaleState) (lgs : LightGlobalState)
    (ls : Nat → LightState) (flipTexture useHWTransform : Bool) (p : Nat × (String → Bool))
    (hp : p ∈ sourceReaders) :
    (ComputeVertexShaderID k vertType enabled raster ts lgs ls flipTexture useHWTransform).Bit p.1 =
      p.2 (shaderSource env
        (ComputeVertexShaderID k vertType enabled raster ts lgs ls flipTexture useHWTransform)) := by
  have hB := fun j hj => ComputeVertexShaderID_Bit k vertType enabled raster ts lgs ls flipTexture
    useHWTransform j hj
  obtain ⟨g1, g2, g3, g4, g5⟩ := encodeFields_guards
    (stateFields k vertType enabled raster ts lgs ls flipTexture useHWTransform)
  have hm := sourceReaders_of_guards env
    (ComputeVertexShaderID k vertType enabled raster ts lgs ls flipTexture useHWTransform)
    (by rw [hB _ (by decide), hB _ (by decide)]; exact g1)
    (by rw [hB _ (by decide), hB _ (by decide)]; exact g2)
    (by rw [hB _ (by decide), hB _ (by decide)]; exact g3)
    (by rw [hB _ (by decide), hB _ (by decide)]; exact g4)
    (by
      intro i hi
      rw [hB _ (by simp only [BIT_LIGHT0_ENABLE]; omega), hB _ (by decide),
        hB _ (by simp only [BIT_LIGHT0_TYPE]; omega), hB _ (by simp only [BIT_LIGHT0_COMP]; omega)]
      exact g5 i hi)
  exact (List.map_inj_left.mp hm p hp).symm

/-- The bits of unusedKeyBits are clear in every key computed from a render state. -/
theorem ComputeVertexShaderID_unused (k : Decls) (vertType enabled : Nat)
    (raster : RasterState) (ts : TexScaleState) (lgs : LightGlobalState)
    (ls : Nat → LightState) (flipTexture useHWTransform : Bool) (b : Nat)
    (hb : b ∈ unusedKeyBits) :
    (ComputeVertexShaderID k vertType enabled raster ts lgs ls flipTexture useHWTransform).Bit b =
      false := by
  have hj : b < 22 ∨ 25 ≤ b := by
    revert b
    decide
  rw [ComputeVertexShaderID_Bit _ _ _ _ _ _ _ _ _ _ hj]
  apply encodeFields_unused _ _ b hb
  show (if (vertType &&& k.GE_VTYPE_TC_MASK) >>> k.GE_VTYPE_TC_SHIFT != 0 then 1 else 0).testBit 1 =
    false
  split <;> decide

/-- Every bit below 64 is a free bit, a bit with a reader or an unused bit. -/
theorem key_bit_cases (b : Nat) (hb : b < 64) :
    b ∈ sourceFreeBits ∨ b ∈ sourceReaders.map Prod.fst ∨ b ∈ unusedKeyBits := by
  revert b
  decide

/-- C2 (amended): for every two render states given to ComputeVertexShaderID under the same
configuration and dialect, if GenerateVertexShader produces byte-identical source text for
their two keys, then the two keys agree on every bit of the 64-bit key that is not one of the
26 bits of sourceFreeBits (flip 5, UV generation mode 16-17, UV projection sub-mode and
shade-mapping light indices 18-21, bone count 22-24, bit 1 of the computation mode and bit 0
of the type of each light, material update 48-50, bone-weight scale 57-58, normal reverse 59,
has-texcoord 60, flat shading 62). -/
theorem identical_source_keys_agree (env : GenEnv) (k : Decls)
    (vertType1 enabled1 : Nat) (raster1 : RasterState) (ts1 : TexScaleState)
    (lgs1 : LightGlobalState) (ls1 : Nat → LightState) (flipTexture1 useHWTransform1 : Bool)
    (vertType2 enabled2 : Nat) (raster2 : RasterState) (ts2 : TexScaleState)
    (lgs2 : LightGlobalState) (ls2 : Nat → LightState) (flipTexture2 useHWTransform2 : Bool)
    (h : shaderSource env
        (ComputeVertexShaderID k vertType1 enabled1 raster1 ts1 lgs1 ls1 flipTexture1
          useHWTransform1) =
      shaderSource env
        (ComputeVertexShaderID k vertType2 enabled2 raster2 ts2 lgs2 ls2 flipTexture2
          useHWTransform2)) :
    ∀ b, b < 64 → b ∉ sourceFreeBits →
      (ComputeVertexShaderID k vertType1 enabled1 raster1 ts1 lgs1 ls1 flipTexture1
        useHWTransform1).Bit b =
      (ComputeVertexShaderID k vertType2 enabled2 raster2 ts2 lgs2 ls2 flipTexture2
        useHWTransform2).Bit b := by
  intro b hb hfree
  rcases key_bit_cases b hb with hf | hr | hu
  · exact absurd hf hfree
  · obtain ⟨p, hp, rfl⟩ := List.mem_map.mp hr
    rw [sourceReaders_read env k vertType1 enabled1 raster1 ts1 lgs1 ls1 flipTexture1
        useHWTransform1 p hp,
      sourceReaders_read env k vertType2 enabled2 raster2 ts2 lgs2 ls2 flipTexture2
        useHWTransform2 p hp, h]
  · rw [ComputeVertexShaderID_unused k vertType1 enabled1 raster1 ts1 lgs1 ls1 flipTexture1
        useHWTransform1 b hu,
      ComputeVertexShaderID_unused k vertType2 enabled2 raster2 ts2 lgs2 ls2 flipTexture2
        useHWTransform2 b hu]

theorem identical_source_keys_agree_witness :
    shaderSource sampleEnv
        (ComputeVertexShaderID sampleDecls 1 1 ⟨false, 1⟩ ⟨0, 0, 0, 0⟩ ⟨false, 0, false⟩
          sampleLights false true) =
      shaderSource sampleEnv
        (ComputeVertexShaderID sampleDecls 1 1 ⟨false, 1⟩ ⟨3, 0, 0, 0⟩ ⟨false, 0, false⟩
          sampleLights false true) ∧
    ∀ b, b < 64 → b ∉ sourceFreeBits →
      (ComputeVertexShaderID sampleDecls 1 1 ⟨false, 1⟩ ⟨0, 0, 0, 0⟩ ⟨false, 0, false⟩
        sampleLights false true).Bit b =
      (ComputeVertexShaderID sampleDecls 1 1 ⟨false, 1⟩ ⟨3, 0, 0, 0⟩ ⟨false, 0, false⟩
        sampleLights false true).Bit b :=
  ⟨congrArg String.join (by decide!),
    identical_source_keys_agree sampleEnv sampleDecls 1 1 ⟨false, 1⟩ ⟨0, 0, 0, 0⟩
      ⟨false, 0, false⟩ sampleLights false true 1 1 ⟨false, 1⟩ ⟨3, 0, 0, 0⟩ ⟨false, 0, false⟩
      sampleLights false true (congrArg String.join (by decide!))⟩

/-- C2 (counterexample): each pair of freeBitExamples has byte-identical generated source
under desktop GL 2.1 and two different keys; the keys of the pairs differ, in order, in bits
16-17, 18-19, 20-21, 22-24, 5, 33/37/41/45, 34/38/42/46, 48-50, 57-58, 59, 60 and 62, so
that every bit of sourceFreeBits differs in some pair. -/
theorem identical_source_distinct_keys :
    (∀ p ∈ freeBitExamples,
      shaderSource sampleEnv (p.1.key sampleDecls) =
        shaderSource sampleEnv (p.2.key sampleDecls)) ∧
    freeBitExamples.map (fun p => (p.1.key sampleDecls).bits ^^^ (p.2.key sampleDecls).bits) =
      [2 ^ 16 + 2 ^ 17, 2 ^ 18 + 2 ^ 19, 2 ^ 20 + 2 ^ 21, 2 ^ 22 + 2 ^ 23 + 2 ^ 24, 2 ^ 5,
        2 ^ 33 + 2 ^ 37 + 2 ^ 41 + 2 ^ 45, 2 ^ 34 + 2 ^ 38 + 2 ^ 42 + 2 ^ 46,
        2 ^ 48 + 2 ^ 49 + 2 ^ 50, 2 ^ 57 + 2 ^ 58, 2 ^ 59, 2 ^ 60, 2 ^ 62] ∧
    (∀ b ∈ sourceFreeBits, ∃ p ∈ freeBitExamples,
      (p.1.key sampleDecls).Bit b ≠ (p.2.key sampleDecls).Bit b) := by
  have h : ∀ p ∈ freeBitExamples,
      GenerateVertexShader sampleEnv (p.1.key sampleDecls) =
        GenerateVertexShader sampleEnv (p.2.key sampleDecls) := by
    decide!
  exact ⟨fun p hp => congrArg String.join (h p hp), by decide!, by decide!⟩

/-! ### The lines of the generated source -/

theorem declarationLines_shaderSource (env : GenEnv) (id : ShaderID) :
    declarationLines (shaderSource env id) = (declarationWrites env id).flatMap completeLines := by
  have hd := congrArg Prod.fst (declarationWrites_summary env id)
  have hb := congrArg Prod.fst (bodyTexts_summary env id)
  simp only [declarationSummary, bodySummary, List.all_eq_true] at hd hb
  unfold declarationLines
  rw [lines_of_source _ _ _ (shaderSource_data env id) hd hb,
    List.takeWhile_append_of_pos (completeLines_ne_mainHeader _ hd)]
  simp [List.takeWhile]

theorem bodyLines_shaderSource (env : GenEnv) (id : ShaderID) :
    bodyLines (shaderSource env id) =
      mainHeader :: ((bodyTexts env id).flatMap completeLines ++ ["\x7d".data, []]) := by
  have hd := congrArg Prod.fst (declarationWrites_summary env id)
  have hb := congrArg Prod.fst (bodyTexts_summary env id)
  simp only [declarationSummary, bodySummary, List.all_eq_true] at hd hb
  unfold bodyLines
  rw [lines_of_source _ _ _ (shaderSource_data env id) hd hb,
    List.dropWhile_append_of_pos (completeLines_ne_mainHeader _ hd),
    List.dropWhile_cons_of_neg (by simp)]

theorem bodyHasLine_eq_writesLine (env : GenEnv) (id : ShaderID) (line : String)
    (h1 : (mainHeader == line.data) = false) (h2 : ("\x7d".data == line.data) = false)
    (h3 : (([] : List Char) == line.data) = false) :
    bodyHasLine (shaderSource env id) line = writesLine (bodyTexts env id) line := by
  unfold bodyHasLine writesLine
  rw [bodyLines_shaderSource]
  simp only [List.any_cons, List.any_nil, List.any_append, List.any_flatMap, h1, h2, h3,
    Bool.false_or, Bool.or_false]

theorem bodyMentions_eq_writesMention (env : GenEnv) (id : ShaderID) (text : String)
    (h1 : containsText text.data mainHeader = false)
    (h2 : containsText text.data "\x7d".data = false)
    (h3 : containsText text.data [] = false) :
    bodyMentions (shaderSource env id) text = writesMention (bodyTexts env id) text := by
  unfold bodyMentions writesMention
  rw [bodyLines_shaderSource]
  simp only [List.any_cons, List.any_nil, List.any_append, List.any_flatMap, h1, h2, h3,
    Bool.false_or, Bool.or_false]

theorem writesLine_append (a b : List String) (line : String) :
    writesLine (a ++ b) line = (writesLine a line || writesLine b line) := by
  simp [writesLine, List.any_append]

theorem writesMention_append (a b : List String) (text : String) :
    writesMention (a ++ b) text = (writesMention a text || writesMention b text) := by
  simp [writesMention, List.any_append]

theorem writesLineEnding_append (a b : List String) (e : String) :
    writesLineEnding (a ++ b) e = (writesLineEnding a e || writesLineEnding b e) := by
  simp [writesLineEnding, List.any_append]

theorem bodyTexts_software (env : GenEnv) (id : ShaderID)
    (h : id.Bit BIT_USE_HW_TRANSFORM = false) :
    bodyTexts env id = softwareTransformWrites (decodeLocals env id) := by
  have h6 : (decodeLocals env id).useHWTransform = id.Bit BIT_USE_HW_TRANSFORM := rfl
  unfold bodyTexts
  simp only [h6, h, Bool.not_false, if_true]

theorem bodyTexts_hardware (env : GenEnv) (id : ShaderID)
    (h : id.Bit BIT_USE_HW_TRANSFORM = true) :
    bodyTexts env id =
      String.mk ((worldTransformWrites (decodeLocals env id)).map String.data).flatten ::
        viewLightingWrites env id (decodeLocals env id) := by
  have h6 : (decodeLocals env id).useHWTransform = id.Bit BIT_USE_HW_TRANSFORM := rfl
  unfold bodyTexts
  simp only [h6, h, Bool.not_true, Bool.false_eq_true, if_false]

/-! ### Fields of a key computed from a render state -/

/-- C15: the fog-enable bit of the key is set exactly when the feature mask has the fog bit,
the vertex format is not through-mode and the raster state is not in clear mode, with and
without hardware transform. -/
theorem fog_bit_iff (k : Decls) (vertType enabled : Nat) (raster : RasterState)
    (ts : TexScaleState) (lgs : LightGlobalState) (ls : Nat → LightState)
    (flipTexture useHWTransform : Bool) :
    (ComputeVertexShaderID k vertType enabled raster ts lgs ls flipTexture useHWTransform).Bit
        BIT_ENABLE_FOG = true ↔
      (enabled &&& k.ENABLE_FOG ≠ 0 ∧ vertType &&& k.GE_VTYPE_THROUGH_MASK = 0 ∧
        raster.clearMode = false) := by
  rw [ComputeVertexShaderID_Bit _ _ _ _ _ _ _ _ _ _ (by decide), ShaderID.Bit_eq_testBit]
  simp [-Nat.testBit_zero, encodeFields_testBit, encodeLightSlot_testBit, stateFields,
    and_assoc]

/-- C16: in clear mode the texture-enable, texture-flip, texture-projection and flat-shading
bits of the key are zero whatever the other arguments are; outside clear mode the
texture-enable bit is the texture bit of the feature mask and the flat-shading bit tells
whether the shade mode is flat, with and without hardware transform. -/
theorem clear_mode_texture_flat_bits (k : Decls) (vertType enabled shadeMode : Nat)
    (ts : TexScaleState) (lgs : LightGlobalState) (ls : Nat → LightState)
    (flipTexture useHWTransform : Bool) :
    ((ComputeVertexShaderID k vertType enabled ⟨true, shadeMode⟩ ts lgs ls flipTexture
        useHWTransform).Bit BIT_DO_TEXTURE = false ∧
      (ComputeVertexShaderID k vertType enabled ⟨true, shadeMode⟩ ts lgs ls flipTexture
        useHWTransform).Bit BIT_FLIP_TEXTURE = false ∧
      (ComputeVertexShaderID k vertType enabled ⟨true, shadeMode⟩ ts lgs ls flipTexture
        useHWTransform).Bit BIT_DO_TEXTURE_PROJ = false ∧
      (ComputeVertexShaderID k vertType enabled ⟨true, shadeMode⟩ ts lgs ls flipTexture
        useHWTransform).Bit BIT_FLATSHADE = false) ∧
    ((ComputeVertexShaderID k vertType enabled ⟨false, shadeMode⟩ ts lgs ls flipTexture
        useHWTransform).Bit BIT_DO_TEXTURE = (enabled &&& k.ENABLE_TEXTURE != 0) ∧
      (ComputeVertexShaderID k vertType enabled ⟨false, shadeMode⟩ ts lgs ls flipTexture
        useHWTransform).Bit BIT_FLATSHADE = (shadeMode == k.GE_SHADE_FLAT)) := by
  rw [ComputeVertexShaderID_Bit _ _ _ _ _ _ _ _ _ _ (by decide),
    ComputeVertexShaderID_Bit _ _ _ _ _ _ _ _ _ _ (by decide),
    ComputeVertexShaderID_Bit _ _ _ _ _ _ _ _ _ _ (by decide),
    ComputeVertexShaderID_Bit _ _ _ _ _ _ _ _ _ _ (by decide),
    ComputeVertexShaderID_Bit _ _ _ _ _ _ _ _ _ _ (by decide),
    ComputeVertexShaderID_Bit _ _ _ _ _ _ _ _ _ _ (by decide)]
  simp only [ShaderID.Bit_eq_testBit]
  simp [-Nat.testBit_zero, encodeFields_testBit, encodeLightSlot_testBit, stateFields]

/-- C17: without hardware transform every bit of the key from 8 through 61 is clear, and the
only bits that can be set are bits 0 to 6 and bit 62. -/
theorem software_key_bits (k : Decls) (vertType enabled : Nat) (raster : RasterState)
    (ts : TexScaleState) (lgs : LightGlobalState) (ls : Nat → LightState)
    (flipTexture : Bool) :
    (∀ b, 8 ≤ b → b ≤ 61 →
      (ComputeVertexShaderID k vertType enabled raster ts lgs ls flipTexture false).Bit b =
        false) ∧
    (∀ b, (ComputeVertexShaderID k vertType enabled raster ts lgs ls flipTexture false).Bit b =
        true → b ≤ 6 ∨ b = 62) := by
  have key : ∀ b,
      (ComputeVertexShaderID k vertType enabled raster ts lgs ls flipTexture false).Bit b =
        true → b ≤ 6 ∨ b = 62 := by
    intro b hb
    rw [ShaderID.Bit_eq_testBit, ComputeVertexShaderID_bits] at hb
    simp only [Bool.false_eq_true, if_false, Nat.or_zero] at hb
    rw [encodeFields_testBit] at hb
    simp [stateFields] at hb
    omega
  refine ⟨?_, key⟩
  intro b h1 h2
  cases h : (ComputeVertexShaderID k vertType enabled raster ts lgs ls flipTexture false).Bit b
  · rfl
  · have := key b h
    omega

/-- Witness for C17 at a software transform draw with every feature flag set. -/
theorem software_key_bits_witness :
    (ComputeVertexShaderID sampleDecls 1 255 ⟨false, 0⟩ ⟨2, 1, 2, 3⟩ ⟨true, 7, true⟩
      sampleLights true false).Bit BIT_USE_HW_TRANSFORM = false :=
  (software_key_bits sampleDecls 1 255 ⟨false, 0⟩ ⟨2, 1, 2, 3⟩ ⟨true, 7, true⟩
    sampleLights true).1 BIT_USE_HW_TRANSFORM (by decide) (by decide)

/-! ### The software transform path -/

theorem softwareTransform_lines (v : Locals) (ht : v.throughmode = v.isModeThrough) :
    (softwareTransformWrites v).flatMap completeLines =
      ((if v.doTexture then
          [if v.isModeThrough && v.doTextureProjection then "  v_texcoord = vec3(texcoord, 1.0);"
           else "  v_texcoord = texcoord;"]
        else []) ++
        [if v.hasColor then "  v_color0 = color0;" else "  v_color0 = u_matambientalpha;"] ++
        (if v.lmode then
          [if v.hasColor then "  v_color1 = color1;" else "  v_color1 = vec3(0.0);"]
         else []) ++
        (if v.enableFog then ["  v_fogdepth = position.w;"] else []) ++
        [if v.isModeThrough then "  gl_Position = u_proj_through * vec4(position.xyz, 1.0);"
         else "  gl_Position = u_proj * vec4(position.xyz, 1.0);"]).map String.data := by
  unfold softwareTransformWrites
  rw [ht]
  generalize v.doTexture = dt
  generalize v.doTextureProjection = tp
  generalize v.hasColor = hc
  generalize v.lmode = lm
  generalize v.enableFog = fg
  generalize v.isModeThrough = mt
  revert dt tp hc lm fg mt
  decide!

theorem takeWhile_statements (ls : List (List Char))
    (h : ∀ l ∈ ls, (l != "\x7d".data) = true) :
    (ls ++ ["\x7d".data, []]).takeWhile (fun l => l != "\x7d".data) = ls := by
  rw [List.takeWhile_append_of_pos h]
  simp [List.takeWhile]

theorem mainStatements_software (env : GenEnv) (id : ShaderID)
    (h : id.Bit BIT_USE_HW_TRANSFORM = false) :
    mainStatements (shaderSource env id) =
      (specTexcoordPassthrough id ++ specColourPassthrough id ++ secondaryColourStatement id ++
        specFogPassthrough id ++ specProjection id).map String.data := by
  have h1 : (decodeLocals env id).doTexture = id.Bit BIT_DO_TEXTURE := rfl
  have h2 : (decodeLocals env id).doTextureProjection = id.Bit BIT_DO_TEXTURE_PROJ := rfl
  have h3 : (decodeLocals env id).lmode = id.Bit BIT_LMODE := rfl
  have h4 : (decodeLocals env id).enableFog = id.Bit BIT_ENABLE_FOG := rfl
  have h5 : (decodeLocals env id).isModeThrough = id.Bit BIT_IS_THROUGH := rfl
  unfold mainStatements
  rw [bodyLines_shaderSource, bodyTexts_software env id h, softwareTransform_lines _ rfl,
    decodeLocals_hasColor, h1, h2, h3, h4, h5, List.drop_one, List.tail_cons]
  unfold specTexcoordPassthrough specColourPassthrough secondaryColourStatement
    specFogPassthrough specProjection
  apply takeWhile_statements
  generalize id.Bit BIT_DO_TEXTURE = dt
  generalize id.Bit BIT_DO_TEXTURE_PROJ = tp
  generalize id.Bit BIT_HAS_COLOR = hc
  generalize id.Bit BIT_LMODE = lm
  generalize id.Bit BIT_ENABLE_FOG = fg
  generalize id.Bit BIT_IS_THROUGH = mt
  revert dt tp hc lm fg mt
  decide!

theorem software_statements_plain (id : ShaderID) :
    ∀ s ∈ specTexcoordPassthrough id ++ specColourPassthrough id ++
        secondaryColourStatement id ++ specFogPassthrough id ++ specProjection id,
      ∀ t ∈ hardwarePathTexts, containsText t.data s.data = false := by
  unfold specTexcoordPassthrough specColourPassthrough secondaryColourStatement
    specFogPassthrough specProjection
  generalize id.Bit BIT_DO_TEXTURE = dt
  generalize id.Bit BIT_DO_TEXTURE_PROJ = tp
  generalize id.Bit BIT_HAS_COLOR = hc
  generalize id.Bit BIT_LMODE = lm
  generalize id.Bit BIT_ENABLE_FOG = fg
  generalize id.Bit BIT_IS_THROUGH = mt
  revert dt tp hc lm fg mt
  decide!

/-- C11 (amended): for every key with the hardware-transform bit clear, the statements of main()
are exactly, in this order: the texcoord passthrough when texturing, the colour passthrough
from color0 or u_matambientalpha, the secondary colour statement when the light-mode bit is
set, the fog passthrough when fog is enabled, and the projection of vec4(position.xyz, 1.0);
none of them mentions a text of the world or view transform, of lighting or of UV
generation. -/
theorem software_transform_main (env : GenEnv) (id : ShaderID)
    (h : id.Bit BIT_USE_HW_TRANSFORM = false) :
    mainStatements (shaderSource env id) =
      (specTexcoordPassthrough id ++ specColourPassthrough id ++ secondaryColourStatement id ++
        specFogPassthrough id ++ specProjection id).map String.data ∧
    ∀ l ∈ mainStatements (shaderSource env id), ∀ t ∈ hardwarePathTexts,
      containsText t.data l = false := by
  refine ⟨mainStatements_software env id h, ?_⟩
  rw [mainStatements_software env id h]
  intro l hl t ht
  obtain ⟨s, hs, rfl⟩ := List.mem_map.mp hl
  exact software_statements_plain id s hs t ht

/-- Witness for C11 at a through-mode key with texturing, projective texturing and light
mode on and no vertex colour. -/
theorem software_transform_main_witness :
    mainStatements (shaderSource sampleEnv ⟨2 ^ 0 + 2 ^ 1 + 2 ^ 4 + 2 ^ 6⟩) =
      ["  v_texcoord = vec3(texcoord, 1.0);", "  v_color0 = u_matambientalpha;",
        "  v_color1 = vec3(0.0);",
        "  gl_Position = u_proj_through * vec4(position.xyz, 1.0);"].map String.data :=
  (software_transform_main sampleEnv ⟨2 ^ 0 + 2 ^ 1 + 2 ^ 4 + 2 ^ 6⟩ (by decide!)).1.trans
    (by decide!)

/-- C11 (counterexample): the key of a software transform draw with light mode on and no
vertex colour has the hardware-transform bit clear, and main() holds the statement
v_color1 = vec3(0.0), which is none of the statements of specSoftwareStatements. -/
theorem software_main_has_secondary_colour :
    sampleSoftwareKey = ⟨1⟩ ∧ sampleSoftwareKey.Bit BIT_USE_HW_TRANSFORM = false ∧
    mainStatements (shaderSource sampleEnv sampleSoftwareKey) =
      ["  v_color0 = u_matambientalpha;", "  v_color1 = vec3(0.0);",
        "  gl_Position = u_proj * vec4(position.xyz, 1.0);"].map String.data ∧
    (specSoftwareStatements sampleSoftwareKey).map String.data =
      ["  v_color0 = u_matambientalpha;",
        "  gl_Position = u_proj * vec4(position.xyz, 1.0);"].map String.data ∧
    mainStatements (shaderSource sampleEnv sampleSoftwareKey) ≠
      (specSoftwareStatements sampleSoftwareKey).map String.data := by
  have hk : sampleSoftwareKey = ⟨1⟩ := by decide!
  have hm : mainStatements (shaderSource sampleEnv sampleSoftwareKey) =
      ["  v_color0 = u_matambientalpha;", "  v_color1 = vec3(0.0);",
        "  gl_Position = u_proj * vec4(position.xyz, 1.0);"].map String.data := by
    rw [mainStatements_software sampleEnv sampleSoftwareKey (by decide!)]
    decide!
  refine ⟨hk, by decide!, hm, by decide!, ?_⟩
  rw [hm]
  decide!

/-! ### The powered-diffuse guard -/

set_option maxHeartbeats 1000000 in
theorem lightBlock_guard (id : ShaderID) (v : Locals) (i : Nat) (hi : i < 4)
    (hf : v.doLight i = DoLightComputation.LIGHT_FULL) :
    hasRun (poweredDiffuseGuard i) (lightBlockWrites id v i) =
        (lightCompOf id i == GE_LIGHTCOMP_BOTHWITHPOWDIFFUSE) ∧
    dotAssignments i (lightBlockWrites id v i) =
      if lightCompOf id i == GE_LIGHTCOMP_BOTHWITHPOWDIFFUSE then
        [clampedDotStatement i, "    dot" ++ fmtInt i ++ " = 1.0;\n",
          "    dot" ++ fmtInt i ++ " = pow(dot" ++ fmtInt i ++ ", u_matspecular.a);\n"]
      else [clampedDotStatement i] := by
  unfold lightBlockWrites
  rw [hf]
  have ht := lightTypeOf_lt id i
  have hc := lightCompOf_lt id i
  have ha := ambientStr_mem v
  have hd := diffuseStr_mem v
  have hs := specularStr_mem v
  generalize lightTypeOf id i = t at ht ⊢
  generalize lightCompOf id i = c at hc ⊢
  generalize ambientStr v = a at ha ⊢
  generalize diffuseStr v = df at hd ⊢
  generalize specularStr v = s at hs ⊢
  clear hf v id
  revert i t c a df s
  decide!

theorem mem_lightIndices (i : Nat) (hi : i < 4) : i ∈ [0, 1, 2, 3] := by
  simp only [List.mem_cons, List.mem_singleton, List.not_mem_nil, or_false]
  omega

theorem hardwareTransform_run (env : GenEnv) (id : ShaderID)
    (h : id.Bit BIT_USE_HW_TRANSFORM = true) :
    hardwareTransformWrites env id (decodeLocals env id) <:+: GenerateVertexShader env id := by
  have h6 : (decodeLocals env id).useHWTransform = id.Bit BIT_USE_HW_TRANSFORM := rfl
  unfold GenerateVertexShader mainWrites
  simp only [h6, h, Bool.not_true, Bool.false_eq_true, if_false]
  exact (List.infix_append _ _ _).trans (List.suffix_append _ _).isInfix

theorem viewLighting_run (env : GenEnv) (id : ShaderID)
    (h : id.Bit BIT_USE_HW_TRANSFORM = true) :
    viewLightingWrites env id (decodeLocals env id) <:+: GenerateVertexShader env id :=
  (List.suffix_append _ _).isInfix.trans (hardwareTransform_run env id h)

theorem lightBlock_run (env : GenEnv) (id : ShaderID)
    (h : id.Bit BIT_USE_HW_TRANSFORM = true) (i : Nat) (hi : i < 4) :
    lightBlockWrites id (decodeLocals env id) i <:+: GenerateVertexShader env id := by
  refine List.IsInfix.trans ?_ (viewLighting_run env id h)
  unfold viewLightingWrites
  have hb : lightBlockWrites id (decodeLocals env id) i <:+:
      [0, 1, 2, 3].flatMap (lightBlockWrites id (decodeLocals env id)) :=
    List.infix_of_mem_flatten (List.mem_map_of_mem _ (mem_lightIndices i hi))
  refine hb.trans ?_
  simp only [List.append_assoc]
  exact (List.infix_append' _ _ _).trans (List.suffix_append _ _).isInfix

theorem uvWrites_run (env : GenEnv) (id : ShaderID)
    (h : id.Bit BIT_USE_HW_TRANSFORM = true) :
    uvWrites env (decodeLocals env id) <:+: GenerateVertexShader env id := by
  refine List.IsInfix.trans ?_ (viewLighting_run env id h)
  unfold viewLightingWrites
  exact (List.suffix_append _ _).isInfix.trans (List.prefix_append _ _).isInfix

theorem lightUniform_run (env : GenEnv) (id : ShaderID)
    (h : id.Bit BIT_USE_HW_TRANSFORM = true) (i : Nat) (hi : i < 4) :
    lightUniformWrites id (decodeLocals env id) i <:+: GenerateVertexShader env id := by
  have h6 : (decodeLocals env id).useHWTransform = id.Bit BIT_USE_HW_TRANSFORM := rfl
  have hb : lightUniformWrites id (decodeLocals env id) i <:+:
      [0, 1, 2, 3].flatMap (lightUniformWrites id (decodeLocals env id)) :=
    List.infix_of_mem_flatten (List.mem_map_of_mem _ (mem_lightIndices i hi))
  refine hb.trans ?_
  unfold GenerateVertexShader uniformWrites
  simp only [h6, h, if_true, List.append_assoc]
  refine List.IsInfix.trans ?_ (List.suffix_append _ _).isInfix
  refine List.IsInfix.trans ?_ (List.suffix_append _ _).isInfix
  refine List.IsInfix.trans ?_ (List.suffix_append _ _).isInfix
  refine List.IsInfix.trans ?_ (List.suffix_append _ _).isInfix
  exact (List.prefix_append _ _).isInfix

/-- C13: for every key and every light i computed in full, the block of light i (a run of the
written strings) contains the powered-diffuse guard exactly when the computation mode of the
light is 2, whatever the light type is; the line of the powered dot product is in main() of
the source under the same condition, and for the other computation modes the only assignment
to dot<i> in front of the diffuse statement is the clamped dot product. -/
theorem powered_diffuse_guard_iff (env : GenEnv) (id : ShaderID) (i : Nat) (hi : i < 4)
    (hHW : id.Bit BIT_USE_HW_TRANSFORM = true) (hL : id.Bit BIT_LIGHTING_ENABLE = true)
    (hE : id.Bit (BIT_LIGHT0_ENABLE + i) = true) :
    lightBlockWrites id (decodeLocals env id) i <:+: GenerateVertexShader env id ∧
    (hasRun (poweredDiffuseGuard i) (lightBlockWrites id (decodeLocals env id) i) = true ↔
      lightCompOf id i = GE_LIGHTCOMP_BOTHWITHPOWDIFFUSE) ∧
    (bodyHasLine (shaderSource env id) (poweredDiffuseLine i) = true ↔
      lightCompOf id i = GE_LIGHTCOMP_BOTHWITHPOWDIFFUSE) ∧
    (lightCompOf id i ≠ GE_LIGHTCOMP_BOTHWITHPOWDIFFUSE →
      dotAssignments i (lightBlockWrites id (decodeLocals env id) i) =
        [clampedDotStatement i]) := by
  have hf := (doLight_full_iff env id hHW hL i).mpr hE
  have hg := lightBlock_guard id (decodeLocals env id) i hi hf
  have hs := congrArg Prod.snd (bodyTexts_summary env id)
  have hb := bodyHasLine_shaderSource env id i hi
  simp only [bodySummary, List.map_cons, List.map_nil, List.cons.injEq, and_true] at hs
  refine ⟨lightBlock_run env id hHW i hi, ?_, ?_, ?_⟩
  · rw [hg.1]
    simp
  · rw [hb]
    have h4 : i = 0 ∨ i = 1 ∨ i = 2 ∨ i = 3 := by omega
    rcases h4 with rfl | rfl | rfl | rfl
    · rw [hs.1, hHW, hL, hE]; simp
    · rw [hs.2.1, hHW, hL, hE]; simp
    · rw [hs.2.2.1, hHW, hL, hE]; simp
    · rw [hs.2.2.2, hHW, hL, hE]; simp
  · intro hc
    rw [hg.2]
    simp [hc]

/-- Witness for C13 at light 2 of sampleLitKey, a spot light with computation mode 2. -/
theorem powered_diffuse_guard_iff_witness :
    hasRun (poweredDiffuseGuard 2) (lightBlockWrites sampleLitKey
      (decodeLocals sampleEnv sampleLitKey) 2) = true ∧
    lightTypeOf sampleLitKey 2 = GE_LIGHTTYPE_SPOT ∧
    lightCompOf sampleLitKey 2 = GE_LIGHTCOMP_BOTHWITHPOWDIFFUSE :=
  ⟨(powered_diffuse_guard_iff sampleEnv sampleLitKey 2 (by decide) (by decide!) (by decide!)
      (by decide!)).2.1.mpr (by decide!), by decide!, by decide!⟩

/-! ### UV generation in main() -/

theorem lineSummary_append (ts : List LineTest) (a b : List String) :
    lineSummary ts (a ++ b) =
      List.zipWith (fun x y => x || y) (lineSummary ts a) (lineSummary ts b) := by
  unfold lineSummary writesTest
  induction ts with
  | nil => rfl
  | cons t ts ih => simp [List.any_append, ih]

theorem software_uvTests (v : Locals) :
    lineSummary uvTests (softwareTransformWrites v) = [false, false, v.doTexture] := by
  unfold softwareTransformWrites
  generalize v.doTexture = dt
  generalize v.throughmode = th
  generalize v.doTextureProjection = tp
  generalize v.hasColor = hc
  generalize v.lmode = lm
  generalize v.enableFog = fg
  generalize v.isModeThrough = mt
  revert dt th tp hc lm fg mt
  decide!

theorem world_uvTests (v : Locals) (ht : v.texFmtScale < 4)
    (hb : v.enableBones = false → v.numBoneWeights = 0) :
    lineSummary uvTests [String.mk ((worldTransformWrites v).map String.data).flatten] =
      [false, false, false] := by
  unfold worldTransformWrites
  generalize v.texFmtScale = t at ht ⊢
  generalize v.numBoneWeights = nb at hb ⊢
  generalize v.enableBones = b at hb ⊢
  generalize v.hasNormal = n
  generalize v.flipNormal = r
  cases b
  · obtain rfl := hb rfl
    revert n r
    revert ht
    revert t
    decide!
  · rw [if_pos rfl]
    revert n r
    decide!

theorem setup_uvTests (id : ShaderID) (v : Locals) :
    lineSummary uvTests (lightingSetupWrites id v) = [false, false, false] := by
  unfold lightingSetupWrites
  have ha := ambientStr_mem v
  generalize ambientStr v = a at ha ⊢
  generalize (lightFlags id v).specularIsZero = f1
  generalize (lightFlags id v).diffuseIsZero = f2
  generalize (lightFlags id v).distanceNeeded = f3
  generalize v.enableLighting = e
  revert f1 f2 f3 e
  revert ha
  revert a
  decide!

set_option maxHeartbeats 1000000 in
theorem lightBlock_uvTests (id : ShaderID) (v : Locals) (i : Nat) (hi : i < 4) :
    lineSummary uvTests (lightBlockWrites id v i) = [false, false, false] := by
  unfold lightBlockWrites
  have ht := lightTypeOf_lt id i
  have hc := lightCompOf_lt id i
  have ha := ambientStr_mem v
  have hd := diffuseStr_mem v
  have hs := specularStr_mem v
  generalize lightTypeOf id i = t at ht ⊢
  generalize lightCompOf id i = c at hc ⊢
  generalize ambientStr v = a at ha ⊢
  generalize diffuseStr v = df at hd ⊢
  generalize specularStr v = s at hs ⊢
  generalize v.doLight i = d
  clear v id
  revert i t c a df s
  cases d <;> decide!

theorem color_uvTests (id : ShaderID) (v : Locals) :
    lineSummary uvTests (colorWrites id v) = [false, false, false] := by
  unfold colorWrites
  generalize (lightFlags id v).specularIsZero = z
  generalize id.Bit BIT_LIGHTING_ENABLE = e
  generalize v.lmode = l
  generalize v.hasColor = c
  revert z e l c
  decide!

theorem uv_uvTests (env : GenEnv) (v : Locals) (h1 : v.uvGenMode < 4) (h2 : v.uvProjMode < 4)
    (h3 : v.ls0 < 4) (h4 : v.ls1 < 4) (h5 : v.texFmtScale < 4) :
    lineSummary uvTests (uvWrites env v) =
      [v.doTexture && (v.flipV || !prescaleOf env v ||
          v.uvGenMode == GE_TEXMAP_ENVIRONMENT_MAP || v.uvGenMode == GE_TEXMAP_TEXTURE_MATRIX),
        v.doTexture && (v.flipV && v.uvGenMode != GE_TEXMAP_TEXTURE_MATRIX),
        v.doTexture] := by
  unfold uvWrites temp_tc
  generalize prescaleOf env v = ps
  generalize v.uvGenMode = m at h1 ⊢
  generalize v.uvProjMode = pm at h2 ⊢
  generalize v.ls0 = a at h3 ⊢
  generalize v.ls1 = b at h4 ⊢
  generalize v.texFmtScale = t at h5 ⊢
  generalize v.doTexture = dt
  generalize v.flipV = fl
  generalize v.hasNormal = n
  generalize v.flipNormal = r
  generalize v.hasTexcoord = tc
  cases dt
  · rw [if_neg (by decide)]
    simp only [Bool.false_and]
    decide!
  · rw [if_pos rfl]
    interval_cases m <;>
      simp only [GE_TEXMAP_TEXTURE_COORDS, GE_TEXMAP_UNKNOWN, GE_TEXMAP_TEXTURE_MATRIX,
        GE_TEXMAP_ENVIRONMENT_MAP, Nat.reduceBEq, Nat.reduceBNe, Bool.or_false, Bool.or_true,
        Bool.false_or, Bool.true_or, Bool.and_true, Bool.and_false, if_true, if_false,
        Bool.false_eq_true, Bool.true_and]
    · revert ps fl tc
      decide!
    · revert fl tc n r
      revert h5
      revert t
      revert h2
      revert pm
      decide!
    · revert fl
      revert h4
      revert b
      revert h3
      revert a
      decide!
    · revert ps fl tc
      decide!

theorem viewLighting_uvTests (env : GenEnv) (id : ShaderID) (v : Locals)
    (h1 : v.uvGenMode < 4) (h2 : v.uvProjMode < 4)
    (h3 : v.ls0 < 4) (h4 : v.ls1 < 4) (h5 : v.texFmtScale < 4) :
    lineSummary uvTests (viewLightingWrites env id v) =
      [v.doTexture && (v.flipV || !prescaleOf env v ||
          v.uvGenMode == GE_TEXMAP_ENVIRONMENT_MAP || v.uvGenMode == GE_TEXMAP_TEXTURE_MATRIX),
        v.doTexture && (v.flipV && v.uvGenMode != GE_TEXMAP_TEXTURE_MATRIX),
        v.doTexture] := by
  have e1 : lineSummary uvTests ["  vec4 viewPos = u_view * vec4(worldpos, 1.0);\n",
      "  gl_Position = u_proj * viewPos;\n"] = [false, false, false] := by
    decide!
  have e2 : lineSummary uvTests (if v.enableFog = true then
      ["  v_fogdepth = (viewPos.z + u_fogcoef.x) * u_fogcoef.y;\n"] else []) =
      [false, false, false] := by
    generalize v.enableFog = f; revert f; decide!
  unfold viewLightingWrites
  simp only [List.flatMap_cons, List.flatMap_nil, List.append_nil]
  repeat rw [lineSummary_append]
  rw [e1, e2, setup_uvTests, color_uvTests, uv_uvTests env v h1 h2 h3 h4 h5,
    lightBlock_uvTests id v 0 (by decide), lightBlock_uvTests id v 1 (by decide),
    lightBlock_uvTests id v 2 (by decide), lightBlock_uvTests id v 3 (by decide)]
  simp

/-- The tests of uvTests on the strings written inside main() for a key. -/
theorem bodyTexts_uvTests (env : GenEnv) (id : ShaderID) :
    lineSummary uvTests (bodyTexts env id) =
      [id.Bit BIT_USE_HW_TRANSFORM && (id.Bit BIT_DO_TEXTURE &&
          (id.Bit BIT_FLIP_TEXTURE || !prescaleOf env (decodeLocals env id) ||
            id.Bits BIT_UVGEN_MODE 2 == GE_TEXMAP_ENVIRONMENT_MAP ||
            id.Bits BIT_UVGEN_MODE 2 == GE_TEXMAP_TEXTURE_MATRIX)),
        id.Bit BIT_USE_HW_TRANSFORM && (id.Bit BIT_DO_TEXTURE &&
          (id.Bit BIT_FLIP_TEXTURE && id.Bits BIT_UVGEN_MODE 2 != GE_TEXMAP_TEXTURE_MATRIX)),
        id.Bit BIT_DO_TEXTURE] := by
  have e1 : (decodeLocals env id).uvGenMode < 4 := Bits_two_lt id _
  have e2 : (decodeLocals env id).uvProjMode < 4 := Bits_two_lt id _
  have e3 : (decodeLocals env id).ls0 < 4 := Bits_two_lt id _
  have e4 : (decodeLocals env id).ls1 < 4 := Bits_two_lt id _
  have e5 : (decodeLocals env id).texFmtScale < 4 := Bits_two_lt id _
  have h1 : (decodeLocals env id).doTexture = id.Bit BIT_DO_TEXTURE := rfl
  have h2 : (decodeLocals env id).flipV = id.Bit BIT_FLIP_TEXTURE := rfl
  have h3 : (decodeLocals env id).uvGenMode = id.Bits BIT_UVGEN_MODE 2 := rfl
  cases hhw : id.Bit BIT_USE_HW_TRANSFORM
  · rw [bodyTexts_software env id hhw, software_uvTests, h1]
    simp
  · rw [bodyTexts_hardware env id hhw]
    have ha := lineSummary_append uvTests
      [String.mk ((worldTransformWrites (decodeLocals env id)).map String.data).flatten]
      (viewLightingWrites env id (decodeLocals env id))
    rw [List.singleton_append] at ha
    rw [ha, world_uvTests _ e5 (numBoneWeights_eq_zero env id),
      viewLighting_uvTests env id _ e1 e2 e3 e4 e5, h1, h2, h3]
    simp

/-! ### Uniform declarations -/

theorem lightUniformEnding_mem (n : String) (hn : n ∈ lightUniformNames) (i : Nat) (hi : i < 4) :
    lightUniformEnding n i ∈ uniformEndings := by
  revert hi
  revert i
  revert hn
  revert n
  decide!

theorem header_uniformEndings (env : GenEnv) :
    ∀ e ∈ uniformEndings, writesLineEnding (versionHeader env) e = false := by
  unfold versionHeader
  generalize env.gl_extensions.GLES3 = g
  generalize env.gl_extensions.VersionGEThan 3 3 0 = x
  generalize env.gl_extensions.VersionGEThan 3 0 0 = y
  cases env.build
  all_goals (dsimp only; revert g x y; decide!)

theorem attribute_uniformEndings (id : ShaderID) (v : Locals)
    (hk : v.attributeKw = if v.glslES30 then "in" else "attribute")
    (hd : v.boneWeightDecl = if v.glslES30 then boneWeightInDecl else boneWeightAttrDecl)
    (hn : id.Bit BIT_ENABLE_BONES = true → 1 ≤ v.numBoneWeights ∧ v.numBoneWeights ≤ 8) :
    ∀ e ∈ uniformEndings, writesLineEnding (attributeWrites id v) e = false := by
  have e1 : ∀ e ∈ uniformEndings, writesLineEnding (if id.Bit BIT_ENABLE_BONES = true then
      [(if v.glslES30 = true then boneWeightInDecl else boneWeightAttrDecl).getD
        v.numBoneWeights ""] else []) e = false := by
    generalize v.glslES30 = g
    cases hb : id.Bit BIT_ENABLE_BONES
    · simp only [Bool.false_eq_true, if_false]
      decide!
    · obtain ⟨h1, h2⟩ := hn hb
      generalize v.numBoneWeights = nb at h1 h2 ⊢
      have h3 : nb < 9 := by omega
      clear h2
      revert g
      revert h1
      revert nb
      decide!
  have e2 : ∀ e ∈ uniformEndings, writesLineEnding
      [if v.useHWTransform = true then
        (if v.glslES30 = true then "in" else "attribute") ++ " vec3 position;\n"
       else (if v.glslES30 = true then "in" else "attribute") ++ " vec4 position;\n"] e =
      false := by
    generalize v.glslES30 = g
    generalize v.useHWTransform = hw
    revert g hw
    decide!
  have e3 : ∀ e ∈ uniformEndings, writesLineEnding
      (if (v.useHWTransform && v.hasNormal) = true then
        [(if v.glslES30 = true then "in" else "attribute") ++ " mediump vec3 normal;\n"]
       else []) e = false := by
    generalize v.glslES30 = g
    generalize (v.useHWTransform && v.hasNormal) = b
    revert g b
    decide!
  have e4 : ∀ e ∈ uniformEndings, writesLineEnding
      (if (v.doTexture && v.hasTexcoord) = true then
        [if (!v.useHWTransform && v.doTextureProjection && !v.throughmode) = true then
           (if v.glslES30 = true then "in" else "attribute") ++ " vec3 texcoord;\n"
         else (if v.glslES30 = true then "in" else "attribute") ++ " vec2 texcoord;\n"]
       else []) e = false := by
    generalize v.glslES30 = g
    generalize (v.doTexture && v.hasTexcoord) = b
    generalize (!v.useHWTransform && v.doTextureProjection && !v.throughmode) = c
    revert g b c
    decide!
  have e5 : ∀ e ∈ uniformEndings, writesLineEnding
      (if v.hasColor = true then
        [(if v.glslES30 = true then "in" else "attribute") ++ " lowp vec4 color0;\n"] ++
        (if (v.lmode && !v.useHWTransform) = true then
          [(if v.glslES30 = true then "in" else "attribute") ++ " lowp vec3 color1;\n"]
         else [])
       else []) e = false := by
    generalize v.glslES30 = g
    generalize (v.lmode && !v.useHWTransform) = b
    generalize v.hasColor = c
    revert g b c
    decide!
  intro e he
  unfold attributeWrites
  rw [hk, hd]
  repeat rw [writesLineEnding_append]
  rw [e1 e he, e2 e he, e3 e he, e4 e he, e5 e he]
  rfl

theorem materialUniform_uniformEndings (v : Locals) :
    ∀ e ∈ uniformEndings, writesLineEnding (materialUniformWrites v) e = false := by
  unfold materialUniformWrites
  generalize (v.matUpdate &&& 2 == 0) = m
  generalize v.hasColor = hc
  generalize v.enableLighting = l
  revert m hc l
  decide!

theorem commonUniform_uniformEndings (v : Locals) :
    ∀ e ∈ uniformEndings, writesLineEnding (commonUniformWrites v) e = false := by
  unfold commonUniformWrites
  generalize v.useHWTransform = hw
  generalize v.hasColor = hc
  generalize v.enableFog = fg
  revert hw hc fg
  decide!

theorem varying_uniformEndings (v : Locals)
    (hk : v.varyingKw = if v.glslES30 then "out" else "varying")
    (hs : v.shading = if v.glslES30 then (if v.doFlatShading then "flat" else "") else "") :
    ∀ e ∈ uniformEndings, writesLineEnding (varyingWrites v) e = false := by
  have e1 : ∀ e ∈ uniformEndings, writesLineEnding
      [(if v.glslES30 = true then if v.doFlatShading = true then "flat" else "" else "") ++ " " ++
        (if v.glslES30 = true then "out" else "varying") ++ " lowp vec4 v_color0;\n"] e =
      false := by
    generalize v.glslES30 = g
    generalize v.doFlatShading = fs
    revert g fs
    decide!
  have e2 : ∀ e ∈ uniformEndings, writesLineEnding
      (if v.lmode = true then
        [(if v.glslES30 = true then if v.doFlatShading = true then "flat" else "" else "") ++
          " " ++ (if v.glslES30 = true then "out" else "varying") ++ " lowp vec3 v_color1;\n"]
       else []) e = false := by
    generalize v.glslES30 = g
    generalize v.doFlatShading = fs
    generalize v.lmode = lm
    revert g fs lm
    decide!
  have e3 : ∀ e ∈ uniformEndings, writesLineEnding
      (if v.doTexture = true then
        [if v.doTextureProjection = true then
           (if v.glslES30 = true then "out" else "varying") ++ " " ++
             (if v.highpTexcoord = true then "highp" else "mediump") ++ " vec3 v_texcoord;\n"
         else
           (if v.glslES30 = true then "out" else "varying") ++ " " ++
             (if v.highpTexcoord = true then "highp" else "mediump") ++ " vec2 v_texcoord;\n"]
       else []) e = false := by
    generalize v.glslES30 = g
    generalize v.doTexture = dt
    generalize v.doTextureProjection = tp
    generalize v.highpTexcoord = ht
    revert g dt tp ht
    decide!
  have e4 : ∀ e ∈ uniformEndings, writesLineEnding
      (if v.enableFog = true then
        [if v.highpFog = true then
           (if v.glslES30 = true then "out" else "varying") ++ " highp float v_fogdepth;\n"
         else (if v.glslES30 = true then "out" else "varying") ++ " mediump float v_fogdepth;\n"]
       else []) e = false := by
    generalize v.glslES30 = g
    generalize v.enableFog = fg
    generalize v.highpFog = hf
    revert g fg hf
    decide!
  intro e he
  unfold varyingWrites
  rw [hk, hs]
  repeat rw [writesLineEnding_append]
  rw [e1 e he, e2 e he, e3 e he, e4 e he]
  rfl

theorem projection_uniformEndings (v : Locals) :
    ∀ e ∈ uniformEndings, writesLineEnding
      [if v.isModeThrough then "uniform mat4 u_proj_through;\n" else "uniform mat4 u_proj;\n"]
      e = false := by
  generalize v.isModeThrough = f
  revert f
  decide!

theorem transformUniform_endings (env : GenEnv) (v : Locals) (hn : v.numBoneWeights ≤ 8) :
    writesLineEnding (transformUniformWrites env v) uvScaleOffsetEnding =
        (v.doTexture && (v.flipV || !prescaleOf env v ||
          v.uvGenMode == GE_TEXMAP_ENVIRONMENT_MAP ||
          v.uvGenMode == GE_TEXMAP_TEXTURE_MATRIX)) ∧
    ∀ n ∈ lightUniformNames, ∀ i, i < 4 →
      writesLineEnding (transformUniformWrites env v) (lightUniformEnding n i) = false := by
  have e1 : ∀ e ∈ uniformEndings, writesLineEnding (if v.enableBones = true then
      List.map (fun i => "uniform mat4 u_bone" ++ fmtInt i ++ ";\n") (List.range v.numBoneWeights)
      else []) e = false := by
    generalize v.enableBones = b
    generalize v.numBoneWeights = nb at hn ⊢
    have h3 : nb < 9 := by omega
    clear hn
    revert b
    revert nb
    decide!
  have e2 : ∀ e ∈ uniformEndings, writesLineEnding
      (["uniform mat4 u_world;\n", "uniform mat4 u_view;\n"] ++
        if v.doTextureProjection = true then ["uniform mediump mat4 u_texmtx;\n"] else []) e =
      false := by
    generalize v.doTextureProjection = tp
    revert tp
    decide!
  have e3 : writesLineEnding
      (if (v.doTexture && (v.flipV || !prescaleOf env v ||
          v.uvGenMode == GE_TEXMAP_ENVIRONMENT_MAP ||
          v.uvGenMode == GE_TEXMAP_TEXTURE_MATRIX)) = true then
        ["uniform vec4 u_uvscaleoffset;\n"] else []) uvScaleOffsetEnding =
      (v.doTexture && (v.flipV || !prescaleOf env v ||
          v.uvGenMode == GE_TEXMAP_ENVIRONMENT_MAP ||
          v.uvGenMode == GE_TEXMAP_TEXTURE_MATRIX)) ∧
      ∀ n ∈ lightUniformNames, ∀ i, i < 4 → writesLineEnding
        (if (v.doTexture && (v.flipV || !prescaleOf env v ||
            v.uvGenMode == GE_TEXMAP_ENVIRONMENT_MAP ||
            v.uvGenMode == GE_TEXMAP_TEXTURE_MATRIX)) = true then
          ["uniform vec4 u_uvscaleoffset;\n"] else []) (lightUniformEnding n i) = false := by
    generalize (v.doTexture && (v.flipV || !prescaleOf env v ||
          v.uvGenMode == GE_TEXMAP_ENVIRONMENT_MAP ||
          v.uvGenMode == GE_TEXMAP_TEXTURE_MATRIX)) = c
    revert c
    decide!
  have hu : uvScaleOffsetEnding ∈ uniformEndings := by decide!
  unfold transformUniformWrites
  dsimp only
  refine ⟨?_, ?_⟩
  · rw [writesLineEnding_append, writesLineEnding_append, e2 _ hu, e1 _ hu, e3.1]
    rfl
  · intro n hn i hi
    have hm := lightUniformEnding_mem n hn i hi
    rw [writesLineEnding_append, writesLineEnding_append, e2 _ hm, e1 _ hm, e3.2 n hn i hi]
    rfl

set_option maxHeartbeats 1000000 in
theorem lightUniform_endings (id : ShaderID) (v : Locals) (j : Nat) (hj : j < 4) :
    writesLineEnding (lightUniformWrites id v j) uvScaleOffsetEnding = false ∧
    lightUniformNames.map
        (fun n => writesLineEnding (lightUniformWrites id v j) (lightUniformEnding n j)) =
      lightUniformConditions (v.doLight j) (lightTypeOf id j) (lightCompOf id j) ∧
    ∀ n ∈ lightUniformNames, ∀ i, i < 4 →
      (i = j ∨ writesLineEnding (lightUniformWrites id v j) (lightUniformEnding n i) = false) := by
  unfold lightUniformWrites
  have ht := lightTypeOf_lt id j
  have hc := lightCompOf_lt id j
  generalize lightTypeOf id j = t at ht ⊢
  generalize lightCompOf id j = c at hc ⊢
  generalize v.doLight j = d
  dsimp only
  revert d
  revert hc
  revert c
  revert ht
  revert t
  revert hj
  revert j
  decide!

theorem numBoneWeights_bounds (env : GenEnv) (id : ShaderID) :
    id.Bit BIT_ENABLE_BONES = true →
      1 ≤ (decodeLocals env id).numBoneWeights ∧ (decodeLocals env id).numBoneWeights ≤ 8 := by
  intro hb
  have h3 := Bits_three_le id BIT_BONES
  show 1 ≤ (if id.Bit BIT_ENABLE_BONES then 1 + id.Bits BIT_BONES 3 else 0) ∧
    (if id.Bit BIT_ENABLE_BONES then 1 + id.Bits BIT_BONES 3 else 0) ≤ 8
  rw [hb]
  simp only [if_true]
  omega

/-- Outside the uniform declarations of the hardware transform path no declaration line has
an ending of uniformEndings. -/
theorem declarationWrites_uniformEndings (env : GenEnv) (id : ShaderID) (e : String)
    (he : e ∈ uniformEndings) :
    writesLineEnding (declarationWrites env id) e =
      (id.Bit BIT_USE_HW_TRANSFORM &&
        (writesLineEnding (transformUniformWrites env (decodeLocals env id)) e ||
          (writesLineEnding (lightUniformWrites id (decodeLocals env id) 0) e ||
            (writesLineEnding (lightUniformWrites id (decodeLocals env id) 1) e ||
              (writesLineEnding (lightUniformWrites id (decodeLocals env id) 2) e ||
                writesLineEnding (lightUniformWrites id (decodeLocals env id) 3) e))))) := by
  have h6 : (decodeLocals env id).useHWTransform = id.Bit BIT_USE_HW_TRANSFORM := rfl
  unfold declarationWrites uniformWrites
  dsimp only
  rw [h6]
  cases id.Bit BIT_USE_HW_TRANSFORM
  · simp only [Bool.false_eq_true, if_false, List.append_nil, Bool.false_and]
    repeat rw [writesLineEnding_append]
    rw [header_uniformEndings env e he,
      attribute_uniformEndings id _ rfl rfl (numBoneWeights_bounds env id) e he,
      projection_uniformEndings _ e he, commonUniform_uniformEndings _ e he,
      varying_uniformEndings _ rfl rfl e he]
    rfl
  · simp only [if_true, List.flatMap_cons, List.flatMap_nil, List.append_nil, Bool.true_and]
    repeat rw [writesLineEnding_append]
    rw [header_uniformEndings env e he,
      attribute_uniformEndings id _ rfl rfl (numBoneWeights_bounds env id) e he,
      projection_uniformEndings _ e he, commonUniform_uniformEndings _ e he,
      varying_uniformEndings _ rfl rfl e he, materialUniform_uniformEndings _ e he]
    simp

/-- The declaration of the UV scale and offset uniform read off the source generated for a
key. -/
theorem declares_uvScaleOffset (env : GenEnv) (id : ShaderID) :
    declares (shaderSource env id) uvScaleOffsetEnding =
      (id.Bit BIT_USE_HW_TRANSFORM && (id.Bit BIT_DO_TEXTURE &&
        (id.Bit BIT_FLIP_TEXTURE || !prescaleOf env (decodeLocals env id) ||
          id.Bits BIT_UVGEN_MODE 2 == GE_TEXMAP_ENVIRONMENT_MAP ||
          id.Bits BIT_UVGEN_MODE 2 == GE_TEXMAP_TEXTURE_MATRIX))) := by
  have h1 : (decodeLocals env id).doTexture = id.Bit BIT_DO_TEXTURE := rfl
  have h2 : (decodeLocals env id).flipV = id.Bit BIT_FLIP_TEXTURE := rfl
  have h3 : (decodeLocals env id).uvGenMode = id.Bits BIT_UVGEN_MODE 2 := rfl
  rw [declares_shaderSource, declarationWrites_uniformEndings env id _ (by decide!),
    (transformUniform_endings env _ (numBoneWeights_le env id)).1,
    (lightUniform_endings id _ 0 (by decide)).1, (lightUniform_endings id _ 1 (by decide)).1,
    (lightUniform_endings id _ 2 (by decide)).1, (lightUniform_endings id _ 3 (by decide)).1,
    h1, h2, h3]
  simp

/-- A per-light uniform of light i is declared in the source generated for a key exactly when
hardware transform is on and the declarations written for light i declare it. -/
theorem declares_lightUniform (env : GenEnv) (id : ShaderID) (n : String)
    (hn : n ∈ lightUniformNames) (i : Nat) (hi : i < 4) :
    declares (shaderSource env id) (lightUniformEnding n i) =
      (id.Bit BIT_USE_HW_TRANSFORM &&
        writesLineEnding (lightUniformWrites id (decodeLocals env id) i)
          (lightUniformEnding n i)) := by
  have h0 := (lightUniform_endings id (decodeLocals env id) 0 (by decide)).2.2 n hn i hi
  have h1 := (lightUniform_endings id (decodeLocals env id) 1 (by decide)).2.2 n hn i hi
  have h2 := (lightUniform_endings id (decodeLocals env id) 2 (by decide)).2.2 n hn i hi
  have h3 := (lightUniform_endings id (decodeLocals env id) 3 (by decide)).2.2 n hn i hi
  rw [declares_shaderSource,
    declarationWrites_uniformEndings env id _ (lightUniformEnding_mem n hn i hi),
    (transformUniform_endings env _ (numBoneWeights_le env id)).2 n hn i hi]
  have h4 : i = 0 ∨ i = 1 ∨ i = 2 ∨ i = 3 := by omega
  rcases h4 with rfl | rfl | rfl | rfl
  · rw [h1.resolve_left (by decide), h2.resolve_left (by decide), h3.resolve_left (by decide)]
    simp
  · rw [h0.resolve_left (by decide), h2.resolve_left (by decide), h3.resolve_left (by decide)]
    simp
  · rw [h0.resolve_left (by decide), h1.resolve_left (by decide), h3.resolve_left (by decide)]
    simp
  · rw [h0.resolve_left (by decide), h1.resolve_left (by decide), h2.resolve_left (by decide)]
    simp

/-- The per-light uniforms of light i declared in the source generated for a key with
hardware transform. -/
theorem declares_lightUniforms (env : GenEnv) (id : ShaderID)
    (hHW : id.Bit BIT_USE_HW_TRANSFORM = true) (i : Nat) (hi : i < 4) :
    lightUniformNames.map (fun n => declares (shaderSource env id) (lightUniformEnding n i)) =
      lightUniformConditions ((decodeLocals env id).doLight i) (lightTypeOf id i)
        (lightCompOf id i) := by
  rw [← (lightUniform_endings id (decodeLocals env id) i hi).2.1]
  apply List.map_congr_left
  intro n hn
  rw [declares_lightUniform env id n hn i hi, hHW, Bool.true_and]

/-! ### The UV scale and offset uniform and the flip statement -/

theorem bodyTexts_uvTests_mention (env : GenEnv) (id : ShaderID) :
    bodyMentions (shaderSource env id) "u_uvscaleoffset" =
      (id.Bit BIT_USE_HW_TRANSFORM && (id.Bit BIT_DO_TEXTURE &&
        (id.Bit BIT_FLIP_TEXTURE || !prescaleOf env (decodeLocals env id) ||
          id.Bits BIT_UVGEN_MODE 2 == GE_TEXMAP_ENVIRONMENT_MAP ||
          id.Bits BIT_UVGEN_MODE 2 == GE_TEXMAP_TEXTURE_MATRIX))) := by
  have hs := bodyTexts_uvTests env id
  simp only [lineSummary, uvTests, List.map_cons, List.map_nil, List.cons.injEq, and_true] at hs
  rw [bodyMentions_eq_writesMention env id _ (by decide!) (by decide!) (by decide!)]
  exact hs.1

theorem bodyTexts_uvTests_flip (env : GenEnv) (id : ShaderID) :
    bodyHasLine (shaderSource env id) flipStatement =
      (id.Bit BIT_USE_HW_TRANSFORM && (id.Bit BIT_DO_TEXTURE &&
        (id.Bit BIT_FLIP_TEXTURE && id.Bits BIT_UVGEN_MODE 2 != GE_TEXMAP_TEXTURE_MATRIX))) := by
  have hs := bodyTexts_uvTests env id
  simp only [lineSummary, uvTests, List.map_cons, List.map_nil, List.cons.injEq, and_true] at hs
  rw [bodyHasLine_eq_writesLine env id _ (by decide!) (by decide!) (by decide!)]
  exact hs.2.1

theorem prescaleOf_eq (env : GenEnv) (id : ShaderID) :
    prescaleOf env (decodeLocals env id) =
      (env.g_Config.bPrescaleUV && !id.Bit BIT_IS_THROUGH &&
        (id.Bits BIT_UVGEN_MODE 2 == GE_TEXMAP_TEXTURE_COORDS ||
          id.Bits BIT_UVGEN_MODE 2 == GE_TEXMAP_UNKNOWN)) := rfl

/-- C19: for every key and every value of the prescale option the uniform u_uvscaleoffset is
declared exactly when a line of main() mentions it; with hardware transform and texturing on
it is neither declared nor mentioned exactly when the UV generation mode is coords or
unknown, the prescale option is on, the key is not through-mode and no flip is requested. -/
theorem uvscaleoffset_declared_iff_referenced (env : GenEnv) (id : ShaderID) :
    declares (shaderSource env id) uvScaleOffsetEnding =
      bodyMentions (shaderSource env id) "u_uvscaleoffset" ∧
    (id.Bit BIT_USE_HW_TRANSFORM = true → id.Bit BIT_DO_TEXTURE = true →
      ((declares (shaderSource env id) uvScaleOffsetEnding = false ∧
          bodyMentions (shaderSource env id) "u_uvscaleoffset" = false) ↔
        ((id.Bits BIT_UVGEN_MODE 2 = GE_TEXMAP_TEXTURE_COORDS ∨
            id.Bits BIT_UVGEN_MODE 2 = GE_TEXMAP_UNKNOWN) ∧
          env.g_Config.bPrescaleUV = true ∧ id.Bit BIT_IS_THROUGH = false ∧
          id.Bit BIT_FLIP_TEXTURE = false))) := by
  rw [declares_uvScaleOffset, bodyTexts_uvTests_mention]
  refine ⟨rfl, ?_⟩
  intro hHW hT
  rw [hHW, hT, prescaleOf_eq]
  have hm := Bits_two_lt id BIT_UVGEN_MODE
  generalize id.Bits BIT_UVGEN_MODE 2 = m at hm ⊢
  generalize id.Bit BIT_FLIP_TEXTURE = fl
  generalize id.Bit BIT_IS_THROUGH = th
  generalize env.g_Config.bPrescaleUV = ps
  revert fl th ps
  revert hm
  revert m
  decide

/-- Witness for C19 with the prescale option on, at a key with hardware transform and
texturing on, UV generation mode coords, not through-mode, no flip. -/
theorem uvscaleoffset_declared_iff_referenced_witness :
    declares (shaderSource samplePrescaleEnv ⟨2 ^ 8 + 2 ^ 4⟩) uvScaleOffsetEnding = false ∧
    bodyMentions (shaderSource samplePrescaleEnv ⟨2 ^ 8 + 2 ^ 4⟩) "u_uvscaleoffset" = false :=
  ((uvscaleoffset_declared_iff_referenced samplePrescaleEnv ⟨2 ^ 8 + 2 ^ 4⟩).2 (by decide!)
    (by decide!)).mpr ⟨Or.inl (by decide!), by decide!, by decide!, by decide!⟩

theorem uv_last (env : GenEnv) (v : Locals) (h1 : v.uvGenMode < 4) (h2 : v.uvProjMode < 4)
    (h3 : v.ls0 < 4) (h4 : v.ls1 < 4) (h5 : v.texFmtScale < 4) :
    ((uvWrites env v).getLast? == some (flipStatement ++ "\n")) =
      (v.doTexture && (v.flipV && v.uvGenMode != GE_TEXMAP_TEXTURE_MATRIX)) := by
  unfold uvWrites temp_tc
  generalize prescaleOf env v = ps
  generalize v.uvGenMode = m at h1 ⊢
  generalize v.uvProjMode = pm at h2 ⊢
  generalize v.ls0 = a at h3 ⊢
  generalize v.ls1 = b at h4 ⊢
  generalize v.texFmtScale = t at h5 ⊢
  generalize v.doTexture = dt
  generalize v.flipV = fl
  generalize v.hasNormal = n
  generalize v.flipNormal = r
  generalize v.hasTexcoord = tc
  cases dt
  · rw [if_neg (by decide)]
    simp only [Bool.false_and]
    decide!
  · rw [if_pos rfl]
    interval_cases m <;>
      simp only [GE_TEXMAP_TEXTURE_COORDS, GE_TEXMAP_UNKNOWN, GE_TEXMAP_TEXTURE_MATRIX,
        GE_TEXMAP_ENVIRONMENT_MAP, Nat.reduceBEq, Nat.reduceBNe, Bool.or_false, Bool.or_true,
        Bool.false_or, Bool.true_or, Bool.and_true, Bool.and_false, if_true, if_false,
        Bool.false_eq_true, Bool.true_and]
    · revert ps fl tc
      decide!
    · revert fl tc n r
      revert h5
      revert t
      revert h2
      revert pm
      decide!
    · revert fl
      revert h4
      revert b
      revert h3
      revert a
      decide!
    · revert ps fl tc
      decide!

/-- C20: for every key with the hardware-transform and texture-enable bits set, the strings of
UV generation (a run of the written strings) end with the flip statement exactly when the
texture-flip bit is set and the UV generation mode is not texture-matrix, and the flip
statement is a line of main() under the same condition. -/
theorem flip_statement_iff (env : GenEnv) (id : ShaderID)
    (hHW : id.Bit BIT_USE_HW_TRANSFORM = true) (hT : id.Bit BIT_DO_TEXTURE = true) :
    uvWrites env (decodeLocals env id) <:+: GenerateVertexShader env id ∧
    ((uvWrites env (decodeLocals env id)).getLast? = some (flipStatement ++ "\n") ↔
      (id.Bit BIT_FLIP_TEXTURE = true ∧ id.Bits BIT_UVGEN_MODE 2 ≠ GE_TEXMAP_TEXTURE_MATRIX)) ∧
    (bodyHasLine (shaderSource env id) flipStatement = true ↔
      (id.Bit BIT_FLIP_TEXTURE = true ∧ id.Bits BIT_UVGEN_MODE 2 ≠ GE_TEXMAP_TEXTURE_MATRIX)) := by
  have hl := uv_last env (decodeLocals env id) (Bits_two_lt id _) (Bits_two_lt id _)
    (Bits_two_lt id _) (Bits_two_lt id _) (Bits_two_lt id _)
  have h1 : (decodeLocals env id).doTexture = id.Bit BIT_DO_TEXTURE := rfl
  have h2 : (decodeLocals env id).flipV = id.Bit BIT_FLIP_TEXTURE := rfl
  have h3 : (decodeLocals env id).uvGenMode = id.Bits BIT_UVGEN_MODE 2 := rfl
  rw [h1, h2, h3, hT] at hl
  refine ⟨uvWrites_run env id hHW, ?_, ?_⟩
  · rw [← beq_iff_eq, hl]
    simp
  · rw [bodyTexts_uvTests_flip, hHW, hT]
    simp

/-- Witness for C20 at two keys with the flip bit set: UV generation mode coords, and
texture-matrix. -/
theorem flip_statement_iff_witness :
    bodyHasLine (shaderSource sampleEnv ⟨2 ^ 8 + 2 ^ 4 + 2 ^ 5⟩) flipStatement = true ∧
    ¬ bodyHasLine (shaderSource sampleEnv ⟨2 ^ 8 + 2 ^ 4 + 2 ^ 5 + 2 ^ 16⟩) flipStatement = true :=
  ⟨(flip_statement_iff sampleEnv ⟨2 ^ 8 + 2 ^ 4 + 2 ^ 5⟩ (by decide!) (by decide!)).2.2.mpr
      ⟨by decide!, by decide!⟩,
    fun h => ((flip_statement_iff sampleEnv ⟨2 ^ 8 + 2 ^ 4 + 2 ^ 5 + 2 ^ 16⟩ (by decide!)
      (by decide!)).2.2.mp h).2 (by decide!)⟩

/-! ### Environment-map UV generation -/

theorem filter_lines_nil (cs : List String) (t : LineTest) (h : writesTest cs t = false) :
    (cs.flatMap completeLines).filter t.holds = [] := by
  unfold writesTest at h
  rw [List.filter_eq_nil_iff]
  intro l hl
  obtain ⟨c, hc, hlc⟩ := List.mem_flatMap.mp hl
  have h1 := List.any_eq_false.mp h c hc
  have h2 := List.any_eq_false.mp (by simpa using h1) l hlc
  simpa using h2

theorem uv_envMap_lines (env : GenEnv) (v : Locals) (hd : v.doTexture = true)
    (hm : v.uvGenMode = GE_TEXMAP_ENVIRONMENT_MAP) (h3 : v.ls0 < 4) (h4 : v.ls1 < 4) :
    ((uvWrites env v).flatMap completeLines).filter (LineTest.start "  v_texcoord = ").holds =
      [(envMapStatement v.ls0 v.ls1).data] := by
  unfold uvWrites
  rw [hd, hm]
  simp only [GE_TEXMAP_TEXTURE_COORDS, GE_TEXMAP_UNKNOWN, GE_TEXMAP_TEXTURE_MATRIX,
    GE_TEXMAP_ENVIRONMENT_MAP, Nat.reduceBEq, Nat.reduceBNe, Bool.or_false, Bool.or_true,
    Bool.false_or, Bool.true_or, Bool.and_true, Bool.and_false, if_true, if_false,
    Bool.false_eq_true, Bool.true_and]
  generalize v.ls0 = a at h3 ⊢
  generalize v.ls1 = b at h4 ⊢
  generalize v.flipV = fl
  revert fl
  revert h4
  revert b
  revert h3
  revert a
  decide!

theorem envMapStatement_mentions (a b : Nat) (ha : a < 4) (hb : b < 4) :
    ∀ j, j < 4 →
      containsText ("u_lightpos" ++ fmtInt j).data (envMapStatement a b).data =
        (j == a || j == b) := by
  revert hb
  revert b
  revert ha
  revert a
  decide!

theorem doLight_shade_notOff (env : GenEnv) (id : ShaderID)
    (hHW : id.Bit BIT_USE_HW_TRANSFORM = true)
    (hm : id.Bits BIT_UVGEN_MODE 2 = GE_TEXMAP_ENVIRONMENT_MAP) (i : Nat)
    (hi : i = id.Bits BIT_LS0 2 ∨ i = id.Bits BIT_LS1 2) :
    ((decodeLocals env id).doLight i != DoLightComputation.LIGHT_OFF) = true := by
  show (doLightOf id (id.Bit BIT_USE_HW_TRANSFORM)
    (id.Bits BIT_UVGEN_MODE 2 == GE_TEXMAP_ENVIRONMENT_MAP) (id.Bits BIT_LS0 2)
    (id.Bits BIT_LS1 2) i != _) = true
  unfold doLightOf
  rw [hHW, hm]
  simp only [if_true, beq_self_eq_true, Nat.cast_inj]
  have hi' : i = id.Bits BIT_LS0 2 ∨ i = id.Bits BIT_LS1 2 := hi
  rw [if_pos hi']
  split <;> decide

/-- C14: for every key with the hardware-transform and texture-enable bits set and UV
generation mode environment-map, whatever the light enable bits are, the only assignment to
v_texcoord in main() is the two-dot-product statement for the decoded light indices, the
statement mentions u_lightpos<j> exactly for j among the two indices, and the position
uniforms of both lights are declared. -/
theorem envmap_texcoord_statement (env : GenEnv) (id : ShaderID)
    (hHW : id.Bit BIT_USE_HW_TRANSFORM = true) (hT : id.Bit BIT_DO_TEXTURE = true)
    (hm : id.Bits BIT_UVGEN_MODE 2 = GE_TEXMAP_ENVIRONMENT_MAP) :
    texcoordStatements (shaderSource env id) =
      [(envMapStatement (id.Bits BIT_LS0 2) (id.Bits BIT_LS1 2)).data] ∧
    (∀ j, j < 4 →
      containsText ("u_lightpos" ++ fmtInt j).data
          (envMapStatement (id.Bits BIT_LS0 2) (id.Bits BIT_LS1 2)).data =
        (j == id.Bits BIT_LS0 2 || j == id.Bits BIT_LS1 2)) ∧
    declares (shaderSource env id) (lightUniformEnding "u_lightpos" (id.Bits BIT_LS0 2)) = true ∧
    declares (shaderSource env id) (lightUniformEnding "u_lightpos" (id.Bits BIT_LS1 2)) =
      true := by
  have e1 : (decodeLocals env id).uvGenMode < 4 := Bits_two_lt id _
  have e2 : (decodeLocals env id).uvProjMode < 4 := Bits_two_lt id _
  have e3 : (decodeLocals env id).ls0 < 4 := Bits_two_lt id _
  have e4 : (decodeLocals env id).ls1 < 4 := Bits_two_lt id _
  have e5 : (decodeLocals env id).texFmtScale < 4 := Bits_two_lt id _
  have hd : ∀ i, i < 4 → (i = id.Bits BIT_LS0 2 ∨ i = id.Bits BIT_LS1 2) →
      declares (shaderSource env id) (lightUniformEnding "u_lightpos" i) = true := by
    intro i hi hs
    have hl := declares_lightUniforms env id hHW i hi
    simp only [lightUniformNames, lightUniformConditions, List.map_cons, List.map_nil,
      List.cons.injEq, and_true] at hl
    rw [hl.1]
    exact doLight_shade_notOff env id hHW hm i hs
  refine ⟨?_, envMapStatement_mentions _ _ (Bits_two_lt id _) (Bits_two_lt id _),
    hd _ (Bits_two_lt id _) (Or.inl rfl), hd _ (Bits_two_lt id _) (Or.inr rfl)⟩
  have t1 := congrArg (fun l => l.getD 2 false)
    (world_uvTests (decodeLocals env id) e5 (numBoneWeights_eq_zero env id))
  have t2 := congrArg (fun l => l.getD 2 false) (setup_uvTests id (decodeLocals env id))
  have t3 := fun i hi => congrArg (fun l => l.getD 2 false)
    (lightBlock_uvTests id (decodeLocals env id) i hi)
  have t4 := congrArg (fun l => l.getD 2 false) (color_uvTests id (decodeLocals env id))
  have t5 : lineSummary uvTests ["  vec4 viewPos = u_view * vec4(worldpos, 1.0);\n",
      "  gl_Position = u_proj * viewPos;\n"] = [false, false, false] := by
    decide!
  have t6 : lineSummary uvTests (if (decodeLocals env id).enableFog = true then
      ["  v_fogdepth = (viewPos.z + u_fogcoef.x) * u_fogcoef.y;\n"] else []) =
      [false, false, false] := by
    generalize (decodeLocals env id).enableFog = f; revert f; decide!
  replace t5 := congrArg (fun l => l.getD 2 false) t5
  replace t6 := congrArg (fun l => l.getD 2 false) t6
  simp only [lineSummary, uvTests, List.map_cons, List.map_nil, List.getD_cons_succ,
    List.getD_cons_zero] at t1 t2 t3 t4 t5 t6
  unfold texcoordStatements
  rw [bodyLines_shaderSource, bodyTexts_hardware env id hHW]
  unfold viewLightingWrites
  simp only [List.flatMap_cons, List.flatMap_nil, List.append_nil, List.flatMap_append,
    List.filter_append, List.filter_cons, List.filter_nil]
  have f1 := filter_lines_nil _ _ t2
  have f2 := filter_lines_nil _ _ (t3 0 (by decide))
  have f3 := filter_lines_nil _ _ (t3 1 (by decide))
  have f4 := filter_lines_nil _ _ (t3 2 (by decide))
  have f5 := filter_lines_nil _ _ (t3 3 (by decide))
  have f6 := filter_lines_nil _ _ t4
  have f7 := filter_lines_nil _ _ t6
  have f8 := filter_lines_nil _ _ t1
  have f9 := filter_lines_nil _ _ t5
  simp only [List.flatMap_cons, List.flatMap_nil, List.append_nil, List.filter_append] at f8 f9
  rw [f1, f2, f3, f4, f5, f6, f7, f8, f9, uv_envMap_lines env _ hT hm e3 e4]
  have g1 : (LineTest.start "  v_texcoord = ").holds mainHeader = false := by decide!
  have g3 : (LineTest.start "  v_texcoord = ").holds [] = false := by decide!
  have g2 : ∀ l, l = "\x7d".data → (LineTest.start "  v_texcoord = ").holds l = false := by
    intro l hl
    rw [hl]
    decide!
  rw [g1, g3, g2 _ rfl]
  simp only [Bool.false_eq_true, if_false, List.append_nil, List.nil_append]
  rfl

/-- Witness for C14 at sampleLitKey: light indices 1 and 3, lights 0 and 2 enabled. -/
theorem envmap_texcoord_statement_witness :
    texcoordStatements (shaderSource sampleEnv sampleLitKey) = [(envMapStatement 1 3).data] :=
  (envmap_texcoord_statement sampleEnv sampleLitKey (by decide!) (by decide!) (by decide!)).1.trans
    (by decide!)

/-! ### Per-light uniforms -/

set_option maxHeartbeats 1000000 in
theorem lightBlock_mentions (id : ShaderID) (v : Locals) (i : Nat) (hi : i < 4)
    (hf : v.doLight i = DoLightComputation.LIGHT_FULL) :
    lightUniformNames.map
        (fun n => writesMention (lightBlockWrites id v i) (n ++ fmtInt i)) =
      lightUniformConditions DoLightComputation.LIGHT_FULL (lightTypeOf id i)
        (lightCompOf id i) := by
  unfold lightBlockWrites
  rw [hf]
  have ht := lightTypeOf_lt id i
  have hc := lightCompOf_lt id i
  have ha := ambientStr_mem v
  have hd := diffuseStr_mem v
  have hs := specularStr_mem v
  generalize lightTypeOf id i = t at ht ⊢
  generalize lightCompOf id i = c at hc ⊢
  generalize ambientStr v = a at ha ⊢
  generalize diffuseStr v = df at hd ⊢
  generalize specularStr v = s at hs ⊢
  clear hf v id
  revert i t c a df s
  decide!

/-- C18: for every key with the hardware-transform bit set and every light i computed in
full, the per-light uniforms of light i declared in the source are: position, ambient and
diffuse always; attenuation exactly when the type is not directional; direction, cone angle
and cone exponent exactly when the type is spot or unknown; specular exactly when the
computation mode is not diffuse-only. Every per-light uniform of light i that the block of
light i in main() mentions is declared. -/
theorem light_uniforms_declared (env : GenEnv) (id : ShaderID) (i : Nat) (hi : i < 4)
    (hHW : id.Bit BIT_USE_HW_TRANSFORM = true) (hL : id.Bit BIT_LIGHTING_ENABLE = true)
    (hE : id.Bit (BIT_LIGHT0_ENABLE + i) = true) :
    lightUniformNames.map (fun n => declares (shaderSource env id) (lightUniformEnding n i)) =
      [ true,
        lightTypeOf id i != GE_LIGHTTYPE_DIRECTIONAL,
        lightTypeOf id i == GE_LIGHTTYPE_SPOT || lightTypeOf id i == GE_LIGHTTYPE_UNKNOWN,
        lightTypeOf id i == GE_LIGHTTYPE_SPOT || lightTypeOf id i == GE_LIGHTTYPE_UNKNOWN,
        lightTypeOf id i == GE_LIGHTTYPE_SPOT || lightTypeOf id i == GE_LIGHTTYPE_UNKNOWN,
        true,
        true,
        lightCompOf id i != GE_LIGHTCOMP_ONLYDIFFUSE ] ∧
    lightBlockWrites id (decodeLocals env id) i <:+: GenerateVertexShader env id ∧
    ∀ n ∈ lightUniformNames,
      writesMention (lightBlockWrites id (decodeLocals env id) i) (n ++ fmtInt i) = true →
        declares (shaderSource env id) (lightUniformEnding n i) = true := by
  have hf := (doLight_full_iff env id hHW hL i).mpr hE
  have hd := declares_lightUniforms env id hHW i hi
  have hm := lightBlock_mentions id (decodeLocals env id) i hi hf
  rw [hf] at hd
  refine ⟨?_, lightBlock_run env id hHW i hi, ?_⟩
  · rw [hd]
    simp [lightUniformConditions]
  · intro n hn h
    have he := List.map_inj_left.mp (hm.trans hd.symm) n hn
    rw [← he]
    exact h

/-- Witness for C18 at light 2 of sampleLitKey, a spot light with computation mode 2. -/
theorem light_uniforms_declared_witness :
    lightUniformNames.map
        (fun n => declares (shaderSource sampleEnv sampleLitKey) (lightUniformEnding n 2)) =
      [true, true, true, true, true, true, true, true] :=
  (light_uniforms_declared sampleEnv sampleLitKey 2 (by decide) (by decide!) (by decide!)
    (by decide!)).1.trans (by decide!)

/-! ### Directional diffuse-only lighting -/

theorem writesTest_append (a b : List String) (t : LineTest) :
    writesTest (a ++ b) t = (writesTest a t || writesTest b t) := by
  simp [writesTest, List.any_append]

theorem writesTest_of_run (a b : List String) (t : LineTest) (h : a <:+: b)
    (ha : writesTest a t = true) : writesTest b t = true := by
  obtain ⟨s, r, rfl⟩ := h
  rw [writesTest_append, writesTest_append, ha]
  simp

theorem lightFlags_directional (id : ShaderID) (v : Locals)
    (h : ∀ i, i < 4 → v.doLight i = DoLightComputation.LIGHT_FULL →
      lightTypeOf id i = GE_LIGHTTYPE_DIRECTIONAL ∧ lightCompOf id i = GE_LIGHTCOMP_ONLYDIFFUSE) :
    (lightFlags id v).specularIsZero = true ∧ (lightFlags id v).distanceNeeded = false := by
  have h0 := h 0 (by decide)
  have h1 := h 1 (by decide)
  have h2 := h 2 (by decide)
  have h3 := h 3 (by decide)
  unfold lightFlags
  split
  · simp only [List.foldl]
    cases hd0 : v.doLight 0 <;> cases hd1 : v.doLight 1 <;> cases hd2 : v.doLight 2 <;>
      cases hd3 : v.doLight 3 <;> simp_all
  · exact ⟨rfl, rfl⟩

theorem world_attenuationTests (v : Locals) (ht : v.texFmtScale < 4)
    (hb : v.enableBones = false → v.numBoneWeights = 0) :
    ∀ t ∈ attenuationTests,
      writesTest [String.mk ((worldTransformWrites v).map String.data).flatten] t = false := by
  unfold worldTransformWrites
  generalize v.texFmtScale = t at ht ⊢
  generalize v.numBoneWeights = nb at hb ⊢
  generalize v.enableBones = b at hb ⊢
  generalize v.hasNormal = n
  generalize v.flipNormal = r
  cases b
  · obtain rfl := hb rfl
    revert n r
    revert ht
    revert t
    decide!
  · rw [if_pos rfl]
    revert n r
    decide!

theorem setup_attenuationTests (id : ShaderID) (v : Locals)
    (h1 : (lightFlags id v).specularIsZero = true)
    (h3 : (lightFlags id v).distanceNeeded = false) :
    ∀ t ∈ attenuationTests, writesTest (lightingSetupWrites id v) t = false := by
  unfold lightingSetupWrites
  rw [h1, h3]
  have ha := ambientStr_mem v
  generalize ambientStr v = a at ha ⊢
  generalize (lightFlags id v).diffuseIsZero = f2
  generalize v.enableLighting = e
  revert f2 e
  revert ha
  revert a
  decide!

set_option maxHeartbeats 1000000 in
theorem lightBlock_attenuationTests (id : ShaderID) (v : Locals) (i : Nat) (hi : i < 4)
    (h : v.doLight i = DoLightComputation.LIGHT_FULL →
      lightTypeOf id i = GE_LIGHTTYPE_DIRECTIONAL ∧ lightCompOf id i = GE_LIGHTCOMP_ONLYDIFFUSE) :
    ∀ t ∈ attenuationTests, writesTest (lightBlockWrites id v i) t = false := by
  unfold lightBlockWrites
  have ha := ambientStr_mem v
  have hd := diffuseStr_mem v
  have hs := specularStr_mem v
  generalize ambientStr v = a at ha ⊢
  generalize diffuseStr v = df at hd ⊢
  generalize specularStr v = s at hs ⊢
  cases hdl : v.doLight i
  · rw [if_pos (by decide)]
    decide!
  · rw [if_pos (by decide)]
    decide!
  · obtain ⟨h1, h2⟩ := h hdl
    rw [h1, h2]
    clear h hdl h1 h2
    revert i a df s
    decide!

theorem lightBlock_direct (id : ShaderID) (v : Locals) (i : Nat) (hi : i < 4)
    (hf : v.doLight i = DoLightComputation.LIGHT_FULL)
    (ht : lightTypeOf id i = GE_LIGHTTYPE_DIRECTIONAL) :
    writesTest (lightBlockWrites id v i) (LineTest.exactly (directToLight i)) = true := by
  unfold lightBlockWrites
  rw [hf, ht]
  have hc := lightCompOf_lt id i
  have ha := ambientStr_mem v
  have hd := diffuseStr_mem v
  have hs := specularStr_mem v
  generalize lightCompOf id i = c at hc ⊢
  generalize ambientStr v = a at ha ⊢
  generalize diffuseStr v = df at hd ⊢
  generalize specularStr v = s at hs ⊢
  clear hf ht v id
  revert i c a df s
  decide!

theorem color_attenuationTests (id : ShaderID) (v : Locals)
    (h1 : (lightFlags id v).specularIsZero = true) :
    ∀ t ∈ attenuationTests, writesTest (colorWrites id v) t = false := by
  unfold colorWrites
  rw [h1]
  generalize id.Bit BIT_LIGHTING_ENABLE = e
  generalize v.lmode = l
  generalize v.hasColor = c
  revert e l c
  decide!

theorem uv_attenuationTests (env : GenEnv) (v : Locals) (h1 : v.uvGenMode < 4)
    (h2 : v.uvProjMode < 4) (h3 : v.ls0 < 4) (h4 : v.ls1 < 4) (h5 : v.texFmtScale < 4) :
    ∀ t ∈ attenuationTests, writesTest (uvWrites env v) t = false := by
  unfold uvWrites temp_tc
  generalize prescaleOf env v = ps
  generalize v.uvGenMode = m at h1 ⊢
  generalize v.uvProjMode = pm at h2 ⊢
  generalize v.ls0 = a at h3 ⊢
  generalize v.ls1 = b at h4 ⊢
  generalize v.texFmtScale = t at h5 ⊢
  generalize v.doTexture = dt
  generalize v.flipV = fl
  generalize v.hasNormal = n
  generalize v.flipNormal = r
  generalize v.hasTexcoord = tc
  cases dt
  · rw [if_neg (by decide)]
    decide!
  · rw [if_pos rfl]
    interval_cases m <;>
      simp only [GE_TEXMAP_TEXTURE_COORDS, GE_TEXMAP_UNKNOWN, GE_TEXMAP_TEXTURE_MATRIX,
        GE_TEXMAP_ENVIRONMENT_MAP, Nat.reduceBEq, Nat.reduceBNe, Bool.or_false, Bool.or_true,
        Bool.false_or, Bool.true_or, Bool.and_true, Bool.and_false, if_true, if_false,
        Bool.false_eq_true, Bool.true_and]
    · revert ps fl tc
      decide!
    · revert fl tc n r
      revert h5
      revert t
      revert h2
      revert pm
      decide!
    · revert fl
      revert h4
      revert b
      revert h3
      revert a
      decide!
    · revert ps fl tc
      decide!

theorem lightBlock_run_viewLighting (env : GenEnv) (id : ShaderID) (v : Locals) (i : Nat)
    (hi : i < 4) : lightBlockWrites id v i <:+: viewLightingWrites env id v := by
  unfold viewLightingWrites
  have hb : lightBlockWrites id v i <:+: [0, 1, 2, 3].flatMap (lightBlockWrites id v) :=
    List.infix_of_mem_flatten (List.mem_map_of_mem _ (mem_lightIndices i hi))
  refine hb.trans ?_
  simp only [List.append_assoc]
  exact (List.infix_append' _ _ _).trans (List.suffix_append _ _).isInfix

theorem viewLighting_attenuationTests (env : GenEnv) (id : ShaderID) (v : Locals)
    (h1 : v.uvGenMode < 4) (h2 : v.uvProjMode < 4)
    (h3 : v.ls0 < 4) (h4 : v.ls1 < 4) (h5 : v.texFmtScale < 4)
    (h : ∀ i, i < 4 → v.doLight i = DoLightComputation.LIGHT_FULL →
      lightTypeOf id i = GE_LIGHTTYPE_DIRECTIONAL ∧ lightCompOf id i = GE_LIGHTCOMP_ONLYDIFFUSE) :
    ∀ t ∈ attenuationTests, writesTest (viewLightingWrites env id v) t = false := by
  have e1 : ∀ t ∈ attenuationTests,
      writesTest ["  vec4 viewPos = u_view * vec4(worldpos, 1.0);\n",
        "  gl_Position = u_proj * viewPos;\n"] t = false := by
    decide!
  have e2 : ∀ t ∈ attenuationTests, writesTest (if v.enableFog = true then
      ["  v_fogdepth = (viewPos.z + u_fogcoef.x) * u_fogcoef.y;\n"] else []) t = false := by
    generalize v.enableFog = f; revert f; decide!
  have hf := lightFlags_directional id v h
  intro t ht
  unfold viewLightingWrites
  simp only [List.flatMap_cons, List.flatMap_nil, List.append_nil]
  repeat rw [writesTest_append]
  rw [e1 t ht, e2 t ht, setup_attenuationTests id v hf.1 hf.2 t ht,
    color_attenuationTests id v hf.1 t ht, uv_attenuationTests env v h1 h2 h3 h4 h5 t ht,
    lightBlock_attenuationTests id v 0 (by decide) (h 0 (by decide)) t ht,
    lightBlock_attenuationTests id v 1 (by decide) (h 1 (by decide)) t ht,
    lightBlock_attenuationTests id v 2 (by decide) (h 2 (by decide)) t ht,
    lightBlock_attenuationTests id v 3 (by decide) (h 3 (by decide)) t ht]
  rfl

theorem writesMention_eq_writesTest (cs : List String) (text : String) :
    writesMention cs text = writesTest cs (LineTest.mention text) := rfl

theorem writesLine_eq_writesTest (cs : List String) (line : String) :
    writesLine cs line = writesTest cs (LineTest.exactly line) := rfl

theorem attenuationTexts_plain :
    ∀ t ∈ attenuationTexts,
      containsText t.data mainHeader = false ∧ containsText t.data "\x7d".data = false ∧
        containsText t.data [] = false := by
  decide!

theorem toLight_lines_plain :
    ∀ i, i < 4 →
      ((mainHeader == (relativeToLight i).data) = false ∧
        ("\x7d".data == (relativeToLight i).data) = false ∧
        (([] : List Char) == (relativeToLight i).data) = false) ∧
      ((mainHeader == (directToLight i).data) = false ∧
        ("\x7d".data == (directToLight i).data) = false ∧
        (([] : List Char) == (directToLight i).data) = false) := by
  decide!

theorem bodyTexts_attenuationTests (env : GenEnv) (id : ShaderID)
    (hHW : id.Bit BIT_USE_HW_TRANSFORM = true)
    (h : ∀ i, i < 4 → (decodeLocals env id).doLight i = DoLightComputation.LIGHT_FULL →
      lightTypeOf id i = GE_LIGHTTYPE_DIRECTIONAL ∧ lightCompOf id i = GE_LIGHTCOMP_ONLYDIFFUSE) :
    ∀ t ∈ attenuationTests, writesTest (bodyTexts env id) t = false := by
  intro t ht
  rw [bodyTexts_hardware env id hHW]
  have ha := writesTest_append
    [String.mk ((worldTransformWrites (decodeLocals env id)).map String.data).flatten]
    (viewLightingWrites env id (decodeLocals env id)) t
  rw [List.singleton_append] at ha
  rw [ha, world_attenuationTests _ (Bits_two_lt id _) (numBoneWeights_eq_zero env id) t ht,
    viewLighting_attenuationTests env id _ (Bits_two_lt id _) (Bits_two_lt id _)
      (Bits_two_lt id _) (Bits_two_lt id _) (Bits_two_lt id _) h t ht]
  rfl

/-- C12: for every key with the hardware-transform and lighting-enabled bits set in which
every light computed in full is directional with computation mode diffuse-only, no line of
main() mentions distance, lightScale, lightSum1, an attenuation uniform or a specular colour
uniform, no attenuation or specular colour uniform is declared, no light block computes the
direction to the light from the world position, and the block of every light computed in full
has the statement toLight = u_lightpos<i>. -/
theorem directional_diffuse_only (env : GenEnv) (id : ShaderID)
    (hHW : id.Bit BIT_USE_HW_TRANSFORM = true) (hL : id.Bit BIT_LIGHTING_ENABLE = true)
    (h : ∀ i, i < 4 → id.Bit (BIT_LIGHT0_ENABLE + i) = true →
      lightTypeOf id i = GE_LIGHTTYPE_DIRECTIONAL ∧ lightCompOf id i = GE_LIGHTCOMP_ONLYDIFFUSE) :
    (∀ t ∈ attenuationTexts, bodyMentions (shaderSource env id) t = false) ∧
    (∀ i, i < 4 →
      declares (shaderSource env id) (lightUniformEnding "u_lightatt" i) = false ∧
      declares (shaderSource env id) (lightUniformEnding "u_lightspecular" i) = false ∧
      bodyHasLine (shaderSource env id) (relativeToLight i) = false) ∧
    (∀ i, i < 4 → id.Bit (BIT_LIGHT0_ENABLE + i) = true →
      bodyHasLine (shaderSource env id) (directToLight i) = true) := by
  have hf : ∀ i, i < 4 → (decodeLocals env id).doLight i = DoLightComputation.LIGHT_FULL →
      lightTypeOf id i = GE_LIGHTTYPE_DIRECTIONAL ∧
        lightCompOf id i = GE_LIGHTCOMP_ONLYDIFFUSE :=
    fun i hi hd => h i hi ((doLight_full_iff env id hHW hL i).mp hd)
  have hb := bodyTexts_attenuationTests env id hHW hf
  refine ⟨?_, ?_, ?_⟩
  · intro t ht
    obtain ⟨h1, h2, h3⟩ := attenuationTexts_plain t ht
    rw [bodyMentions_eq_writesMention env id t h1 h2 h3, writesMention_eq_writesTest]
    exact hb _ (by
      unfold attenuationTests
      exact List.mem_append_left _ (List.mem_map_of_mem _ ht))
  · intro i hi
    have hd := declares_lightUniforms env id hHW i hi
    simp only [lightUniformNames, lightUniformConditions, List.map_cons, List.map_nil,
      List.cons.injEq, and_true] at hd
    have hr : bodyHasLine (shaderSource env id) (relativeToLight i) = false := by
      obtain ⟨h1, h2, h3⟩ := (toLight_lines_plain i hi).1
      rw [bodyHasLine_eq_writesLine env id _ h1 h2 h3, writesLine_eq_writesTest]
      exact hb _ (by
        unfold attenuationTests
        exact List.mem_append_right _ (List.mem_map_of_mem _ (mem_lightIndices i hi)))
    refine ⟨?_, ?_, hr⟩
    · rw [hd.2.1]
      cases hdl : (decodeLocals env id).doLight i
      · rfl
      · rfl
      · rw [(hf i hi hdl).1]
        rfl
    · rw [hd.2.2.2.2.2.2.2]
      cases hdl : (decodeLocals env id).doLight i
      · rfl
      · rfl
      · rw [(hf i hi hdl).2]
        rfl
  · intro i hi hE
    have hd := (doLight_full_iff env id hHW hL i).mpr hE
    obtain ⟨h1, h2, h3⟩ := (toLight_lines_plain i hi).2
    rw [bodyHasLine_eq_writesLine env id _ h1 h2 h3, writesLine_eq_writesTest,
      bodyTexts_hardware env id hHW]
    exact writesTest_of_run _ _ _
      (List.infix_cons (lightBlock_run_viewLighting env id _ i hi))
      (lightBlock_direct id _ i hi hd (h i hi hE).1)

/-- Witness for C12 at sampleDirectionalKey. -/
theorem directional_diffuse_only_witness :
    bodyHasLine (shaderSource sampleEnv sampleDirectionalKey) (directToLight 3) = true ∧
    bodyMentions (shaderSource sampleEnv sampleDirectionalKey) "lightScale" = false :=
  ⟨(directional_diffuse_only sampleEnv sampleDirectionalKey (by decide!) (by decide!)
      (by decide!)).2.2 3 (by decide) (by decide!),
    (directional_diffuse_only sampleEnv sampleDirectionalKey (by decide!) (by decide!)
      (by decide!)).1 "lightScale" (by decide)⟩

/-! ### The parts of a light block -/

/-- The block of a light computed in full is made of its four parts. -/
theorem lightBlockWrites_parts (id : ShaderID) (v : Locals) (i : Nat)
    (hf : v.doLight i = DoLightComputation.LIGHT_FULL) :
    lightBlockWrites id v i =
      lightDirectionWrites i (lightTypeOf id i) (lightCompOf id i) ++
        (lightDiffuseWrites i (diffuseStr v) ++
          (lightSpecularWrites i (lightTypeOf id i) (lightCompOf id i) (specularStr v) ++
            lightSumWrites i (lightTypeOf id i) (ambientStr v))) := by
  unfold lightBlockWrites lightDirectionWrites lightDiffuseWrites lightSpecularWrites
    lightSumWrites
  rw [hf]
  simp only [bne_self_eq_false, Bool.false_eq_true, if_false, List.append_assoc]

/-- The block of a light that is not computed in full is empty. -/
theorem lightBlockWrites_empty (id : ShaderID) (v : Locals) (i : Nat)
    (hf : v.doLight i ≠ DoLightComputation.LIGHT_FULL) :
    lightBlockWrites id v i = [] := by
  unfold lightBlockWrites
  rw [if_pos (by simpa using hf)]

theorem temp_tc_mem (v : Locals) (h2 : v.uvProjMode < 4) (h5 : v.texFmtScale < 4) :
    temp_tc v ∈ temp_tc_values := by
  unfold temp_tc
  generalize v.uvProjMode = pm at h2 ⊢
  generalize v.texFmtScale = t at h5 ⊢
  generalize v.hasTexcoord = tc
  generalize v.hasNormal = n
  generalize v.flipNormal = r
  revert tc n r
  revert h5
  revert t
  revert h2
  revert pm
  decide!

/-! ### Assignments to the outputs in main() -/

theorem bodyAny_eq_writesTest (env : GenEnv) (id : ShaderID) (t : LineTest)
    (h1 : t.holds mainHeader = false) (h2 : t.holds "\x7d".data = false)
    (h3 : t.holds [] = false) :
    (bodyLines (shaderSource env id)).any t.holds = writesTest (bodyTexts env id) t := by
  unfold writesTest
  rw [bodyLines_shaderSource]
  simp only [List.any_cons, List.any_nil, List.any_append, List.any_flatMap, h1, h2, h3,
    Bool.false_or, Bool.or_false]

theorem outputTests_plain :
    ∀ t ∈ outputTests,
      t.holds mainHeader = false ∧ t.holds "\x7d".data = false ∧ t.holds [] = false := by
  decide!

theorem software_outputTests (v : Locals) (ht : v.throughmode = v.isModeThrough) :
    lineSummary outputTests (softwareTransformWrites v) =
      [true, v.lmode, v.doTexture, v.enableFog, true, !v.isModeThrough, v.isModeThrough] := by
  unfold softwareTransformWrites
  rw [ht]
  generalize v.doTexture = dt
  generalize v.doTextureProjection = tp
  generalize v.hasColor = hc
  generalize v.lmode = lm
  generalize v.enableFog = fg
  generalize v.isModeThrough = mt
  revert dt tp hc lm fg mt
  decide!

theorem world_outputTests (v : Locals) (ht : v.texFmtScale < 4)
    (hb : v.enableBones = false → v.numBoneWeights = 0) :
    lineSummary outputTests [String.mk ((worldTransformWrites v).map String.data).flatten] =
      [false, false, false, false, false, false, false] := by
  unfold worldTransformWrites
  generalize v.texFmtScale = t at ht ⊢
  generalize v.numBoneWeights = nb at hb ⊢
  generalize v.enableBones = b at hb ⊢
  generalize v.hasNormal = n
  generalize v.flipNormal = r
  cases b
  · obtain rfl := hb rfl
    revert n r
    revert ht
    revert t
    decide!
  · rw [if_pos rfl]
    revert n r
    decide!

theorem setup_outputTests (id : ShaderID) (v : Locals) :
    lineSummary outputTests (lightingSetupWrites id v) =
      [false, false, false, false, false, false, false] := by
  unfold lightingSetupWrites
  have ha := ambientStr_mem v
  generalize ambientStr v = a at ha ⊢
  generalize (lightFlags id v).specularIsZero = f1
  generalize (lightFlags id v).diffuseIsZero = f2
  generalize (lightFlags id v).distanceNeeded = f3
  generalize v.enableLighting = e
  revert f1 f2 f3 e
  revert ha
  revert a
  decide!

theorem lightDirection_outputTests (i t c : Nat) (hi : i < 4) (ht : t < 4) (hc : c < 4) :
    lineSummary outputTests (lightDirectionWrites i t c) = [false, false, false, false, false, false, false] := by
  revert hc
  revert c
  revert ht
  revert t
  revert hi
  revert i
  decide!

theorem lightDiffuse_outputTests (i : Nat) (hi : i < 4) (df : String)
    (hd : df ∈ ["color0.rgb", "u_matdiffuse"]) :
    lineSummary outputTests (lightDiffuseWrites i df) = [false, false, false, false, false, false, false] := by
  revert hd
  revert df
  revert hi
  revert i
  decide!

theorem lightSpecular_outputTests (i t c : Nat) (hi : i < 4) (ht : t < 4) (hc : c < 4)
    (s : String) (hs : s ∈ ["color0.rgb", "u_matspecular.rgb"]) :
    lineSummary outputTests (lightSpecularWrites i t c s) = [false, false, false, false, false, false, false] := by
  revert hs
  revert s
  revert hc
  revert c
  revert ht
  revert t
  revert hi
  revert i
  decide!

theorem lightSum_outputTests (i t : Nat) (hi : i < 4) (ht : t < 4) (a : String)
    (ha : a ∈ ["color0", "u_matambientalpha"]) :
    lineSummary outputTests (lightSumWrites i t a) = [false, false, false, false, false, false, false] := by
  revert ha
  revert a
  revert ht
  revert t
  revert hi
  revert i
  decide!

theorem lightBlock_outputTests (id : ShaderID) (v : Locals) (i : Nat) (hi : i < 4) :
    lineSummary outputTests (lightBlockWrites id v i) = [false, false, false, false, false, false, false] := by
  by_cases hf : v.doLight i = DoLightComputation.LIGHT_FULL
  · rw [lightBlockWrites_parts id v i hf]
    repeat rw [lineSummary_append]
    rw [lightDirection_outputTests i _ _ hi (lightTypeOf_lt id i) (lightCompOf_lt id i),
      lightDiffuse_outputTests i hi _ (diffuseStr_mem v),
      lightSpecular_outputTests i _ _ hi (lightTypeOf_lt id i) (lightCompOf_lt id i) _
        (specularStr_mem v),
      lightSum_outputTests i _ hi (lightTypeOf_lt id i) _ (ambientStr_mem v)]
    rfl
  · rw [lightBlockWrites_empty id v i hf]
    rfl

theorem color_outputTests (id : ShaderID) (v : Locals) :
    lineSummary outputTests (colorWrites id v) =
      [true, v.lmode, false, false, false, false, false] := by
  unfold colorWrites
  generalize (lightFlags id v).specularIsZero = z
  generalize id.Bit BIT_LIGHTING_ENABLE = e
  generalize v.lmode = l
  generalize v.hasColor = c
  revert z e l c
  decide!

theorem uv_outputTests (env : GenEnv) (v : Locals) (h1 : v.uvGenMode < 4)
    (h2 : v.uvProjMode < 4) (h3 : v.ls0 < 4) (h4 : v.ls1 < 4) (h5 : v.texFmtScale < 4) :
    lineSummary outputTests (uvWrites env v) =
      [false, false, v.doTexture, false, false, false, false] := by
  unfold uvWrites
  have hx := temp_tc_mem v h2 h5
  generalize temp_tc v = x at hx ⊢
  generalize prescaleOf env v = ps
  generalize v.uvGenMode = m at h1 ⊢
  generalize v.ls0 = a at h3 ⊢
  generalize v.ls1 = b at h4 ⊢
  generalize v.doTexture = dt
  generalize v.flipV = fl
  generalize v.hasTexcoord = tc
  cases dt
  · rw [if_neg (by decide)]
    decide!
  · rw [if_pos rfl]
    interval_cases m <;>
      simp only [GE_TEXMAP_TEXTURE_COORDS, GE_TEXMAP_UNKNOWN, GE_TEXMAP_TEXTURE_MATRIX,
        GE_TEXMAP_ENVIRONMENT_MAP, Nat.reduceBEq, Nat.reduceBNe, Bool.or_false, Bool.or_true,
        Bool.false_or, Bool.true_or, Bool.and_true, Bool.and_false, if_true, if_false,
        Bool.false_eq_true, Bool.true_and]
    · revert ps fl tc
      decide!
    · revert hx
      revert x
      decide!
    · revert fl
      revert h4
      revert b
      revert h3
      revert a
      decide!
    · revert ps fl tc
      decide!

theorem viewLighting_outputTests (env : GenEnv) (id : ShaderID) (v : Locals)
    (h1 : v.uvGenMode < 4) (h2 : v.uvProjMode < 4)
    (h3 : v.ls0 < 4) (h4 : v.ls1 < 4) (h5 : v.texFmtScale < 4) :
    lineSummary outputTests (viewLightingWrites env id v) =
      [true, v.lmode, v.doTexture, v.enableFog, true, true, false] := by
  have e1 : lineSummary outputTests ["  vec4 viewPos = u_view * vec4(worldpos, 1.0);\n",
      "  gl_Position = u_proj * viewPos;\n"] =
      [false, false, false, false, true, true, false] := by
    decide!
  have e2 : lineSummary outputTests (if v.enableFog = true then
      ["  v_fogdepth = (viewPos.z + u_fogcoef.x) * u_fogcoef.y;\n"] else []) =
      [false, false, false, v.enableFog, false, false, false] := by
    generalize v.enableFog = f; revert f; decide!
  unfold viewLightingWrites
  simp only [List.flatMap_cons, List.flatMap_nil, List.append_nil]
  repeat rw [lineSummary_append]
  rw [e1, e2, setup_outputTests, color_outputTests, uv_outputTests env v h1 h2 h3 h4 h5,
    lightBlock_outputTests id v 0 (by decide), lightBlock_outputTests id v 1 (by decide),
    lightBlock_outputTests id v 2 (by decide), lightBlock_outputTests id v 3 (by decide)]
  simp

/-- The tests of outputTests on the strings written inside main() for a key. -/
theorem bodyTexts_outputTests (env : GenEnv) (id : ShaderID) :
    lineSummary outputTests (bodyTexts env id) =
      [true, id.Bit BIT_LMODE, id.Bit BIT_DO_TEXTURE, id.Bit BIT_ENABLE_FOG, true,
        id.Bit BIT_USE_HW_TRANSFORM || !id.Bit BIT_IS_THROUGH,
        !id.Bit BIT_USE_HW_TRANSFORM && id.Bit BIT_IS_THROUGH] := by
  have e1 : (decodeLocals env id).uvGenMode < 4 := Bits_two_lt id _
  have e2 : (decodeLocals env id).uvProjMode < 4 := Bits_two_lt id _
  have e3 : (decodeLocals env id).ls0 < 4 := Bits_two_lt id _
  have e4 : (decodeLocals env id).ls1 < 4 := Bits_two_lt id _
  have e5 : (decodeLocals env id).texFmtScale < 4 := Bits_two_lt id _
  have h1 : (decodeLocals env id).doTexture = id.Bit BIT_DO_TEXTURE := rfl
  have h2 : (decodeLocals env id).lmode = id.Bit BIT_LMODE := rfl
  have h3 : (decodeLocals env id).enableFog = id.Bit BIT_ENABLE_FOG := rfl
  have h4 : (decodeLocals env id).isModeThrough = id.Bit BIT_IS_THROUGH := rfl
  cases hhw : id.Bit BIT_USE_HW_TRANSFORM
  · rw [bodyTexts_software env id hhw, software_outputTests _ rfl, h1, h2, h3, h4]
    simp
  · rw [bodyTexts_hardware env id hhw]
    have ha := lineSummary_append outputTests
      [String.mk ((worldTransformWrites (decodeLocals env id)).map String.data).flatten]
      (viewLightingWrites env id (decodeLocals env id))
    rw [List.singleton_append] at ha
    rw [ha, world_outputTests _ e5 (numBoneWeights_eq_zero env id),
      viewLighting_outputTests env id _ e1 e2 e3 e4 e5, h1, h2, h3]
    simp

/-! ### Material uniforms and material terms in main() -/

theorem materialTests_plain :
    ∀ t ∈ materialTests,
      t.holds mainHeader = false ∧ t.holds "\x7d".data = false ∧ t.holds [] = false := by
  decide!

theorem world_materialTests (v : Locals) (ht : v.texFmtScale < 4)
    (hb : v.enableBones = false → v.numBoneWeights = 0) :
    lineSummary materialTests [String.mk ((worldTransformWrites v).map String.data).flatten] =
      [false, false, false, false, false, false, false, false, false, false, false, false,
        false] := by
  unfold worldTransformWrites
  generalize v.texFmtScale = t at ht ⊢
  generalize v.numBoneWeights = nb at hb ⊢
  generalize v.enableBones = b at hb ⊢
  generalize v.hasNormal = n
  generalize v.flipNormal = r
  cases b
  · obtain rfl := hb rfl
    revert n r
    revert ht
    revert t
    decide!
  · rw [if_pos rfl]
    revert n r
    decide!

theorem setup_materialTests (id : ShaderID) (v : Locals) :
    lineSummary materialTests (lightingSetupWrites id v) =
      [v.enableLighting, v.enableLighting, false, false,
        v.enableLighting && ambientStr v == "u_matambientalpha",
        v.enableLighting && ambientStr v == "color0",
        v.enableLighting && ambientStr v == "u_matambientalpha",
        false, false, false, false, false, false] := by
  unfold lightingSetupWrites
  have ha := ambientStr_mem v
  generalize ambientStr v = a at ha ⊢
  generalize (lightFlags id v).specularIsZero = f1
  generalize (lightFlags id v).diffuseIsZero = f2
  generalize (lightFlags id v).distanceNeeded = f3
  generalize v.enableLighting = e
  revert f1 f2 f3 e
  revert ha
  revert a
  decide!

theorem lightDirection_materialTests (i t c : Nat) (hi : i < 4) (ht : t < 4) (hc : c < 4) :
    lineSummary materialTests (lightDirectionWrites i t c) =
      [false, false, c == GE_LIGHTCOMP_BOTHWITHPOWDIFFUSE, false, false, false, false, false, false, false, false, false, false] := by
  revert hc
  revert c
  revert ht
  revert t
  revert hi
  revert i
  decide!

theorem lightDiffuse_materialTests (i : Nat) (hi : i < 4) (df : String)
    (hd : df ∈ ["color0.rgb", "u_matdiffuse"]) :
    lineSummary materialTests (lightDiffuseWrites i df) =
      [false, false, false, df == "u_matdiffuse", false, false, false, false, false, df == "color0.rgb", df == "u_matdiffuse", false, false] := by
  revert hd
  revert df
  revert hi
  revert i
  decide!

theorem lightSpecular_materialTests (i t c : Nat) (hi : i < 4) (ht : t < 4) (hc : c < 4)
    (s : String) (hs : s ∈ ["color0.rgb", "u_matspecular.rgb"]) :
    lineSummary materialTests (lightSpecularWrites i t c s) =
      [false, false, c != GE_LIGHTCOMP_ONLYDIFFUSE, false, false, false, false, false, false,
        false, false, c != GE_LIGHTCOMP_ONLYDIFFUSE && s == "color0.rgb",
        c != GE_LIGHTCOMP_ONLYDIFFUSE && s == "u_matspecular.rgb"] := by
  revert hs
  revert s
  revert hc
  revert c
  revert ht
  revert t
  revert hi
  revert i
  decide!

theorem lightSum_materialTests (i t : Nat) (hi : i < 4) (ht : t < 4) (a : String)
    (ha : a ∈ ["color0", "u_matambientalpha"]) :
    lineSummary materialTests (lightSumWrites i t a) =
      [false, false, false, false, a == "u_matambientalpha", false, false, a == "color0",
        a == "u_matambientalpha", false, false, false, false] := by
  revert ha
  revert a
  revert ht
  revert t
  revert hi
  revert i
  decide!

theorem lightBlock_materialTests (id : ShaderID) (v : Locals) (i : Nat) (hi : i < 4) :
    lineSummary materialTests (lightBlockWrites id v i) =
      [false, false,
        v.doLight i == DoLightComputation.LIGHT_FULL &&
          lightCompOf id i != GE_LIGHTCOMP_ONLYDIFFUSE,
        v.doLight i == DoLightComputation.LIGHT_FULL && diffuseStr v == "u_matdiffuse",
        v.doLight i == DoLightComputation.LIGHT_FULL && ambientStr v == "u_matambientalpha",
        false, false,
        v.doLight i == DoLightComputation.LIGHT_FULL && ambientStr v == "color0",
        v.doLight i == DoLightComputation.LIGHT_FULL && ambientStr v == "u_matambientalpha",
        v.doLight i == DoLightComputation.LIGHT_FULL && diffuseStr v == "color0.rgb",
        v.doLight i == DoLightComputation.LIGHT_FULL && diffuseStr v == "u_matdiffuse",
        v.doLight i == DoLightComputation.LIGHT_FULL &&
          (lightCompOf id i != GE_LIGHTCOMP_ONLYDIFFUSE && specularStr v == "color0.rgb"),
        v.doLight i == DoLightComputation.LIGHT_FULL &&
          (lightCompOf id i != GE_LIGHTCOMP_ONLYDIFFUSE &&
            specularStr v == "u_matspecular.rgb")] := by
  by_cases hf : v.doLight i = DoLightComputation.LIGHT_FULL
  · rw [lightBlockWrites_parts id v i hf]
    repeat rw [lineSummary_append]
    rw [lightDirection_materialTests i _ _ hi (lightTypeOf_lt id i) (lightCompOf_lt id i),
      lightDiffuse_materialTests i hi _ (diffuseStr_mem v),
      lightSpecular_materialTests i _ _ hi (lightTypeOf_lt id i) (lightCompOf_lt id i) _
        (specularStr_mem v),
      lightSum_materialTests i _ hi (lightTypeOf_lt id i) _ (ambientStr_mem v), hf]
    have hc := lightCompOf_lt id i
    generalize lightCompOf id i = c at hc ⊢
    have h2 : (c == GE_LIGHTCOMP_BOTHWITHPOWDIFFUSE || c != GE_LIGHTCOMP_ONLYDIFFUSE) =
        (c != GE_LIGHTCOMP_ONLYDIFFUSE) := by
      revert hc
      revert c
      decide
    simp [h2]
  · rw [lightBlockWrites_empty id v i hf]
    have hb : (v.doLight i == DoLightComputation.LIGHT_FULL) = false := by simpa using hf
    rw [hb]
    rfl

theorem color_materialTests (id : ShaderID) (v : Locals) :
    lineSummary materialTests (colorWrites id v) =
      [false, false, false, false, !id.Bit BIT_LIGHTING_ENABLE && !v.hasColor,
        false, false, false, false, false, false, false, false] := by
  unfold colorWrites
  generalize (lightFlags id v).specularIsZero = z
  generalize id.Bit BIT_LIGHTING_ENABLE = e
  generalize v.lmode = l
  generalize v.hasColor = c
  revert z e l c
  decide!

theorem uv_materialTests (env : GenEnv) (v : Locals) (h1 : v.uvGenMode < 4)
    (h2 : v.uvProjMode < 4) (h3 : v.ls0 < 4) (h4 : v.ls1 < 4) (h5 : v.texFmtScale < 4) :
    lineSummary materialTests (uvWrites env v) =
      [false, false, false, false, false, false, false, false, false, false, false, false,
        false] := by
  unfold uvWrites
  have hx := temp_tc_mem v h2 h5
  generalize temp_tc v = x at hx ⊢
  generalize prescaleOf env v = ps
  generalize v.uvGenMode = m at h1 ⊢
  generalize v.ls0 = a at h3 ⊢
  generalize v.ls1 = b at h4 ⊢
  generalize v.doTexture = dt
  generalize v.flipV = fl
  generalize v.hasTexcoord = tc
  cases dt
  · rw [if_neg (by decide)]
    decide!
  · rw [if_pos rfl]
    interval_cases m <;>
      simp only [GE_TEXMAP_TEXTURE_COORDS, GE_TEXMAP_UNKNOWN, GE_TEXMAP_TEXTURE_MATRIX,
        GE_TEXMAP_ENVIRONMENT_MAP, Nat.reduceBEq, Nat.reduceBNe, Bool.or_false, Bool.or_true,
        Bool.false_or, Bool.true_or, Bool.and_true, Bool.and_false, if_true, if_false,
        Bool.false_eq_true, Bool.true_and]
    · revert ps fl tc
      decide!
    · revert hx
      revert x
      decide!
    · revert fl
      revert h4
      revert b
      revert h3
      revert a
      decide!
    · revert ps fl tc
      decide!

theorem viewLighting_materialTests (env : GenEnv) (id : ShaderID) (v : Locals)
    (h1 : v.uvGenMode < 4) (h2 : v.uvProjMode < 4)
    (h3 : v.ls0 < 4) (h4 : v.ls1 < 4) (h5 : v.texFmtScale < 4) :
    lineSummary materialTests (viewLightingWrites env id v) =
      [ v.enableLighting, v.enableLighting,
        [0, 1, 2, 3].any (fun i => v.doLight i == DoLightComputation.LIGHT_FULL &&
          lightCompOf id i != GE_LIGHTCOMP_ONLYDIFFUSE),
        [0, 1, 2, 3].any (fun i => v.doLight i == DoLightComputation.LIGHT_FULL) &&
          diffuseStr v == "u_matdiffuse",
        (v.enableLighting ||
            [0, 1, 2, 3].any (fun i => v.doLight i == DoLightComputation.LIGHT_FULL)) &&
          ambientStr v == "u_matambientalpha" ||
          !id.Bit BIT_LIGHTING_ENABLE && !v.hasColor,
        v.enableLighting && ambientStr v == "color0",
        v.enableLighting && ambientStr v == "u_matambientalpha",
        [0, 1, 2, 3].any (fun i => v.doLight i == DoLightComputation.LIGHT_FULL) &&
          ambientStr v == "color0",
        [0, 1, 2, 3].any (fun i => v.doLight i == DoLightComputation.LIGHT_FULL) &&
          ambientStr v == "u_matambientalpha",
        [0, 1, 2, 3].any (fun i => v.doLight i == DoLightComputation.LIGHT_FULL) &&
          diffuseStr v == "color0.rgb",
        [0, 1, 2, 3].any (fun i => v.doLight i == DoLightComputation.LIGHT_FULL) &&
          diffuseStr v == "u_matdiffuse",
        [0, 1, 2, 3].any (fun i => v.doLight i == DoLightComputation.LIGHT_FULL &&
          lightCompOf id i != GE_LIGHTCOMP_ONLYDIFFUSE) && specularStr v == "color0.rgb",
        [0, 1, 2, 3].any (fun i => v.doLight i == DoLightComputation.LIGHT_FULL &&
          lightCompOf id i != GE_LIGHTCOMP_ONLYDIFFUSE) &&
          specularStr v == "u_matspecular.rgb" ] := by
  have e1 : lineSummary materialTests ["  vec4 viewPos = u_view * vec4(worldpos, 1.0);\n",
      "  gl_Position = u_proj * viewPos;\n"] =
      [false, false, false, false, false, false, false, false, false, false, false, false,
        false] := by
    decide!
  have e2 : lineSummary materialTests (if v.enableFog = true then
      ["  v_fogdepth = (viewPos.z + u_fogcoef.x) * u_fogcoef.y;\n"] else []) =
      [false, false, false, false, false, false, false, false, false, false, false, false,
        false] := by
    generalize v.enableFog = f; revert f; decide!
  unfold viewLightingWrites
  simp only [List.flatMap_cons, List.flatMap_nil, List.append_nil]
  repeat rw [lineSummary_append]
  rw [e1, e2, setup_materialTests, color_materialTests, uv_materialTests env v h1 h2 h3 h4 h5,
    lightBlock_materialTests id v 0 (by decide), lightBlock_materialTests id v 1 (by decide),
    lightBlock_materialTests id v 2 (by decide), lightBlock_materialTests id v 3 (by decide)]
  simp only [List.zipWith_cons_cons, List.zipWith_nil_right, Bool.false_or, Bool.or_false,
    List.any_cons, List.any_nil]
  generalize (v.doLight 0 == DoLightComputation.LIGHT_FULL) = f0
  generalize (v.doLight 1 == DoLightComputation.LIGHT_FULL) = f1
  generalize (v.doLight 2 == DoLightComputation.LIGHT_FULL) = f2
  generalize (v.doLight 3 == DoLightComputation.LIGHT_FULL) = f3
  generalize (ambientStr v == "color0") = a1
  generalize (ambientStr v == "u_matambientalpha") = a2
  generalize (diffuseStr v == "color0.rgb") = d1
  generalize (diffuseStr v == "u_matdiffuse") = d2
  generalize (specularStr v == "color0.rgb") = s1
  generalize (specularStr v == "u_matspecular.rgb") = s2
  generalize (!id.Bit BIT_LIGHTING_ENABLE && !v.hasColor) = x
  generalize v.enableLighting = l
  cases a1 <;> cases a2 <;> cases d1 <;> cases d2 <;> cases s1 <;> cases s2 <;> cases l <;>
    simp

theorem matUpdate_masks (x : Nat) (h : x ≤ 7) :
    (x &&& 1 != 0) = x.testBit 0 ∧ (x &&& 2 != 0) = x.testBit 1 ∧
      (x &&& 4 != 0) = x.testBit 2 ∧ (x &&& 2 == 0) = !x.testBit 1 := by
  have h8 : x < 8 := by omega
  clear h
  revert x
  decide

theorem ambientStr_decodeLocals (env : GenEnv) (id : ShaderID) :
    ambientStr (decodeLocals env id) = specAmbientTerm id := by
  have h9 : (decodeLocals env id).matUpdate = id.Bits BIT_MATERIAL_UPDATE 3 := rfl
  unfold ambientStr specAmbientTerm
  rw [decodeLocals_hasColor, h9, (matUpdate_masks _ (Bits_three_le id _)).1,
    ShaderID.testBit_Bits, ShaderID.Bit_eq_testBit id BIT_MATERIAL_UPDATE]
  simp

theorem diffuseStr_decodeLocals (env : GenEnv) (id : ShaderID) :
    diffuseStr (decodeLocals env id) = specDiffuseTerm id := by
  have h9 : (decodeLocals env id).matUpdate = id.Bits BIT_MATERIAL_UPDATE 3 := rfl
  unfold diffuseStr specDiffuseTerm
  rw [decodeLocals_hasColor, h9, (matUpdate_masks _ (Bits_three_le id _)).2.1,
    ShaderID.testBit_Bits, ShaderID.Bit_eq_testBit id (BIT_MATERIAL_UPDATE + 1)]
  simp

theorem specularStr_decodeLocals (env : GenEnv) (id : ShaderID) :
    specularStr (decodeLocals env id) = specSpecularTerm id := by
  have h9 : (decodeLocals env id).matUpdate = id.Bits BIT_MATERIAL_UPDATE 3 := rfl
  unfold specularStr specSpecularTerm
  rw [decodeLocals_hasColor, h9, (matUpdate_masks _ (Bits_three_le id _)).2.2.1,
    ShaderID.testBit_Bits, ShaderID.Bit_eq_testBit id (BIT_MATERIAL_UPDATE + 2)]
  simp

theorem matUpdate_diffuse_clear (id : ShaderID) :
    (id.Bits BIT_MATERIAL_UPDATE 3 &&& 2 == 0) = !id.Bit (BIT_MATERIAL_UPDATE + 1) := by
  rw [(matUpdate_masks _ (Bits_three_le id _)).2.2.2, ShaderID.testBit_Bits,
    ShaderID.Bit_eq_testBit id (BIT_MATERIAL_UPDATE + 1)]
  simp

theorem specTerm_tests (id : ShaderID) :
    (specAmbientTerm id == "color0") = (id.Bit BIT_MATERIAL_UPDATE && id.Bit BIT_HAS_COLOR) ∧
    (specAmbientTerm id == "u_matambientalpha") =
      !(id.Bit BIT_MATERIAL_UPDATE && id.Bit BIT_HAS_COLOR) ∧
    (specDiffuseTerm id == "color0.rgb") =
      (id.Bit (BIT_MATERIAL_UPDATE + 1) && id.Bit BIT_HAS_COLOR) ∧
    (specDiffuseTerm id == "u_matdiffuse") =
      !(id.Bit (BIT_MATERIAL_UPDATE + 1) && id.Bit BIT_HAS_COLOR) ∧
    (specSpecularTerm id == "color0.rgb") =
      (id.Bit (BIT_MATERIAL_UPDATE + 2) && id.Bit BIT_HAS_COLOR) ∧
    (specSpecularTerm id == "u_matspecular.rgb") =
      !(id.Bit (BIT_MATERIAL_UPDATE + 2) && id.Bit BIT_HAS_COLOR) := by
  unfold specAmbientTerm specDiffuseTerm specSpecularTerm
  generalize (id.Bit BIT_MATERIAL_UPDATE && id.Bit BIT_HAS_COLOR) = a
  generalize (id.Bit (BIT_MATERIAL_UPDATE + 1) && id.Bit BIT_HAS_COLOR) = d
  generalize (id.Bit (BIT_MATERIAL_UPDATE + 2) && id.Bit BIT_HAS_COLOR) = s
  revert a d s
  decide

/-- The tests of materialTests on the strings written inside main() for a key with the
hardware transform bit set. -/
theorem bodyTexts_materialTests (env : GenEnv) (id : ShaderID)
    (hhw : id.Bit BIT_USE_HW_TRANSFORM = true) :
    lineSummary materialTests (bodyTexts env id) =
      [ id.Bit BIT_LIGHTING_ENABLE, id.Bit BIT_LIGHTING_ENABLE, anySpecularComputed id,
        anyLightComputed id && !(id.Bit (BIT_MATERIAL_UPDATE + 1) && id.Bit BIT_HAS_COLOR),
        id.Bit BIT_LIGHTING_ENABLE && !(id.Bit BIT_MATERIAL_UPDATE && id.Bit BIT_HAS_COLOR) ||
          !id.Bit BIT_LIGHTING_ENABLE && !id.Bit BIT_HAS_COLOR,
        id.Bit BIT_LIGHTING_ENABLE && (id.Bit BIT_MATERIAL_UPDATE && id.Bit BIT_HAS_COLOR),
        id.Bit BIT_LIGHTING_ENABLE && !(id.Bit BIT_MATERIAL_UPDATE && id.Bit BIT_HAS_COLOR),
        anyLightComputed id && (id.Bit BIT_MATERIAL_UPDATE && id.Bit BIT_HAS_COLOR),
        anyLightComputed id && !(id.Bit BIT_MATERIAL_UPDATE && id.Bit BIT_HAS_COLOR),
        anyLightComputed id && (id.Bit (BIT_MATERIAL_UPDATE + 1) && id.Bit BIT_HAS_COLOR),
        anyLightComputed id && !(id.Bit (BIT_MATERIAL_UPDATE + 1) && id.Bit BIT_HAS_COLOR),
        anySpecularComputed id && (id.Bit (BIT_MATERIAL_UPDATE + 2) && id.Bit BIT_HAS_COLOR),
        anySpecularComputed id &&
          !(id.Bit (BIT_MATERIAL_UPDATE + 2) && id.Bit BIT_HAS_COLOR) ] := by
  have e1 : (decodeLocals env id).uvGenMode < 4 := Bits_two_lt id _
  have e2 : (decodeLocals env id).uvProjMode < 4 := Bits_two_lt id _
  have e3 : (decodeLocals env id).ls0 < 4 := Bits_two_lt id _
  have e4 : (decodeLocals env id).ls1 < 4 := Bits_two_lt id _
  have e5 : (decodeLocals env id).texFmtScale < 4 := Bits_two_lt id _
  have h1 : (decodeLocals env id).enableLighting = id.Bit BIT_LIGHTING_ENABLE := rfl
  have hf : ∀ i, ((decodeLocals env id).doLight i == DoLightComputation.LIGHT_FULL) =
      lightComputed id i := fun i => doLight_full_eq env id i
  obtain ⟨t1, t2, t3, t4, t5, t6⟩ := specTerm_tests id
  rw [bodyTexts_hardware env id hhw]
  have ha := lineSummary_append materialTests
    [String.mk ((worldTransformWrites (decodeLocals env id)).map String.data).flatten]
    (viewLightingWrites env id (decodeLocals env id))
  rw [List.singleton_append] at ha
  rw [ha, world_materialTests _ e5 (numBoneWeights_eq_zero env id),
    viewLighting_materialTests env id _ e1 e2 e3 e4 e5, h1, decodeLocals_hasColor,
    ambientStr_decodeLocals, diffuseStr_decodeLocals, specularStr_decodeLocals,
    t1, t2, t3, t4, t5, t6]
  simp only [hf]
  have hl : (id.Bit BIT_LIGHTING_ENABLE || anyLightComputed id) = id.Bit BIT_LIGHTING_ENABLE := by
    unfold anyLightComputed lightComputed
    cases id.Bit BIT_LIGHTING_ENABLE <;> simp
  show List.zipWith _ _ [_, _, anySpecularComputed id, anyLightComputed id && _,
    (_ || anyLightComputed id) && _ || _, _, _, anyLightComputed id && _, anyLightComputed id && _,
    anyLightComputed id && _, anyLightComputed id && _, anySpecularComputed id && _,
    anySpecularComputed id && _] = _
  rw [hl]
  simp

/-! ### The interface declarations -/

theorem declarationAny_eq_writesTest (env : GenEnv) (id : ShaderID) (t : LineTest) :
    declarationHas (shaderSource env id) t = writesTest (declarationWrites env id) t := by
  unfold declarationHas writesTest
  rw [declarationLines_shaderSource]
  simp only [List.any_flatMap]

theorem declares_eq_declarationHas (src : String) (e : String) :
    declares src e = declarationHas src (LineTest.ending e) := rfl

theorem header_interfaceTests (env : GenEnv) :
    lineSummary interfaceTests (versionHeader env) =
      [false, false, false, false, false, false, false, false, false, false, false, false, false,
        false, false, false, false, false] := by
  unfold versionHeader
  generalize env.gl_extensions.GLES3 = g
  generalize env.gl_extensions.VersionGEThan 3 3 0 = x
  generalize env.gl_extensions.VersionGEThan 3 0 0 = y
  cases env.build
  all_goals (dsimp only; revert g x y; decide!)

theorem attribute_interfaceTests (id : ShaderID) (v : Locals)
    (hk : v.attributeKw = if v.glslES30 then "in" else "attribute")
    (hd : v.boneWeightDecl = if v.glslES30 then boneWeightInDecl else boneWeightAttrDecl)
    (hn : id.Bit BIT_ENABLE_BONES = true → 1 ≤ v.numBoneWeights ∧ v.numBoneWeights ≤ 8) :
    lineSummary interfaceTests (attributeWrites id v) =
      [false, false, false, false, false, false, false, false, false, false, false, !v.glslES30,
        v.glslES30, false, false, false, false, false] := by
  have e1 : lineSummary interfaceTests (if id.Bit BIT_ENABLE_BONES = true then
      [(if v.glslES30 = true then boneWeightInDecl else boneWeightAttrDecl).getD
        v.numBoneWeights ""] else []) =
      [false, false, false, false, false, false, false, false, false, false, false,
        id.Bit BIT_ENABLE_BONES && !v.glslES30, id.Bit BIT_ENABLE_BONES && v.glslES30, false,
        false, false, false, false] := by
    generalize v.glslES30 = g
    cases hb : id.Bit BIT_ENABLE_BONES
    · simp only [Bool.false_eq_true, if_false, Bool.false_and]
      decide!
    · obtain ⟨h1, h2⟩ := hn hb
      generalize v.numBoneWeights = nb at h1 h2 ⊢
      have h3 : nb < 9 := by omega
      clear h2
      simp only [if_true, Bool.true_and]
      revert g
      revert h1
      revert nb
      decide!
  have e2 : lineSummary interfaceTests
      [if v.useHWTransform = true then
        (if v.glslES30 = true then "in" else "attribute") ++ " vec3 position;\n"
       else (if v.glslES30 = true then "in" else "attribute") ++ " vec4 position;\n"] =
      [false, false, false, false, false, false, false, false, false, false, false, !v.glslES30,
        v.glslES30, false, false, false, false, false] := by
    generalize v.glslES30 = g
    generalize v.useHWTransform = hw
    revert g hw
    decide!
  have e3 : lineSummary interfaceTests
      (if (v.useHWTransform && v.hasNormal) = true then
        [(if v.glslES30 = true then "in" else "attribute") ++ " mediump vec3 normal;\n"]
       else []) =
      [false, false, false, false, false, false, false, false, false, false, false,
        (v.useHWTransform && v.hasNormal) && !v.glslES30,
        (v.useHWTransform && v.hasNormal) && v.glslES30, false, false, false, false, false] := by
    generalize v.glslES30 = g
    generalize (v.useHWTransform && v.hasNormal) = b
    revert g b
    decide!
  have e4 : lineSummary interfaceTests
      (if (v.doTexture && v.hasTexcoord) = true then
        [if (!v.useHWTransform && v.doTextureProjection && !v.throughmode) = true then
           (if v.glslES30 = true then "in" else "attribute") ++ " vec3 texcoord;\n"
         else (if v.glslES30 = true then "in" else "attribute") ++ " vec2 texcoord;\n"]
       else []) =
      [false, false, false, false, false, false, false, false, false, false, false,
        (v.doTexture && v.hasTexcoord) && !v.glslES30,
        (v.doTexture && v.hasTexcoord) && v.glslES30, false, false, false, false, false] := by
    generalize v.glslES30 = g
    generalize (v.doTexture && v.hasTexcoord) = b
    generalize (!v.useHWTransform && v.doTextureProjection && !v.throughmode) = c
    revert g b c
    decide!
  have e5 : lineSummary interfaceTests
      (if v.hasColor = true then
        [(if v.glslES30 = true then "in" else "attribute") ++ " lowp vec4 color0;\n"] ++
        (if (v.lmode && !v.useHWTransform) = true then
          [(if v.glslES30 = true then "in" else "attribute") ++ " lowp vec3 color1;\n"]
         else [])
       else []) =
      [false, false, false, false, false, false, false, false, false, false, false,
        v.hasColor && !v.glslES30, v.hasColor && v.glslES30, false, false, false, false, false] := by
    generalize v.glslES30 = g
    generalize (v.lmode && !v.useHWTransform) = b
    generalize v.hasColor = c
    revert g b c
    decide!
  unfold attributeWrites
  rw [hk, hd]
  repeat rw [lineSummary_append]
  rw [e1, e2, e3, e4, e5]
  cases v.glslES30 <;> simp

theorem projection_interfaceTests (v : Locals) :
    lineSummary interfaceTests
      [if v.isModeThrough then "uniform mat4 u_proj_through;\n" else "uniform mat4 u_proj;\n"] =
      [false, false, false, false, !v.isModeThrough, v.isModeThrough, false, false, false, false,
        false, false, false, false, false, false, false, false] := by
  generalize v.isModeThrough = f
  revert f
  decide!

theorem transformUniform_interfaceTests (env : GenEnv) (v : Locals)
    (hn : v.numBoneWeights ≤ 8) :
    lineSummary interfaceTests (transformUniformWrites env v) =
      [false, false, false, false, false, false, false, false, false, false, false, false, false,
        false, false, false, false, false] := by
  have e1 : lineSummary interfaceTests (if v.enableBones = true then
      List.map (fun i => "uniform mat4 u_bone" ++ fmtInt i ++ ";\n") (List.range v.numBoneWeights)
      else []) =
      [false, false, false, false, false, false, false, false, false, false, false, false, false,
        false, false, false, false, false] := by
    generalize v.enableBones = b
    generalize v.numBoneWeights = nb at hn ⊢
    have h3 : nb < 9 := by omega
    clear hn
    revert b
    revert nb
    decide!
  unfold transformUniformWrites
  dsimp only
  repeat rw [lineSummary_append]
  rw [e1]
  generalize (v.doTexture && (v.flipV || !prescaleOf env v ||
      v.uvGenMode == GE_TEXMAP_ENVIRONMENT_MAP || v.uvGenMode == GE_TEXMAP_TEXTURE_MATRIX)) = c
  generalize v.doTextureProjection = tp
  revert c tp
  decide!

set_option maxHeartbeats 1000000 in
theorem lightUniform_interfaceTests (id : ShaderID) (v : Locals) (i : Nat) (hi : i < 4) :
    lineSummary interfaceTests (lightUniformWrites id v i) =
      [false, false, false, false, false, false, false, false, false, false, false, false, false,
        false, false, false, false, false] := by
  unfold lightUniformWrites
  have ht := lightTypeOf_lt id i
  have hc := lightCompOf_lt id i
  generalize lightTypeOf id i = t at ht ⊢
  generalize lightCompOf id i = c at hc ⊢
  generalize v.doLight i = d
  dsimp only
  revert d
  revert hc
  revert c
  revert ht
  revert t
  revert hi
  revert i
  decide!

theorem materialUniform_interfaceTests (v : Locals) :
    lineSummary interfaceTests (materialUniformWrites v) =
      [false, false, false, false, false, false, v.enableLighting, v.enableLighting,
        v.enableLighting, v.enableLighting && (v.matUpdate &&& 2 == 0 || !v.hasColor), false,
        false, false, false, false, false, false, false] := by
  unfold materialUniformWrites
  generalize (v.matUpdate &&& 2 == 0) = m
  generalize v.hasColor = hc
  generalize v.enableLighting = l
  revert m hc l
  decide!

theorem commonUniform_interfaceTests (v : Locals) :
    lineSummary interfaceTests (commonUniformWrites v) =
      [false, false, false, false, false, false, false, false, false, false,
        v.useHWTransform || !v.hasColor, false, false, false, false, false, false, false] := by
  unfold commonUniformWrites
  generalize v.useHWTransform = hw
  generalize v.hasColor = hc
  generalize v.enableFog = fg
  revert hw hc fg
  decide!

theorem varying_interfaceTests (v : Locals)
    (hk : v.varyingKw = if v.glslES30 then "out" else "varying")
    (hs : v.shading = if v.glslES30 then (if v.doFlatShading then "flat" else "") else "") :
    lineSummary interfaceTests (varyingWrites v) =
      [true, v.lmode, v.doTexture, v.enableFog, false, false, false, false, false, false, false,
        false, false, !v.glslES30, v.glslES30, v.glslES30 && v.doFlatShading,
        v.glslES30 && v.doFlatShading, v.lmode && (v.glslES30 && v.doFlatShading)] := by
  have e1 : lineSummary interfaceTests
      [(if v.glslES30 = true then if v.doFlatShading = true then "flat" else "" else "") ++ " " ++
        (if v.glslES30 = true then "out" else "varying") ++ " lowp vec4 v_color0;\n"] =
      [true, false, false, false, false, false, false, false, false, false, false, false, false,
        !v.glslES30, v.glslES30, v.glslES30 && v.doFlatShading, v.glslES30 && v.doFlatShading,
        false] := by
    generalize v.glslES30 = g
    generalize v.doFlatShading = fs
    revert g fs
    decide!
  have e2 : lineSummary interfaceTests
      (if v.lmode = true then
        [(if v.glslES30 = true then if v.doFlatShading = true then "flat" else "" else "") ++
          " " ++ (if v.glslES30 = true then "out" else "varying") ++ " lowp vec3 v_color1;\n"]
       else []) =
      [false, v.lmode, false, false, false, false, false, false, false, false, false, false,
        false, v.lmode && !v.glslES30, v.lmode && v.glslES30,
        v.lmode && (v.glslES30 && v.doFlatShading), false,
        v.lmode && (v.glslES30 && v.doFlatShading)] := by
    generalize v.glslES30 = g
    generalize v.doFlatShading = fs
    generalize v.lmode = lm
    revert g fs lm
    decide!
  have e3 : lineSummary interfaceTests
      (if v.doTexture = true then
        [if v.doTextureProjection = true then
           (if v.glslES30 = true then "out" else "varying") ++ " " ++
             (if v.highpTexcoord = true then "highp" else "mediump") ++ " vec3 v_texcoord;\n"
         else
           (if v.glslES30 = true then "out" else "varying") ++ " " ++
             (if v.highpTexcoord = true then "highp" else "mediump") ++ " vec2 v_texcoord;\n"]
       else []) =
      [false, false, v.doTexture, false, false, false, false, false, false, false, false, false,
        false, v.doTexture && !v.glslES30, v.doTexture && v.glslES30, false, false, false] := by
    generalize v.glslES30 = g
    generalize v.doTexture = dt
    generalize v.doTextureProjection = tp
    generalize v.highpTexcoord = ht
    revert g dt tp ht
    decide!
  have e4 : lineSummary interfaceTests
      (if v.enableFog = true then
        [if v.highpFog = true then
           (if v.glslES30 = true then "out" else "varying") ++ " highp float v_fogdepth;\n"
         else (if v.glslES30 = true then "out" else "varying") ++ " mediump float v_fogdepth;\n"]
       else []) =
      [false, false, false, v.enableFog, false, false, false, false, false, false, false, false,
        false, v.enableFog && !v.glslES30, v.enableFog && v.glslES30, false, false, false] := by
    generalize v.glslES30 = g
    generalize v.enableFog = fg
    generalize v.highpFog = hf
    revert g fg hf
    decide!
  unfold varyingWrites
  rw [hk, hs]
  repeat rw [lineSummary_append]
  rw [e1, e2, e3, e4]
  cases v.glslES30 <;> cases v.lmode <;> simp

theorem uniform_interfaceTests (env : GenEnv) (id : ShaderID) (v : Locals)
    (hn : v.numBoneWeights ≤ 8) :
    lineSummary interfaceTests (uniformWrites env id v) =
      [false, false, false, false, !v.isModeThrough, v.isModeThrough,
        v.useHWTransform && v.enableLighting, v.useHWTransform && v.enableLighting,
        v.useHWTransform && v.enableLighting,
        v.useHWTransform && (v.enableLighting && (v.matUpdate &&& 2 == 0 || !v.hasColor)),
        v.useHWTransform || !v.hasColor, false, false, false, false, false, false, false] := by
  unfold uniformWrites
  cases hw : v.useHWTransform
  · simp only [Bool.false_eq_true, if_false, List.append_nil]
    rw [lineSummary_append, projection_interfaceTests, commonUniform_interfaceTests, hw]
    simp
  · simp only [if_true, List.flatMap_cons, List.flatMap_nil, List.append_nil]
    repeat rw [lineSummary_append]
    rw [projection_interfaceTests, commonUniform_interfaceTests, materialUniform_interfaceTests,
      transformUniform_interfaceTests env v hn, lightUniform_interfaceTests id v 0 (by decide),
      lightUniform_interfaceTests id v 1 (by decide), lightUniform_interfaceTests id v 2 (by decide),
      lightUniform_interfaceTests id v 3 (by decide), hw]
    simp

/-- The tests of interfaceTests on the strings written in front of main() for a key. -/
theorem declarationWrites_interfaceTests (env : GenEnv) (id : ShaderID) :
    lineSummary interfaceTests (declarationWrites env id) =
      [true, id.Bit BIT_LMODE, id.Bit BIT_DO_TEXTURE, id.Bit BIT_ENABLE_FOG,
        !id.Bit BIT_IS_THROUGH, id.Bit BIT_IS_THROUGH,
        id.Bit BIT_USE_HW_TRANSFORM && id.Bit BIT_LIGHTING_ENABLE,
        id.Bit BIT_USE_HW_TRANSFORM && id.Bit BIT_LIGHTING_ENABLE,
        id.Bit BIT_USE_HW_TRANSFORM && id.Bit BIT_LIGHTING_ENABLE,
        id.Bit BIT_USE_HW_TRANSFORM && (id.Bit BIT_LIGHTING_ENABLE && (id.Bits BIT_MATERIAL_UPDATE 3 &&& 2 == 0 || !id.Bit BIT_HAS_COLOR)),
        id.Bit BIT_USE_HW_TRANSFORM || !id.Bit BIT_HAS_COLOR, !glslES30Of env, glslES30Of env,
        !glslES30Of env, glslES30Of env, glslES30Of env && id.Bit BIT_FLATSHADE,
        glslES30Of env && id.Bit BIT_FLATSHADE,
        id.Bit BIT_LMODE && (glslES30Of env && id.Bit BIT_FLATSHADE)] := by
  have h1 : (decodeLocals env id).lmode = id.Bit BIT_LMODE := rfl
  have h2 : (decodeLocals env id).isModeThrough = id.Bit BIT_IS_THROUGH := rfl
  have h3 : (decodeLocals env id).enableFog = id.Bit BIT_ENABLE_FOG := rfl
  have h4 : (decodeLocals env id).doTexture = id.Bit BIT_DO_TEXTURE := rfl
  have h5 : (decodeLocals env id).glslES30 = glslES30Of env := rfl
  have h6 : (decodeLocals env id).useHWTransform = id.Bit BIT_USE_HW_TRANSFORM := rfl
  have h7 : (decodeLocals env id).doFlatShading = id.Bit BIT_FLATSHADE := rfl
  have h8 : (decodeLocals env id).enableLighting = id.Bit BIT_LIGHTING_ENABLE := rfl
  have h9 : (decodeLocals env id).matUpdate = id.Bits BIT_MATERIAL_UPDATE 3 := rfl
  unfold declarationWrites
  dsimp only
  repeat rw [lineSummary_append]
  rw [header_interfaceTests, attribute_interfaceTests id _ rfl rfl (numBoneWeights_bounds env id),
    uniform_interfaceTests env id _ (numBoneWeights_le env id),
    varying_interfaceTests _ rfl rfl, decodeLocals_hasColor, h1, h2, h3, h4, h5, h6, h7, h8, h9]
  simp

/-! ### Material terms, dialect, projection and varyings -/

theorem bodyTests_map (env : GenEnv) (id : ShaderID) (ts : List LineTest)
    (hp : ∀ t ∈ ts,
      t.holds mainHeader = false ∧ t.holds "\x7d".data = false ∧ t.holds [] = false) :
    ts.map (fun t => (bodyLines (shaderSource env id)).any t.holds) =
      lineSummary ts (bodyTexts env id) := by
  unfold lineSummary
  apply List.map_congr_left
  intro t ht
  exact bodyAny_eq_writesTest env id t (hp t ht).1 (hp t ht).2.1 (hp t ht).2.2

theorem declarationTests_map (env : GenEnv) (id : ShaderID) (ts : List LineTest) :
    ts.map (declarationHas (shaderSource env id)) = lineSummary ts (declarationWrites env id) := by
  unfold lineSummary
  apply List.map_congr_left
  intro t _
  exact declarationAny_eq_writesTest env id t

/-- The declarations of the interface read off the source generated for a key. -/
theorem source_interfaceTests (env : GenEnv) (id : ShaderID) :
    (varyingNames.map (fun n => declares (shaderSource env id) (declarationEnding n)) =
      [true, id.Bit BIT_LMODE, id.Bit BIT_DO_TEXTURE, id.Bit BIT_ENABLE_FOG]) ∧
    (["u_proj", "u_proj_through"].map
        (fun n => declares (shaderSource env id) (declarationEnding n)) =
      [!id.Bit BIT_IS_THROUGH, id.Bit BIT_IS_THROUGH]) ∧
    (materialUniformNames.map (fun n => declares (shaderSource env id) (declarationEnding n)) =
      [ id.Bit BIT_USE_HW_TRANSFORM && id.Bit BIT_LIGHTING_ENABLE,
        id.Bit BIT_USE_HW_TRANSFORM && id.Bit BIT_LIGHTING_ENABLE,
        id.Bit BIT_USE_HW_TRANSFORM && id.Bit BIT_LIGHTING_ENABLE,
        id.Bit BIT_USE_HW_TRANSFORM && (id.Bit BIT_LIGHTING_ENABLE &&
          (id.Bits BIT_MATERIAL_UPDATE 3 &&& 2 == 0 || !id.Bit BIT_HAS_COLOR)),
        id.Bit BIT_USE_HW_TRANSFORM || !id.Bit BIT_HAS_COLOR ]) ∧
    (dialectTests.map (declarationHas (shaderSource env id)) =
      [ !glslES30Of env, glslES30Of env, !glslES30Of env, glslES30Of env,
        glslES30Of env && id.Bit BIT_FLATSHADE, glslES30Of env && id.Bit BIT_FLATSHADE,
        id.Bit BIT_LMODE && (glslES30Of env && id.Bit BIT_FLATSHADE) ]) := by
  have h := (declarationTests_map env id interfaceTests).trans
    (declarationWrites_interfaceTests env id)
  exact ⟨congrArg (List.take 4) h, congrArg (fun l => List.take 2 (List.drop 4 l)) h,
    congrArg (fun l => List.take 5 (List.drop 6 l)) h, congrArg (List.drop 11) h⟩

/-- The assignments to the outputs read off the source generated for a key. -/
theorem source_outputTests (env : GenEnv) (id : ShaderID) :
    (outputNames.map (bodyAssigns (shaderSource env id)) =
      [true, id.Bit BIT_LMODE, id.Bit BIT_DO_TEXTURE, id.Bit BIT_ENABLE_FOG, true]) ∧
    (["u_proj", "u_proj_through"].map (bodyProjects (shaderSource env id)) =
      [ id.Bit BIT_USE_HW_TRANSFORM || !id.Bit BIT_IS_THROUGH,
        !id.Bit BIT_USE_HW_TRANSFORM && id.Bit BIT_IS_THROUGH ]) := by
  have h := (bodyTests_map env id outputTests outputTests_plain).trans
    (bodyTexts_outputTests env id)
  exact ⟨congrArg (List.take 5) h, congrArg (List.drop 5) h⟩

/-- The mentions of the material uniforms and of the uses of the material terms read off the
source generated for a key with the hardware transform bit set. -/
theorem source_materialTests (env : GenEnv) (id : ShaderID)
    (hhw : id.Bit BIT_USE_HW_TRANSFORM = true) :
    (materialUniformNames.map (bodyMentions (shaderSource env id)) =
      [ id.Bit BIT_LIGHTING_ENABLE, id.Bit BIT_LIGHTING_ENABLE, anySpecularComputed id,
        anyLightComputed id && !(id.Bit (BIT_MATERIAL_UPDATE + 1) && id.Bit BIT_HAS_COLOR),
        id.Bit BIT_LIGHTING_ENABLE && !(id.Bit BIT_MATERIAL_UPDATE && id.Bit BIT_HAS_COLOR) ||
          !id.Bit BIT_LIGHTING_ENABLE && !id.Bit BIT_HAS_COLOR ]) ∧
    (materialTermUses.map (bodyMentions (shaderSource env id)) =
      [ id.Bit BIT_LIGHTING_ENABLE && (id.Bit BIT_MATERIAL_UPDATE && id.Bit BIT_HAS_COLOR),
        id.Bit BIT_LIGHTING_ENABLE && !(id.Bit BIT_MATERIAL_UPDATE && id.Bit BIT_HAS_COLOR),
        anyLightComputed id && (id.Bit BIT_MATERIAL_UPDATE && id.Bit BIT_HAS_COLOR),
        anyLightComputed id && !(id.Bit BIT_MATERIAL_UPDATE && id.Bit BIT_HAS_COLOR),
        anyLightComputed id && (id.Bit (BIT_MATERIAL_UPDATE + 1) && id.Bit BIT_HAS_COLOR),
        anyLightComputed id && !(id.Bit (BIT_MATERIAL_UPDATE + 1) && id.Bit BIT_HAS_COLOR),
        anySpecularComputed id && (id.Bit (BIT_MATERIAL_UPDATE + 2) && id.Bit BIT_HAS_COLOR),
        anySpecularComputed id &&
          !(id.Bit (BIT_MATERIAL_UPDATE + 2) && id.Bit BIT_HAS_COLOR) ]) := by
  have h := (bodyTests_map env id materialTests materialTests_plain).trans
    (bodyTexts_materialTests env id hhw)
  exact ⟨congrArg (List.take 5) h, congrArg (List.drop 5) h⟩

theorem desktop_header_lines (env : GenEnv) (id : ShaderID) (h : env.build = Build.desktop) :
    (declarationLines (shaderSource env id)).take 4 =
      desktopHeaderLines (specDesktopVersion env) := by
  rw [declarationLines_shaderSource]
  unfold declarationWrites versionHeader specDesktopVersion
  rw [h]
  dsimp only
  simp only [List.append_assoc, List.flatMap_append]
  generalize env.gl_extensions.VersionGEThan 3 3 0 = x
  generalize env.gl_extensions.VersionGEThan 3 0 0 = y
  have e : ∀ (a : List (List Char)) (r : List (List Char)), a.length = 4 →
      (a ++ r).take 4 = a := by
    intro a r ha
    rw [List.take_append_of_le_length (by omega), List.take_of_length_le (by omega)]
  have e2 :
      (if x = true then ["#version 330\n", "#define lowp\n", "#define mediump\n", "#define highp\n"]
       else if y = true then
        ["#version 130\n", "#define lowp\n", "#define mediump\n", "#define highp\n"]
       else ["#version 110\n", "#define lowp\n", "#define mediump\n",
        "#define highp\n"]).flatMap completeLines =
      desktopHeaderLines (if x = true then "330" else if y = true then "130" else "110") := by
    revert x y
    decide!
  rw [e2]
  apply e
  revert x y
  decide!

/-- C21: for every key with the hardware-transform bit set, the ambient, diffuse and specular
terms of the lighting code are color0, color0.rgb, color0.rgb when the matching
material-update bit (48, 49, 50) and the has-color bit are both set, and u_matambientalpha,
u_matdiffuse, u_matspecular.rgb otherwise; the lines of main() use each term in exactly that
form (in the global ambient statement when lighting is on, in the ambient and diffuse
statements of a computed light, in the specular statement of a computed light whose mode is
not diffuse-only); and every material uniform that a line of main() mentions is declared. -/
theorem material_terms_and_uniforms (env : GenEnv) (id : ShaderID)
    (h : id.Bit BIT_USE_HW_TRANSFORM = true) :
    ambientStr (decodeLocals env id) = specAmbientTerm id ∧
    diffuseStr (decodeLocals env id) = specDiffuseTerm id ∧
    specularStr (decodeLocals env id) = specSpecularTerm id ∧
    materialTermUses.map (bodyMentions (shaderSource env id)) =
      [ id.Bit BIT_LIGHTING_ENABLE && (id.Bit BIT_MATERIAL_UPDATE && id.Bit BIT_HAS_COLOR),
        id.Bit BIT_LIGHTING_ENABLE && !(id.Bit BIT_MATERIAL_UPDATE && id.Bit BIT_HAS_COLOR),
        anyLightComputed id && (id.Bit BIT_MATERIAL_UPDATE && id.Bit BIT_HAS_COLOR),
        anyLightComputed id && !(id.Bit BIT_MATERIAL_UPDATE && id.Bit BIT_HAS_COLOR),
        anyLightComputed id && (id.Bit (BIT_MATERIAL_UPDATE + 1) && id.Bit BIT_HAS_COLOR),
        anyLightComputed id && !(id.Bit (BIT_MATERIAL_UPDATE + 1) && id.Bit BIT_HAS_COLOR),
        anySpecularComputed id && (id.Bit (BIT_MATERIAL_UPDATE + 2) && id.Bit BIT_HAS_COLOR),
        anySpecularComputed id &&
          !(id.Bit (BIT_MATERIAL_UPDATE + 2) && id.Bit BIT_HAS_COLOR) ] ∧
    ∀ n ∈ materialUniformNames, bodyMentions (shaderSource env id) n = true →
      declares (shaderSource env id) (declarationEnding n) = true := by
  obtain ⟨hm, hu⟩ := source_materialTests env id h
  have hd := (source_interfaceTests env id).2.2.1
  refine ⟨ambientStr_decodeLocals env id, diffuseStr_decodeLocals env id,
    specularStr_decodeLocals env id, hu, ?_⟩
  have hl : anyLightComputed id = true → id.Bit BIT_LIGHTING_ENABLE = true := by
    unfold anyLightComputed lightComputed
    cases id.Bit BIT_LIGHTING_ENABLE <;> simp
  have hs : anySpecularComputed id = true → id.Bit BIT_LIGHTING_ENABLE = true := by
    unfold anySpecularComputed lightComputed
    cases id.Bit BIT_LIGHTING_ENABLE <;> simp
  rw [matUpdate_diffuse_clear, h] at hd
  simp only [materialUniformNames, List.map_cons, List.map_nil, List.cons.injEq, and_true] at hm hd
  obtain ⟨m1, m2, m3, m4, m5⟩ := hm
  obtain ⟨d1, d2, d3, d4, d5⟩ := hd
  intro n hn
  simp only [materialUniformNames, List.mem_cons, List.mem_singleton, List.not_mem_nil,
    or_false] at hn
  rcases hn with rfl | rfl | rfl | rfl | rfl
  · rw [m1, d1]
    simp
  · rw [m2, d2]
    simp
  · rw [m3, d3]
    intro hx
    simp [hs hx]
  · rw [m4, d4]
    intro hx
    simp only [Bool.and_eq_true] at hx
    rw [hl hx.1]
    revert hx
    cases id.Bit (BIT_MATERIAL_UPDATE + 1) <;> cases id.Bit BIT_HAS_COLOR <;> simp
  · rw [d5]
    simp

/-- Witness for C21 at a key with lighting on, light 0 computed with diffuse only, the colour
present and the ambient and specular material-update bits set: the ambient term is used as
color0, the diffuse term as u_matdiffuse, no specular statement is written. -/
theorem material_terms_and_uniforms_witness :
    sampleMaterialKey.Bit BIT_USE_HW_TRANSFORM = true ∧
    materialTermUses.map (bodyMentions (shaderSource sampleEnv33 sampleMaterialKey)) =
      [true, false, true, false, false, true, false, false] :=
  ⟨by decide!,
    (material_terms_and_uniforms sampleEnv33 sampleMaterialKey (by decide!)).2.2.2.1.trans
      (by decide!)⟩

/-- C22: on a desktop build the modern profile is selected exactly when the GL version is at
least 3.3. The source starts with the line '#version 330' then, with '#version 130' for a GL
version of at least 3.0 and with '#version 110' otherwise, each time followed by the three
lines that define lowp, mediump and highp to nothing. On the modern profile the attribute
keyword is 'in', the varying keyword is 'out' and the bone weight table is the in table;
otherwise they are 'attribute', 'varying' and the attribute table, and the declaration lines
show these keywords only. The flat qualifier occurs in the declarations exactly when the
modern profile is selected and the flat-shading bit is set, on v_color0 and, when the
light-mode bit is set, on v_color1. -/
theorem desktop_profile (env : GenEnv) (id : ShaderID) (h : env.build = Build.desktop) :
    glslES30Of env = env.gl_extensions.VersionGEThan 3 3 0 ∧
    (declarationLines (shaderSource env id)).take 4 =
      desktopHeaderLines (specDesktopVersion env) ∧
    (decodeLocals env id).attributeKw =
      (if env.gl_extensions.VersionGEThan 3 3 0 then "in" else "attribute") ∧
    (decodeLocals env id).varyingKw =
      (if env.gl_extensions.VersionGEThan 3 3 0 then "out" else "varying") ∧
    (decodeLocals env id).boneWeightDecl =
      (if env.gl_extensions.VersionGEThan 3 3 0 then boneWeightInDecl
       else boneWeightAttrDecl) ∧
    dialectTests.map (declarationHas (shaderSource env id)) =
      [ !env.gl_extensions.VersionGEThan 3 3 0, env.gl_extensions.VersionGEThan 3 3 0,
        !env.gl_extensions.VersionGEThan 3 3 0, env.gl_extensions.VersionGEThan 3 3 0,
        env.gl_extensions.VersionGEThan 3 3 0 && id.Bit BIT_FLATSHADE,
        env.gl_extensions.VersionGEThan 3 3 0 && id.Bit BIT_FLATSHADE,
        id.Bit BIT_LMODE && (env.gl_extensions.VersionGEThan 3 3 0 && id.Bit BIT_FLATSHADE) ] := by
  have hg : glslES30Of env = env.gl_extensions.VersionGEThan 3 3 0 := by
    unfold glslES30Of
    rw [h]
  have h1 : (decodeLocals env id).attributeKw = if glslES30Of env then "in" else "attribute" :=
    rfl
  have h2 : (decodeLocals env id).varyingKw = if glslES30Of env then "out" else "varying" := rfl
  have h3 : (decodeLocals env id).boneWeightDecl =
      if glslES30Of env then boneWeightInDecl else boneWeightAttrDecl := rfl
  have h4 := (source_interfaceTests env id).2.2.2
  rw [hg] at h1 h2 h3 h4
  exact ⟨hg, desktop_header_lines env id h, h1, h2, h3, h4⟩

/-- Witness for C22 on desktop GL 3.3 at a software transform key with the light-mode and
flat-shading bits set: the declarations use in and out, and v_color0 and v_color1 are declared
flat. -/
theorem desktop_profile_witness :
    sampleEnv33.build = Build.desktop ∧
    (declarationLines (shaderSource sampleEnv33 sampleFlatKey)).take 4 =
      desktopHeaderLines "330" ∧
    dialectTests.map (declarationHas (shaderSource sampleEnv33 sampleFlatKey)) =
      [false, true, false, true, true, true, true] :=
  ⟨rfl, (desktop_profile sampleEnv33 sampleFlatKey rfl).2.1.trans (by decide!),
    (desktop_profile sampleEnv33 sampleFlatKey rfl).2.2.2.2.2.trans (by decide!)⟩

/-- C23: at a through-mode render state, which CanUseHardwareTransform admits for hardware
transform, the key has the hardware-transform and through-mode bits set and the source written
for it declares u_proj_through and not u_proj, while the statement of main() that assigns
gl_Position multiplies u_proj and not u_proj_through. -/
theorem hardware_through_projection_undeclared :
    CanUseHardwareTransform sampleEnv.g_Config sampleDecls 0 true = true ∧
    sampleHardwareThroughKey.Bit BIT_USE_HW_TRANSFORM = true ∧
    sampleHardwareThroughKey.Bit BIT_IS_THROUGH = true ∧
    GenerateVertexShader sampleEnv sampleHardwareThroughKey =
      [ "#version 110\n", "#define lowp\n", "#define mediump\n", "#define highp\n",
        "attribute vec3 position;\n",
        "uniform mat4 u_proj_through;\n",
        "uniform mat4 u_world;\n",
        "uniform mat4 u_view;\n",
        "uniform lowp vec4 u_matambientalpha;\n",
        " varying lowp vec4 v_color0;\n",
        "void main() \x7b\n",
        "  mat4 skinMatrix = w1.x * u_bone0", ";\n",
        "  vec3 skinnedpos = (skinMatrix * vec4(position, 1.0)).xyz ;\n",
        "  vec3 worldpos = (u_world * vec4(skinnedpos, 1.0)).xyz;\n",
        "  mediump vec3 skinnednormal = (skinMatrix * vec4(0.0, 0.0, 1.0, 0.0)).xyz ;\n",
        "  mediump vec3 worldnormal = normalize((u_world * vec4(skinnednormal, 0.0)).xyz);\n",
        "  vec4 viewPos = u_view * vec4(worldpos, 1.0);\n",
        "  gl_Position = u_proj * viewPos;\n",
        "  v_color0 = u_matambientalpha;\n",
        "\x7d\n" ] ∧
    ["u_proj", "u_proj_through"].map
        (fun n => declares (shaderSource sampleEnv sampleHardwareThroughKey)
          (declarationEnding n)) = [false, true] ∧
    ["u_proj", "u_proj_through"].map
        (bodyProjects (shaderSource sampleEnv sampleHardwareThroughKey)) = [true, false] := by
  decide!

/-- C24: for every key, the declaration lines declare v_color0 always, v_color1 exactly when
the light-mode bit is set, v_texcoord exactly when the texture-enable bit is set and
v_fogdepth exactly when the fog bit is set; the lines of main() assign each of these varyings
under the same condition, and always assign gl_Position. -/
theorem varyings_declared_iff_assigned (env : GenEnv) (id : ShaderID) :
    varyingNames.map (fun n => declares (shaderSource env id) (declarationEnding n)) =
      [true, id.Bit BIT_LMODE, id.Bit BIT_DO_TEXTURE, id.Bit BIT_ENABLE_FOG] ∧
    varyingNames.map (bodyAssigns (shaderSource env id)) =
      [true, id.Bit BIT_LMODE, id.Bit BIT_DO_TEXTURE, id.Bit BIT_ENABLE_FOG] ∧
    bodyAssigns (shaderSource env id) "gl_Position" = true :=
  ⟨(source_interfaceTests env id).1,
    congrArg (List.take 4) (source_outputTests env id).1,
    congrArg (fun l => l.getD 4 false) (source_outputTests env id).1⟩

end HighGpu
